import Mathlib

/-!
# dumpe2fs free-extent scan, group records, serialization and driver

A shallow embedding of `misc/dumpe2fs.c`, `lib/support/json-out.c` and
`e2p_fill_json_journal_super` of `lib/e2p/ljs.c`.

* `unsigned long` and `unsigned long long` are 64 bits wide (LP64); arithmetic
  on them is written with an explicit `% ULONG_MOD`.
* Standard output is the sequence of strings written to it, one element per
  `printf` / `fputs` / `fputc` call; the printed text is `String.join` of it.
* The static variables `hex_format` and `blocks64` are carried in `Display`.
-/

namespace Dumpe2fs

/-! ## Machine words and `printf` conversions -/

/-- Number of values of an `unsigned long` / `unsigned long long`. -/
def ULONG_MOD : Nat := 2 ^ 64

/-- Number of values of an `unsigned` / `__u32`. -/
def UINT_MOD : Nat := 2 ^ 32

/-- The static display variables `hex_format` and `blocks64` (tested for
being non-zero only). -/
structure Display where
  hex_format : Bool
  blocks64 : Bool
  deriving DecidableEq, Repr

/-- The conversion `%llu` (also `%lu`, `%u`) of printf: decimal, no padding. -/
def fmt_dec (n : Nat) : String := Nat.repr n

/-- Lowercase hexadecimal digits of `n`, as `%x` prints them. -/
def hex_digits (n : Nat) : List Char := Nat.toDigits 16 n

/-- The conversion `0x%0<width>llx` of printf: the literal `0x`, then the
hexadecimal digits padded on the left with zeros to at least `width`. -/
def fmt_hex (width n : Nat) : String :=
  "0x" ++ String.mk (List.replicate (width - (hex_digits n).length) '0' ++ hex_digits n)

/-- What `snprintf(str, size, ...)` leaves in `str` when the complete
formatted text is `s`: at most `size - 1` characters of it. -/
def snprintf (size : Nat) (s : String) : String := String.mk (s.data.take (size - 1))

/-- Standard output: the strings written, in order. -/
abbrev Out := List String

/-- The text on standard output after the writes `o`. -/
def Out.text (o : Out) : String := String.join o

/-! ## `print_number`, `snprint_number`, `print_range` -/

/-- The function `print_number` of dumpe2fs.c. -/
def print_number (d : Display) (num : Nat) : Out :=
  if d.hex_format then
    if d.blocks64 then [fmt_hex 8 num]
    else [fmt_hex 4 num]
  else [fmt_dec num]

/-- The function `snprint_number` of dumpe2fs.c: the contents of `str`
afterwards. -/
def snprint_number (d : Display) (size : Nat) (num : Nat) : String :=
  if d.hex_format then
    if d.blocks64 then snprintf size (fmt_hex 8 num)
    else snprintf size (fmt_hex 4 num)
  else snprintf size (fmt_dec num)

/-- The function `print_range` of dumpe2fs.c. -/
def print_range (d : Display) (a b : Nat) : Out :=
  if d.hex_format then
    if d.blocks64 then [fmt_hex 8 a ++ "-" ++ fmt_hex 8 b]
    else [fmt_hex 4 a ++ "-" ++ fmt_hex 4 b]
  else [fmt_dec a ++ "-" ++ fmt_dec b]

/-! ## The document model of json-out.c -/

/-- The enumeration `json_val_type` of json-out.h. -/
inductive json_val_type where
  | JSON_VAL_STRING
  | JSON_VAL_OBJECT
  | JSON_VAL_LIST
  | JSON_VAL_FLAG
  deriving DecidableEq, Repr

/-- The union `json_val` of json-out.h together with what its pointers point
to: a string, the pairs of a `struct json_obj`, the type and nodes of a
`struct json_list`, or a flag. A pair is `(key, type, val)`; the chains linked
through `next` are lists. -/
inductive json_val where
  | str (str : String)
  | obj (pair : List (String × json_val_type × json_val))
  | list (type : json_val_type) (node : List json_val)
  | flag (flag : Nat)

/-- The structure `json_pair` of json-out.h: key, type, value. -/
abbrev json_pair := String × json_val_type × json_val

/-- The key of a pair. -/
def json_pair.key (p : json_pair) : String := p.1

/-- The type tag of a pair. -/
def json_pair.type (p : json_pair) : json_val_type := p.2.1

/-- The value of a pair. -/
def json_pair.val (p : json_pair) : json_val := p.2.2

/-- The structure `json_obj` of json-out.h: the chain of pairs from `obj->pair`. -/
structure json_obj where
  pair : List json_pair

/-- The structure `json_list` of json-out.h: element type and the chain of nodes. -/
structure json_list where
  type : json_val_type
  node : List json_val

/-- The function `json_list_create` of json-out.c. -/
def json_list_create (type : json_val_type) : json_list := { type := type, node := [] }

/-- The function `json_obj_create` of json-out.c. -/
def json_obj_create : json_obj := { pair := [] }

/-- The walk of `json_list_add_node` and of `json_obj_add_pair` along a
non-empty chain, `for (node = first; node && node->next; node = node->next);`
followed by `node->next = new_node`: the chain afterwards. `node` is the
current element and `next` the chain behind it. -/
def chain_link_last {α : Type} (node : α) (next : List α) (new_node : α) : List α :=
  match next with
  | [] => [node, new_node]
  | n :: rest => node :: chain_link_last n rest new_node

/-- The function `json_list_add_node` of json-out.c followed by the store
into `new_node->val`: the walk to the last node when `list->node` is set,
else the new node becomes the first. -/
def json_list_add_node (list : json_list) (val : json_val) : json_list :=
  match list.node with
  | node :: next => { list with node := chain_link_last node next val }
  | [] => { list with node := [val] }

/-- The function `json_list_add_str` of json-out.c. -/
def json_list_add_str (list : json_list) (str : String) : json_list :=
  json_list_add_node list (json_val.str str)

/-- The function `json_list_add_obj` of json-out.c. -/
def json_list_add_obj (list : json_list) (obj : json_obj) : json_list :=
  json_list_add_node list (json_val.obj obj.pair)

/-- The function `json_obj_add_pair` of json-out.c followed by the store into
`new_pair->val`: the walk to the last pair when `obj->pair` is set, else the
new pair becomes the first. -/
def json_obj_add_pair (obj : json_obj) (key : String) (type : json_val_type)
    (val : json_val) : json_obj :=
  let new_pair : json_pair := (key, type, val)
  match obj.pair with
  | pair :: next => { pair := chain_link_last pair next new_pair }
  | [] => { pair := [new_pair] }

/-- The loop of `json_obj_delete_pair` of json-out.c from `pair` on: the
chain afterwards. The first pair whose key compares equal is unlinked (its
predecessor, or `obj->pair`, then points to `next`) and the loop breaks. -/
def json_obj_delete_pair_loop : List json_pair → String → List json_pair
  | [], _ => []
  | pair :: next, key =>
    if pair.1 = key then next
    else pair :: json_obj_delete_pair_loop next key

/-- The function `json_obj_delete_pair` of json-out.c. -/
def json_obj_delete_pair (obj : json_obj) (key : String) : json_obj :=
  { pair := json_obj_delete_pair_loop obj.pair key }

/-- The function `json_obj_add_str` of json-out.c. -/
def json_obj_add_str (obj : json_obj) (key : String) (str : String) : json_obj :=
  json_obj_add_pair obj key json_val_type.JSON_VAL_STRING (json_val.str str)

/-- The function `json_obj_add_fmt_buf_str` of json-out.c; `formatted` is the
complete text that the format and its arguments produce, `size` the size of
the caller's buffer. -/
def json_obj_add_fmt_buf_str (obj : json_obj) (key : String) (size : Nat)
    (formatted : String) : json_obj :=
  json_obj_add_str obj key (snprintf size formatted)

/-- The function `json_obj_add_list` of json-out.c. -/
def json_obj_add_list (obj : json_obj) (key : String) (list : json_list) : json_obj :=
  json_obj_add_pair obj key json_val_type.JSON_VAL_LIST (json_val.list list.type list.node)

/-- The function `json_obj_add_obj` of json-out.c. -/
def json_obj_add_obj (obj : json_obj) (key : String) (new_obj : json_obj) : json_obj :=
  json_obj_add_pair obj key json_val_type.JSON_VAL_OBJECT (json_val.obj new_obj.pair)

/-- The keys of an object, in order. -/
def json_obj.keys (obj : json_obj) : List String := obj.pair.map json_pair.key

/-- The value of the first pair of `obj` with key `key`, if any. -/
def json_obj.lookup (obj : json_obj) (key : String) : Option json_val :=
  (obj.pair.find? (fun p => p.1 == key)).map json_pair.val

/-! ## The extent scan: `json_create_range_obj`, `print_free`, `fill_json_free` -/

/-- The function `json_create_range_obj` of dumpe2fs.c; `b - a + 1` is
computed in `unsigned long long`. -/
def json_create_range_obj (d : Display) (a b : Nat) : json_obj :=
  let obj := json_obj_create
  let fmt : Nat → String :=
    if d.hex_format then (if d.blocks64 then fmt_hex 8 else fmt_hex 4) else fmt_dec
  let obj := json_obj_add_fmt_buf_str obj "start" 32 (fmt a)
  let obj := json_obj_add_fmt_buf_str obj "len" 32 (fmt ((b + ULONG_MOD - a + 1) % ULONG_MOD))
  obj

/-- A bitmap buffer, represented by the result of `ext2fs_test_bit` on each
bit number (`true`: the bit is set, the entry is in use). -/
abbrev Bitmap := Nat → Bool

/-- The macro `in_use(m, x)` of dumpe2fs.c. -/
def in_use (m : Bitmap) (x : Nat) : Bool := m x

/-- The statements `offset /= ratio; offset += group * num;` that open
`print_free` and `fill_json_free`, in `unsigned long`. -/
def scan_offset (group num offset ratio : Nat) : Nat :=
  (offset / ratio + (group * num) % ULONG_MOD) % ULONG_MOD

/-- The expression `(i + offset) * ratio` of `print_free` and `fill_json_free`,
in `unsigned long`. -/
def scan_value (offset ratio i : Nat) : Nat :=
  ((i + offset) % ULONG_MOD * ratio) % ULONG_MOD

/-- The inner loop `for (j = i; j < num && !in_use (bitmap, j); j++) ;`:
the value of `j` when it ends. Each turn raises `j`, so `num - j` turns of
fuel are enough. -/
def scan_run (bitmap : Bitmap) (num : Nat) : Nat → Nat → Nat
  | 0, j => j
  | fuel + 1, j =>
    if j < num && !in_use bitmap j then scan_run bitmap num fuel (j + 1) else j

/-- The outer loop of `print_free` from index `i` on, with `p` the separator
flag and `offset` already adjusted. -/
def print_free_loop (d : Display) (bitmap : Bitmap) (num offset ratio : Nat) :
    Nat → Nat → Bool → Out
  | 0, _, _ => []
  | fuel + 1, i, p =>
    if i < num then
      if !in_use bitmap i then
        (if p then [", "] else []) ++
        print_number d (scan_value offset ratio i) ++
        (let j := scan_run bitmap num (num - i) i - 1
         if j ≠ i then
           ["-"] ++ print_number d (scan_value offset ratio j) ++
             print_free_loop d bitmap num offset ratio fuel (j + 1) true
         else
           print_free_loop d bitmap num offset ratio fuel (i + 1) true)
      else print_free_loop d bitmap num offset ratio fuel (i + 1) p
    else []

/-- The function `print_free` of dumpe2fs.c. -/
def print_free (d : Display) (group : Nat) (bitmap : Bitmap) (num offset ratio : Nat) : Out :=
  print_free_loop d bitmap num (scan_offset group num offset ratio) ratio num 0 false

/-- The outer loop of `fill_json_free` from index `i` on, with `offset`
already adjusted. -/
def fill_json_free_loop (d : Display) (bitmap : Bitmap) (num offset ratio : Nat) :
    Nat → Nat → json_list → json_list
  | 0, _, list => list
  | fuel + 1, i, list =>
    if i < num then
      if !in_use bitmap i then
        let j := scan_run bitmap num (num - i) i - 1
        if j = i then
          let a := scan_value offset ratio i
          let b := a
          fill_json_free_loop d bitmap num offset ratio fuel (i + 1)
            (json_list_add_obj list (json_create_range_obj d a b))
        else
          let a := scan_value offset ratio i
          let b := scan_value offset ratio j
          fill_json_free_loop d bitmap num offset ratio fuel (j + 1)
            (json_list_add_obj list (json_create_range_obj d a b))
      else fill_json_free_loop d bitmap num offset ratio fuel (i + 1) list
    else list

/-- The function `fill_json_free` of dumpe2fs.c: the list afterwards. -/
def fill_json_free (d : Display) (list : json_list) (group : Nat) (bitmap : Bitmap)
    (num offset ratio : Nat) : json_list :=
  fill_json_free_loop d bitmap num (scan_offset group num offset ratio) ratio num 0 list

/-- The index runs `(i, j)` at which the scan of `print_free` and
`fill_json_free` emits, from index `i` on: first and last index of each run. -/
def free_runs_loop (bitmap : Bitmap) (num : Nat) : Nat → Nat → List (Nat × Nat)
  | 0, _ => []
  | fuel + 1, i =>
    if i < num then
      if !in_use bitmap i then
        let j := scan_run bitmap num (num - i) i - 1
        (i, j) :: free_runs_loop bitmap num fuel (j + 1)
      else free_runs_loop bitmap num fuel (i + 1)
    else []

/-- The index runs of the whole scan. -/
def free_runs (bitmap : Bitmap) (num : Nat) : List (Nat × Nat) :=
  free_runs_loop bitmap num num 0

/-- The text that `print_number` writes for `num`. -/
def number_text (d : Display) (num : Nat) : String := Out.text (print_number d num)

/-- The writes that render a sequence of index runs the way the text renderer
does: runs separated by `", "`, a run of one entry as its value alone, a
longer run as first value, `"-"`, last value. `p` tells whether a run has
been written before. -/
def runs_out (d : Display) (value : Nat → Nat) : Bool → List (Nat × Nat) → Out
  | _, [] => []
  | p, r :: rs =>
    (if p then [", "] else []) ++ [number_text d (value r.1)] ++
      (if r.2 ≠ r.1 then ["-", number_text d (value r.2)] else []) ++
      runs_out d value true rs

/-- The range object with the given start and length, both formatted in the
display mode. -/
def extent_obj (d : Display) (start len : Nat) : json_val :=
  json_val.obj [("start", json_val_type.JSON_VAL_STRING, json_val.str (number_text d start)),
    ("len", json_val_type.JSON_VAL_STRING, json_val.str (number_text d len))]

/-- The extents `(start, len)` that `fill_json_free` stores, as numbers: for
each emitted run, `a` and `b - a + 1` as `json_create_range_obj` computes
them in `unsigned long long`. -/
def free_extents (group : Nat) (bitmap : Bitmap) (num offset ratio : Nat) : List (Nat × Nat) :=
  (free_runs bitmap num).map (fun r =>
    let a := scan_value (scan_offset group num offset ratio) ratio r.1
    let b := scan_value (scan_offset group num offset ratio) ratio r.2
    (a, (b + ULONG_MOD - a + 1) % ULONG_MOD))

/-- An extent rendered as text: the formatted start alone when the length is
1, otherwise formatted start, `-`, formatted `start + len - 1` (in
`unsigned long long`). -/
def render_extent (d : Display) (e : Nat × Nat) : String :=
  if e.2 = 1 then number_text d e.1
  else number_text d e.1 ++ "-" ++ number_text d ((e.1 + e.2 - 1) % ULONG_MOD)

/-- The text of one run. -/
def run_text (d : Display) (value : Nat → Nat) (r : Nat × Nat) : String :=
  if r.2 ≠ r.1 then number_text d (value r.1) ++ "-" ++ number_text d (value r.2)
  else number_text d (value r.1)

/-! ## The filesystem handle

`ext2_filsys`, its superblock and the libext2fs accessors that `list_desc`
and `fill_json_desc` call are declared in the libext2fs headers, not in
dumpe2fs.c; they are fields here, each named after the accessor or macro it
stands for. Results are within the range of their C type. -/

/-- The fields of `fs->super` and the superblock macros that dumpe2fs reads. -/
structure ext2_super_block where
  s_first_data_block : Nat
  s_clusters_per_group : Nat
  s_inodes_per_group : Nat
  s_reserved_gdt_blocks : Nat
  s_first_meta_bg : Nat
  /-- The macro `EXT2_INODE_SIZE(s)` -/
  inode_size : Nat
  /-- The macro `EXT2_BLOCK_SIZE(s)` -/
  block_size : Nat
  /-- The test `ext2fs_has_feature_bigalloc(s)` -/
  has_feature_bigalloc : Bool
  /-- The test `ext2fs_has_feature_meta_bg(s)` -/
  has_feature_meta_bg : Bool
  /-- The test `ext2fs_has_feature_flex_bg(s)` -/
  has_feature_flex_bg : Bool
  /-- The test `ext2fs_has_feature_metadata_csum(s)` -/
  has_feature_metadata_csum : Bool
  /-- The test `ext2fs_has_feature_64bit(s)` -/
  has_feature_64bit : Bool := false
  /-- The test `ext2fs_has_feature_journal_dev(s)` -/
  has_feature_journal_dev : Bool := false
  /-- The test `ext2fs_has_feature_journal(s)` -/
  has_feature_journal : Bool := false
  s_journal_inum : Nat := 0

/-- A loaded bitmap (`fs->block_map`, `fs->inode_map`) through
`ext2fs_get_block_bitmap_range2` / `ext2fs_get_inode_bitmap_range2`: start
and count give an error code, or the bits stored in the output buffer. -/
abbrev bitmap_handle := Nat → Nat → Except Nat Bitmap

/-- The handle `ext2_filsys` with the accessors of libext2fs on it. -/
structure ext2_filsys where
  super : ext2_super_block
  group_desc_count : Nat
  desc_blocks : Nat
  cluster_ratio_bits : Nat
  /-- The field `fs->block_map`, `none` when the block bitmap is not loaded -/
  block_map : Option bitmap_handle
  /-- The field `fs->inode_map`, `none` when the inode bitmap is not loaded -/
  inode_map : Option bitmap_handle
  /-- The call `ext2fs_has_group_desc_csum(fs)` -/
  has_group_desc_csum : Bool
  /-- The call `ext2fs_group_first_block2(fs, group)` -/
  group_first_block2 : Nat → Nat
  /-- The call `ext2fs_group_last_block2(fs, group)` -/
  group_last_block2 : Nat → Nat
  /-- The call `ext2fs_super_and_bgd_loc2(fs, group, ...)`: super_blk, old_desc_blk, new_desc_blk -/
  super_and_bgd_loc2 : Nat → Nat × Nat × Nat
  /-- The call `ext2fs_group_of_blk2(fs, blk)` -/
  group_of_blk2 : Nat → Nat
  /-- The call `ext2fs_block_bitmap_loc(fs, group)` -/
  block_bitmap_loc : Nat → Nat
  /-- The call `ext2fs_inode_bitmap_loc(fs, group)` -/
  inode_bitmap_loc : Nat → Nat
  /-- The call `ext2fs_inode_table_loc(fs, group)` -/
  inode_table_loc : Nat → Nat
  /-- The call `ext2fs_bg_checksum(fs, group)` -/
  bg_checksum : Nat → Nat
  /-- The call `ext2fs_group_desc_csum(fs, group)` -/
  group_desc_csum : Nat → Nat
  /-- The call `ext2fs_block_bitmap_checksum(fs, group)` -/
  block_bitmap_checksum : Nat → Nat
  /-- The call `ext2fs_inode_bitmap_checksum(fs, group)` -/
  inode_bitmap_checksum : Nat → Nat
  /-- The call `ext2fs_bg_flags(fs, group)` -/
  bg_flags : Nat → Nat
  /-- The call `ext2fs_bg_free_blocks_count(fs, group)` -/
  bg_free_blocks_count : Nat → Nat
  /-- The call `ext2fs_bg_free_inodes_count(fs, group)` -/
  bg_free_inodes_count : Nat → Nat
  /-- The call `ext2fs_bg_used_dirs_count(fs, group)` -/
  bg_used_dirs_count : Nat → Nat
  /-- The call `ext2fs_bg_itable_unused(fs, group)` -/
  bg_itable_unused : Nat → Nat
  /-- The field `fs->flags` -/
  flags : Nat := 0

/-- The macro `EXT2FS_B2C(fs, blk)` of ext2fs.h. -/
def EXT2FS_B2C (fs : ext2_filsys) (blk : Nat) : Nat := blk >>> fs.cluster_ratio_bits

/-- The macro `EXT2FS_CLUSTER_RATIO(fs)` of ext2fs.h. -/
def EXT2FS_CLUSTER_RATIO (fs : ext2_filsys) : Nat := 1 <<< fs.cluster_ratio_bits

/-- The macro `EXT2_CLUSTERS_PER_GROUP(s)` of ext2_fs.h. -/
def EXT2_CLUSTERS_PER_GROUP (s : ext2_super_block) : Nat := s.s_clusters_per_group

/-- The macro `EXT2_INODES_PER_GROUP(s)` of ext2_fs.h. -/
def EXT2_INODES_PER_GROUP (s : ext2_super_block) : Nat := s.s_inodes_per_group

/-- The flag `EXT2_BG_INODE_UNINIT` of ext2_fs.h. -/
def EXT2_BG_INODE_UNINIT : Nat := 0x0001

/-- The flag `EXT2_BG_BLOCK_UNINIT` of ext2_fs.h. -/
def EXT2_BG_BLOCK_UNINIT : Nat := 0x0002

/-- The flag `EXT2_BG_INODE_ZEROED` of ext2_fs.h. -/
def EXT2_BG_INODE_ZEROED : Nat := 0x0004

/-- The function `json_list_create_in_obj` of json-out.c: the parent
afterwards and the list it returns. -/
def json_list_create_in_obj (parent_obj : json_obj) (key : String) (type : json_val_type) :
    json_obj × json_list :=
  let list := json_list_create type
  (json_obj_add_list parent_obj key list, list)

/-- The parent object once the list that `json_list_create_in_obj` returned
has been filled through the returned pointer and is now `list`: the pair
added last, which holds that pointer, shows `list`. -/
def json_obj_list_filled (parent_obj : json_obj) (list : json_list) : json_obj :=
  match parent_obj.pair.reverse with
  | (key, type, json_val.list _ _) :: rest =>
    { pair := rest.reverse ++ [(key, type, json_val.list list.type list.node)] }
  | _ => parent_obj

/-! ## Group flags and relative offsets -/

/-- The function `print_bg_opt` of dumpe2fs.c: the writes and `*first`
afterwards. -/
def print_bg_opt (bg_flags mask : Nat) (str : String) (first : Bool) : Out × Bool :=
  if bg_flags &&& mask ≠ 0 then
    ((if first then [" ["] else [", "]) ++ [str], false)
  else ([], first)

/-- The function `print_bg_opts` of dumpe2fs.c. -/
def print_bg_opts (fs : ext2_filsys) (i : Nat) : Out :=
  let first := true
  let bg_flags := if fs.has_group_desc_csum then fs.bg_flags i else 0
  let r1 := print_bg_opt bg_flags EXT2_BG_INODE_UNINIT "INODE_UNINIT" first
  let r2 := print_bg_opt bg_flags EXT2_BG_BLOCK_UNINIT "BLOCK_UNINIT" r1.2
  let r3 := print_bg_opt bg_flags EXT2_BG_INODE_ZEROED "ITABLE_ZEROED" r2.2
  r1.1 ++ r2.1 ++ r3.1 ++ (if !r3.2 then ["]"] else []) ++ ["\n"]

/-- The function `fill_json_bg_opts` of dumpe2fs.c. -/
def fill_json_bg_opts (obj : json_obj) (fs : ext2_filsys) (i : Nat) : json_obj :=
  let (obj, bg_opts_list) := json_list_create_in_obj obj "bg-opts" json_val_type.JSON_VAL_STRING
  if fs.has_group_desc_csum then
    let bg_flags := fs.bg_flags i
    let bg_opts_list :=
      if bg_flags &&& EXT2_BG_INODE_UNINIT ≠ 0 then json_list_add_str bg_opts_list "INODE_UNINIT"
      else bg_opts_list
    let bg_opts_list :=
      if bg_flags &&& EXT2_BG_BLOCK_UNINIT ≠ 0 then json_list_add_str bg_opts_list "BLOCK_UNINIT"
      else bg_opts_list
    let bg_opts_list :=
      if bg_flags &&& EXT2_BG_INODE_ZEROED ≠ 0 then json_list_add_str bg_opts_list "ITABLE_ZEROED"
      else bg_opts_list
    json_obj_list_filled obj bg_opts_list
  else obj

/-- The function `print_bg_rel_offset` of dumpe2fs.c. -/
def print_bg_rel_offset (fs : ext2_filsys) (block : Nat) (itable : Bool)
    (first_block last_block : Nat) : Out :=
  if block ≥ first_block ∧ block ≤ last_block then
    if itable ∧ block = first_block then []
    else [" (+" ++ fmt_dec ((block - first_block) % UINT_MOD) ++ ")"]
  else if fs.super.has_feature_flex_bg then
    let flex_grp := fs.group_of_blk2 block
    [" (bg #" ++ fmt_dec flex_grp ++ " + " ++
      fmt_dec ((block + ULONG_MOD - fs.group_first_block2 flex_grp) % ULONG_MOD % UINT_MOD) ++ ")"]
  else []

/-- The function `json_create_bg_rel_offset_obj` of dumpe2fs.c. -/
def json_create_bg_rel_offset_obj (fs : ext2_filsys) (block : Nat) (itable : Bool)
    (first_block last_block : Nat) : json_obj :=
  let obj := json_obj_create
  if block ≥ first_block ∧ block ≤ last_block then
    if itable ∧ block = first_block then obj
    else
      let buf := snprintf 32 (fmt_dec ((block - first_block) % UINT_MOD))
      json_obj_add_str obj "offset" buf
  else if fs.super.has_feature_flex_bg then
    let flex_grp := fs.group_of_blk2 block
    let buf := snprintf 32 (fmt_dec flex_grp)
    let obj := json_obj_add_str obj "bg" buf
    let buf := snprintf 32
      (fmt_dec ((block + ULONG_MOD - fs.group_first_block2 flex_grp) % ULONG_MOD % UINT_MOD))
    json_obj_add_str obj "offset" buf
  else obj

/-! ## The per-group report: `list_desc` and `fill_json_desc`

Both loops keep `blk_itr` (a `blk64_t`) and `ino_itr` (an `ext2_ino_t`, 32
bits) across groups. `block_bitmap` and `inode_bitmap` are the buffers
allocated when the bitmap is loaded (allocation succeeds); `com_err` writes
to standard error, which is not part of `Out`. Translation through `_()` is
the identity. -/

/-- The conversion of an unsigned value to `int` (32 bits), as in
`old_desc_blocks = fs->super->s_first_meta_bg`: the value modulo 2^32, less
2^32 when that is 2^31 or more. -/
def to_int (n : Nat) : Int :=
  if n % UINT_MOD < 2 ^ 31 then ((n % UINT_MOD : Nat) : Int)
  else ((n % UINT_MOD : Nat) : Int) - ((UINT_MOD : Nat) : Int)

/-- The conversion of an `int` to `blk64_t` when it is an operand next to a
`blk64_t`, as in `old_desc_blk + old_desc_blocks - 1`: the value modulo 2^64,
so a negative `int` is sign-extended. -/
def blk64_of_int (x : Int) : Nat := (x % ((ULONG_MOD : Nat) : Int)).toNat

/-- The values computed before the loop of `list_desc` / `fill_json_desc`
that the loop body reads. -/
structure desc_locals where
  units : String
  /-- The local `int inode_blocks_per_group` -/
  inode_blocks_per_group : Int
  /-- The local `int old_desc_blocks` -/
  old_desc_blocks : Int
  reserved_gdt : Nat
  block_nbytes : Nat
  inode_nbytes : Nat
  block_bitmap : Bool
  inode_bitmap : Bool

/-- The statements of `list_desc` / `fill_json_desc` before the loop. -/
def desc_setup (fs : ext2_filsys) : desc_locals :=
  { units := if fs.super.has_feature_bigalloc then "clusters" else "blocks",
    block_nbytes := EXT2_CLUSTERS_PER_GROUP fs.super / 8,
    inode_nbytes := EXT2_INODES_PER_GROUP fs.super / 8,
    block_bitmap := fs.block_map.isSome,
    inode_bitmap := fs.inode_map.isSome,
    inode_blocks_per_group :=
      to_int ((((fs.super.s_inodes_per_group * fs.super.inode_size) % UINT_MOD +
          fs.super.block_size + UINT_MOD - 1) % UINT_MOD) / fs.super.block_size),
    reserved_gdt := fs.super.s_reserved_gdt_blocks,
    old_desc_blocks :=
      to_int (if fs.super.has_feature_meta_bg then fs.super.s_first_meta_bg
        else fs.desc_blocks) }

/-- The expression `a + b - 1` on `blk64_t`. -/
def blk_last (a b : Nat) : Nat := (a + b + ULONG_MOD - 1) % ULONG_MOD

/-- The read of the window of a group from a loaded bitmap; `none` when the
bitmap is not loaded. -/
def read_range (map : Option bitmap_handle) (itr nbytes : Nat) : Option (Except Nat Bitmap) :=
  map.map (fun get_range => get_range itr (nbytes <<< 3))

/-- The body of the loop of `list_desc` for group `i` when `grp_only` is set. -/
def list_desc_grp_only (d : Display) (fs : ext2_filsys) (l : desc_locals) (i : Nat) : Out :=
  let first_block := fs.group_first_block2 i
  let (super_blk, old_desc_blk, new_desc_blk) := fs.super_and_bgd_loc2 i
  [fmt_dec i ++ ":" ++ fmt_dec first_block ++ ":"] ++
  (if i = 0 ∨ super_blk ≠ 0 then [fmt_dec super_blk ++ ":"] else ["-1:"]) ++
  (if old_desc_blk ≠ 0 then
    print_range d old_desc_blk (blk_last old_desc_blk (blk64_of_int l.old_desc_blocks)) ++
      [":"]
   else if new_desc_blk ≠ 0 then [fmt_dec new_desc_blk ++ ":"]
   else ["-1:"]) ++
  [fmt_dec (fs.block_bitmap_loc i) ++ ":" ++ fmt_dec (fs.inode_bitmap_loc i) ++ ":" ++
    fmt_dec (fs.inode_table_loc i) ++ "\n"]

/-- The checksum part of the group header line of `list_desc`:
`if (ext2fs_has_group_desc_csum(fs)) { ... }`. -/
def list_desc_csum (fs : ext2_filsys) (i : Nat) : Out :=
  if fs.has_group_desc_csum then
    let csum := fs.bg_checksum i
    let exp_csum := fs.group_desc_csum i
    [" csum " ++ fmt_hex 4 csum] ++
    (if csum ≠ exp_csum then [" (EXPECTED " ++ fmt_hex 4 exp_csum ++ ")"] else [])
  else []

/-- The superblock part of `list_desc`: `if (has_super) { ... }`. -/
def list_desc_super (d : Display) (i super_blk : Nat) (has_super : Bool) : Out :=
  if has_super then
    ["  " ++ (if i = 0 then "Primary" else "Backup") ++ " superblock at "] ++
    print_number d super_blk
  else []

/-- The descriptor-table part of `list_desc`: `if (old_desc_blk) { ... } else
if (new_desc_blk) { ... }`, then `if (has_super) fputc('\n', stdout)` with
`has_super` as the second branch leaves it. -/
def list_desc_gdt (d : Display) (l : desc_locals) (old_desc_blk new_desc_blk : Nat)
    (has_super : Bool) : Out :=
  (if old_desc_blk ≠ 0 then
    [", Group descriptors at "] ++
    print_range d old_desc_blk (blk_last old_desc_blk (blk64_of_int l.old_desc_blocks)) ++
    (if l.reserved_gdt ≠ 0 then
      ["\n  Reserved GDT blocks at "] ++
      print_range d ((old_desc_blk + blk64_of_int l.old_desc_blocks) % ULONG_MOD)
        (blk_last ((old_desc_blk + blk64_of_int l.old_desc_blocks) % ULONG_MOD)
          l.reserved_gdt)
     else [])
   else if new_desc_blk ≠ 0 then
    [if has_super then "," else " "] ++
    [" Group descriptor at "] ++
    print_number d new_desc_blk
   else []) ++
  (if has_super ∨ (old_desc_blk = 0 ∧ new_desc_blk ≠ 0) then ["\n"] else [])

/-- The block-bitmap part of `list_desc`, up to the separator before the
inode bitmap. -/
def list_desc_block_bitmap (d : Display) (fs : ext2_filsys) (ignore_80col : Bool)
    (i first_block last_block : Nat) : Out :=
  ["  Block bitmap at "] ++
  print_number d (fs.block_bitmap_loc i) ++
  print_bg_rel_offset fs (fs.block_bitmap_loc i) false first_block last_block ++
  (if fs.super.has_feature_metadata_csum then
    [", csum " ++ fmt_hex 8 (fs.block_bitmap_checksum i)] else []) ++
  (if ignore_80col then [","] else ["\n "])

/-- The inode-bitmap part of `list_desc`. -/
def list_desc_inode_bitmap (d : Display) (fs : ext2_filsys) (i first_block last_block : Nat) :
    Out :=
  [" Inode bitmap at "] ++
  print_number d (fs.inode_bitmap_loc i) ++
  print_bg_rel_offset fs (fs.inode_bitmap_loc i) false first_block last_block ++
  (if fs.super.has_feature_metadata_csum then
    [", csum " ++ fmt_hex 8 (fs.inode_bitmap_checksum i)] else [])

/-- The inode-table part of `list_desc`. -/
def list_desc_inode_table (d : Display) (fs : ext2_filsys) (l : desc_locals)
    (i first_block last_block : Nat) : Out :=
  ["\n  Inode table at "] ++
  print_range d (fs.inode_table_loc i)
    (blk_last (fs.inode_table_loc i) (blk64_of_int l.inode_blocks_per_group)) ++
  print_bg_rel_offset fs (fs.inode_table_loc i) true first_block last_block

/-- The counts line of `list_desc`. -/
def list_desc_counts (fs : ext2_filsys) (l : desc_locals) (i : Nat) : Out :=
  ["\n  " ++ fmt_dec (fs.bg_free_blocks_count i) ++ " free " ++ l.units ++ ", " ++
    fmt_dec (fs.bg_free_inodes_count i) ++ " free inodes, " ++
    fmt_dec (fs.bg_used_dirs_count i) ++ " directories" ++
    (if fs.bg_itable_unused i ≠ 0 then "" else "\n")] ++
  (if fs.bg_itable_unused i ≠ 0 then
    [", " ++ fmt_dec (fs.bg_itable_unused i) ++ " unused inodes\n"] else [])

/-- The body of the loop of `list_desc` for group `i` without `grp_only`, up
to and including the counts line. -/
def list_desc_fields (d : Display) (fs : ext2_filsys) (ignore_80col : Bool) (l : desc_locals)
    (i : Nat) : Out :=
  let first_block := fs.group_first_block2 i
  let last_block := fs.group_last_block2 i
  let (super_blk, old_desc_blk, new_desc_blk) := fs.super_and_bgd_loc2 i
  let has_super := decide (i = 0 ∨ super_blk ≠ 0)
  ["Group " ++ fmt_dec i ++ ": (Blocks "] ++
  print_range d first_block last_block ++
  [")"] ++
  list_desc_csum fs i ++
  print_bg_opts fs i ++
  list_desc_super d i super_blk has_super ++
  list_desc_gdt d l old_desc_blk new_desc_blk has_super ++
  list_desc_block_bitmap d fs ignore_80col i first_block last_block ++
  list_desc_inode_bitmap d fs i first_block last_block ++
  list_desc_inode_table d fs l i first_block last_block ++
  list_desc_counts fs l i

/-- The free-blocks part of the loop body of `list_desc`:
`if (block_bitmap) { ... }`. -/
def list_desc_free_blocks (d : Display) (fs : ext2_filsys) (l : desc_locals)
    (i blk_itr : Nat) : Out :=
  if l.block_bitmap then
    ["  Free blocks: "] ++
    (match read_range fs.block_map blk_itr l.block_nbytes with
     | some (Except.ok block_bitmap) =>
       print_free d i block_bitmap fs.super.s_clusters_per_group fs.super.s_first_data_block
         ( EXT2FS_CLUSTER_RATIO fs)
     | _ => []) ++
    ["\n"]
  else []

/-- The free-inodes part of the loop body of `list_desc`:
`if (inode_bitmap) { ... }`. -/
def list_desc_free_inodes (d : Display) (fs : ext2_filsys) (l : desc_locals)
    (i ino_itr : Nat) : Out :=
  if l.inode_bitmap then
    ["  Free inodes: "] ++
    (match read_range fs.inode_map ino_itr l.inode_nbytes with
     | some (Except.ok inode_bitmap) =>
       print_free d i inode_bitmap fs.super.s_inodes_per_group 1 1
     | _ => []) ++
    ["\n"]
  else []

/-- The body of the loop of `list_desc` for group `i`. -/
def list_desc_group (d : Display) (fs : ext2_filsys) (grp_only ignore_80col : Bool)
    (l : desc_locals) (i blk_itr ino_itr : Nat) : Out :=
  if grp_only then list_desc_grp_only d fs l i
  else
    list_desc_fields d fs ignore_80col l i ++
    list_desc_free_blocks d fs l i blk_itr ++
    list_desc_free_inodes d fs l i ino_itr

/-- The loop `for (i = 0; i < fs->group_desc_count; i++)` of `list_desc`,
from group `i` on with `count` groups left. -/
def list_desc_loop (d : Display) (fs : ext2_filsys) (grp_only ignore_80col : Bool)
    (l : desc_locals) : Nat → Nat → Nat → Nat → Out
  | 0, _, _, _ => []
  | count + 1, i, blk_itr, ino_itr =>
    list_desc_group d fs grp_only ignore_80col l i blk_itr ino_itr ++
    list_desc_loop d fs grp_only ignore_80col l count (i + 1)
      (if l.block_bitmap then (blk_itr + fs.super.s_clusters_per_group) % ULONG_MOD else blk_itr)
      (if l.inode_bitmap then (ino_itr + fs.super.s_inodes_per_group) % UINT_MOD else ino_itr)

/-- The function `list_desc` of dumpe2fs.c; `ignore_80col` tells whether
`getenv("DUMPE2FS_IGNORE_80COL")` is set. -/
def list_desc (d : Display) (fs : ext2_filsys) (grp_only ignore_80col : Bool) : Out :=
  ["\n"] ++
  (if grp_only then ["group:block:super:gdt:bbitmap:ibitmap:itable\n"] else []) ++
  list_desc_loop d fs grp_only ignore_80col (desc_setup fs) fs.group_desc_count 0
    (EXT2FS_B2C fs fs.super.s_first_data_block) 1

/-- The checksum pairs of `fill_json_desc`:
`if (ext2fs_has_group_desc_csum(fs)) { ... }`. -/
def fill_json_desc_csum (fs : ext2_filsys) (i : Nat) (group_obj : json_obj) : json_obj :=
  if fs.has_group_desc_csum then
    let csum := fs.bg_checksum i
    let exp_csum := fs.group_desc_csum i
    let group_obj := json_obj_add_fmt_buf_str group_obj "group-desc-csum" 64 (fmt_hex 4 csum)
    if csum ≠ exp_csum then
      json_obj_add_fmt_buf_str group_obj "group-desc-csum-exp" 64 (fmt_hex 4 exp_csum)
    else group_obj
  else group_obj

/-- The superblock pairs of `fill_json_desc`: `if (has_super) { ... }`. -/
def fill_json_desc_super (d : Display) (i super_blk : Nat) (has_super : Bool)
    (group_obj : json_obj) : json_obj :=
  if has_super then
    let group_obj := json_obj_add_str group_obj "superblock-type"
      (if i = 0 then "Primary" else "Backup")
    json_obj_add_str group_obj "superblock-at" (snprint_number d 64 super_blk)
  else group_obj

/-- The descriptor-table pairs of `fill_json_desc`: `if (old_desc_blk) { ... }
else if (new_desc_blk) { ... }`. -/
def fill_json_desc_gdt (d : Display) (l : desc_locals) (old_desc_blk new_desc_blk : Nat)
    (group_obj : json_obj) : json_obj :=
  if old_desc_blk ≠ 0 then
    let group_obj := json_obj_add_obj group_obj "group-descriptors-at"
      (json_create_range_obj d old_desc_blk
        (blk_last old_desc_blk (blk64_of_int l.old_desc_blocks)))
    if l.reserved_gdt ≠ 0 then
      json_obj_add_obj group_obj "reserved-gdt-blocks-at"
        (json_create_range_obj d ((old_desc_blk + blk64_of_int l.old_desc_blocks) % ULONG_MOD)
          (blk_last ((old_desc_blk + blk64_of_int l.old_desc_blocks) % ULONG_MOD)
            l.reserved_gdt))
    else group_obj
  else if new_desc_blk ≠ 0 then
    json_obj_add_str group_obj "group-desc-at" (snprint_number d 64 new_desc_blk)
  else group_obj

/-- The block-bitmap pairs of `fill_json_desc`. -/
def fill_json_desc_block_bitmap (d : Display) (fs : ext2_filsys)
    (i first_block last_block : Nat) (group_obj : json_obj) : json_obj :=
  let group_obj := json_obj_add_str group_obj "block-bitmap-at"
    (snprint_number d 64 (fs.block_bitmap_loc i))
  let group_obj := json_obj_add_obj group_obj "block-bitmap-rel-offset"
    (json_create_bg_rel_offset_obj fs (fs.block_bitmap_loc i) false first_block last_block)
  if fs.super.has_feature_metadata_csum then
    json_obj_add_fmt_buf_str group_obj "block-bitmap-csum" 64
      (fmt_hex 8 (fs.block_bitmap_checksum i))
  else group_obj

/-- The inode-bitmap pairs of `fill_json_desc`. -/
def fill_json_desc_inode_bitmap (d : Display) (fs : ext2_filsys)
    (i first_block last_block : Nat) (group_obj : json_obj) : json_obj :=
  let group_obj := json_obj_add_str group_obj "inode-bitmap-at"
    (snprint_number d 64 (fs.inode_bitmap_loc i))
  let group_obj := json_obj_add_obj group_obj "inode-bitmap-rel-offset"
    (json_create_bg_rel_offset_obj fs (fs.inode_bitmap_loc i) false first_block last_block)
  if fs.super.has_feature_metadata_csum then
    json_obj_add_fmt_buf_str group_obj "inode-bitmap-csum" 64
      (fmt_hex 8 (fs.inode_bitmap_checksum i))
  else group_obj

/-- The inode-table pairs of `fill_json_desc`. -/
def fill_json_desc_inode_table (d : Display) (fs : ext2_filsys) (l : desc_locals)
    (i first_block last_block : Nat) (group_obj : json_obj) : json_obj :=
  let group_obj := json_obj_add_obj group_obj "inode-table-at"
    (json_create_range_obj d (fs.inode_table_loc i)
      (blk_last (fs.inode_table_loc i) (blk64_of_int l.inode_blocks_per_group)))
  json_obj_add_obj group_obj "inode-table-rel-offset"
    (json_create_bg_rel_offset_obj fs (fs.inode_table_loc i) true first_block last_block)

/-- The count pairs of `fill_json_desc`. -/
def fill_json_desc_counts (fs : ext2_filsys) (l : desc_locals) (i : Nat)
    (group_obj : json_obj) : json_obj :=
  let group_obj := json_obj_add_fmt_buf_str group_obj "free-blocks-count" 64
    (fmt_dec (fs.bg_free_blocks_count i) ++ " " ++ l.units)
  let group_obj := json_obj_add_fmt_buf_str group_obj "free-inodes-count" 64
    (fmt_dec (fs.bg_free_inodes_count i))
  let group_obj := json_obj_add_fmt_buf_str group_obj "used-dirs-count" 64
    (fmt_dec (fs.bg_used_dirs_count i))
  json_obj_add_fmt_buf_str group_obj "unused-inodes" 64
    (fmt_dec (fs.bg_itable_unused i))

/-- The body of the loop of `fill_json_desc` for group `i`, from
`json_obj_create()` up to and including the `unused-inodes` pair: the group
object at that point. -/
def fill_json_desc_fields (d : Display) (fs : ext2_filsys) (l : desc_locals) (i : Nat) :
    json_obj :=
  let group_obj := json_obj_create
  let first_block := fs.group_first_block2 i
  let last_block := fs.group_last_block2 i
  let (super_blk, old_desc_blk, new_desc_blk) := fs.super_and_bgd_loc2 i
  let group_obj := json_obj_add_fmt_buf_str group_obj "num" 64 (fmt_dec i)
  let group_obj := json_obj_add_obj group_obj "blocks"
    (json_create_range_obj d first_block last_block)
  let group_obj := fill_json_desc_csum fs i group_obj
  let group_obj := fill_json_bg_opts group_obj fs i
  let has_super := decide (i = 0 ∨ super_blk ≠ 0)
  let group_obj := fill_json_desc_super d i super_blk has_super group_obj
  let group_obj := fill_json_desc_gdt d l old_desc_blk new_desc_blk group_obj
  let group_obj := fill_json_desc_block_bitmap d fs i first_block last_block group_obj
  let group_obj := fill_json_desc_inode_bitmap d fs i first_block last_block group_obj
  let group_obj := fill_json_desc_inode_table d fs l i first_block last_block group_obj
  let group_obj := fill_json_desc_counts fs l i group_obj
  group_obj

/-- The free-blocks part of the loop body of `fill_json_desc`:
`if (block_bitmap) { ... }`. -/
def fill_json_desc_free_blocks (d : Display) (fs : ext2_filsys) (l : desc_locals)
    (group_obj : json_obj) (i blk_itr : Nat) : json_obj :=
  if l.block_bitmap then
    let (group_obj, free_blocks_list) :=
      json_list_create_in_obj group_obj "free-blocks" json_val_type.JSON_VAL_OBJECT
    match read_range fs.block_map blk_itr l.block_nbytes with
    | some (Except.ok block_bitmap) =>
      json_obj_list_filled group_obj
        (fill_json_free d free_blocks_list i block_bitmap fs.super.s_clusters_per_group
          fs.super.s_first_data_block ( EXT2FS_CLUSTER_RATIO fs))
    | _ => group_obj
  else group_obj

/-- The free-inodes part of the loop body of `fill_json_desc`:
`if (inode_bitmap) { ... }`. -/
def fill_json_desc_free_inodes (d : Display) (fs : ext2_filsys) (l : desc_locals)
    (group_obj : json_obj) (i ino_itr : Nat) : json_obj :=
  if l.inode_bitmap then
    let (group_obj, free_inodes_list) :=
      json_list_create_in_obj group_obj "free-inodes" json_val_type.JSON_VAL_OBJECT
    match read_range fs.inode_map ino_itr l.inode_nbytes with
    | some (Except.ok inode_bitmap) =>
      json_obj_list_filled group_obj
        (fill_json_free d free_inodes_list i inode_bitmap fs.super.s_inodes_per_group 1 1)
    | _ => group_obj
  else group_obj

/-- The body of the loop of `fill_json_desc` for group `i`: the group object
as the loop body leaves it. -/
def fill_json_desc_group (d : Display) (fs : ext2_filsys) (l : desc_locals)
    (i blk_itr ino_itr : Nat) : json_obj :=
  let group_obj := fill_json_desc_fields d fs l i
  let group_obj := fill_json_desc_free_blocks d fs l group_obj i blk_itr
  let group_obj := fill_json_desc_free_inodes d fs l group_obj i ino_itr
  group_obj

/-- The loop `for (i = 0; i < fs->group_desc_count; i++)` of
`fill_json_desc`, from group `i` on with `count` groups left: `desc_list`
afterwards. The node added for a group holds a pointer to the group object,
which the rest of the body fills; the node is added here with the object as
the body leaves it. -/
def fill_json_desc_loop (d : Display) (fs : ext2_filsys) (l : desc_locals) :
    Nat → Nat → Nat → Nat → json_list → json_list
  | 0, _, _, _, desc_list => desc_list
  | count + 1, i, blk_itr, ino_itr, desc_list =>
    fill_json_desc_loop d fs l count (i + 1)
      (if l.block_bitmap then (blk_itr + fs.super.s_clusters_per_group) % ULONG_MOD else blk_itr)
      (if l.inode_bitmap then (ino_itr + fs.super.s_inodes_per_group) % UINT_MOD else ino_itr)
      (json_list_add_obj desc_list (fill_json_desc_group d fs l i blk_itr ino_itr))

/-- The function `fill_json_desc` of dumpe2fs.c: `obj` afterwards. -/
def fill_json_desc (d : Display) (obj : json_obj) (fs : ext2_filsys) : json_obj :=
  let (obj, desc_list) := json_list_create_in_obj obj "desc" json_val_type.JSON_VAL_OBJECT
  json_obj_list_filled obj
    (fill_json_desc_loop d fs (desc_setup fs) fs.group_desc_count 0
      (EXT2FS_B2C fs fs.super.s_first_data_block) 1 desc_list)

/-- The group objects that `fill_json_desc` puts in the `desc` list. -/
def desc_groups (d : Display) (fs : ext2_filsys) : List json_val :=
  (fill_json_desc_loop d fs (desc_setup fs) fs.group_desc_count 0
    (EXT2FS_B2C fs fs.super.s_first_data_block) 1
    (json_list_create json_val_type.JSON_VAL_OBJECT)).node

/-- The value of `blk_itr` when the loop reaches group `i`. -/
def blk_itr_at (fs : ext2_filsys) (l : desc_locals) : Nat → Nat
  | 0 => EXT2FS_B2C fs fs.super.s_first_data_block
  | i + 1 =>
    if l.block_bitmap then (blk_itr_at fs l i + fs.super.s_clusters_per_group) % ULONG_MOD
    else blk_itr_at fs l i

/-- The value of `ino_itr` when the loop reaches group `i`. -/
def ino_itr_at (fs : ext2_filsys) (l : desc_locals) : Nat → Nat
  | 0 => 1
  | i + 1 =>
    if l.inode_bitmap then (ino_itr_at fs l i + fs.super.s_inodes_per_group) % UINT_MOD
    else ino_itr_at fs l i

/-- The keys that the loop body of `fill_json_desc` can add before the
free-space sections. -/
def field_keys : List String :=
  ["num", "blocks", "group-desc-csum", "group-desc-csum-exp", "bg-opts", "superblock-type",
   "superblock-at", "group-descriptors-at", "reserved-gdt-blocks-at", "group-desc-at",
   "block-bitmap-at", "block-bitmap-rel-offset", "block-bitmap-csum", "inode-bitmap-at",
   "inode-bitmap-rel-offset", "inode-bitmap-csum", "inode-table-at", "inode-table-rel-offset",
   "free-blocks-count", "free-inodes-count", "used-dirs-count", "unused-inodes"]

/-- No write of `o` contains the character `F`. -/
def no_F (o : Out) : Prop := ∀ s ∈ o, 'F' ∉ s.data

/-- A one-group filesystem of 8 clusters and 8 inodes per group, first data
block 1, with the given bitmap handles: the input of the concrete examples. -/
def sample_fs (block_map inode_map : Option bitmap_handle) : ext2_filsys :=
  { super :=
      { s_first_data_block := 1, s_clusters_per_group := 8, s_inodes_per_group := 8,
        s_reserved_gdt_blocks := 0, s_first_meta_bg := 0, inode_size := 128,
        block_size := 1024, has_feature_bigalloc := false, has_feature_meta_bg := false,
        has_feature_flex_bg := false, has_feature_metadata_csum := false },
    group_desc_count := 1, desc_blocks := 1, cluster_ratio_bits := 0,
    block_map := block_map, inode_map := inode_map, has_group_desc_csum := false,
    group_first_block2 := fun g => 1 + g * 8, group_last_block2 := fun g => 8 + g * 8,
    super_and_bgd_loc2 := fun _ => (1, 2, 0), group_of_blk2 := fun b => (b - 1) / 8,
    block_bitmap_loc := fun _ => 3, inode_bitmap_loc := fun _ => 4,
    inode_table_loc := fun _ => 5, bg_checksum := fun _ => 0, group_desc_csum := fun _ => 0,
    block_bitmap_checksum := fun _ => 0, inode_bitmap_checksum := fun _ => 0,
    bg_flags := fun _ => 0, bg_free_blocks_count := fun _ => 0,
    bg_free_inodes_count := fun _ => 0, bg_used_dirs_count := fun _ => 1,
    bg_itable_unused := fun _ => 0 }

/-- A loaded bitmap in which every entry is in use. -/
def full_map : bitmap_handle := fun _ _ => Except.ok (fun _ => true)

/-- A loaded bitmap whose every ranged read fails with error code 5. -/
def failing_map : bitmap_handle := fun _ _ => Except.error 5

/-- A loaded bitmap in which exactly entries 2 and 3 of every window are free. -/
def partly_free_map : bitmap_handle := fun _ _ => Except.ok (fun k => !(decide (k = 2 ∨ k = 3)))

/-! ## Reading a group record -/

/-- The pairs of `obj` whose key is `key`, in order. -/
def json_obj.pairs_with_key (obj : json_obj) (key : String) : List json_pair :=
  obj.pair.filter (fun p => p.1 == key)

/-- The group object that the loop body of `fill_json_desc` builds for group
`i`, with `blk_itr` and `ino_itr` as the loop has them at that group: the
element number `i` of the `desc` list (`desc_groups_eq_records`). -/
def group_record (d : Display) (fs : ext2_filsys) (i : Nat) : json_obj :=
  fill_json_desc_group d fs (desc_setup fs) i (blk_itr_at fs (desc_setup fs) i)
    (ino_itr_at fs (desc_setup fs) i)

/-- The writes of the loop body of `list_desc` for group `i` without
`grp_only`, with `blk_itr` and `ino_itr` as the loop has them at that group:
the output of `list_desc` is a newline, then these writes group after group
(`list_desc_eq_group_text`). -/
def group_text (d : Display) (fs : ext2_filsys) (ignore_80col : Bool) (i : Nat) : Out :=
  list_desc_group d fs false ignore_80col (desc_setup fs) i (blk_itr_at fs (desc_setup fs) i)
    (ino_itr_at fs (desc_setup fs) i)

/-- The names that `fill_json_bg_opts` puts in the `bg-opts` list. -/
def bg_opts_nodes (fs : ext2_filsys) (i : Nat) : List json_val :=
  if fs.has_group_desc_csum then
    (if fs.bg_flags i &&& EXT2_BG_INODE_UNINIT ≠ 0 then [json_val.str "INODE_UNINIT"] else []) ++
    (if fs.bg_flags i &&& EXT2_BG_BLOCK_UNINIT ≠ 0 then [json_val.str "BLOCK_UNINIT"] else []) ++
    (if fs.bg_flags i &&& EXT2_BG_INODE_ZEROED ≠ 0 then [json_val.str "ITABLE_ZEROED"] else [])
  else []

/-- The text `s` has a decimal digit in it. -/
def has_digit (s : String) : Prop := ∃ c ∈ s.data, c ∈ "0123456789".data

instance has_digit_decidable (s : String) : Decidable (has_digit s) := by
  unfold has_digit
  infer_instance

/-- Every write of `o` is one of the literals `lits` or has a decimal digit
in it (it carries a formatted number). -/
def lit_or_digit (lits : List String) (o : Out) : Prop := ∀ w ∈ o, w ∈ lits ∨ has_digit w

/-- No write of `o` contains the character `X`. -/
def no_X (o : Out) : Prop := ∀ s ∈ o, 'X' ∉ s.data

/-! ## Group flags by name -/

/-- The names of the group flags set in `bg_flags`, among `INODE_UNINIT`,
`BLOCK_UNINIT` and `ITABLE_ZEROED`, in that order. -/
def bg_flag_names (bg_flags : Nat) : List String :=
  ([(EXT2_BG_INODE_UNINIT, "INODE_UNINIT"), (EXT2_BG_BLOCK_UNINIT, "BLOCK_UNINIT"),
    (EXT2_BG_INODE_ZEROED, "ITABLE_ZEROED")].filter
      (fun m => decide (bg_flags &&& m.1 ≠ 0))).map (fun m => m.2)

/-- The flag list of group `i`: the names of its set flags when the
group-descriptor checksum capability is on, empty when it is off. -/
def bg_opts_names (fs : ext2_filsys) (i : Nat) : List String :=
  if fs.has_group_desc_csum then bg_flag_names (fs.bg_flags i) else []

/-- A flag list as the text renderer shows it: nothing when it is empty,
else ` [`, the names joined by `, `, and `]`. -/
def bg_opts_text (names : List String) : String :=
  if names = [] then "" else " [" ++ ", ".intercalate names ++ "]"

/-! ## Serialization: `json_obj_print_json`, `json_list_print_json`

`ind_lvl` is an `int`; every call chain from `main` starts at level 0 and
raises it by one per nesting level, so it stays far below `INT_MAX`. The
union `json_val` is read through the member that the type tag names; a value
that does not fit its tag (which the functions of json-out.h that take a type
never build for pairs) is shown as writing nothing. -/

/-- The function `print_indent` of json-out.c: a newline, then `ind_lvl`
times two spaces (none when `ind_lvl` is not positive). -/
def print_indent (ind_lvl : Int) : Out :=
  ["\n"] ++ List.replicate ind_lvl.toNat "  "

mutual
/-- The `switch (pair->type)` of `json_pair_print_json`, with the bodies of
`json_list_print_json` and `json_obj_print_json` for a nested list or
object. It has no case for `JSON_VAL_FLAG`: `default: break`. -/
def json_pair_print_val (type : json_val_type) (val : json_val) (ind_lvl : Int) : Out :=
  match type, val with
  | json_val_type.JSON_VAL_STRING, json_val.str str => ["\"" ++ str ++ "\""]
  | json_val_type.JSON_VAL_LIST, json_val.list type node =>
    ["["] ++ json_list_print_loop type node ind_lvl ++
      (if node.isEmpty then [] else print_indent ind_lvl) ++ ["]"]
  | json_val_type.JSON_VAL_OBJECT, json_val.obj pair =>
    ["\x7b"] ++ json_obj_print_loop pair ind_lvl ++
      (if pair.isEmpty then [] else print_indent ind_lvl) ++ ["\x7d"]
  | _, _ => []
/-- The `switch (type)` of `json_list_node_print_json`, with the bodies of
`json_list_print_json` and `json_obj_print_json` for a nested list or
object. -/
def json_list_node_print_val (type : json_val_type) (val : json_val) (ind_lvl : Int) : Out :=
  match type, val with
  | json_val_type.JSON_VAL_STRING, json_val.str str => ["\"" ++ str ++ "\""]
  | json_val_type.JSON_VAL_LIST, json_val.list type node =>
    ["["] ++ json_list_print_loop type node ind_lvl ++
      (if node.isEmpty then [] else print_indent ind_lvl) ++ ["]"]
  | json_val_type.JSON_VAL_OBJECT, json_val.obj pair =>
    ["\x7b"] ++ json_obj_print_loop pair ind_lvl ++
      (if pair.isEmpty then [] else print_indent ind_lvl) ++ ["\x7d"]
  | json_val_type.JSON_VAL_FLAG, json_val.flag flag => [if flag ≠ 0 then "true" else "false"]
  | _, _ => []
/-- The loop `for (pair = obj->pair; pair; pair = pair->next)` of
`json_obj_print_json(obj, ind_lvl)` from `pair` on. -/
def json_obj_print_loop (pair : List json_pair) (ind_lvl : Int) : Out :=
  match pair with
  | [] => []
  | p :: next =>
    json_pair_print_json p (ind_lvl + 1) ++ (if next.isEmpty then [] else [", "]) ++
      json_obj_print_loop next ind_lvl
/-- The function `json_pair_print_json` of json-out.c. -/
def json_pair_print_json (pair : json_pair) (ind_lvl : Int) : Out :=
  match pair with
  | (key, tv) =>
    print_indent ind_lvl ++ ["\"" ++ key ++ "\": "] ++ json_pair_print_switch tv ind_lvl
/-- The statement `switch (pair->type) { ... }` on the type and value of a
pair. -/
def json_pair_print_switch (tv : json_val_type × json_val) (ind_lvl : Int) : Out :=
  match tv with
  | (type, val) => json_pair_print_val type val ind_lvl
/-- The loop `for (node = list->node; node; node = node->next)` of
`json_list_print_json(list, ind_lvl)` from `node` on; each turn is
`json_list_node_print_json(node, list->type, ind_lvl+1)`, that is
`print_indent` and the switch, then `", "` when a node follows. -/
def json_list_print_loop (type : json_val_type) (node : List json_val) (ind_lvl : Int) : Out :=
  match node with
  | [] => []
  | n :: next =>
    print_indent (ind_lvl + 1) ++ json_list_node_print_val type n (ind_lvl + 1) ++
      (if next.isEmpty then [] else [", "]) ++
      json_list_print_loop type next ind_lvl
end

/-- The function `json_list_node_print_json` of json-out.c. -/
def json_list_node_print_json (node : json_val) (type : json_val_type) (ind_lvl : Int) : Out :=
  print_indent ind_lvl ++ json_list_node_print_val type node ind_lvl

/-- The function `json_obj_print_json` of json-out.c. -/
def json_obj_print_json (obj : json_obj) (ind_lvl : Int) : Out :=
  ["\x7b"] ++ json_obj_print_loop obj.pair ind_lvl ++
    (if obj.pair.isEmpty then [] else print_indent ind_lvl) ++ ["\x7d"]

/-- The function `json_list_print_json` of json-out.c. -/
def json_list_print_json (list : json_list) (ind_lvl : Int) : Out :=
  ["["] ++ json_list_print_loop list.type list.node ind_lvl ++
    (if list.node.isEmpty then [] else print_indent ind_lvl) ++ ["]"]

/-! ## The journal superblock: `e2p_fill_json_journal_super` of ljs.c

The header `ext2fs/kernel-jbd.h` and the functions of libe2p that ljs.c calls
are not part of the sources; they are the fields of `jbd_env`. The object
`journal_obj` is created inside `obj` and filled through the pointer; here it
is built first and added to `obj` as it is in the end. -/

/-- The fields of `journal_superblock_t` that ljs.c reads, as the `__u32`
values the host loads from the buffer; the three feature words are
consecutive in the structure, in the order compat, incompat, ro_compat.
`s_users` is the byte array of user UUIDs. -/
structure journal_superblock_t where
  s_blocksize : Nat
  s_maxlen : Nat
  s_first : Nat
  s_sequence : Nat
  s_start : Nat
  s_errno : Nat
  s_feature_compat : Nat
  s_feature_incompat : Nat
  s_feature_ro_compat : Nat
  s_nr_users : Nat
  s_checksum_type : Nat
  s_checksum : Nat
  s_users : List Nat

/-- What ljs.c takes from outside: whether `WORDS_BIGENDIAN` is defined, the
macros of kernel-jbd.h and the functions of libe2p. -/
structure jbd_env where
  WORDS_BIGENDIAN : Bool
  JFS_FEATURE_COMPAT_CHECKSUM : Nat
  JFS_FEATURE_INCOMPAT_CSUM_V2 : Nat
  JFS_FEATURE_INCOMPAT_CSUM_V3 : Nat
  JBD2_CRC32C_CHKSUM : Nat
  /-- The call `e2p_jrnl_feature2string(compat, mask)` -/
  e2p_jrnl_feature2string : Nat → Nat → String
  /-- The call `e2p_is_null_uuid(uu)` on 16 bytes -/
  e2p_is_null_uuid : List Nat → Bool
  /-- The call `e2p_uuid2str(uu)` on 16 bytes -/
  e2p_uuid2str : List Nat → String

/-- The function `e2p_swab32` of ljs.c, on `__u32`. -/
def e2p_swab32 (val : Nat) : Nat :=
  ((val >>> 24) ||| ((val >>> 8) &&& 0xFF00) ||| ((val <<< 8) &&& 0xFF0000) |||
    ((val <<< 24) % UINT_MOD)) % UINT_MOD

/-- The macro `e2p_be32(x)` of ljs.c; `ntohl` converts the same way. -/
def e2p_be32 (env : jbd_env) (x : Nat) : Nat :=
  if env.WORDS_BIGENDIAN then x else e2p_swab32 x

/-- The function `ntohl` of the C library. -/
def ntohl (env : jbd_env) (x : Nat) : Nat := e2p_be32 env x

/-- The function `journal_checksum_type_str` of ljs.c. -/
def journal_checksum_type_str (env : jbd_env) (type : Nat) : String :=
  if type = env.JBD2_CRC32C_CHKSUM then "crc32c" else "unknown"

/-- The conversion `%d` of printf applied to `(int) x` for a 32-bit `x`. -/
def fmt_int (x : Nat) : String :=
  if x % UINT_MOD < 2 ^ 31 then fmt_dec (x % UINT_MOD)
  else "-" ++ fmt_dec (UINT_MOD - x % UINT_MOD)

/-- The inner loop `for (j=0,m=1; j < 32; j++, m<<=1)` of the feature loop,
for feature word number `i` with value `mask`: the list afterwards. -/
def journal_feature_word (env : jbd_env) (i mask : Nat) (features_list : json_list) :
    json_list :=
  (List.range 32).foldl (fun list j =>
    let m := 1 <<< j
    if mask &&& m ≠ 0 then json_list_add_str list (env.e2p_jrnl_feature2string i m)
    else list) features_list

/-- The feature part of `e2p_fill_json_journal_super`: the list
`journal-features` created in `journal_obj` and the loop over the three
feature words. -/
def fill_journal_features (env : jbd_env) (jsb : journal_superblock_t)
    (journal_obj : json_obj) : json_obj :=
  let (journal_obj, features_list) :=
    json_list_create_in_obj journal_obj "journal-features" json_val_type.JSON_VAL_STRING
  let features_list :=
    journal_feature_word env 0 (e2p_be32 env jsb.s_feature_compat) features_list
  let features_list :=
    journal_feature_word env 1 (e2p_be32 env jsb.s_feature_incompat) features_list
  let features_list :=
    journal_feature_word env 2 (e2p_be32 env jsb.s_feature_ro_compat) features_list
  json_obj_list_filled journal_obj features_list

/-- The size part: `journal-size`. -/
def fill_journal_size (env : jbd_env) (jsb : journal_superblock_t)
    (journal_obj : json_obj) : json_obj :=
  let size := ((ntohl env jsb.s_blocksize / 1024) * ntohl env jsb.s_maxlen) % UINT_MOD
  if size < 8192 then
    json_obj_add_fmt_buf_str journal_obj "journal-size" 64 (fmt_dec size ++ "k")
  else
    json_obj_add_fmt_buf_str journal_obj "journal-size" 64 (fmt_dec (size >>> 10) ++ "M")

/-- The part from `journal-block-size` to `journal-number-of-users`. -/
def fill_journal_geometry (env : jbd_env) (jsb : journal_superblock_t)
    (exp_block_size : Int) (journal_obj : json_obj) : json_obj :=
  let nr_users := ntohl env jsb.s_nr_users
  let journal_obj :=
    if (exp_block_size % (UINT_MOD : Int)).toNat ≠ ntohl env jsb.s_blocksize then
      json_obj_add_fmt_buf_str journal_obj "journal-block-size" 64
        (fmt_dec (ntohl env jsb.s_blocksize))
    else journal_obj
  let journal_obj :=
    json_obj_add_fmt_buf_str journal_obj "journal-length" 64 (fmt_dec (ntohl env jsb.s_maxlen))
  let journal_obj :=
    if ntohl env jsb.s_first ≠ 1 then
      json_obj_add_fmt_buf_str journal_obj "journal-first-block" 64
        (fmt_dec (ntohl env jsb.s_first))
    else journal_obj
  let journal_obj :=
    json_obj_add_fmt_buf_str journal_obj "journal-sequence" 64
      (fmt_hex 8 (ntohl env jsb.s_sequence))
  let journal_obj :=
    json_obj_add_fmt_buf_str journal_obj "journal-start" 64 (fmt_dec (ntohl env jsb.s_start))
  if nr_users ≠ 1 then
    json_obj_add_fmt_buf_str journal_obj "journal-number-of-users" 64 (fmt_dec nr_users)
  else journal_obj

/-- The checksum part: the test of `JFS_FEATURE_COMPAT_CHECKSUM`, then the
test of `JFS_FEATURE_INCOMPAT_CSUM_V3` or `JFS_FEATURE_INCOMPAT_CSUM_V2`. -/
def fill_journal_checksum (env : jbd_env) (jsb : journal_superblock_t)
    (journal_obj : json_obj) : json_obj :=
  let journal_obj :=
    if jsb.s_feature_compat &&& e2p_be32 env env.JFS_FEATURE_COMPAT_CHECKSUM ≠ 0 then
      json_obj_add_str journal_obj "journal-checksum-type" "crc32"
    else journal_obj
  if jsb.s_feature_incompat &&& e2p_be32 env env.JFS_FEATURE_INCOMPAT_CSUM_V3 ≠ 0 ∨
      jsb.s_feature_incompat &&& e2p_be32 env env.JFS_FEATURE_INCOMPAT_CSUM_V2 ≠ 0 then
    let journal_obj :=
      json_obj_add_str journal_obj "journal-checksum-type"
        (journal_checksum_type_str env jsb.s_checksum_type)
    json_obj_add_fmt_buf_str journal_obj "journal-checksum" 64
      (fmt_hex 8 (e2p_be32 env jsb.s_checksum))
  else journal_obj

/-- The users part: the list `journal-users`, one string per user, from the
16 bytes at `s_users[i*16]`. -/
def fill_journal_users (env : jbd_env) (jsb : journal_superblock_t)
    (journal_obj : json_obj) : json_obj :=
  let nr_users := ntohl env jsb.s_nr_users
  if nr_users > 1 ∨ !env.e2p_is_null_uuid (jsb.s_users.take 16) then
    let (journal_obj, users_list) :=
      json_list_create_in_obj journal_obj "journal-users" json_val_type.JSON_VAL_STRING
    let users_list := (List.range nr_users).foldl (fun list i =>
      json_list_add_str list (env.e2p_uuid2str ((jsb.s_users.drop (i * 16)).take 16)))
      users_list
    json_obj_list_filled journal_obj users_list
  else journal_obj

/-- The errno part: `journal-errno`. -/
def fill_journal_errno (env : jbd_env) (jsb : journal_superblock_t)
    (journal_obj : json_obj) : json_obj :=
  if jsb.s_errno ≠ 0 then
    json_obj_add_fmt_buf_str journal_obj "journal-errno" 64 (fmt_int (ntohl env jsb.s_errno))
  else journal_obj

/-- The object `journal_obj` as `e2p_fill_json_journal_super` leaves it. -/
def e2p_journal_obj (env : jbd_env) (jsb : journal_superblock_t) (exp_block_size : Int) :
    json_obj :=
  fill_journal_errno env jsb (fill_journal_users env jsb (fill_journal_checksum env jsb
    (fill_journal_geometry env jsb exp_block_size (fill_journal_size env jsb
      (fill_journal_features env jsb json_obj_create)))))

/-- The function `e2p_fill_json_journal_super` of ljs.c: `obj` afterwards.
The argument `flags` is not used. -/
def e2p_fill_json_journal_super (env : jbd_env) (obj : json_obj) (jsb : journal_superblock_t)
    (exp_block_size : Int) (_flags : Int) : json_obj :=
  json_obj_add_obj obj "journal" (e2p_journal_obj env jsb exp_block_size)

/-- The macros of kernel-jbd.h with the values of the jbd2 format, on a
little-endian host, with feature names and UUID texts left schematic: the
environment of the concrete examples. -/
def sample_jbd_env : jbd_env :=
  { WORDS_BIGENDIAN := false,
    JFS_FEATURE_COMPAT_CHECKSUM := 1,
    JFS_FEATURE_INCOMPAT_CSUM_V2 := 8,
    JFS_FEATURE_INCOMPAT_CSUM_V3 := 16,
    JBD2_CRC32C_CHKSUM := 4,
    e2p_jrnl_feature2string := fun i m => "FEATURE_" ++ fmt_dec i ++ "_" ++ fmt_dec m,
    e2p_is_null_uuid := fun uu => uu.all (fun b => b == 0),
    e2p_uuid2str := fun _ => "<uuid>" }

/-- A journal superblock of 1024 blocks of 4096 bytes, one user, with the
given feature words (as stored: big-endian). -/
def sample_jsb (compat incompat : Nat) : journal_superblock_t :=
  { s_blocksize := e2p_swab32 4096, s_maxlen := e2p_swab32 1024, s_first := e2p_swab32 1,
    s_sequence := e2p_swab32 7, s_start := 0, s_errno := 0,
    s_feature_compat := e2p_swab32 compat, s_feature_incompat := e2p_swab32 incompat,
    s_feature_ro_compat := 0, s_nr_users := e2p_swab32 1, s_checksum_type := 4,
    s_checksum := 0, s_users := List.replicate 768 0 }

/-! ## The driver: `main` of dumpe2fs.c

`main` is followed from the end of option parsing: `driver_opts` holds the
variables that the `getopt` loop and `parse_extended_opts` set (the options
`-V`, a wrong option and a wrong argument count leave through `usage` or
`exit` before). The flag macros of ext2fs.h, the library calls and the text
writers that are not part of the claims are fields of `driver_env`; a text
writer is given by what it writes to standard output. The run is the sequence
of its steps, each a call with what it writes to standard output; `com_err`
writes to standard error. -/

/-- The macro `EXT2_MIN_BLOCK_SIZE` of ext2_fs.h. -/
def EXT2_MIN_BLOCK_SIZE : Nat := 1 <<< 10

/-- The macro `EXT2_MAX_BLOCK_SIZE` of ext2_fs.h. -/
def EXT2_MAX_BLOCK_SIZE : Nat := 1 <<< 16

/-- The variables of `main` that the option loop sets; a counter raised with
`++` is tested for being non-zero only. -/
structure driver_opts where
  print_badblocks : Bool
  force : Bool
  grp_only : Bool
  header_only : Bool
  image_dump : Bool
  hex_format : Bool
  json : Bool
  use_superblock : Nat
  use_blocksize : Nat

/-- What `main` takes from outside. -/
structure driver_env where
  EXT2_FLAG_JOURNAL_DEV_OK : Nat
  EXT2_FLAG_SOFTSUPP_FEATURES : Nat
  EXT2_FLAG_64BITS : Nat
  EXT2_FLAG_FORCE : Nat
  EXT2_FLAG_IMAGE_FILE : Nat
  EXT2_FLAG_IGNORE_CSUM_ERRORS : Nat
  EXT2_ET_BAD_MAGIC : Nat
  program_name : String
  device_name : String
  /-- The call `getenv("DUMPE2FS_IGNORE_80COL")` of `list_desc` gives a value -/
  ignore_80col : Bool
  /-- The call `ext2fs_open(device_name, flags, superblock, blocksize, ...)`:
  the error code and, when it is 0, the handle -/
  ext2fs_open : Nat → Nat → Nat → Nat × ext2_filsys
  /-- The call `ext2fs_read_bitmaps(fs)`: the error code and the two bitmaps
  of the handle afterwards; `fs->flags` is left as it was -/
  ext2fs_read_bitmaps : ext2_filsys → Nat × Option bitmap_handle × Option bitmap_handle
  error_message : Nat → String
  /-- What `check_plausibility(device_name, CHECK_FS_EXIST, NULL)` writes -/
  check_plausibility : Out
  /-- What `list_super(fs->super)` writes -/
  list_super : ext2_super_block → Out
  /-- What `print_journal_information(fs)` writes, and whether it leaves
  through `exit(1)` -/
  print_journal_information : ext2_filsys → Out × Bool
  /-- What `print_inline_journal_information(fs)` writes, and whether it
  leaves through `exit(1)` -/
  print_inline_journal_information : ext2_filsys → Out × Bool
  /-- What `list_bad_blocks(fs, dump)` writes -/
  list_bad_blocks : ext2_filsys → Bool → Out

/-- The calls that `main` makes after option parsing, and its own writes. -/
inductive driver_call where
  | printf
  | putchar
  | com_err
  | check_plausibility
  | list_super
  | print_journal_information
  | print_inline_journal_information
  | list_bad_blocks (dump : Bool)
  | ext2fs_read_bitmaps
  | list_desc (grp_only : Bool)
  | fill_json_desc
  | json_obj_print_json
  | json_obj_delete
  | ext2fs_close_free
  | exit (status : Nat)
  deriving DecidableEq, Repr

/-- A step of a run: the call and what it writes to standard output. -/
abbrev driver_step := driver_call × Out

/-- The calls of a run, in order. -/
def driver_calls (run : List driver_step) : List driver_call := run.map (fun s => s.1)

/-- What a run writes to standard output, in order. -/
def driver_stdout (run : List driver_step) : Out := (run.map (fun s => s.2)).flatten

/-- The loop `for (use_blocksize = EXT2_MIN_BLOCK_SIZE; use_blocksize <=
EXT2_MAX_BLOCK_SIZE; use_blocksize *= 2)` of `main` from `use_blocksize` on,
with `retval` and `fs` as the last call left them: `retval`, `fs` and
`use_blocksize` afterwards. Seven turns reach `EXT2_MAX_BLOCK_SIZE`. -/
def open_blocksize_loop (env : driver_env) (flags use_superblock : Nat) :
    Nat → Nat → Nat × ext2_filsys → Nat × ext2_filsys × Nat
  | 0, use_blocksize, last => (last.1, last.2, use_blocksize)
  | fuel + 1, use_blocksize, last =>
    if use_blocksize ≤ EXT2_MAX_BLOCK_SIZE then
      let r := env.ext2fs_open flags use_superblock use_blocksize
      if r.1 = 0 then (r.1, r.2, use_blocksize)
      else open_blocksize_loop env flags use_superblock fuel (use_blocksize * 2) r
    else (last.1, last.2, use_blocksize)

/-- The statements from the label `try_open_again` to the `goto`: one round
of opening. The loop is entered with `retval` not yet set; its first turn
always runs and sets it, so the last argument given to the loop here is never
read. -/
def open_round (env : driver_env) (flags use_superblock use_blocksize : Nat) :
    Nat × ext2_filsys × Nat :=
  if use_superblock ≠ 0 ∧ use_blocksize = 0 then
    open_blocksize_loop env flags use_superblock 8 EXT2_MIN_BLOCK_SIZE
      (env.ext2fs_open flags use_superblock EXT2_MIN_BLOCK_SIZE)
  else
    let r := env.ext2fs_open flags use_superblock use_blocksize
    (r.1, r.2, use_blocksize)

/-- The opening of the volume in `main`: a round, and a second round with
`EXT2_FLAG_IGNORE_CSUM_ERRORS` when the first fails without that flag:
`retval` and `fs`. -/
def open_volume (env : driver_env) (opts : driver_opts) : Nat × ext2_filsys :=
  let flags := env.EXT2_FLAG_JOURNAL_DEV_OK ||| env.EXT2_FLAG_SOFTSUPP_FEATURES |||
    env.EXT2_FLAG_64BITS
  let flags := if opts.force then flags ||| env.EXT2_FLAG_FORCE else flags
  let flags := if opts.image_dump then flags ||| env.EXT2_FLAG_IMAGE_FILE else flags
  let r := open_round env flags opts.use_superblock opts.use_blocksize
  if r.1 ≠ 0 ∧ flags &&& env.EXT2_FLAG_IGNORE_CSUM_ERRORS = 0 then
    let r2 := open_round env (flags ||| env.EXT2_FLAG_IGNORE_CSUM_ERRORS) opts.use_superblock
      r.2.2
    (r2.1, r2.2.1)
  else (r.1, r.2.1)

/-- The statements from the label `out` on. -/
def main_out (opts : driver_opts) (dump_obj : json_obj) : List driver_step :=
  (if opts.json then
    [(driver_call.json_obj_print_json, json_obj_print_json dump_obj 0),
     (driver_call.putchar, ["\n"]),
     (driver_call.json_obj_delete, [])]
   else []) ++
  [(driver_call.ext2fs_close_free, []), (driver_call.exit 0, [])]

/-- The statements from the label `just_descriptors` on, with `retval` as
the statements before left it. -/
def main_just_descriptors (env : driver_env) (opts : driver_opts) (d : Display)
    (fs : ext2_filsys) (retval : Nat) (dump_obj : json_obj) : List driver_step :=
  (if opts.json then [(driver_call.fill_json_desc, [])]
   else [(driver_call.list_desc opts.grp_only, list_desc d fs opts.grp_only env.ignore_80col)]) ++
  (if retval ≠ 0 then
    [(driver_call.printf, ["\n" ++ env.program_name ++ ": " ++ env.device_name ++
      ": error reading bitmaps: " ++ env.error_message retval ++ "\n"])]
   else []) ++
  main_out opts (if opts.json then fill_json_desc d dump_obj fs else dump_obj)

/-- The statements from `fs->flags &= ~EXT2_FLAG_IGNORE_CSUM_ERRORS` to the
label `just_descriptors`: the bitmaps are read, a second time with
`EXT2_FLAG_IGNORE_CSUM_ERRORS` when the first read fails; then the
descriptors. -/
def main_bitmaps (env : driver_env) (opts : driver_opts) (d : Display) (fs : ext2_filsys)
    (dump_obj : json_obj) : List driver_step :=
  let fs := { fs with flags := fs.flags ^^^ (fs.flags &&& env.EXT2_FLAG_IGNORE_CSUM_ERRORS) }
  let r := env.ext2fs_read_bitmaps fs
  let fs := { fs with block_map := r.2.1, inode_map := r.2.2 }
  if r.1 ≠ 0 ∧ fs.flags &&& env.EXT2_FLAG_IGNORE_CSUM_ERRORS = 0 then
    let fs := { fs with flags := fs.flags ||| env.EXT2_FLAG_IGNORE_CSUM_ERRORS }
    let r2 := env.ext2fs_read_bitmaps fs
    let fs := { fs with block_map := r2.2.1, inode_map := r2.2.2 }
    [(driver_call.ext2fs_read_bitmaps, []), (driver_call.ext2fs_read_bitmaps, [])] ++
    (if r2.1 = 0 ∧ fs.flags &&& env.EXT2_FLAG_IGNORE_CSUM_ERRORS ≠ 0 then
      [(driver_call.printf,
        ["\n*** Checksum errors detected in bitmaps!  Run e2fsck now!\n\n"])]
     else []) ++
    main_just_descriptors env opts d fs r2.1 dump_obj
  else
    [(driver_call.ext2fs_read_bitmaps, [])] ++
    (if r.1 = 0 ∧ fs.flags &&& env.EXT2_FLAG_IGNORE_CSUM_ERRORS ≠ 0 then
      [(driver_call.printf,
        ["\n*** Checksum errors detected in bitmaps!  Run e2fsck now!\n\n"])]
     else []) ++
    main_just_descriptors env opts d fs r.1 dump_obj

/-- The `else` branch of `if (print_badblocks)` from the call of
`print_inline_journal_information` on. -/
def main_after_journal_dev (env : driver_env) (opts : driver_opts) (d : Display)
    (fs : ext2_filsys) (dump_obj : json_obj) : List driver_step :=
  let inline_journal := env.print_inline_journal_information fs
  if !opts.json ∧ fs.super.has_feature_journal ∧ fs.super.s_journal_inum ≠ 0 ∧
      inline_journal.2 then
    [(driver_call.print_inline_journal_information, inline_journal.1), (driver_call.exit 1, [])]
  else
    (if !opts.json ∧ fs.super.has_feature_journal ∧ fs.super.s_journal_inum ≠ 0 then
      [(driver_call.print_inline_journal_information, inline_journal.1)] else []) ++
    (if !opts.json then [(driver_call.list_bad_blocks false, env.list_bad_blocks fs false)]
     else []) ++
    (if opts.header_only then main_out opts dump_obj
     else main_bitmaps env opts d fs dump_obj)

/-- The statements of `main` after the volume is open: from
`if (json) dump_obj = json_obj_create()` on. -/
def main_report (env : driver_env) (opts : driver_opts) (fs : ext2_filsys) :
    List driver_step :=
  let dump_obj := json_obj_create
  let d : Display := { hex_format := opts.hex_format, blocks64 := fs.super.has_feature_64bit }
  if opts.print_badblocks then
    (if !opts.json then [(driver_call.list_bad_blocks true, env.list_bad_blocks fs true)]
     else []) ++
    main_out opts dump_obj
  else if opts.grp_only then
    main_just_descriptors env opts d fs 0 dump_obj
  else
    (if !opts.json then [(driver_call.list_super, env.list_super fs.super)] else []) ++
    (if !opts.json ∧ fs.super.has_feature_journal_dev then
      [(driver_call.print_journal_information, (env.print_journal_information fs).1)] ++
      (if (env.print_journal_information fs).2 then [(driver_call.exit 1, [])]
       else main_out opts dump_obj)
     else main_after_journal_dev env opts d fs dump_obj)

/-- The function `main` of dumpe2fs.c after option parsing: the steps of the
run. -/
def main (env : driver_env) (opts : driver_opts) : List driver_step :=
  let r := open_volume env opts
  let retval := r.1
  let fs := r.2
  (if retval = 0 ∧ fs.flags &&& env.EXT2_FLAG_IGNORE_CSUM_ERRORS ≠ 0 then
    [(driver_call.printf,
      ["\n*** Checksum errors detected in filesystem!  Run e2fsck now!\n\n"])]
   else []) ++
  (if retval ≠ 0 then
    [(driver_call.com_err, []),
     (driver_call.printf, ["Couldn't find valid filesystem superblock.\n"])] ++
    (if retval = env.EXT2_ET_BAD_MAGIC then
      [(driver_call.check_plausibility, env.check_plausibility)] else []) ++
    [(driver_call.exit 1, [])]
   else main_report env opts fs)

/-- Whether a call is one of the writers of the text report. -/
def driver_call.text_writer : driver_call → Bool
  | driver_call.list_super => true
  | driver_call.print_journal_information => true
  | driver_call.print_inline_journal_information => true
  | driver_call.list_bad_blocks _ => true
  | driver_call.list_desc _ => true
  | _ => false

/-- Whether a call builds, serializes or frees the document. -/
def driver_call.json_writer : driver_call → Bool
  | driver_call.fill_json_desc => true
  | driver_call.json_obj_print_json => true
  | driver_call.json_obj_delete => true
  | _ => false

/-- Whether a call loads the bitmaps or runs the per-group loop. -/
def driver_call.bitmaps_or_groups : driver_call → Bool
  | driver_call.ext2fs_read_bitmaps => true
  | driver_call.list_desc _ => true
  | driver_call.fill_json_desc => true
  | _ => false

/-- An environment for the concrete examples: the volume opens with the
error code `open_retval` and the handle `fs`, every read of the bitmaps gives
`bitmaps`, and each text writer writes one line naming it. -/
def sample_driver_env (fs : ext2_filsys) (open_retval : Nat)
    (bitmaps : Nat × Option bitmap_handle × Option bitmap_handle) : driver_env :=
  { EXT2_FLAG_JOURNAL_DEV_OK := 0x1000,
    EXT2_FLAG_SOFTSUPP_FEATURES := 0x8000,
    EXT2_FLAG_64BITS := 0x20000,
    EXT2_FLAG_FORCE := 0x400,
    EXT2_FLAG_IMAGE_FILE := 0x2000,
    EXT2_FLAG_IGNORE_CSUM_ERRORS := 0x200000,
    EXT2_ET_BAD_MAGIC := 2133571347,
    program_name := "dumpe2fs",
    device_name := "/dev/sda1",
    ignore_80col := false,
    ext2fs_open := fun _ _ _ => (open_retval, fs),
    ext2fs_read_bitmaps := fun _ => bitmaps,
    error_message := fun _ => "I/O error",
    check_plausibility := [],
    list_super := fun _ => ["<superblock summary>\n"],
    print_journal_information := fun _ => (["<journal summary>\n"], false),
    print_inline_journal_information := fun _ => (["<journal summary>\n"], false),
    list_bad_blocks := fun _ _ => ["\n"] }

/-- No option given. -/
def sample_opts : driver_opts :=
  { print_badblocks := false, force := false, grp_only := false, header_only := false,
    image_dump := false, hex_format := false, json := false, use_superblock := 0,
    use_blocksize := 0 }

/-- The sample filesystem marked as a dedicated journal device. -/
def sample_journal_dev : ext2_filsys :=
  { sample_fs none none with
    super := { (sample_fs none none).super with has_feature_journal_dev := true } }

/-! ## Reading a number text back

The program only writes numbers. To state that a stored text determines the
number it was formatted from, the texts are read back by the functions below:
digits most significant first, decimal in decimal mode, `0x` and hexadecimal
digits in hexadecimal mode, the way `strtoull` reads them. -/

/-- The value of a digit character, `0`..`9`, `a`..`f` or `A`..`F`; nothing for
any other character. -/
def digit_value (c : Char) : Option Nat :=
  if 48 ≤ c.toNat ∧ c.toNat ≤ 57 then some (c.toNat - 48)
  else if 97 ≤ c.toNat ∧ c.toNat ≤ 102 then some (c.toNat - 97 + 10)
  else if 65 ≤ c.toNat ∧ c.toNat ≤ 70 then some (c.toNat - 65 + 10)
  else none

/-- The number read from the digits `cs` in base `base`, most significant
first, continuing from the value `acc`; nothing when a character is not a
digit of the base. -/
def parse_digits_from (base : Nat) : Nat → List Char → Option Nat
  | acc, [] => some acc
  | acc, c :: cs =>
    match digit_value c with
    | some v => if v < base then parse_digits_from base (base * acc + v) cs else none
    | none => none

/-- The number read from a non-empty sequence of digits of base `base`. -/
def parse_digits (base : Nat) (cs : List Char) : Option Nat :=
  if cs.isEmpty then none else parse_digits_from base 0 cs

/-- The number read from a text in the base of the display mode: decimal
digits in decimal mode, `0x` followed by hexadecimal digits in either
hexadecimal mode. -/
def parse_number (d : Display) (s : String) : Option Nat :=
  if d.hex_format then
    if s.data.take 2 = ['0', 'x'] then parse_digits 16 (s.data.drop 2) else none
  else parse_digits 10 s.data

/-- The range read back from an extent object: its `start` and `len` strings
read in the base of the display mode, and the pair of `start` and
`start + len - 1` in exact integers. -/
def range_read_back (d : Display) (obj : json_obj) : Option (Int × Int) :=
  match obj.lookup "start", obj.lookup "len" with
  | some (json_val.str start), some (json_val.str len) =>
    match parse_number d start, parse_number d len with
    | some a, some n => some ((a : Int), (a : Int) + (n : Int) - 1)
    | _, _ => none
  | _, _ => none

/-! ## The remaining functions of json-out.c that add a pair -/

/-- The walk to the last element puts the new element at the end. -/
theorem chain_link_last_eq {α : Type} (node : α) (next : List α) (new_node : α) :
    chain_link_last node next new_node = node :: next ++ [new_node] := by
  induction next generalizing node with
  | nil => rfl
  | cons n rest ih => simp [chain_link_last, ih]

theorem json_obj_add_pair_eq (obj : json_obj) (key : String) (type : json_val_type)
    (val : json_val) :
    json_obj_add_pair obj key type val = { pair := obj.pair ++ [(key, type, val)] } := by
  unfold json_obj_add_pair
  cases h : obj.pair with
  | nil => simp
  | cons p next => simp [chain_link_last_eq]

theorem json_list_add_node_eq (list : json_list) (val : json_val) :
    json_list_add_node list val = { type := list.type, node := list.node ++ [val] } := by
  unfold json_list_add_node
  cases h : list.node with
  | nil => simp
  | cons n next => simp [chain_link_last_eq]

/-! ## The inner loop and the run scan -/

theorem scan_run_ge (bitmap : Bitmap) (num : Nat) (fuel j : Nat) :
    j ≤ scan_run bitmap num fuel j := by
  induction fuel generalizing j with
  | zero => simp [scan_run]
  | succ f ih =>
    unfold scan_run
    split
    · exact Nat.le_trans (Nat.le_succ j) (ih (j + 1))
    · exact Nat.le_refl j

theorem scan_run_le (bitmap : Bitmap) (num : Nat) (fuel j : Nat) (h : j ≤ num) :
    scan_run bitmap num fuel j ≤ num := by
  induction fuel generalizing j with
  | zero => simpa [scan_run] using h
  | succ f ih =>
    unfold scan_run
    split
    · rename_i hc
      simp only [Bool.and_eq_true, decide_eq_true_eq] at hc
      exact ih (j + 1) hc.1
    · exact h

theorem scan_run_free (bitmap : Bitmap) (num : Nat) (fuel j k : Nat)
    (h1 : j ≤ k) (h2 : k < scan_run bitmap num fuel j) : bitmap k = false := by
  induction fuel generalizing j with
  | zero => simp [scan_run] at h2; omega
  | succ f ih =>
    unfold scan_run at h2
    split at h2
    · rename_i hc
      simp only [Bool.and_eq_true, decide_eq_true_eq, Bool.not_eq_true', in_use] at hc
      rcases Nat.eq_or_lt_of_le h1 with rfl | hlt
      · exact hc.2
      · exact ih (j + 1) hlt h2
    · omega

theorem scan_run_stop (bitmap : Bitmap) (num : Nat) (fuel j : Nat)
    (hf : num - j ≤ fuel) (h : scan_run bitmap num fuel j < num) :
    bitmap (scan_run bitmap num fuel j) = true := by
  induction fuel generalizing j with
  | zero => simp [scan_run] at h; omega
  | succ f ih =>
    unfold scan_run at h ⊢
    split
    · rename_i hc
      rw [if_pos hc] at h
      simp only [Bool.and_eq_true, decide_eq_true_eq] at hc
      exact ih (j + 1) (by omega) h
    · rename_i hc
      rw [if_neg hc] at h
      simp only [Bool.and_eq_true, decide_eq_true_eq, Bool.not_eq_true', in_use, not_and,
        Bool.not_eq_false] at hc
      exact hc h

theorem scan_run_step (bitmap : Bitmap) (num : Nat) (i : Nat)
    (hi : i < num) (hfree : bitmap i = false) :
    i + 1 ≤ scan_run bitmap num (num - i) i := by
  obtain ⟨f, hf⟩ : ∃ f, num - i = f + 1 := ⟨num - i - 1, by omega⟩
  rw [hf]
  unfold scan_run
  have hc : (decide (i < num) && !in_use bitmap i) = true := by simp [in_use, hi, hfree]
  rw [if_pos hc]
  exact scan_run_ge bitmap num f (i + 1)

/-- One unfolding of the run scan at a free entry. -/
theorem free_runs_loop_free (bitmap : Bitmap) (num fuel i : Nat)
    (hi : i < num) (hfree : bitmap i = false) :
    free_runs_loop bitmap num (fuel + 1) i =
      (i, scan_run bitmap num (num - i) i - 1) ::
        free_runs_loop bitmap num fuel (scan_run bitmap num (num - i) i - 1 + 1) := by
  simp [free_runs_loop, hi, in_use, hfree]

/-- One unfolding of the run scan at an entry in use. -/
theorem free_runs_loop_used (bitmap : Bitmap) (num fuel i : Nat)
    (hi : i < num) (hused : bitmap i = true) :
    free_runs_loop bitmap num (fuel + 1) i = free_runs_loop bitmap num fuel (i + 1) := by
  simp [free_runs_loop, hi, in_use, hused]

/-- The scan is over at `num`. -/
theorem free_runs_loop_done (bitmap : Bitmap) (num fuel i : Nat) (hi : num ≤ i) :
    free_runs_loop bitmap num fuel i = [] := by
  cases fuel with
  | zero => rfl
  | succ f => simp [free_runs_loop, Nat.not_lt.mpr hi]

/-- What holds of every run the scan emits from index `i` on. -/
theorem free_runs_loop_mem (bitmap : Bitmap) (num : Nat) (fuel i : Nat)
    (hf : num - i ≤ fuel) (r : Nat × Nat) (hr : r ∈ free_runs_loop bitmap num fuel i) :
    i ≤ r.1 ∧ r.1 ≤ r.2 ∧ r.2 < num ∧ (∀ k, r.1 ≤ k → k ≤ r.2 → bitmap k = false) ∧
      (r.2 + 1 < num → bitmap (r.2 + 1) = true) ∧
      (r.1 = i ∨ bitmap (r.1 - 1) = true) := by
  induction fuel generalizing i with
  | zero => simp [free_runs_loop] at hr
  | succ f ih =>
    by_cases hi : i < num
    · cases hb : bitmap i with
      | false =>
        rw [free_runs_loop_free bitmap num f i hi hb] at hr
        have h1 := scan_run_step bitmap num i hi hb
        have h2 := scan_run_le bitmap num (num - i) i (Nat.le_of_lt hi)
        have h3 := scan_run_free bitmap num (num - i) i
        have h4 := scan_run_stop bitmap num (num - i) i (Nat.le_refl _)
        generalize scan_run bitmap num (num - i) i = e at hr h1 h2 h3 h4
        have he : e - 1 + 1 = e := by omega
        rw [he] at hr
        rcases List.mem_cons.mp hr with rfl | hr
        · refine ⟨Nat.le_refl _, by simp; omega, by simp; omega, ?_, ?_, Or.inl rfl⟩
          · intro k hk1 hk2
            exact h3 k hk1 (by simp at hk2; omega)
          · intro hlt
            simp only [he] at hlt ⊢
            exact h4 hlt
        · obtain ⟨a1, a2, a3, a4, a5, a6⟩ := ih e (by omega) hr
          refine ⟨by omega, a2, a3, a4, a5, Or.inr ?_⟩
          rcases a6 with a6 | a6
          · have hfr : bitmap r.1 = false := a4 r.1 (Nat.le_refl _) a2
            have : bitmap e = true := h4 (by omega)
            rw [a6] at hfr
            rw [hfr] at this
            exact absurd this (by simp)
          · exact a6
      | true =>
        rw [free_runs_loop_used bitmap num f i hi hb] at hr
        obtain ⟨a1, a2, a3, a4, a5, a6⟩ := ih (i + 1) (by omega) hr
        refine ⟨by omega, a2, a3, a4, a5, Or.inr ?_⟩
        rcases a6 with a6 | a6
        · rw [a6]; simpa using hb
        · exact a6
    · rw [free_runs_loop_done bitmap num _ i (Nat.le_of_not_lt hi)] at hr
      simp at hr

/-- Consecutive runs are separated by at least one entry. -/
theorem free_runs_loop_pairwise (bitmap : Bitmap) (num : Nat) (fuel i : Nat)
    (hf : num - i ≤ fuel) :
    (free_runs_loop bitmap num fuel i).Pairwise (fun r s => r.2 + 1 < s.1) := by
  induction fuel generalizing i with
  | zero => simp [free_runs_loop]
  | succ f ih =>
    by_cases hi : i < num
    · cases hb : bitmap i with
      | false =>
        rw [free_runs_loop_free bitmap num f i hi hb]
        have h1 := scan_run_step bitmap num i hi hb
        have h4 := scan_run_stop bitmap num (num - i) i (Nat.le_refl _)
        generalize scan_run bitmap num (num - i) i = e at h1 h4
        have he : e - 1 + 1 = e := by omega
        rw [he]
        refine List.pairwise_cons.mpr ⟨?_, ih e (by omega)⟩
        intro s hs
        obtain ⟨a1, a2, a3, a4, -, -⟩ := free_runs_loop_mem bitmap num f e (by omega) s hs
        have hfr : bitmap s.1 = false := a4 s.1 (Nat.le_refl _) a2
        simp only [he]
        rcases Nat.eq_or_lt_of_le a1 with heq | hlt
        · have : bitmap e = true := h4 (by omega)
          rw [heq, hfr] at this
          exact absurd this (by simp)
        · exact hlt
      | true =>
        rw [free_runs_loop_used bitmap num f i hi hb]
        exact ih (i + 1) (by omega)
    · rw [free_runs_loop_done bitmap num _ i (Nat.le_of_not_lt hi)]
      exact List.Pairwise.nil

/-- Every free entry from `i` on lies in an emitted run. -/
theorem free_runs_loop_cover (bitmap : Bitmap) (num : Nat) (fuel i : Nat)
    (hf : num - i ≤ fuel) (k : Nat) (hk1 : i ≤ k) (hk2 : k < num) (hk : bitmap k = false) :
    ∃ r ∈ free_runs_loop bitmap num fuel i, r.1 ≤ k ∧ k ≤ r.2 := by
  induction fuel generalizing i with
  | zero => omega
  | succ f ih =>
    have hi : i < num := by omega
    cases hb : bitmap i with
    | false =>
      rw [free_runs_loop_free bitmap num f i hi hb]
      have h1 := scan_run_step bitmap num i hi hb
      generalize scan_run bitmap num (num - i) i = e at h1
      have he : e - 1 + 1 = e := by omega
      rw [he]
      by_cases hke : k < e
      · exact ⟨(i, e - 1), List.mem_cons_self _ _, hk1, by simp; omega⟩
      · obtain ⟨r, hr, hr1, hr2⟩ := ih e (by omega) (by omega)
        exact ⟨r, List.mem_cons_of_mem _ hr, hr1, hr2⟩
    | true =>
      rw [free_runs_loop_used bitmap num f i hi hb]
      have : i ≠ k := by
        intro h; rw [h, hk] at hb; exact absurd hb (by simp)
      obtain ⟨r, hr, hr1, hr2⟩ := ih (i + 1) (by omega) (by omega)
      exact ⟨r, hr, hr1, hr2⟩

/-! ## Fuel: the loops end before their fuel does -/

/-- The inner loop gives the same result with any fuel of at least `num - j`. -/
theorem scan_run_fuel (bitmap : Bitmap) (num : Nat) (fuel1 fuel2 j : Nat)
    (h1 : num - j ≤ fuel1) (h2 : num - j ≤ fuel2) :
    scan_run bitmap num fuel1 j = scan_run bitmap num fuel2 j := by
  induction fuel1 generalizing fuel2 j with
  | zero =>
    have hj : ¬ j < num := by omega
    cases fuel2 with
    | zero => rfl
    | succ f2 => simp [scan_run, hj]
  | succ f1 ih =>
    cases fuel2 with
    | zero =>
      have hj : ¬ j < num := by omega
      simp [scan_run, hj]
    | succ f2 =>
      unfold scan_run
      by_cases hc : (decide (j < num) && !in_use bitmap j) = true
      · rw [if_pos hc, if_pos hc]
        simp only [Bool.and_eq_true, decide_eq_true_eq] at hc
        exact ih f2 (j + 1) (by omega) (by omega)
      · rw [if_neg hc, if_neg hc]

/-- The run scan gives the same result with any fuel of at least `num - i`. -/
theorem free_runs_loop_fuel (bitmap : Bitmap) (num : Nat) (fuel1 fuel2 i : Nat)
    (h1 : num - i ≤ fuel1) (h2 : num - i ≤ fuel2) :
    free_runs_loop bitmap num fuel1 i = free_runs_loop bitmap num fuel2 i := by
  induction fuel1 generalizing fuel2 i with
  | zero =>
    rw [free_runs_loop_done bitmap num 0 i (by omega),
      free_runs_loop_done bitmap num fuel2 i (by omega)]
  | succ f1 ih =>
    cases fuel2 with
    | zero =>
      rw [free_runs_loop_done bitmap num (f1 + 1) i (by omega),
        free_runs_loop_done bitmap num 0 i (by omega)]
    | succ f2 =>
      by_cases hi : i < num
      · cases hb : bitmap i with
        | false =>
          rw [free_runs_loop_free bitmap num f1 i hi hb, free_runs_loop_free bitmap num f2 i hi hb]
          have hs := scan_run_step bitmap num i hi hb
          rw [ih f2 _ (by omega) (by omega)]
        | true =>
          rw [free_runs_loop_used bitmap num f1 i hi hb, free_runs_loop_used bitmap num f2 i hi hb]
          exact ih f2 (i + 1) (by omega) (by omega)
      · rw [free_runs_loop_done bitmap num _ i (by omega),
          free_runs_loop_done bitmap num _ i (by omega)]

/-- The scan from index `i`, unfolded once: the loop of the source. -/
theorem free_runs_loop_unfold (bitmap : Bitmap) (num i : Nat) :
    free_runs_loop bitmap num (num - i) i =
      if i < num then
        if !in_use bitmap i then
          (i, scan_run bitmap num (num - i) i - 1) ::
            free_runs_loop bitmap num (num - (scan_run bitmap num (num - i) i - 1 + 1))
              (scan_run bitmap num (num - i) i - 1 + 1)
        else free_runs_loop bitmap num (num - (i + 1)) (i + 1)
      else [] := by
  by_cases hi : i < num
  · obtain ⟨f, hf⟩ : ∃ f, num - i = f + 1 := ⟨num - i - 1, by omega⟩
    cases hb : bitmap i with
    | false =>
      have hs := scan_run_step bitmap num i hi hb
      rw [if_pos hi, if_pos (by simp [in_use, hb])]
      conv_lhs => rw [hf]
      rw [free_runs_loop_free bitmap num f i hi hb]
      rw [free_runs_loop_fuel bitmap num f _ _ (by omega) (Nat.le_refl _)]
    | true =>
      rw [if_pos hi, if_neg (by simp [in_use, hb])]
      conv_lhs => rw [hf]
      rw [free_runs_loop_used bitmap num f i hi hb]
      exact free_runs_loop_fuel bitmap num f _ _ (by omega) (Nat.le_refl _)
  · rw [if_neg hi]
    exact free_runs_loop_done bitmap num _ i (by omega)

/-! ## Lengths of formatted numbers -/

theorem snprintf_of_length_le (size : Nat) (s : String) (h : s.length ≤ size - 1) :
    snprintf size s = s := by
  unfold snprintf
  have h2 : s.data.length ≤ size - 1 := h
  rw [List.take_of_length_le h2]

theorem fmt_dec_length (n : Nat) (h : n < ULONG_MOD) : (fmt_dec n).length ≤ 20 := by
  unfold fmt_dec
  refine Nat.repr_length n 20 (by decide) (Nat.lt_trans h ?_)
  norm_num [ULONG_MOD]

theorem hex_digits_length (n : Nat) (h : n < ULONG_MOD) : (hex_digits n).length ≤ 16 := by
  unfold hex_digits Nat.toDigits
  refine Nat.toDigitsCore_length 16 (by decide) (n + 1) n 16 ?_ (by decide)
  refine Nat.lt_of_lt_of_le h ?_
  norm_num [ULONG_MOD]

theorem fmt_hex_length (width n : Nat) (hw : width ≤ 16) (h : n < ULONG_MOD) :
    (fmt_hex width n).length ≤ 18 := by
  have hl := hex_digits_length n h
  unfold fmt_hex
  rw [String.length_append]
  have h1 : "0x".length = 2 := by decide
  have h2 : (String.mk (List.replicate (width - (hex_digits n).length) '0' ++
      hex_digits n)).length = width - (hex_digits n).length + (hex_digits n).length := by
    simp [String.length]
  omega

theorem print_number_eq (d : Display) (num : Nat) :
    print_number d num = [number_text d num] := by
  unfold number_text print_number Out.text
  split
  · split <;> simp [String.join]
  · simp [String.join]

theorem number_text_length (d : Display) (n : Nat) (h : n < ULONG_MOD) :
    (number_text d n).length ≤ 20 := by
  unfold number_text print_number Out.text
  split
  · split
    · have := fmt_hex_length 8 n (by decide) h
      simp [String.join]; omega
    · have := fmt_hex_length 4 n (by decide) h
      simp [String.join]; omega
  · have := fmt_dec_length n h
    simpa [String.join] using this

theorem range_fmt_eq (d : Display) (n : Nat) :
    (if d.hex_format then (if d.blocks64 then fmt_hex 8 else fmt_hex 4) else fmt_dec) n =
      number_text d n := by
  unfold number_text print_number Out.text
  split
  · split <;> simp [String.join]
  · simp [String.join]

/-- The object `json_create_range_obj` builds: no truncation happens in its
32-byte buffer. -/
theorem json_create_range_obj_eq (d : Display) (a b : Nat) (ha : a < ULONG_MOD) :
    json_val.obj (json_create_range_obj d a b).pair =
      extent_obj d a ((b + ULONG_MOD - a + 1) % ULONG_MOD) := by
  have hlen : (b + ULONG_MOD - a + 1) % ULONG_MOD < ULONG_MOD :=
    Nat.mod_lt _ (by norm_num [ULONG_MOD])
  have h1 := number_text_length d a ha
  have h2 := number_text_length d _ hlen
  unfold json_create_range_obj extent_obj
  simp only [json_obj_add_fmt_buf_str, json_obj_add_str, json_obj_add_pair_eq, json_obj_create,
    range_fmt_eq, List.nil_append, List.cons_append]
  rw [snprintf_of_length_le 32 _ (by omega), snprintf_of_length_le 32 _ (by omega)]

theorem scan_value_lt (offset ratio i : Nat) : scan_value offset ratio i < ULONG_MOD :=
  Nat.mod_lt _ (by norm_num [ULONG_MOD])

/-- The list `fill_json_free` leaves is the old list followed by one range
object per emitted run. -/
theorem fill_json_free_loop_eq (d : Display) (bitmap : Bitmap) (num offset ratio : Nat)
    (fuel i : Nat) (list : json_list) :
    fill_json_free_loop d bitmap num offset ratio fuel i list =
      { type := list.type,
        node := list.node ++ (free_runs_loop bitmap num fuel i).map (fun r =>
          extent_obj d (scan_value offset ratio r.1)
            ((scan_value offset ratio r.2 + ULONG_MOD - scan_value offset ratio r.1 + 1)
              % ULONG_MOD)) } := by
  induction fuel generalizing i list with
  | zero => simp [fill_json_free_loop, free_runs_loop]
  | succ f ih =>
    unfold fill_json_free_loop free_runs_loop
    by_cases hi : i < num
    · simp only [hi, if_true]
      by_cases hb : (!in_use bitmap i) = true
      · simp only [hb, if_true]
        by_cases hj : scan_run bitmap num (num - i) i - 1 = i
        · simp only [hj, if_true, ih, json_list_add_obj, json_list_add_node_eq, List.map_cons,
            json_create_range_obj_eq d _ _ (scan_value_lt offset ratio i),
            List.append_assoc, List.singleton_append]
        · simp only [hj, if_false, ih, json_list_add_obj, json_list_add_node_eq, List.map_cons,
            json_create_range_obj_eq d _ _ (scan_value_lt offset ratio i),
            List.append_assoc, List.singleton_append]
      · simp only [hb, ih]
        simp
    · simp [hi]

/-- The writes of `print_free` are the rendering of the emitted runs. -/
theorem print_free_loop_eq (d : Display) (bitmap : Bitmap) (num offset ratio : Nat)
    (fuel i : Nat) (p : Bool) :
    print_free_loop d bitmap num offset ratio fuel i p =
      runs_out d (scan_value offset ratio) p (free_runs_loop bitmap num fuel i) := by
  induction fuel generalizing i p with
  | zero => simp [print_free_loop, free_runs_loop, runs_out]
  | succ f ih =>
    unfold print_free_loop free_runs_loop
    by_cases hi : i < num
    · simp only [hi, if_true]
      by_cases hb : (!in_use bitmap i) = true
      · simp only [hb, if_true, runs_out, print_number_eq]
        by_cases hj : scan_run bitmap num (num - i) i - 1 = i
        · simp [hj, ih]
        · simp [hj, ih]
      · simp only [hb, ih]
        simp
    · simp [hi, runs_out]

/-- The value the scan computes for index `x`, as one formula modulo 2^64. -/
theorem scan_value_eq (group num offset ratio x : Nat) :
    scan_value (scan_offset group num offset ratio) ratio x =
      ((x + offset / ratio + group * num) * ratio) % ULONG_MOD := by
  unfold scan_value scan_offset
  have h1 : (x + (offset / ratio + group * num % ULONG_MOD) % ULONG_MOD) % ULONG_MOD =
      (x + offset / ratio + group * num) % ULONG_MOD := by
    have h := Nat.ModEq.add_left x ((Nat.mod_modEq (offset / ratio + group * num % ULONG_MOD)
      ULONG_MOD).trans (Nat.ModEq.add_left (offset / ratio) (Nat.mod_modEq (group * num) ULONG_MOD)))
    rw [← Nat.add_assoc] at h
    exact h
  rw [h1, Nat.mod_mul_mod]

theorem scan_value_fun_eq (group num offset ratio : Nat) :
    scan_value (scan_offset group num offset ratio) ratio =
      fun x => ((x + offset / ratio + group * num) * ratio) % ULONG_MOD :=
  funext (scan_value_eq group num offset ratio)

/-- Without overflow the value of an index below `num` is the plain formula. -/
theorem scan_value_exact (group num offset ratio x : Nat) (hx : x ≤ num)
    (h : (num + offset / ratio + group * num) * ratio < ULONG_MOD) :
    ((x + offset / ratio + group * num) * ratio) % ULONG_MOD =
      (x + offset / ratio + group * num) * ratio := by
  apply Nat.mod_eq_of_lt
  refine Nat.lt_of_le_of_lt (Nat.mul_le_mul_right ratio ?_) h
  omega

/-- The stored length of a run, when `num * ratio` fits in 64 bits. -/
theorem scan_len_eq (group num offset ratio i j : Nat) (hij : i ≤ j) (hj : j < num)
    (hr : 1 ≤ ratio) (hn : num * ratio < ULONG_MOD) :
    (scan_value (scan_offset group num offset ratio) ratio j + ULONG_MOD -
      scan_value (scan_offset group num offset ratio) ratio i + 1) % ULONG_MOD =
      (j - i) * ratio + 1 := by
  rw [scan_value_eq, scan_value_eq]
  obtain ⟨t, rfl⟩ := Nat.exists_eq_add_of_le hij
  have ht : i + t - i = t := by omega
  rw [ht]
  have hB : (i + t + offset / ratio + group * num) * ratio =
      (i + offset / ratio + group * num) * ratio + t * ratio := by ring
  rw [hB]
  have hD : t * ratio + 1 < ULONG_MOD := by
    have h1 : (t + 1) * ratio ≤ num * ratio := Nat.mul_le_mul_right ratio (by omega)
    have h2 : (t + 1) * ratio = t * ratio + ratio := by ring
    omega
  generalize (i + offset / ratio + group * num) * ratio = A at *
  generalize t * ratio = D at *
  have hA := Nat.div_add_mod A ULONG_MOD
  have hAD := Nat.div_add_mod (A + D) ULONG_MOD
  have hA' := Nat.mod_lt A (show 0 < ULONG_MOD by norm_num [ULONG_MOD])
  have hAD' := Nat.mod_lt (A + D) (show 0 < ULONG_MOD by norm_num [ULONG_MOD])
  generalize A / ULONG_MOD = qa at *
  generalize (A + D) / ULONG_MOD = qb at *
  generalize A % ULONG_MOD = ra at *
  generalize (A + D) % ULONG_MOD = rb at *
  simp only [ULONG_MOD] at *
  omega

/-- The last value of a run is its start plus its stored length less one. -/
theorem scan_last_eq (group num offset ratio i j : Nat) (hij : i ≤ j) :
    (scan_value (scan_offset group num offset ratio) ratio i + ((j - i) * ratio + 1) - 1)
      % ULONG_MOD = scan_value (scan_offset group num offset ratio) ratio j := by
  rw [scan_value_eq, scan_value_eq]
  obtain ⟨t, rfl⟩ := Nat.exists_eq_add_of_le hij
  have ht : i + t - i = t := by omega
  rw [ht]
  have hB : (i + t + offset / ratio + group * num) * ratio =
      (i + offset / ratio + group * num) * ratio + t * ratio := by ring
  rw [hB]
  have h1 : ∀ x y : Nat, x + (y + 1) - 1 = x + y := by intro x y; omega
  rw [h1, Nat.mod_add_mod]

theorem fill_json_free_eq_runs (d : Display) (list : json_list) (group : Nat)
    (bitmap : Bitmap) (num offset ratio : Nat) :
    fill_json_free d list group bitmap num offset ratio =
      { type := list.type,
        node := list.node ++ (free_runs bitmap num).map (fun r =>
          json_val.obj (json_create_range_obj d
            (scan_value (scan_offset group num offset ratio) ratio r.1)
            (scan_value (scan_offset group num offset ratio) ratio r.2)).pair) } := by
  unfold fill_json_free free_runs
  rw [fill_json_free_loop_eq]
  congr 2
  apply List.map_congr_left
  intro r _
  exact (json_create_range_obj_eq d _ _ (scan_value_lt _ ratio r.1)).symm

theorem fill_json_free_eq_extents (d : Display) (list : json_list) (group : Nat)
    (bitmap : Bitmap) (num offset ratio : Nat) :
    fill_json_free d list group bitmap num offset ratio =
      { type := list.type,
        node := list.node ++ (free_extents group bitmap num offset ratio).map
          (fun e => extent_obj d e.1 e.2) } := by
  unfold fill_json_free free_extents free_runs
  rw [fill_json_free_loop_eq, List.map_map]
  rfl

theorem print_free_eq_runs (d : Display) (group : Nat) (bitmap : Bitmap)
    (num offset ratio : Nat) :
    print_free d group bitmap num offset ratio =
      runs_out d (scan_value (scan_offset group num offset ratio) ratio) false
        (free_runs bitmap num) :=
  print_free_loop_eq d bitmap num _ ratio num 0 false

/-! ## Text of a rendered run sequence -/

theorem intercalate_go_data (acc s : String) (l : List String) :
    (String.intercalate.go acc s l).data =
      acc.data ++ (l.map (fun a => s.data ++ a.data)).flatten := by
  induction l generalizing acc with
  | nil => simp [String.intercalate.go]
  | cons a as ih => simp [String.intercalate.go, ih, String.data_append]

theorem runs_out_true_data (d : Display) (value : Nat → Nat) (rs : List (Nat × Nat)) :
    (Out.text (runs_out d value true rs)).data =
      (rs.map (fun r => ", ".data ++ (run_text d value r).data)).flatten := by
  induction rs with
  | nil => simp [runs_out, Out.text]
  | cons r rs ih =>
    unfold Out.text at ih ⊢
    rw [String.data_join] at ih ⊢
    simp only [runs_out, if_true, List.map_append, List.flatten_append, ih, List.map_cons,
      List.flatten_cons, List.map_nil, List.flatten_nil, List.append_nil, run_text]
    by_cases h : r.2 ≠ r.1
    · simp [h, String.data_append]
    · simp [h]

theorem runs_out_text (d : Display) (value : Nat → Nat) (rs : List (Nat × Nat)) :
    Out.text (runs_out d value false rs) = ", ".intercalate (rs.map (run_text d value)) := by
  cases rs with
  | nil => simp [runs_out, Out.text, String.intercalate, String.join]
  | cons r rs =>
    apply String.ext
    have ih := runs_out_true_data d value rs
    unfold Out.text at ih ⊢
    rw [String.data_join] at ih ⊢
    simp only [List.map_cons, String.intercalate, intercalate_go_data, runs_out,
      List.map_append, List.flatten_append, ih, List.map_map]
    by_cases h : r.2 ≠ r.1
    · simp [h, run_text, String.data_append, Function.comp_def]
    · simp [h, run_text, Function.comp_def]

/-- A bitmap whose free entries below `num` are exactly `lo..hi` is scanned
into the single run `(lo, hi)`. -/
theorem free_runs_single (bitmap : Bitmap) (num lo hi : Nat) (hlo : lo ≤ hi) (hhi : hi < num)
    (h : ∀ k, k < num → (bitmap k = false ↔ lo ≤ k ∧ k ≤ hi)) :
    free_runs bitmap num = [(lo, hi)] := by
  have hmem := free_runs_loop_mem bitmap num num 0 (by omega)
  have hpw := free_runs_loop_pairwise bitmap num num 0 (by omega)
  have hcov := free_runs_loop_cover bitmap num num 0 (by omega) lo (Nat.zero_le lo)
    (by omega) ((h lo (by omega)).mpr ⟨Nat.le_refl lo, hlo⟩)
  have hall : ∀ r ∈ free_runs_loop bitmap num num 0, r = (lo, hi) := by
    intro r hr
    obtain ⟨-, a2, a3, a4, a5, a6⟩ := hmem r hr
    have f1 := (h r.1 (by omega)).mp (a4 r.1 (Nat.le_refl _) a2)
    have f2 := (h r.2 a3).mp (a4 r.2 a2 (Nat.le_refl _))
    have e1 : r.1 = lo := by
      rcases a6 with a6 | a6
      · omega
      · by_contra hne
        have := (h (r.1 - 1) (by omega)).mpr ⟨by omega, by omega⟩
        rw [this] at a6
        exact absurd a6 (by simp)
    have e2 : r.2 = hi := by
      by_contra hne
      have hlt : r.2 + 1 < num := by omega
      have := (h (r.2 + 1) hlt).mpr ⟨by omega, by omega⟩
      rw [this] at a5
      exact absurd (a5 hlt) (by simp)
    exact Prod.ext e1 e2
  unfold free_runs
  generalize free_runs_loop bitmap num num 0 = L at hpw hcov hall
  match L, hpw, hcov, hall with
  | [], _, hcov, _ => simp at hcov
  | [x], _, _, hall => rw [hall x (by simp)]
  | x :: y :: _, hpw, _, hall =>
    have hx := hall x (by simp)
    have hy := hall y (by simp)
    have := (List.pairwise_cons.mp hpw).1 y (by simp)
    rw [hx, hy] at this
    simp at this
    omega

/-! ## Keys of the group object -/

@[simp] theorem json_obj_add_pair_keys (obj : json_obj) (key : String) (t : json_val_type)
    (v : json_val) : (json_obj_add_pair obj key t v).keys = obj.keys ++ [key] := by
  simp [json_obj_add_pair_eq, json_obj.keys, json_pair.key]

@[simp] theorem json_obj_add_str_keys (obj : json_obj) (key s : String) :
    (json_obj_add_str obj key s).keys = obj.keys ++ [key] := by
  simp [json_obj_add_str]

@[simp] theorem json_obj_add_fmt_buf_str_keys (obj : json_obj) (key s : String) (size : Nat) :
    (json_obj_add_fmt_buf_str obj key size s).keys = obj.keys ++ [key] := by
  simp [json_obj_add_fmt_buf_str]

@[simp] theorem json_obj_add_obj_keys (obj : json_obj) (key : String) (o : json_obj) :
    (json_obj_add_obj obj key o).keys = obj.keys ++ [key] := by
  simp [json_obj_add_obj]

@[simp] theorem json_obj_add_list_keys (obj : json_obj) (key : String) (l : json_list) :
    (json_obj_add_list obj key l).keys = obj.keys ++ [key] := by
  simp [json_obj_add_list]

@[simp] theorem json_obj_create_keys : json_obj_create.keys = [] := rfl

/-- A list filled through the pointer that `json_list_create_in_obj` returned
leaves the parent with the pair holding the filled list. -/
theorem json_obj_list_filled_create (obj : json_obj) (key : String) (type : json_val_type)
    (list : json_list) :
    json_obj_list_filled (json_list_create_in_obj obj key type).1 list =
      json_obj_add_list obj key list := by
  simp [json_obj_list_filled, json_list_create_in_obj, json_obj_add_list, json_obj_add_pair_eq,
    json_list_create]

theorem json_list_create_in_obj_fst (obj : json_obj) (key : String) (type : json_val_type) :
    (json_list_create_in_obj obj key type).1 =
      json_obj_add_list obj key (json_list_create type) := rfl

theorem json_list_create_in_obj_snd (obj : json_obj) (key : String) (type : json_val_type) :
    (json_list_create_in_obj obj key type).2 = json_list_create type := rfl

theorem fill_json_bg_opts_keys (obj : json_obj) (fs : ext2_filsys) (i : Nat) :
    (fill_json_bg_opts obj fs i).keys = obj.keys ++ ["bg-opts"] := by
  unfold fill_json_bg_opts
  simp only []
  split
  · rw [json_obj_list_filled_create, json_obj_add_list_keys]
  · rw [json_list_create_in_obj_fst, json_obj_add_list_keys]

theorem fill_json_desc_csum_keys (fs : ext2_filsys) (i : Nat) (obj : json_obj) (k : String)
    (hk : k ∈ (fill_json_desc_csum fs i obj).keys) :
    k ∈ obj.keys ∨ k ∈ ["group-desc-csum", "group-desc-csum-exp"] := by
  unfold fill_json_desc_csum at hk
  by_cases h1 : fs.has_group_desc_csum = true <;>
    by_cases h2 : fs.bg_checksum i = fs.group_desc_csum i <;>
    simp [h1, h2] at hk <;> simp <;> tauto

theorem fill_json_desc_super_keys (d : Display) (i super_blk : Nat) (has_super : Bool)
    (obj : json_obj) (k : String)
    (hk : k ∈ (fill_json_desc_super d i super_blk has_super obj).keys) :
    k ∈ obj.keys ∨ k ∈ ["superblock-type", "superblock-at"] := by
  unfold fill_json_desc_super at hk
  cases has_super <;> simp at hk <;> simp <;> tauto

theorem fill_json_desc_gdt_keys (d : Display) (l : desc_locals) (old_desc_blk new_desc_blk : Nat)
    (obj : json_obj) (k : String)
    (hk : k ∈ (fill_json_desc_gdt d l old_desc_blk new_desc_blk obj).keys) :
    k ∈ obj.keys ∨
      k ∈ ["group-descriptors-at", "reserved-gdt-blocks-at", "group-desc-at"] := by
  unfold fill_json_desc_gdt at hk
  by_cases h1 : old_desc_blk = 0 <;> by_cases h2 : l.reserved_gdt = 0 <;>
    by_cases h3 : new_desc_blk = 0 <;>
    simp [h1, h2, h3] at hk <;> simp <;> tauto

theorem fill_json_desc_block_bitmap_keys (d : Display) (fs : ext2_filsys)
    (i first_block last_block : Nat) (obj : json_obj) (k : String)
    (hk : k ∈ (fill_json_desc_block_bitmap d fs i first_block last_block obj).keys) :
    k ∈ obj.keys ∨
      k ∈ ["block-bitmap-at", "block-bitmap-rel-offset", "block-bitmap-csum"] := by
  unfold fill_json_desc_block_bitmap at hk
  by_cases h1 : fs.super.has_feature_metadata_csum = true <;>
    simp [h1] at hk <;> simp <;> tauto

theorem fill_json_desc_inode_bitmap_keys (d : Display) (fs : ext2_filsys)
    (i first_block last_block : Nat) (obj : json_obj) (k : String)
    (hk : k ∈ (fill_json_desc_inode_bitmap d fs i first_block last_block obj).keys) :
    k ∈ obj.keys ∨
      k ∈ ["inode-bitmap-at", "inode-bitmap-rel-offset", "inode-bitmap-csum"] := by
  unfold fill_json_desc_inode_bitmap at hk
  by_cases h1 : fs.super.has_feature_metadata_csum = true <;>
    simp [h1] at hk <;> simp <;> tauto

theorem fill_json_desc_inode_table_keys (d : Display) (fs : ext2_filsys) (l : desc_locals)
    (i first_block last_block : Nat) (obj : json_obj) (k : String)
    (hk : k ∈ (fill_json_desc_inode_table d fs l i first_block last_block obj).keys) :
    k ∈ obj.keys ∨ k ∈ ["inode-table-at", "inode-table-rel-offset"] := by
  unfold fill_json_desc_inode_table at hk
  simp at hk; simp; tauto

theorem fill_json_desc_counts_keys (fs : ext2_filsys) (l : desc_locals) (i : Nat)
    (obj : json_obj) (k : String) (hk : k ∈ (fill_json_desc_counts fs l i obj).keys) :
    k ∈ obj.keys ∨
      k ∈ ["free-blocks-count", "free-inodes-count", "used-dirs-count", "unused-inodes"] := by
  unfold fill_json_desc_counts at hk
  simp at hk; simp; tauto

theorem mem_field_keys (K : List String) (h : ∀ x ∈ K, x ∈ field_keys) (k : String)
    (hk : k ∈ K) : k ∈ field_keys := h k hk

/-- The fields of a group object before the free-space sections have keys
among `field_keys`. -/
theorem fill_json_desc_fields_keys (d : Display) (fs : ext2_filsys) (l : desc_locals) (i : Nat)
    (k : String) (hk : k ∈ (fill_json_desc_fields d fs l i).keys) : k ∈ field_keys := by
  unfold fill_json_desc_fields at hk
  simp only [] at hk
  rcases fill_json_desc_counts_keys _ _ _ _ _ hk with hk | hk
  · rcases fill_json_desc_inode_table_keys _ _ _ _ _ _ _ _ hk with hk | hk
    · rcases fill_json_desc_inode_bitmap_keys _ _ _ _ _ _ _ hk with hk | hk
      · rcases fill_json_desc_block_bitmap_keys _ _ _ _ _ _ _ hk with hk | hk
        · rcases fill_json_desc_gdt_keys _ _ _ _ _ _ hk with hk | hk
          · rcases fill_json_desc_super_keys _ _ _ _ _ _ hk with hk | hk
            · simp only [fill_json_bg_opts_keys, List.mem_append] at hk
              rcases hk with hk | hk
              · rcases fill_json_desc_csum_keys _ _ _ _ hk with hk | hk
                · simp only [json_obj_add_obj_keys, json_obj_add_fmt_buf_str_keys,
                    json_obj_create_keys, List.nil_append, List.cons_append] at hk
                  exact mem_field_keys _ (by decide) k hk
                · exact mem_field_keys _ (by decide) k hk
              · exact mem_field_keys _ (by decide) k hk
            · exact mem_field_keys _ (by decide) k hk
          · exact mem_field_keys _ (by decide) k hk
        · exact mem_field_keys _ (by decide) k hk
      · exact mem_field_keys _ (by decide) k hk
    · exact mem_field_keys _ (by decide) k hk
  · exact mem_field_keys _ (by decide) k hk

/-! ## Characters of the text writes -/

theorem digitChar_ne_F : ∀ k, k < 16 → Nat.digitChar k ≠ 'F' := by decide

theorem toDigitsCore_no_F (b : Nat) (hb1 : 0 < b) (hb2 : b ≤ 16) (fuel n : Nat) (ds : List Char)
    (h : 'F' ∉ ds) : 'F' ∉ Nat.toDigitsCore b fuel n ds := by
  induction fuel generalizing n ds with
  | zero => simpa [Nat.toDigitsCore] using h
  | succ f ih =>
    unfold Nat.toDigitsCore
    have hd : 'F' ∉ Nat.digitChar (n % b) :: ds := by
      simp only [List.mem_cons, not_or]
      have hlt : n % b < 16 := Nat.lt_of_lt_of_le (Nat.mod_lt n hb1) hb2
      exact ⟨fun e => digitChar_ne_F _ hlt e.symm, h⟩
    simp only []
    split
    · exact hd
    · exact ih _ _ hd

theorem fmt_dec_no_F (n : Nat) : 'F' ∉ (fmt_dec n).data := by
  unfold fmt_dec Nat.repr Nat.toDigits
  exact toDigitsCore_no_F 10 (by decide) (by decide) _ _ [] (by simp)

theorem fmt_hex_no_F (w n : Nat) : 'F' ∉ (fmt_hex w n).data := by
  unfold fmt_hex hex_digits Nat.toDigits
  have h := toDigitsCore_no_F 16 (by decide) (by decide) (n + 1) n [] (by simp)
  simp only [String.data_append, List.mem_append, List.mem_replicate, not_or]
  refine ⟨by decide, ?_, h⟩
  rintro ⟨-, h2⟩
  exact absurd h2 (by decide)

theorem no_F_append (a b : Out) (ha : no_F a) (hb : no_F b) : no_F (a ++ b) := by
  intro s hs
  rcases List.mem_append.mp hs with h | h
  · exact ha s h
  · exact hb s h

theorem no_F_nil : no_F [] := by intro s hs; simp at hs

theorem no_F_single (s : String) (h : 'F' ∉ s.data) : no_F [s] := by
  intro t ht
  rw [List.mem_singleton.mp ht]
  exact h

theorem print_number_no_F (d : Display) (n : Nat) : no_F (print_number d n) := by
  unfold print_number
  split
  · split
    · exact no_F_single _ (fmt_hex_no_F 8 n)
    · exact no_F_single _ (fmt_hex_no_F 4 n)
  · exact no_F_single _ (fmt_dec_no_F n)

theorem print_range_no_F (d : Display) (a b : Nat) : no_F (print_range d a b) := by
  have hd : 'F' ∉ "-".data := by decide
  unfold print_range
  split
  · split
    · apply no_F_single
      simp only [String.data_append, List.mem_append, not_or]
      exact ⟨⟨fmt_hex_no_F 8 a, hd⟩, fmt_hex_no_F 8 b⟩
    · apply no_F_single
      simp only [String.data_append, List.mem_append, not_or]
      exact ⟨⟨fmt_hex_no_F 4 a, hd⟩, fmt_hex_no_F 4 b⟩
  · apply no_F_single
    simp only [String.data_append, List.mem_append, not_or]
    exact ⟨⟨fmt_dec_no_F a, hd⟩, fmt_dec_no_F b⟩

theorem number_text_no_F (d : Display) (n : Nat) : 'F' ∉ (number_text d n).data := by
  have h := print_number_no_F d n
  rw [print_number_eq] at h
  exact h _ (List.mem_singleton.mpr rfl)

theorem runs_out_no_F (d : Display) (value : Nat → Nat) (p : Bool) (rs : List (Nat × Nat)) :
    no_F (runs_out d value p rs) := by
  induction rs generalizing p with
  | nil => exact no_F_nil
  | cons r rs ih =>
    unfold runs_out
    refine no_F_append _ _ (no_F_append _ _ (no_F_append _ _ ?_ ?_) ?_) (ih true)
    · split
      · exact no_F_single _ (by decide)
      · exact no_F_nil
    · exact no_F_single _ (number_text_no_F d _)
    · split
      · exact no_F_append ["-"] [_] (no_F_single _ (by decide))
          (no_F_single _ (number_text_no_F d _))
      · exact no_F_nil

theorem print_free_no_F (d : Display) (group : Nat) (bitmap : Bitmap) (num offset ratio : Nat) :
    no_F (print_free d group bitmap num offset ratio) := by
  rw [print_free_eq_runs]
  exact runs_out_no_F d _ false _

theorem no_F_ite (c : Prop) [Decidable c] (a b : Out) (ha : no_F a) (hb : no_F b) :
    no_F (if c then a else b) := by
  split
  · exact ha
  · exact hb

theorem print_bg_opt_no_F (bg_flags mask : Nat) (str : String) (first : Bool)
    (h : 'F' ∉ str.data) : no_F (print_bg_opt bg_flags mask str first).1 := by
  unfold print_bg_opt
  split
  · refine no_F_append _ _ ?_ (no_F_single _ h)
    cases first
    · exact no_F_single _ (by decide)
    · exact no_F_single _ (by decide)
  · exact no_F_nil

theorem print_bg_opts_no_F (fs : ext2_filsys) (i : Nat) : no_F (print_bg_opts fs i) := by
  unfold print_bg_opts
  simp only []
  refine no_F_append _ _ (no_F_append _ _ (no_F_append _ _ (no_F_append _ _ ?_ ?_) ?_) ?_)
    (no_F_single "\n" (by decide))
  · exact print_bg_opt_no_F _ _ "INODE_UNINIT" _ (by decide)
  · exact print_bg_opt_no_F _ _ "BLOCK_UNINIT" _ (by decide)
  · exact print_bg_opt_no_F _ _ "ITABLE_ZEROED" _ (by decide)
  · exact no_F_ite _ _ _ (no_F_single "]" (by decide)) no_F_nil

theorem print_bg_rel_offset_no_F (fs : ext2_filsys) (block : Nat) (itable : Bool)
    (first_block last_block : Nat) :
    no_F (print_bg_rel_offset fs block itable first_block last_block) := by
  have h1 : 'F' ∉ " (+".data := by decide
  have h2 : 'F' ∉ ")".data := by decide
  have h3 : 'F' ∉ " (bg #".data := by decide
  have h4 : 'F' ∉ " + ".data := by decide
  unfold print_bg_rel_offset
  split
  · split
    · exact no_F_nil
    · apply no_F_single
      simp only [String.data_append, List.mem_append, not_or]
      exact ⟨⟨h1, fmt_dec_no_F _⟩, h2⟩
  · split
    · apply no_F_single
      simp only [String.data_append, List.mem_append, not_or]
      exact ⟨⟨⟨⟨h3, fmt_dec_no_F _⟩, h4⟩, fmt_dec_no_F _⟩, h2⟩
    · exact no_F_nil

theorem list_desc_csum_no_F (fs : ext2_filsys) (i : Nat) : no_F (list_desc_csum fs i) := by
  have h1 : 'F' ∉ " csum ".data := by decide
  have h2 : 'F' ∉ " (EXPECTED ".data := by decide
  have h3 : 'F' ∉ ")".data := by decide
  unfold list_desc_csum
  split
  · refine no_F_append _ _ (no_F_single _ ?_) ?_
    · simp only [String.data_append, List.mem_append, not_or]
      exact ⟨h1, fmt_hex_no_F _ _⟩
    · split
      · apply no_F_single
        simp only [String.data_append, List.mem_append, not_or]
        exact ⟨⟨h2, fmt_hex_no_F _ _⟩, h3⟩
      · exact no_F_nil
  · exact no_F_nil

theorem list_desc_super_no_F (d : Display) (i super_blk : Nat) (has_super : Bool) :
    no_F (list_desc_super d i super_blk has_super) := by
  unfold list_desc_super
  split
  · refine no_F_append _ _ ?_ (print_number_no_F d _)
    apply no_F_single
    split <;> decide
  · exact no_F_nil

theorem list_desc_gdt_no_F (d : Display) (l : desc_locals) (old_desc_blk new_desc_blk : Nat)
    (has_super : Bool) : no_F (list_desc_gdt d l old_desc_blk new_desc_blk has_super) := by
  unfold list_desc_gdt
  refine no_F_append _ _ ?_ ?_
  · split
    · refine no_F_append _ _ (no_F_append _ _ (no_F_single _ (by decide))
        (print_range_no_F d _ _)) ?_
      split
      · exact no_F_append _ _ (no_F_single _ (by decide)) (print_range_no_F d _ _)
      · exact no_F_nil
    · split
      · refine no_F_append _ _ (no_F_append _ _ (no_F_single _ ?_) (no_F_single _ (by decide)))
          (print_number_no_F d _)
        cases has_super <;> decide
      · exact no_F_nil
  · split
    · exact no_F_single _ (by decide)
    · exact no_F_nil

theorem list_desc_block_bitmap_no_F (d : Display) (fs : ext2_filsys) (ignore_80col : Bool)
    (i first_block last_block : Nat) :
    no_F (list_desc_block_bitmap d fs ignore_80col i first_block last_block) := by
  have h1 : 'F' ∉ ", csum ".data := by decide
  unfold list_desc_block_bitmap
  refine no_F_append _ _ (no_F_append _ _ (no_F_append _ _ (no_F_append _ _
    (no_F_single _ (by decide)) (print_number_no_F d _)) (print_bg_rel_offset_no_F _ _ _ _ _))
    ?_) ?_
  · split
    · apply no_F_single
      simp only [String.data_append, List.mem_append, not_or]
      exact ⟨h1, fmt_hex_no_F _ _⟩
    · exact no_F_nil
  · cases ignore_80col
    · exact no_F_single _ (by decide)
    · exact no_F_single _ (by decide)

theorem list_desc_inode_bitmap_no_F (d : Display) (fs : ext2_filsys)
    (i first_block last_block : Nat) :
    no_F (list_desc_inode_bitmap d fs i first_block last_block) := by
  have h1 : 'F' ∉ ", csum ".data := by decide
  unfold list_desc_inode_bitmap
  refine no_F_append _ _ (no_F_append _ _ (no_F_append _ _
    (no_F_single _ (by decide)) (print_number_no_F d _)) (print_bg_rel_offset_no_F _ _ _ _ _)) ?_
  split
  · apply no_F_single
    simp only [String.data_append, List.mem_append, not_or]
    exact ⟨h1, fmt_hex_no_F _ _⟩
  · exact no_F_nil

theorem list_desc_inode_table_no_F (d : Display) (fs : ext2_filsys) (l : desc_locals)
    (i first_block last_block : Nat) :
    no_F (list_desc_inode_table d fs l i first_block last_block) := by
  unfold list_desc_inode_table
  exact no_F_append _ _ (no_F_append _ _ (no_F_single _ (by decide)) (print_range_no_F d _ _))
    (print_bg_rel_offset_no_F _ _ _ _ _)

theorem desc_setup_units_no_F (fs : ext2_filsys) : 'F' ∉ (desc_setup fs).units.data := by
  unfold desc_setup
  simp only []
  split <;> decide

theorem list_desc_counts_no_F (fs : ext2_filsys) (i : Nat) :
    no_F (list_desc_counts fs (desc_setup fs) i) := by
  have h1 : 'F' ∉ "\n  ".data := by decide
  have h2 : 'F' ∉ " free ".data := by decide
  have h3 : 'F' ∉ ", ".data := by decide
  have h4 : 'F' ∉ " free inodes, ".data := by decide
  have h5 : 'F' ∉ " directories".data := by decide
  have h6 : 'F' ∉ " unused inodes\n".data := by decide
  have h7 : 'F' ∉ (if fs.bg_itable_unused i ≠ 0 then "" else "\n").data := by
    split <;> decide
  unfold list_desc_counts
  refine no_F_append _ _ (no_F_single _ ?_) ?_
  · simp only [String.data_append, List.mem_append, not_or]
    repeat' apply And.intro
    all_goals first
      | exact fmt_dec_no_F _
      | exact desc_setup_units_no_F fs
      | exact h7
      | decide
  · split
    · apply no_F_single
      simp only [String.data_append, List.mem_append, not_or]
      exact ⟨⟨h3, fmt_dec_no_F _⟩, h6⟩
    · exact no_F_nil

theorem list_desc_fields_no_F (d : Display) (fs : ext2_filsys) (ignore_80col : Bool) (i : Nat) :
    no_F (list_desc_fields d fs ignore_80col (desc_setup fs) i) := by
  have h1 : 'F' ∉ "Group ".data := by decide
  have h2 : 'F' ∉ ": (Blocks ".data := by decide
  unfold list_desc_fields
  simp only []
  refine no_F_append _ _ (no_F_append _ _ (no_F_append _ _ (no_F_append _ _ (no_F_append _ _
    (no_F_append _ _ (no_F_append _ _ (no_F_append _ _ (no_F_append _ _ (no_F_append _ _
    (no_F_single _ ?_) (print_range_no_F d _ _)) (no_F_single _ (by decide)))
    (list_desc_csum_no_F fs i)) (print_bg_opts_no_F fs i)) (list_desc_super_no_F _ _ _ _))
    (list_desc_gdt_no_F _ _ _ _ _)) (list_desc_block_bitmap_no_F _ _ _ _ _ _))
    (list_desc_inode_bitmap_no_F _ _ _ _ _)) (list_desc_inode_table_no_F _ _ _ _ _ _))
    (list_desc_counts_no_F fs i)
  simp only [String.data_append, List.mem_append, not_or]
  exact ⟨⟨h1, fmt_dec_no_F _⟩, h2⟩

theorem list_desc_grp_only_no_F (d : Display) (fs : ext2_filsys) (l : desc_locals) (i : Nat) :
    no_F (list_desc_grp_only d fs l i) := by
  have h1 : 'F' ∉ ":".data := by decide
  have h2 : 'F' ∉ "\n".data := by decide
  unfold list_desc_grp_only
  simp only []
  refine no_F_append _ _ (no_F_append _ _ (no_F_append _ _ (no_F_single _ ?_) ?_) ?_)
    (no_F_single _ ?_)
  · simp only [String.data_append, List.mem_append, not_or]
    exact ⟨⟨⟨fmt_dec_no_F _, h1⟩, fmt_dec_no_F _⟩, h1⟩
  · split
    · apply no_F_single
      simp only [String.data_append, List.mem_append, not_or]
      exact ⟨fmt_dec_no_F _, h1⟩
    · exact no_F_single _ (by decide)
  · split
    · exact no_F_append _ _ (print_range_no_F d _ _) (no_F_single _ (by decide))
    · split
      · apply no_F_single
        simp only [String.data_append, List.mem_append, not_or]
        exact ⟨fmt_dec_no_F _, h1⟩
      · exact no_F_single _ (by decide)
  · simp only [String.data_append, List.mem_append, not_or]
    exact ⟨⟨⟨⟨⟨fmt_dec_no_F _, h1⟩, fmt_dec_no_F _⟩, h1⟩, fmt_dec_no_F _⟩, h2⟩

/-! ## The loops over groups -/

theorem fill_json_desc_loop_eq (d : Display) (fs : ext2_filsys) (l : desc_locals)
    (count i : Nat) (desc_list : json_list) :
    fill_json_desc_loop d fs l count i (blk_itr_at fs l i) (ino_itr_at fs l i) desc_list =
      { type := desc_list.type,
        node := desc_list.node ++ (List.range' i count).map (fun k =>
          json_val.obj (fill_json_desc_group d fs l k (blk_itr_at fs l k)
            (ino_itr_at fs l k)).pair) } := by
  induction count generalizing i desc_list with
  | zero => simp [fill_json_desc_loop]
  | succ c ih =>
    unfold fill_json_desc_loop
    have h := ih (i + 1) (json_list_add_obj desc_list
      (fill_json_desc_group d fs l i (blk_itr_at fs l i) (ino_itr_at fs l i)))
    simp only [blk_itr_at, ino_itr_at] at h
    rw [h]
    simp [json_list_add_obj, json_list_add_node_eq, List.range'_succ]

/-- The group objects of the `desc` list, one per group in order. -/
theorem desc_groups_eq (d : Display) (fs : ext2_filsys) :
    desc_groups d fs = (List.range fs.group_desc_count).map (fun k =>
      json_val.obj (fill_json_desc_group d fs (desc_setup fs) k
        (blk_itr_at fs (desc_setup fs) k) (ino_itr_at fs (desc_setup fs) k)).pair) := by
  unfold desc_groups
  have h := fill_json_desc_loop_eq d fs (desc_setup fs) fs.group_desc_count 0
    (json_list_create json_val_type.JSON_VAL_OBJECT)
  simp only [blk_itr_at, ino_itr_at] at h
  rw [h, List.range_eq_range']
  simp [json_list_create]

theorem list_desc_loop_eq (d : Display) (fs : ext2_filsys) (grp_only ignore_80col : Bool)
    (l : desc_locals) (count i : Nat) :
    list_desc_loop d fs grp_only ignore_80col l count i (blk_itr_at fs l i) (ino_itr_at fs l i) =
      ((List.range' i count).map (fun k =>
        list_desc_group d fs grp_only ignore_80col l k (blk_itr_at fs l k)
          (ino_itr_at fs l k))).flatten := by
  induction count generalizing i with
  | zero => simp [list_desc_loop]
  | succ c ih =>
    unfold list_desc_loop
    have h := ih (i + 1)
    simp only [blk_itr_at, ino_itr_at] at h
    rw [h]
    simp [List.range'_succ]

/-- The writes of `list_desc`: the leading newline, the header of the
`grp_only` table, then the writes of each group in order. -/
theorem list_desc_eq (d : Display) (fs : ext2_filsys) (grp_only ignore_80col : Bool) :
    list_desc d fs grp_only ignore_80col =
      ["\n"] ++ (if grp_only then ["group:block:super:gdt:bbitmap:ibitmap:itable\n"] else []) ++
      ((List.range fs.group_desc_count).map (fun k =>
        list_desc_group d fs grp_only ignore_80col (desc_setup fs) k
          (blk_itr_at fs (desc_setup fs) k) (ino_itr_at fs (desc_setup fs) k))).flatten := by
  unfold list_desc
  have h := list_desc_loop_eq d fs grp_only ignore_80col (desc_setup fs) fs.group_desc_count 0
  simp only [blk_itr_at, ino_itr_at] at h
  rw [h, List.range_eq_range']

/-! ## The free-space sections -/

theorem pair_add_list (obj : json_obj) (key : String) (l : json_list) :
    (json_obj_add_list obj key l).pair =
      obj.pair ++ [(key, json_val_type.JSON_VAL_LIST, json_val.list l.type l.node)] := by
  simp [json_obj_add_list, json_obj_add_pair_eq]

/-- The free-blocks section of a group object is nothing when the block
bitmap is not loaded, and otherwise one pair `free-blocks` holding a list of
objects: the extents when the read succeeds, no element when it fails. -/
theorem fill_json_desc_free_blocks_pair (d : Display) (fs : ext2_filsys) (l : desc_locals)
    (group_obj : json_obj) (i blk_itr : Nat) :
    (fill_json_desc_free_blocks d fs l group_obj i blk_itr).pair =
      group_obj.pair ++
        (if l.block_bitmap then
          [("free-blocks", json_val_type.JSON_VAL_LIST,
            json_val.list json_val_type.JSON_VAL_OBJECT
              (match read_range fs.block_map blk_itr l.block_nbytes with
               | some (Except.ok block_bitmap) =>
                 (free_extents i block_bitmap fs.super.s_clusters_per_group
                   fs.super.s_first_data_block ( EXT2FS_CLUSTER_RATIO fs)).map
                   (fun e => extent_obj d e.1 e.2)
               | _ => []))]
         else []) := by
  unfold fill_json_desc_free_blocks
  cases hb : l.block_bitmap with
  | false => simp
  | true =>
    simp only [if_true]
    cases hr : read_range fs.block_map blk_itr l.block_nbytes with
    | none => simp [json_list_create_in_obj_fst, pair_add_list, json_list_create]
    | some r =>
      cases r with
      | error e => simp [json_list_create_in_obj_fst, pair_add_list, json_list_create]
      | ok bm =>
        simp only [json_obj_list_filled_create, pair_add_list, json_list_create_in_obj_snd,
          fill_json_free_eq_extents]
        simp [json_list_create]

theorem fill_json_desc_free_inodes_pair (d : Display) (fs : ext2_filsys) (l : desc_locals)
    (group_obj : json_obj) (i ino_itr : Nat) :
    (fill_json_desc_free_inodes d fs l group_obj i ino_itr).pair =
      group_obj.pair ++
        (if l.inode_bitmap then
          [("free-inodes", json_val_type.JSON_VAL_LIST,
            json_val.list json_val_type.JSON_VAL_OBJECT
              (match read_range fs.inode_map ino_itr l.inode_nbytes with
               | some (Except.ok inode_bitmap) =>
                 (free_extents i inode_bitmap fs.super.s_inodes_per_group 1 1).map
                   (fun e => extent_obj d e.1 e.2)
               | _ => []))]
         else []) := by
  unfold fill_json_desc_free_inodes
  cases hb : l.inode_bitmap with
  | false => simp
  | true =>
    simp only [if_true]
    cases hr : read_range fs.inode_map ino_itr l.inode_nbytes with
    | none => simp [json_list_create_in_obj_fst, pair_add_list, json_list_create]
    | some r =>
      cases r with
      | error e => simp [json_list_create_in_obj_fst, pair_add_list, json_list_create]
      | ok bm =>
        simp only [json_obj_list_filled_create, pair_add_list, json_list_create_in_obj_snd,
          fill_json_free_eq_extents]
        simp [json_list_create]

/-- The pairs of a group object: the fields, then the free-blocks section,
then the free-inodes section. -/
theorem fill_json_desc_group_pair (d : Display) (fs : ext2_filsys) (l : desc_locals)
    (i blk_itr ino_itr : Nat) :
    (fill_json_desc_group d fs l i blk_itr ino_itr).pair =
      (fill_json_desc_fields d fs l i).pair ++
      (fill_json_desc_free_blocks d fs l json_obj_create i blk_itr).pair ++
      (fill_json_desc_free_inodes d fs l json_obj_create i ino_itr).pair := by
  unfold fill_json_desc_group
  simp only [fill_json_desc_free_inodes_pair, fill_json_desc_free_blocks_pair, json_obj_create,
    List.nil_append]

theorem no_F_not_infix (s : String) (t : String) (ht : 'F' ∈ t.data) (h : 'F' ∉ s.data) :
    ¬ t.data <:+: s.data := by
  intro hin
  exact h (hin.subset ht)

theorem free_runs_nil (bitmap : Bitmap) (num : Nat) (h : ∀ k, k < num → bitmap k = true) :
    free_runs bitmap num = [] := by
  apply List.eq_nil_iff_forall_not_mem.mpr
  intro r hr
  obtain ⟨-, a2, a3, a4, -⟩ := free_runs_loop_mem bitmap num num 0 (by omega) r hr
  have h1 := a4 r.1 (Nat.le_refl _) a2
  rw [h r.1 (by omega)] at h1
  exact absurd h1 (by simp)

theorem free_extents_nil (group : Nat) (bitmap : Bitmap) (num offset ratio : Nat)
    (h : ∀ k, k < num → bitmap k = true) : free_extents group bitmap num offset ratio = [] := by
  unfold free_extents
  rw [free_runs_nil bitmap num h]
  rfl

theorem print_free_nil (d : Display) (group : Nat) (bitmap : Bitmap) (num offset ratio : Nat)
    (h : ∀ k, k < num → bitmap k = true) : print_free d group bitmap num offset ratio = [] := by
  rw [print_free_eq_runs, free_runs_nil bitmap num h]
  rfl

theorem desc_groups_getElem (d : Display) (fs : ext2_filsys) (i : Nat)
    (hi : i < fs.group_desc_count) :
    (desc_groups d fs)[i]? = some (json_val.obj (fill_json_desc_group d fs (desc_setup fs) i
        (blk_itr_at fs (desc_setup fs) i) (ino_itr_at fs (desc_setup fs) i)).pair) := by
  rw [desc_groups_eq]
  simp [hi]

theorem read_range_some (map : Option bitmap_handle) (handle : bitmap_handle) (itr nbytes : Nat)
    (h : map = some handle) : read_range map itr nbytes = some (handle itr (nbytes <<< 3)) := by
  rw [h]
  rfl

theorem blk_itr_at_congr (fs fs2 : ext2_filsys) (l : desc_locals) (i : Nat)
    (h1 : fs2.super = fs.super) (h2 : fs2.cluster_ratio_bits = fs.cluster_ratio_bits) :
    blk_itr_at fs2 l i = blk_itr_at fs l i := by
  induction i with
  | zero => simp [blk_itr_at, EXT2FS_B2C, h1, h2]
  | succ i ih => simp [blk_itr_at, ih, h1]

theorem ino_itr_at_congr (fs fs2 : ext2_filsys) (l : desc_locals) (i : Nat)
    (h1 : fs2.super = fs.super) : ino_itr_at fs2 l i = ino_itr_at fs l i := by
  induction i with
  | zero => simp [ino_itr_at]
  | succ i ih => simp [ino_itr_at, ih, h1]

theorem desc_setup_block_map (fs : ext2_filsys) (handle handle2 : bitmap_handle)
    (h : fs.block_map = some handle) :
    desc_setup { fs with block_map := some handle2 } = desc_setup fs := by
  simp [desc_setup, h]

theorem desc_setup_inode_map (fs : ext2_filsys) (handle handle2 : bitmap_handle)
    (h : fs.inode_map = some handle) :
    desc_setup { fs with inode_map := some handle2 } = desc_setup fs := by
  simp [desc_setup, h]

/-- The writes of a group without `grp_only`: fields, free blocks, free inodes. -/
theorem list_desc_group_eq (d : Display) (fs : ext2_filsys) (ignore_80col : Bool)
    (l : desc_locals) (i blk_itr ino_itr : Nat) :
    list_desc_group d fs false ignore_80col l i blk_itr ino_itr =
      list_desc_fields d fs ignore_80col l i ++ list_desc_free_blocks d fs l i blk_itr ++
        list_desc_free_inodes d fs l i ino_itr := by
  simp [list_desc_group]

theorem list_desc_free_inodes_infix (d : Display) (fs : ext2_filsys) (l : desc_locals)
    (i ino_itr : Nat) (s : String) (hs : s ∈ list_desc_free_inodes d fs l i ino_itr) :
    ¬ "Free blocks:".data <:+: s.data := by
  unfold list_desc_free_inodes at hs
  split at hs
  · rcases List.mem_append.mp hs with hs | hs
    · rcases List.mem_append.mp hs with hs | hs
      · rw [List.mem_singleton.mp hs]
        decide
      · refine no_F_not_infix s _ (by decide) ?_
        split at hs
        · exact print_free_no_F d _ _ _ _ _ s hs
        · simp at hs
    · rw [List.mem_singleton.mp hs]
      decide
  · simp at hs

theorem list_desc_free_blocks_infix (d : Display) (fs : ext2_filsys) (l : desc_locals)
    (i blk_itr : Nat) (s : String) (hs : s ∈ list_desc_free_blocks d fs l i blk_itr) :
    ¬ "Free inodes:".data <:+: s.data := by
  unfold list_desc_free_blocks at hs
  split at hs
  · rcases List.mem_append.mp hs with hs | hs
    · rcases List.mem_append.mp hs with hs | hs
      · rw [List.mem_singleton.mp hs]
        decide
      · refine no_F_not_infix s _ (by decide) ?_
        split at hs
        · exact print_free_no_F d _ _ _ _ _ s hs
        · simp at hs
    · rw [List.mem_singleton.mp hs]
      decide
  · simp at hs

/-- The pair that `fill_json_desc` adds: `desc`, the list of group objects. -/
theorem fill_json_desc_pair (d : Display) (obj : json_obj) (fs : ext2_filsys) :
    (fill_json_desc d obj fs).pair = obj.pair ++
      [("desc", json_val_type.JSON_VAL_LIST,
        json_val.list json_val_type.JSON_VAL_OBJECT (desc_groups d fs))] := by
  unfold fill_json_desc desc_groups
  simp only [json_obj_list_filled_create, json_list_create_in_obj_snd, pair_add_list]
  have h := fill_json_desc_loop_eq d fs (desc_setup fs) fs.group_desc_count 0
    (json_list_create json_val_type.JSON_VAL_OBJECT)
  simp only [blk_itr_at, ino_itr_at] at h
  rw [h]
  rfl

/-- The writes of `list_desc` without `grp_only`: the leading newline, then
the writes of each group in order. -/
theorem list_desc_eq_text (d : Display) (fs : ext2_filsys) (ignore_80col : Bool) :
    list_desc d fs false ignore_80col = ["\n"] ++
      ((List.range fs.group_desc_count).map (fun k =>
        list_desc_group d fs false ignore_80col (desc_setup fs) k
          (blk_itr_at fs (desc_setup fs) k) (ino_itr_at fs (desc_setup fs) k))).flatten := by
  rw [list_desc_eq]
  simp

/-! ## Number formats -/

theorem digitChar_hex : ∀ k, k < 16 → Nat.digitChar k ∈ "0123456789abcdef".data := by decide

theorem toDigitsCore_hex (fuel n : Nat) (ds : List Char)
    (h : ∀ c ∈ ds, c ∈ "0123456789abcdef".data) :
    ∀ c ∈ Nat.toDigitsCore 16 fuel n ds, c ∈ "0123456789abcdef".data := by
  induction fuel generalizing n ds with
  | zero => simpa [Nat.toDigitsCore] using h
  | succ f ih =>
    unfold Nat.toDigitsCore
    have hd : ∀ c ∈ Nat.digitChar (n % 16) :: ds, c ∈ "0123456789abcdef".data := by
      intro c hc
      rcases List.mem_cons.mp hc with rfl | hc
      · exact digitChar_hex _ (Nat.mod_lt n (by decide))
      · exact h c hc
    simp only []
    split
    · exact hd
    · exact ih _ _ hd

theorem snprint_number_eq (d : Display) (size n : Nat) (hs : 21 ≤ size) (hn : n < ULONG_MOD) :
    snprint_number d size n = number_text d n := by
  have hlen := number_text_length d n hn
  unfold snprint_number
  unfold number_text print_number Out.text at *
  split
  · split
    · rename_i h1 h2
      simp only [h1, h2, if_true, String.join, List.foldl, String.append_empty] at hlen ⊢
      exact snprintf_of_length_le size _ (by simp at hlen ⊢; omega)
    · rename_i h1 h2
      simp only [h1, h2, if_true, if_false, String.join, List.foldl] at hlen ⊢
      exact snprintf_of_length_le size _ (by simp at hlen ⊢; omega)
  · rename_i h1
    simp only [h1, if_false, String.join, List.foldl] at hlen ⊢
    exact snprintf_of_length_le size _ (by simp at hlen ⊢; omega)

/-! ## The document model: deletion -/

theorem json_obj_delete_pair_loop_absent (l : List json_pair) (key : String)
    (h : ∀ p ∈ l, p.1 ≠ key) : json_obj_delete_pair_loop l key = l := by
  induction l with
  | nil => rfl
  | cons p next ih =>
    have hp : p.1 ≠ key := h p (List.mem_cons_self _ _)
    simp only [json_obj_delete_pair_loop, if_neg hp]
    rw [ih (fun q hq => h q (List.mem_cons_of_mem _ hq))]

theorem json_obj_delete_pair_loop_first (l1 l2 : List json_pair) (p : json_pair) (key : String)
    (hp : p.1 = key) (h : ∀ q ∈ l1, q.1 ≠ key) :
    json_obj_delete_pair_loop (l1 ++ p :: l2) key = l1 ++ l2 := by
  induction l1 with
  | nil => simp [json_obj_delete_pair_loop, hp]
  | cons q rest ih =>
    have hq : q.1 ≠ key := h q (List.mem_cons_self _ _)
    have ih' := ih (fun r hr => h r (List.mem_cons_of_mem _ hr))
    show json_obj_delete_pair_loop (q :: (rest ++ p :: l2)) key = q :: (rest ++ l2)
    unfold json_obj_delete_pair_loop
    rw [if_neg hq, ih']

theorem json_obj_delete_pair_loop_sublist (l : List json_pair) (key : String) :
    (json_obj_delete_pair_loop l key).Sublist l := by
  induction l with
  | nil => exact List.Sublist.slnil
  | cons p next ih =>
    unfold json_obj_delete_pair_loop
    split
    · exact List.sublist_cons_self p next
    · exact List.Sublist.cons₂ p ih

theorem json_obj_delete_pair_loop_length (l : List json_pair) (key : String)
    (h : ∃ p ∈ l, p.1 = key) : (json_obj_delete_pair_loop l key).length + 1 = l.length := by
  induction l with
  | nil => obtain ⟨p, hp, -⟩ := h; simp at hp
  | cons p next ih =>
    unfold json_obj_delete_pair_loop
    split
    · simp
    · rename_i hne
      obtain ⟨q, hq, hk⟩ := h
      rcases List.mem_cons.mp hq with rfl | hq
      · exact absurd hk hne
      · simp [ih ⟨q, hq, hk⟩]

/-! ## Pairs of the group object, stage by stage -/

theorem json_obj_add_str_pair (obj : json_obj) (key str : String) :
    (json_obj_add_str obj key str).pair =
      obj.pair ++ [(key, json_val_type.JSON_VAL_STRING, json_val.str str)] := by
  simp [json_obj_add_str, json_obj_add_pair_eq]

theorem json_obj_add_fmt_buf_str_pair (obj : json_obj) (key str : String) (size : Nat) :
    (json_obj_add_fmt_buf_str obj key size str).pair =
      obj.pair ++ [(key, json_val_type.JSON_VAL_STRING, json_val.str (snprintf size str))] := by
  simp [json_obj_add_fmt_buf_str, json_obj_add_str_pair]

theorem json_obj_add_obj_pair (obj : json_obj) (key : String) (o : json_obj) :
    (json_obj_add_obj obj key o).pair =
      obj.pair ++ [(key, json_val_type.JSON_VAL_OBJECT, json_val.obj o.pair)] := by
  simp [json_obj_add_obj, json_obj_add_pair_eq]

theorem fill_json_desc_csum_pair (fs : ext2_filsys) (i : Nat) (obj : json_obj) :
    (fill_json_desc_csum fs i obj).pair = obj.pair ++
      (if fs.has_group_desc_csum then
        [("group-desc-csum", json_val_type.JSON_VAL_STRING,
          json_val.str (snprintf 64 (fmt_hex 4 (fs.bg_checksum i))))] ++
        (if fs.bg_checksum i ≠ fs.group_desc_csum i then
          [("group-desc-csum-exp", json_val_type.JSON_VAL_STRING,
            json_val.str (snprintf 64 (fmt_hex 4 (fs.group_desc_csum i))))]
         else [])
       else []) := by
  unfold fill_json_desc_csum
  by_cases h1 : fs.has_group_desc_csum = true <;>
    by_cases h2 : fs.bg_checksum i = fs.group_desc_csum i <;>
    simp [h1, h2, json_obj_add_fmt_buf_str_pair]

theorem fill_json_bg_opts_pair (obj : json_obj) (fs : ext2_filsys) (i : Nat) :
    (fill_json_bg_opts obj fs i).pair = obj.pair ++
      [("bg-opts", json_val_type.JSON_VAL_LIST,
        json_val.list json_val_type.JSON_VAL_STRING (bg_opts_nodes fs i))] := by
  unfold fill_json_bg_opts bg_opts_nodes
  simp only []
  by_cases h : fs.has_group_desc_csum = true
  · simp only [h, if_true, json_obj_list_filled_create, pair_add_list,
      json_list_create_in_obj_snd]
    by_cases h1 : fs.bg_flags i &&& EXT2_BG_INODE_UNINIT = 0 <;>
      by_cases h2 : fs.bg_flags i &&& EXT2_BG_BLOCK_UNINIT = 0 <;>
      by_cases h3 : fs.bg_flags i &&& EXT2_BG_INODE_ZEROED = 0 <;>
      simp [h1, h2, h3, json_list_add_str, json_list_add_node_eq, json_list_create]
  · simp [h, json_list_create_in_obj_fst, pair_add_list, json_list_create]

theorem fill_json_desc_super_pair (d : Display) (i super_blk : Nat) (has_super : Bool)
    (obj : json_obj) :
    (fill_json_desc_super d i super_blk has_super obj).pair = obj.pair ++
      (if has_super then
        [("superblock-type", json_val_type.JSON_VAL_STRING,
          json_val.str (if i = 0 then "Primary" else "Backup")),
         ("superblock-at", json_val_type.JSON_VAL_STRING,
          json_val.str (snprint_number d 64 super_blk))]
       else []) := by
  unfold fill_json_desc_super
  cases has_super <;> simp [json_obj_add_str_pair]

theorem fill_json_desc_gdt_pair (d : Display) (l : desc_locals) (old_desc_blk new_desc_blk : Nat)
    (obj : json_obj) :
    (fill_json_desc_gdt d l old_desc_blk new_desc_blk obj).pair = obj.pair ++
      (if old_desc_blk ≠ 0 then
        [("group-descriptors-at", json_val_type.JSON_VAL_OBJECT,
          json_val.obj (json_create_range_obj d old_desc_blk
            (blk_last old_desc_blk (blk64_of_int l.old_desc_blocks))).pair)] ++
        (if l.reserved_gdt ≠ 0 then
          [("reserved-gdt-blocks-at", json_val_type.JSON_VAL_OBJECT,
            json_val.obj (json_create_range_obj d
              ((old_desc_blk + blk64_of_int l.old_desc_blocks) % ULONG_MOD)
              (blk_last ((old_desc_blk + blk64_of_int l.old_desc_blocks) % ULONG_MOD)
                l.reserved_gdt)).pair)]
         else [])
       else if new_desc_blk ≠ 0 then
        [("group-desc-at", json_val_type.JSON_VAL_STRING,
          json_val.str (snprint_number d 64 new_desc_blk))]
       else []) := by
  unfold fill_json_desc_gdt
  by_cases h1 : old_desc_blk = 0 <;> by_cases h2 : l.reserved_gdt = 0 <;>
    by_cases h3 : new_desc_blk = 0 <;>
    simp [h1, h2, h3, json_obj_add_str_pair, json_obj_add_obj_pair]

theorem fill_json_desc_block_bitmap_pair (d : Display) (fs : ext2_filsys)
    (i first_block last_block : Nat) (obj : json_obj) :
    (fill_json_desc_block_bitmap d fs i first_block last_block obj).pair = obj.pair ++
      ([("block-bitmap-at", json_val_type.JSON_VAL_STRING,
          json_val.str (snprint_number d 64 (fs.block_bitmap_loc i))),
        ("block-bitmap-rel-offset", json_val_type.JSON_VAL_OBJECT,
          json_val.obj (json_create_bg_rel_offset_obj fs (fs.block_bitmap_loc i) false
            first_block last_block).pair)] ++
       (if fs.super.has_feature_metadata_csum then
         [("block-bitmap-csum", json_val_type.JSON_VAL_STRING,
           json_val.str (snprintf 64 (fmt_hex 8 (fs.block_bitmap_checksum i))))]
        else [])) := by
  unfold fill_json_desc_block_bitmap
  by_cases h1 : fs.super.has_feature_metadata_csum = true <;>
    simp [h1, json_obj_add_str_pair, json_obj_add_obj_pair, json_obj_add_fmt_buf_str_pair]

theorem fill_json_desc_inode_bitmap_pair (d : Display) (fs : ext2_filsys)
    (i first_block last_block : Nat) (obj : json_obj) :
    (fill_json_desc_inode_bitmap d fs i first_block last_block obj).pair = obj.pair ++
      ([("inode-bitmap-at", json_val_type.JSON_VAL_STRING,
          json_val.str (snprint_number d 64 (fs.inode_bitmap_loc i))),
        ("inode-bitmap-rel-offset", json_val_type.JSON_VAL_OBJECT,
          json_val.obj (json_create_bg_rel_offset_obj fs (fs.inode_bitmap_loc i) false
            first_block last_block).pair)] ++
       (if fs.super.has_feature_metadata_csum then
         [("inode-bitmap-csum", json_val_type.JSON_VAL_STRING,
           json_val.str (snprintf 64 (fmt_hex 8 (fs.inode_bitmap_checksum i))))]
        else [])) := by
  unfold fill_json_desc_inode_bitmap
  by_cases h1 : fs.super.has_feature_metadata_csum = true <;>
    simp [h1, json_obj_add_str_pair, json_obj_add_obj_pair, json_obj_add_fmt_buf_str_pair]

theorem fill_json_desc_inode_table_pair (d : Display) (fs : ext2_filsys) (l : desc_locals)
    (i first_block last_block : Nat) (obj : json_obj) :
    (fill_json_desc_inode_table d fs l i first_block last_block obj).pair = obj.pair ++
      [("inode-table-at", json_val_type.JSON_VAL_OBJECT,
          json_val.obj (json_create_range_obj d (fs.inode_table_loc i)
            (blk_last (fs.inode_table_loc i) (blk64_of_int l.inode_blocks_per_group))).pair),
        ("inode-table-rel-offset", json_val_type.JSON_VAL_OBJECT,
          json_val.obj (json_create_bg_rel_offset_obj fs (fs.inode_table_loc i) true
            first_block last_block).pair)] := by
  unfold fill_json_desc_inode_table
  simp [json_obj_add_obj_pair]

theorem fill_json_desc_counts_pair (fs : ext2_filsys) (l : desc_locals) (i : Nat)
    (obj : json_obj) :
    (fill_json_desc_counts fs l i obj).pair = obj.pair ++
      [("free-blocks-count", json_val_type.JSON_VAL_STRING,
          json_val.str (snprintf 64 (fmt_dec (fs.bg_free_blocks_count i) ++ " " ++ l.units))),
        ("free-inodes-count", json_val_type.JSON_VAL_STRING,
          json_val.str (snprintf 64 (fmt_dec (fs.bg_free_inodes_count i)))),
        ("used-dirs-count", json_val_type.JSON_VAL_STRING,
          json_val.str (snprintf 64 (fmt_dec (fs.bg_used_dirs_count i)))),
        ("unused-inodes", json_val_type.JSON_VAL_STRING,
          json_val.str (snprintf 64 (fmt_dec (fs.bg_itable_unused i))))] := by
  unfold fill_json_desc_counts
  simp [json_obj_add_fmt_buf_str_pair]

theorem fill_json_desc_csum_app (fs : ext2_filsys) (i : Nat) (obj : json_obj) :
    (fill_json_desc_csum fs i obj).pair =
      obj.pair ++ (fill_json_desc_csum fs i json_obj_create).pair := by
  rw [fill_json_desc_csum_pair, fill_json_desc_csum_pair fs i json_obj_create]
  simp [json_obj_create]

theorem fill_json_bg_opts_app (obj : json_obj) (fs : ext2_filsys) (i : Nat) :
    (fill_json_bg_opts obj fs i).pair =
      obj.pair ++ (fill_json_bg_opts json_obj_create fs i).pair := by
  rw [fill_json_bg_opts_pair, fill_json_bg_opts_pair json_obj_create]
  simp [json_obj_create]

theorem fill_json_desc_super_app (d : Display) (i super_blk : Nat) (has_super : Bool)
    (obj : json_obj) :
    (fill_json_desc_super d i super_blk has_super obj).pair =
      obj.pair ++ (fill_json_desc_super d i super_blk has_super json_obj_create).pair := by
  rw [fill_json_desc_super_pair, fill_json_desc_super_pair d i super_blk has_super json_obj_create]
  simp [json_obj_create]

theorem fill_json_desc_gdt_app (d : Display) (l : desc_locals) (old_desc_blk new_desc_blk : Nat)
    (obj : json_obj) :
    (fill_json_desc_gdt d l old_desc_blk new_desc_blk obj).pair =
      obj.pair ++ (fill_json_desc_gdt d l old_desc_blk new_desc_blk json_obj_create).pair := by
  rw [fill_json_desc_gdt_pair, fill_json_desc_gdt_pair d l old_desc_blk new_desc_blk
    json_obj_create]
  simp [json_obj_create]

theorem fill_json_desc_block_bitmap_app (d : Display) (fs : ext2_filsys)
    (i first_block last_block : Nat) (obj : json_obj) :
    (fill_json_desc_block_bitmap d fs i first_block last_block obj).pair =
      obj.pair ++
        (fill_json_desc_block_bitmap d fs i first_block last_block json_obj_create).pair := by
  rw [fill_json_desc_block_bitmap_pair,
    fill_json_desc_block_bitmap_pair d fs i first_block last_block json_obj_create]
  simp [json_obj_create]

theorem fill_json_desc_inode_bitmap_app (d : Display) (fs : ext2_filsys)
    (i first_block last_block : Nat) (obj : json_obj) :
    (fill_json_desc_inode_bitmap d fs i first_block last_block obj).pair =
      obj.pair ++
        (fill_json_desc_inode_bitmap d fs i first_block last_block json_obj_create).pair := by
  rw [fill_json_desc_inode_bitmap_pair,
    fill_json_desc_inode_bitmap_pair d fs i first_block last_block json_obj_create]
  simp [json_obj_create]

theorem fill_json_desc_inode_table_app (d : Display) (fs : ext2_filsys) (l : desc_locals)
    (i first_block last_block : Nat) (obj : json_obj) :
    (fill_json_desc_inode_table d fs l i first_block last_block obj).pair =
      obj.pair ++
        (fill_json_desc_inode_table d fs l i first_block last_block json_obj_create).pair := by
  rw [fill_json_desc_inode_table_pair,
    fill_json_desc_inode_table_pair d fs l i first_block last_block json_obj_create]
  simp [json_obj_create]

theorem fill_json_desc_counts_app (fs : ext2_filsys) (l : desc_locals) (i : Nat)
    (obj : json_obj) :
    (fill_json_desc_counts fs l i obj).pair =
      obj.pair ++ (fill_json_desc_counts fs l i json_obj_create).pair := by
  rw [fill_json_desc_counts_pair, fill_json_desc_counts_pair fs l i json_obj_create]
  simp [json_obj_create]

/-- The pairs of a group object before the free-space sections, stage by
stage in the order of the source. -/
theorem fill_json_desc_fields_pair (d : Display) (fs : ext2_filsys) (l : desc_locals) (i : Nat) :
    (fill_json_desc_fields d fs l i).pair =
      [("num", json_val_type.JSON_VAL_STRING, json_val.str (snprintf 64 (fmt_dec i))),
       ("blocks", json_val_type.JSON_VAL_OBJECT,
         json_val.obj (json_create_range_obj d (fs.group_first_block2 i)
           (fs.group_last_block2 i)).pair)] ++
      (fill_json_desc_csum fs i json_obj_create).pair ++
      (fill_json_bg_opts json_obj_create fs i).pair ++
      (fill_json_desc_super d i (fs.super_and_bgd_loc2 i).1
        (decide (i = 0 ∨ (fs.super_and_bgd_loc2 i).1 ≠ 0)) json_obj_create).pair ++
      (fill_json_desc_gdt d l (fs.super_and_bgd_loc2 i).2.1 (fs.super_and_bgd_loc2 i).2.2
        json_obj_create).pair ++
      (fill_json_desc_block_bitmap d fs i (fs.group_first_block2 i) (fs.group_last_block2 i)
        json_obj_create).pair ++
      (fill_json_desc_inode_bitmap d fs i (fs.group_first_block2 i) (fs.group_last_block2 i)
        json_obj_create).pair ++
      (fill_json_desc_inode_table d fs l i (fs.group_first_block2 i) (fs.group_last_block2 i)
        json_obj_create).pair ++
      (fill_json_desc_counts fs l i json_obj_create).pair := by
  unfold fill_json_desc_fields
  simp only []
  rw [fill_json_desc_counts_app, fill_json_desc_inode_table_app,
    fill_json_desc_inode_bitmap_app, fill_json_desc_block_bitmap_app, fill_json_desc_gdt_app,
    fill_json_desc_super_app, fill_json_bg_opts_app, fill_json_desc_csum_app,
    json_obj_add_obj_pair, json_obj_add_fmt_buf_str_pair]
  simp only [json_obj_create, List.nil_append, List.append_assoc, List.cons_append]

/-! ## Pairs of a group record under one key -/

theorem filter_key_nil (seg : List json_pair) (Ks : List String) (K : String)
    (h : ∀ k ∈ ({ pair := seg } : json_obj).keys, k ∈ Ks) (hK : K ∉ Ks) :
    seg.filter (fun p => p.1 == K) = [] := by
  apply List.filter_eq_nil_iff.mpr
  intro p hp
  simp only [beq_iff_eq]
  intro e
  apply hK
  rw [← e]
  exact h p.1 (List.mem_map_of_mem json_pair.key hp)

theorem fill_json_desc_csum_filter (fs : ext2_filsys) (i : Nat) (K : String)
    (hK : K ∉ ["group-desc-csum", "group-desc-csum-exp"]) :
    (fill_json_desc_csum fs i json_obj_create).pair.filter (fun p => p.1 == K) = [] := by
  refine filter_key_nil _ _ K ?_ hK
  intro k hk
  rcases fill_json_desc_csum_keys fs i json_obj_create k hk with h | h
  · simp at h
  · exact h

theorem fill_json_bg_opts_filter (fs : ext2_filsys) (i : Nat) (K : String)
    (hK : K ∉ ["bg-opts"]) :
    (fill_json_bg_opts json_obj_create fs i).pair.filter (fun p => p.1 == K) = [] := by
  refine filter_key_nil _ _ K ?_ hK
  intro k hk
  rw [fill_json_bg_opts_keys json_obj_create fs i] at hk
  simpa using hk

theorem fill_json_desc_super_filter (d : Display) (i super_blk : Nat) (has_super : Bool)
    (K : String) (hK : K ∉ ["superblock-type", "superblock-at"]) :
    (fill_json_desc_super d i super_blk has_super json_obj_create).pair.filter
      (fun p => p.1 == K) = [] := by
  refine filter_key_nil _ _ K ?_ hK
  intro k hk
  rcases fill_json_desc_super_keys d i super_blk has_super json_obj_create k hk with h | h
  · simp at h
  · exact h

theorem fill_json_desc_gdt_filter (d : Display) (l : desc_locals) (old_desc_blk new_desc_blk : Nat)
    (K : String)
    (hK : K ∉ ["group-descriptors-at", "reserved-gdt-blocks-at", "group-desc-at"]) :
    (fill_json_desc_gdt d l old_desc_blk new_desc_blk json_obj_create).pair.filter
      (fun p => p.1 == K) = [] := by
  refine filter_key_nil _ _ K ?_ hK
  intro k hk
  rcases fill_json_desc_gdt_keys d l old_desc_blk new_desc_blk json_obj_create k hk with h | h
  · simp at h
  · exact h

theorem fill_json_desc_block_bitmap_filter (d : Display) (fs : ext2_filsys)
    (i first_block last_block : Nat) (K : String)
    (hK : K ∉ ["block-bitmap-at", "block-bitmap-rel-offset", "block-bitmap-csum"]) :
    (fill_json_desc_block_bitmap d fs i first_block last_block json_obj_create).pair.filter
      (fun p => p.1 == K) = [] := by
  refine filter_key_nil _ _ K ?_ hK
  intro k hk
  rcases fill_json_desc_block_bitmap_keys d fs i first_block last_block json_obj_create k hk
    with h | h
  · simp at h
  · exact h

theorem fill_json_desc_inode_bitmap_filter (d : Display) (fs : ext2_filsys)
    (i first_block last_block : Nat) (K : String)
    (hK : K ∉ ["inode-bitmap-at", "inode-bitmap-rel-offset", "inode-bitmap-csum"]) :
    (fill_json_desc_inode_bitmap d fs i first_block last_block json_obj_create).pair.filter
      (fun p => p.1 == K) = [] := by
  refine filter_key_nil _ _ K ?_ hK
  intro k hk
  rcases fill_json_desc_inode_bitmap_keys d fs i first_block last_block json_obj_create k hk
    with h | h
  · simp at h
  · exact h

theorem fill_json_desc_inode_table_filter (d : Display) (fs : ext2_filsys) (l : desc_locals)
    (i first_block last_block : Nat) (K : String)
    (hK : K ∉ ["inode-table-at", "inode-table-rel-offset"]) :
    (fill_json_desc_inode_table d fs l i first_block last_block json_obj_create).pair.filter
      (fun p => p.1 == K) = [] := by
  refine filter_key_nil _ _ K ?_ hK
  intro k hk
  rcases fill_json_desc_inode_table_keys d fs l i first_block last_block json_obj_create k hk
    with h | h
  · simp at h
  · exact h

theorem fill_json_desc_counts_filter (fs : ext2_filsys) (l : desc_locals) (i : Nat) (K : String)
    (hK : K ∉ ["free-blocks-count", "free-inodes-count", "used-dirs-count", "unused-inodes"]) :
    (fill_json_desc_counts fs l i json_obj_create).pair.filter (fun p => p.1 == K) = [] := by
  refine filter_key_nil _ _ K ?_ hK
  intro k hk
  rcases fill_json_desc_counts_keys fs l i json_obj_create k hk with h | h
  · simp at h
  · exact h

theorem fill_json_desc_free_blocks_filter (d : Display) (fs : ext2_filsys) (l : desc_locals)
    (i blk_itr : Nat) (K : String) (hK : K ∉ ["free-blocks"]) :
    (fill_json_desc_free_blocks d fs l json_obj_create i blk_itr).pair.filter
      (fun p => p.1 == K) = [] := by
  refine filter_key_nil _ _ K ?_ hK
  intro k hk
  unfold json_obj.keys at hk
  simp only [fill_json_desc_free_blocks_pair] at hk
  split at hk <;> simp [json_obj_create, json_pair.key] at hk
  simp [hk]

theorem fill_json_desc_free_inodes_filter (d : Display) (fs : ext2_filsys) (l : desc_locals)
    (i ino_itr : Nat) (K : String) (hK : K ∉ ["free-inodes"]) :
    (fill_json_desc_free_inodes d fs l json_obj_create i ino_itr).pair.filter
      (fun p => p.1 == K) = [] := by
  refine filter_key_nil _ _ K ?_ hK
  intro k hk
  unfold json_obj.keys at hk
  simp only [fill_json_desc_free_inodes_pair] at hk
  split at hk <;> simp [json_obj_create, json_pair.key] at hk
  simp [hk]

/-- The pairs of a group record under one key, stage by stage. -/
theorem group_record_pairs_with_key (d : Display) (fs : ext2_filsys) (i : Nat) (K : String) :
    (group_record d fs i).pairs_with_key K =
      [("num", json_val_type.JSON_VAL_STRING, json_val.str (snprintf 64 (fmt_dec i))),
       ("blocks", json_val_type.JSON_VAL_OBJECT,
         json_val.obj (json_create_range_obj d (fs.group_first_block2 i)
           (fs.group_last_block2 i)).pair)].filter (fun p => p.1 == K) ++
      (fill_json_desc_csum fs i json_obj_create).pair.filter (fun p => p.1 == K) ++
      (fill_json_bg_opts json_obj_create fs i).pair.filter (fun p => p.1 == K) ++
      (fill_json_desc_super d i (fs.super_and_bgd_loc2 i).1
        (decide (i = 0 ∨ (fs.super_and_bgd_loc2 i).1 ≠ 0)) json_obj_create).pair.filter
          (fun p => p.1 == K) ++
      (fill_json_desc_gdt d (desc_setup fs) (fs.super_and_bgd_loc2 i).2.1
        (fs.super_and_bgd_loc2 i).2.2 json_obj_create).pair.filter (fun p => p.1 == K) ++
      (fill_json_desc_block_bitmap d fs i (fs.group_first_block2 i) (fs.group_last_block2 i)
        json_obj_create).pair.filter (fun p => p.1 == K) ++
      (fill_json_desc_inode_bitmap d fs i (fs.group_first_block2 i) (fs.group_last_block2 i)
        json_obj_create).pair.filter (fun p => p.1 == K) ++
      (fill_json_desc_inode_table d fs (desc_setup fs) i (fs.group_first_block2 i)
        (fs.group_last_block2 i) json_obj_create).pair.filter (fun p => p.1 == K) ++
      (fill_json_desc_counts fs (desc_setup fs) i json_obj_create).pair.filter
        (fun p => p.1 == K) ++
      (fill_json_desc_free_blocks d fs (desc_setup fs) json_obj_create i
        (blk_itr_at fs (desc_setup fs) i)).pair.filter (fun p => p.1 == K) ++
      (fill_json_desc_free_inodes d fs (desc_setup fs) json_obj_create i
        (ino_itr_at fs (desc_setup fs) i)).pair.filter (fun p => p.1 == K) := by
  unfold group_record json_obj.pairs_with_key
  rw [fill_json_desc_group_pair, fill_json_desc_fields_pair]
  simp only [List.filter_append]

/-- The group records are the elements of the `desc` list, in group order. -/
theorem desc_groups_eq_records (d : Display) (fs : ext2_filsys) :
    desc_groups d fs =
      (List.range fs.group_desc_count).map (fun k => json_val.obj (group_record d fs k).pair) :=
  desc_groups_eq d fs

/-- The group texts are the writes of `list_desc` after its first newline, in
group order. -/
theorem list_desc_eq_group_text (d : Display) (fs : ext2_filsys) (ignore_80col : Bool) :
    list_desc d fs false ignore_80col = ["\n"] ++
      ((List.range fs.group_desc_count).map (group_text d fs ignore_80col)).flatten :=
  list_desc_eq_text d fs ignore_80col

/-! ## Literal writes and writes that carry a number -/

theorem has_digit_append_left (a b : String) (h : has_digit a) : has_digit (a ++ b) := by
  obtain ⟨c, hc, hd⟩ := h
  exact ⟨c, by simp [String.data_append, hc], hd⟩

theorem has_digit_append_right (a b : String) (h : has_digit b) : has_digit (a ++ b) := by
  obtain ⟨c, hc, hd⟩ := h
  exact ⟨c, by simp [String.data_append, hc], hd⟩

theorem digitChar_dec : ∀ k, k < 10 → Nat.digitChar k ∈ "0123456789".data := by decide

theorem toDigitsCore_ne_nil (b fuel n : Nat) (ds : List Char) (h : ds ≠ []) :
    Nat.toDigitsCore b fuel n ds ≠ [] := by
  induction fuel generalizing n ds with
  | zero => simpa [Nat.toDigitsCore] using h
  | succ f ih =>
    unfold Nat.toDigitsCore
    simp only []
    split
    · simp
    · exact ih _ _ (by simp)

theorem toDigitsCore_dec (fuel n : Nat) (ds : List Char)
    (h : ∀ c ∈ ds, c ∈ "0123456789".data) :
    ∀ c ∈ Nat.toDigitsCore 10 fuel n ds, c ∈ "0123456789".data := by
  induction fuel generalizing n ds with
  | zero => simpa [Nat.toDigitsCore] using h
  | succ f ih =>
    unfold Nat.toDigitsCore
    have hd : ∀ c ∈ Nat.digitChar (n % 10) :: ds, c ∈ "0123456789".data := by
      intro c hc
      rcases List.mem_cons.mp hc with rfl | hc
      · exact digitChar_dec _ (Nat.mod_lt n (by decide))
      · exact h c hc
    simp only []
    split
    · exact hd
    · exact ih _ _ hd

/-- The decimal text of a number is not empty and consists of decimal digits. -/
theorem fmt_dec_digits (n : Nat) :
    (fmt_dec n).data ≠ [] ∧ ∀ c ∈ (fmt_dec n).data, c ∈ "0123456789".data := by
  unfold fmt_dec Nat.repr Nat.toDigits
  constructor
  · show Nat.toDigitsCore 10 (n + 1) n [] ≠ []
    unfold Nat.toDigitsCore
    simp only []
    split
    · simp
    · exact toDigitsCore_ne_nil _ _ _ _ (by simp)
  · exact toDigitsCore_dec (n + 1) n [] (by simp)

theorem fmt_dec_has_digit (n : Nat) : has_digit (fmt_dec n) := by
  obtain ⟨h1, h2⟩ := fmt_dec_digits n
  obtain ⟨c, hc⟩ := List.exists_mem_of_ne_nil _ h1
  exact ⟨c, hc, h2 c hc⟩

theorem fmt_hex_has_digit (w n : Nat) : has_digit (fmt_hex w n) := by
  unfold fmt_hex
  exact has_digit_append_left _ _ ⟨'0', by decide, by decide⟩

theorem number_text_has_digit (d : Display) (n : Nat) : has_digit (number_text d n) := by
  unfold number_text print_number Out.text
  split
  · split
    · simpa [String.join] using fmt_hex_has_digit 8 n
    · simpa [String.join] using fmt_hex_has_digit 4 n
  · simpa [String.join] using fmt_dec_has_digit n

theorem lit_or_digit_nil (lits : List String) : lit_or_digit lits [] := by
  intro w hw; simp at hw

theorem lit_or_digit_append (lits : List String) (a b : Out) (ha : lit_or_digit lits a)
    (hb : lit_or_digit lits b) : lit_or_digit lits (a ++ b) := by
  intro w hw
  rcases List.mem_append.mp hw with h | h
  · exact ha w h
  · exact hb w h

theorem lit_or_digit_ite (lits : List String) (c : Prop) [Decidable c] (a b : Out)
    (ha : lit_or_digit lits a) (hb : lit_or_digit lits b) :
    lit_or_digit lits (if c then a else b) := by
  split
  · exact ha
  · exact hb

theorem lit_or_digit_lit (lits : List String) (s : String) (h : s ∈ lits) :
    lit_or_digit lits [s] := by
  intro w hw
  rw [List.mem_singleton.mp hw]
  exact Or.inl h

theorem lit_or_digit_digit (lits : List String) (s : String) (h : has_digit s) :
    lit_or_digit lits [s] := by
  intro w hw
  rw [List.mem_singleton.mp hw]
  exact Or.inr h

theorem lit_or_digit_mono (lits lits2 : List String) (o : Out) (h : lit_or_digit lits o)
    (hsub : ∀ s ∈ lits, s ∈ lits2) : lit_or_digit lits2 o := by
  intro w hw
  rcases h w hw with h1 | h1
  · exact Or.inl (hsub w h1)
  · exact Or.inr h1

/-- A literal without a digit that is not among `lits` is not written. -/
theorem not_mem_of_lit_or_digit (lits : List String) (o : Out) (h : lit_or_digit lits o)
    (s : String) (h1 : s ∉ lits) (h2 : ¬ has_digit s) : s ∉ o := by
  intro hs
  rcases h s hs with h3 | h3
  · exact h1 h3
  · exact h2 h3

theorem print_number_lit_or_digit (lits : List String) (d : Display) (n : Nat) :
    lit_or_digit lits (print_number d n) := by
  rw [print_number_eq]
  exact lit_or_digit_digit _ _ (number_text_has_digit d n)

theorem print_range_lit_or_digit (lits : List String) (d : Display) (a b : Nat) :
    lit_or_digit lits (print_range d a b) := by
  unfold print_range
  split
  · split
    · exact lit_or_digit_digit _ _
        (has_digit_append_left _ _ (has_digit_append_left _ _ (fmt_hex_has_digit 8 a)))
    · exact lit_or_digit_digit _ _
        (has_digit_append_left _ _ (has_digit_append_left _ _ (fmt_hex_has_digit 4 a)))
  · exact lit_or_digit_digit _ _
      (has_digit_append_left _ _ (has_digit_append_left _ _ (fmt_dec_has_digit a)))

theorem print_bg_rel_offset_lit_or_digit (lits : List String) (fs : ext2_filsys) (block : Nat)
    (itable : Bool) (first_block last_block : Nat) :
    lit_or_digit lits (print_bg_rel_offset fs block itable first_block last_block) := by
  unfold print_bg_rel_offset
  split
  · split
    · exact lit_or_digit_nil _
    · exact lit_or_digit_digit _ _
        (has_digit_append_left _ _ (has_digit_append_right _ _ (fmt_dec_has_digit _)))
  · split
    · exact lit_or_digit_digit _ _
        (has_digit_append_left _ _ (has_digit_append_right _ _ (fmt_dec_has_digit _)))
    · exact lit_or_digit_nil _

theorem runs_out_lit_or_digit (d : Display) (value : Nat → Nat) (p : Bool)
    (rs : List (Nat × Nat)) : lit_or_digit [", ", "-"] (runs_out d value p rs) := by
  induction rs generalizing p with
  | nil => exact lit_or_digit_nil _
  | cons r rs ih =>
    unfold runs_out
    refine lit_or_digit_append _ _ _ (lit_or_digit_append _ _ _
      (lit_or_digit_append _ _ _ ?_ ?_) ?_) (ih true)
    · exact lit_or_digit_ite _ _ _ _ (lit_or_digit_lit _ _ (by decide)) (lit_or_digit_nil _)
    · exact lit_or_digit_digit _ _ (number_text_has_digit d _)
    · refine lit_or_digit_ite _ _ _ _ ?_ (lit_or_digit_nil _)
      exact lit_or_digit_append _ ["-"] [_] (lit_or_digit_lit _ _ (by decide))
        (lit_or_digit_digit _ _ (number_text_has_digit d _))

theorem print_free_lit_or_digit (d : Display) (group : Nat) (bitmap : Bitmap)
    (num offset ratio : Nat) :
    lit_or_digit [", ", "-"] (print_free d group bitmap num offset ratio) := by
  rw [print_free_eq_runs]
  exact runs_out_lit_or_digit d _ false _

theorem list_desc_csum_lit_or_digit (fs : ext2_filsys) (i : Nat) :
    lit_or_digit [] (list_desc_csum fs i) := by
  unfold list_desc_csum
  refine lit_or_digit_ite _ _ _ _ ?_ (lit_or_digit_nil _)
  refine lit_or_digit_append _ _ _
    (lit_or_digit_digit _ _ (has_digit_append_right _ _ (fmt_hex_has_digit _ _))) ?_
  exact lit_or_digit_ite _ _ _ _
    (lit_or_digit_digit _ _ (has_digit_append_left _ _
      (has_digit_append_right _ _ (fmt_hex_has_digit _ _)))) (lit_or_digit_nil _)

theorem print_bg_opt_lit_or_digit (lits : List String) (bg_flags mask : Nat) (str : String)
    (first : Bool) (h1 : " [" ∈ lits) (h2 : ", " ∈ lits) (h3 : str ∈ lits) :
    lit_or_digit lits (print_bg_opt bg_flags mask str first).1 := by
  unfold print_bg_opt
  split
  · refine lit_or_digit_append _ _ _ ?_ (lit_or_digit_lit _ _ h3)
    cases first
    · exact lit_or_digit_lit _ _ h2
    · exact lit_or_digit_lit _ _ h1
  · exact lit_or_digit_nil _

theorem print_bg_opts_lit_or_digit (fs : ext2_filsys) (i : Nat) :
    lit_or_digit [" [", ", ", "INODE_UNINIT", "BLOCK_UNINIT", "ITABLE_ZEROED", "]", "\n"]
      (print_bg_opts fs i) := by
  unfold print_bg_opts
  simp only []
  refine lit_or_digit_append _ _ _ (lit_or_digit_append _ _ _ (lit_or_digit_append _ _ _
    (lit_or_digit_append _ _ _ ?_ ?_) ?_) ?_) (lit_or_digit_lit _ "\n" (by decide))
  · exact print_bg_opt_lit_or_digit _ _ _ "INODE_UNINIT" _ (by decide) (by decide) (by decide)
  · exact print_bg_opt_lit_or_digit _ _ _ "BLOCK_UNINIT" _ (by decide) (by decide) (by decide)
  · exact print_bg_opt_lit_or_digit _ _ _ "ITABLE_ZEROED" _ (by decide) (by decide) (by decide)
  · exact lit_or_digit_ite _ _ _ _ (lit_or_digit_lit _ "]" (by decide)) (lit_or_digit_nil _)

theorem list_desc_super_lit_or_digit (d : Display) (i super_blk : Nat) (has_super : Bool) :
    lit_or_digit ["  Primary superblock at ", "  Backup superblock at "]
      (list_desc_super d i super_blk has_super) := by
  unfold list_desc_super
  refine lit_or_digit_ite _ _ _ _ ?_ (lit_or_digit_nil _)
  refine lit_or_digit_append _ _ _ ?_ (print_number_lit_or_digit _ d _)
  apply lit_or_digit_lit
  split <;> decide

theorem list_desc_gdt_lit_or_digit (d : Display) (l : desc_locals)
    (old_desc_blk new_desc_blk : Nat) (has_super : Bool) :
    lit_or_digit [", Group descriptors at ", "\n  Reserved GDT blocks at ", ",", " ",
        " Group descriptor at ", "\n"]
      (list_desc_gdt d l old_desc_blk new_desc_blk has_super) := by
  unfold list_desc_gdt
  refine lit_or_digit_append _ _ _ ?_ ?_
  · refine lit_or_digit_ite _ _ _ _ ?_ ?_
    · refine lit_or_digit_append _ _ _ (lit_or_digit_append _ _ _
        (lit_or_digit_lit _ _ (by decide)) (print_range_lit_or_digit _ d _ _)) ?_
      exact lit_or_digit_ite _ _ _ _ (lit_or_digit_append _ _ _
        (lit_or_digit_lit _ _ (by decide)) (print_range_lit_or_digit _ d _ _))
        (lit_or_digit_nil _)
    · refine lit_or_digit_ite _ _ _ _ ?_ (lit_or_digit_nil _)
      refine lit_or_digit_append _ _ _ (lit_or_digit_append _ _ _ ?_
        (lit_or_digit_lit _ _ (by decide))) (print_number_lit_or_digit _ d _)
      apply lit_or_digit_lit
      cases has_super <;> decide
  · exact lit_or_digit_ite _ _ _ _ (lit_or_digit_lit _ "\n" (by decide)) (lit_or_digit_nil _)

theorem list_desc_block_bitmap_lit_or_digit (d : Display) (fs : ext2_filsys)
    (ignore_80col : Bool) (i first_block last_block : Nat) :
    lit_or_digit ["  Block bitmap at ", ",", "\n "]
      (list_desc_block_bitmap d fs ignore_80col i first_block last_block) := by
  unfold list_desc_block_bitmap
  refine lit_or_digit_append _ _ _ (lit_or_digit_append _ _ _ (lit_or_digit_append _ _ _
    (lit_or_digit_append _ _ _ (lit_or_digit_lit _ _ (by decide))
    (print_number_lit_or_digit _ d _)) (print_bg_rel_offset_lit_or_digit _ _ _ _ _ _)) ?_) ?_
  · exact lit_or_digit_ite _ _ _ _
      (lit_or_digit_digit _ _ (has_digit_append_right _ _ (fmt_hex_has_digit _ _)))
      (lit_or_digit_nil _)
  · cases ignore_80col
    · exact lit_or_digit_lit _ "\n " (by decide)
    · exact lit_or_digit_lit _ "," (by decide)

theorem list_desc_inode_bitmap_lit_or_digit (d : Display) (fs : ext2_filsys)
    (i first_block last_block : Nat) :
    lit_or_digit [" Inode bitmap at "]
      (list_desc_inode_bitmap d fs i first_block last_block) := by
  unfold list_desc_inode_bitmap
  refine lit_or_digit_append _ _ _ (lit_or_digit_append _ _ _ (lit_or_digit_append _ _ _
    (lit_or_digit_lit _ _ (by decide)) (print_number_lit_or_digit _ d _))
    (print_bg_rel_offset_lit_or_digit _ _ _ _ _ _)) ?_
  exact lit_or_digit_ite _ _ _ _
    (lit_or_digit_digit _ _ (has_digit_append_right _ _ (fmt_hex_has_digit _ _)))
    (lit_or_digit_nil _)

theorem list_desc_inode_table_lit_or_digit (d : Display) (fs : ext2_filsys) (l : desc_locals)
    (i first_block last_block : Nat) :
    lit_or_digit ["\n  Inode table at "]
      (list_desc_inode_table d fs l i first_block last_block) := by
  unfold list_desc_inode_table
  exact lit_or_digit_append _ _ _ (lit_or_digit_append _ _ _
    (lit_or_digit_lit _ _ (by decide)) (print_range_lit_or_digit _ d _ _))
    (print_bg_rel_offset_lit_or_digit _ _ _ _ _ _)

theorem list_desc_counts_lit_or_digit (fs : ext2_filsys) (l : desc_locals) (i : Nat) :
    lit_or_digit [] (list_desc_counts fs l i) := by
  unfold list_desc_counts
  refine lit_or_digit_append _ _ _ (lit_or_digit_digit _ _ ?_) ?_
  · iterate 8 apply has_digit_append_left
    exact has_digit_append_right _ _ (fmt_dec_has_digit _)
  · refine lit_or_digit_ite _ _ _ _ (lit_or_digit_digit _ _ ?_) (lit_or_digit_nil _)
    exact has_digit_append_left _ _ (has_digit_append_right _ _ (fmt_dec_has_digit _))

theorem list_desc_free_blocks_lit_or_digit (d : Display) (fs : ext2_filsys) (l : desc_locals)
    (i blk_itr : Nat) :
    lit_or_digit ["  Free blocks: ", "\n", ", ", "-"]
      (list_desc_free_blocks d fs l i blk_itr) := by
  unfold list_desc_free_blocks
  refine lit_or_digit_ite _ _ _ _ ?_ (lit_or_digit_nil _)
  refine lit_or_digit_append _ _ _ (lit_or_digit_append _ _ _
    (lit_or_digit_lit _ _ (by decide)) ?_) (lit_or_digit_lit _ "\n" (by decide))
  split
  · exact lit_or_digit_mono _ _ _ (print_free_lit_or_digit d _ _ _ _ _) (by decide)
  · exact lit_or_digit_nil _

theorem list_desc_free_inodes_lit_or_digit (d : Display) (fs : ext2_filsys) (l : desc_locals)
    (i ino_itr : Nat) :
    lit_or_digit ["  Free inodes: ", "\n", ", ", "-"]
      (list_desc_free_inodes d fs l i ino_itr) := by
  unfold list_desc_free_inodes
  refine lit_or_digit_ite _ _ _ _ ?_ (lit_or_digit_nil _)
  refine lit_or_digit_append _ _ _ (lit_or_digit_append _ _ _
    (lit_or_digit_lit _ _ (by decide)) ?_) (lit_or_digit_lit _ "\n" (by decide))
  split
  · exact lit_or_digit_mono _ _ _ (print_free_lit_or_digit d _ _ _ _ _) (by decide)
  · exact lit_or_digit_nil _

/-- The writes of a group, part by part in the order of the source. -/
theorem group_text_eq (d : Display) (fs : ext2_filsys) (ignore_80col : Bool) (i : Nat) :
    group_text d fs ignore_80col i =
      ["Group " ++ fmt_dec i ++ ": (Blocks "] ++
      print_range d (fs.group_first_block2 i) (fs.group_last_block2 i) ++
      [")"] ++
      list_desc_csum fs i ++
      print_bg_opts fs i ++
      list_desc_super d i (fs.super_and_bgd_loc2 i).1
        (decide (i = 0 ∨ (fs.super_and_bgd_loc2 i).1 ≠ 0)) ++
      list_desc_gdt d (desc_setup fs) (fs.super_and_bgd_loc2 i).2.1
        (fs.super_and_bgd_loc2 i).2.2 (decide (i = 0 ∨ (fs.super_and_bgd_loc2 i).1 ≠ 0)) ++
      list_desc_block_bitmap d fs ignore_80col i (fs.group_first_block2 i)
        (fs.group_last_block2 i) ++
      list_desc_inode_bitmap d fs i (fs.group_first_block2 i) (fs.group_last_block2 i) ++
      list_desc_inode_table d fs (desc_setup fs) i (fs.group_first_block2 i)
        (fs.group_last_block2 i) ++
      list_desc_counts fs (desc_setup fs) i ++
      list_desc_free_blocks d fs (desc_setup fs) i (blk_itr_at fs (desc_setup fs) i) ++
      list_desc_free_inodes d fs (desc_setup fs) i (ino_itr_at fs (desc_setup fs) i) := by
  unfold group_text
  rw [list_desc_group_eq]
  unfold list_desc_fields
  rfl

/-! ## Which part of a group's text a literal write comes from -/

theorem mem_of_lit_or_digit (lits big : List String) (o : Out) (h : lit_or_digit lits o)
    (s : String) (hs : s ∈ o) (hd : ¬ has_digit s) (hsub : ∀ x ∈ lits, x ∈ big) : s ∈ big := by
  rcases h s hs with h1 | h1
  · exact hsub s h1
  · exact absurd h1 hd

/-- A write of a group without a digit in it is a write of the superblock
part, a write of the descriptor-table part, or one of the literals of the
other parts. -/
theorem group_text_mem_cases (d : Display) (fs : ext2_filsys) (ignore_80col : Bool) (i : Nat)
    (s : String) (h : s ∈ group_text d fs ignore_80col i) (hd : ¬ has_digit s) :
    s ∈ list_desc_super d i (fs.super_and_bgd_loc2 i).1
        (decide (i = 0 ∨ (fs.super_and_bgd_loc2 i).1 ≠ 0)) ∨
    s ∈ list_desc_gdt d (desc_setup fs) (fs.super_and_bgd_loc2 i).2.1
        (fs.super_and_bgd_loc2 i).2.2 (decide (i = 0 ∨ (fs.super_and_bgd_loc2 i).1 ≠ 0)) ∨
    s ∈ [")", " [", ", ", "INODE_UNINIT", "BLOCK_UNINIT", "ITABLE_ZEROED", "]", "\n",
         "  Block bitmap at ", ",", "\n ", " Inode bitmap at ", "\n  Inode table at ",
         "  Free blocks: ", "-", "  Free inodes: "] := by
  rw [group_text_eq] at h
  simp only [List.mem_append, or_assoc] at h
  rcases h with h | h | h | h | h | h | h | h | h | h | h | h | h
  · exact absurd (by
      rw [List.mem_singleton.mp h]
      exact has_digit_append_left _ _ (has_digit_append_right _ _ (fmt_dec_has_digit i))) hd
  · exact absurd ((print_range_lit_or_digit [] d _ _ s h).resolve_left (by simp)) hd
  · right; right
    rw [List.mem_singleton.mp h]
    decide
  · exact absurd ((list_desc_csum_lit_or_digit fs i s h).resolve_left (by simp)) hd
  · right; right
    exact mem_of_lit_or_digit _ _ _ (print_bg_opts_lit_or_digit fs i) s h hd (by decide)
  · exact Or.inl h
  · exact Or.inr (Or.inl h)
  · right; right
    exact mem_of_lit_or_digit _ _ _
      (list_desc_block_bitmap_lit_or_digit d fs ignore_80col i _ _) s h hd (by decide)
  · right; right
    exact mem_of_lit_or_digit _ _ _
      (list_desc_inode_bitmap_lit_or_digit d fs i _ _) s h hd (by decide)
  · right; right
    exact mem_of_lit_or_digit _ _ _
      (list_desc_inode_table_lit_or_digit d fs (desc_setup fs) i _ _) s h hd (by decide)
  · exact absurd ((list_desc_counts_lit_or_digit fs (desc_setup fs) i s h).resolve_left
      (by simp)) hd
  · right; right
    exact mem_of_lit_or_digit _ _ _
      (list_desc_free_blocks_lit_or_digit d fs (desc_setup fs) i _) s h hd (by decide)
  · right; right
    exact mem_of_lit_or_digit _ _ _
      (list_desc_free_inodes_lit_or_digit d fs (desc_setup fs) i _) s h hd (by decide)

theorem infix_skip {α : Type} (l a b : List α) (h : l <:+: b) : l <:+: a ++ b :=
  h.trans (List.suffix_append a b).isInfix

theorem infix_here {α : Type} (l b : List α) : l <:+: l ++ b :=
  (List.prefix_append l b).isInfix

/-- The superblock part is a block of consecutive writes of the group's text. -/
theorem list_desc_super_part (d : Display) (fs : ext2_filsys) (ignore_80col : Bool) (i : Nat) :
    list_desc_super d i (fs.super_and_bgd_loc2 i).1
        (decide (i = 0 ∨ (fs.super_and_bgd_loc2 i).1 ≠ 0)) <:+:
      group_text d fs ignore_80col i := by
  rw [group_text_eq]
  simp only [List.append_assoc]
  iterate 5 apply infix_skip
  exact infix_here _ _

/-- The descriptor-table part is a block of consecutive writes of the group's
text. -/
theorem list_desc_gdt_part (d : Display) (fs : ext2_filsys) (ignore_80col : Bool) (i : Nat) :
    list_desc_gdt d (desc_setup fs) (fs.super_and_bgd_loc2 i).2.1
        (fs.super_and_bgd_loc2 i).2.2 (decide (i = 0 ∨ (fs.super_and_bgd_loc2 i).1 ≠ 0)) <:+:
      group_text d fs ignore_80col i := by
  rw [group_text_eq]
  simp only [List.append_assoc]
  iterate 6 apply infix_skip
  exact infix_here _ _

/-- For a key of the superblock part, the pairs of the group record under it
are those the superblock part adds. -/
theorem group_record_super_key (d : Display) (fs : ext2_filsys) (i : Nat) (K : String)
    (hK : K ∈ ["superblock-type", "superblock-at"]) :
    (group_record d fs i).pairs_with_key K =
      (if i = 0 ∨ (fs.super_and_bgd_loc2 i).1 ≠ 0 then
        [("superblock-type", json_val_type.JSON_VAL_STRING,
          json_val.str (if i = 0 then "Primary" else "Backup")),
         ("superblock-at", json_val_type.JSON_VAL_STRING,
          json_val.str (snprint_number d 64 (fs.super_and_bgd_loc2 i).1))]
       else []).filter (fun p => p.1 == K) := by
  have hne : ∀ L : List String, (∀ x ∈ L, x ∉ ["superblock-type", "superblock-at"]) → K ∉ L :=
    fun L hL hKL => hL K hKL hK
  rw [group_record_pairs_with_key,
    fill_json_desc_csum_filter fs i K (hne _ (by decide)),
    fill_json_bg_opts_filter fs i K (hne _ (by decide)),
    fill_json_desc_gdt_filter d _ _ _ K (hne _ (by decide)),
    fill_json_desc_block_bitmap_filter d fs i _ _ K (hne _ (by decide)),
    fill_json_desc_inode_bitmap_filter d fs i _ _ K (hne _ (by decide)),
    fill_json_desc_inode_table_filter d fs _ i _ _ K (hne _ (by decide)),
    fill_json_desc_counts_filter fs _ i K (hne _ (by decide)),
    fill_json_desc_free_blocks_filter d fs _ i _ K (hne _ (by decide)),
    fill_json_desc_free_inodes_filter d fs _ i _ K (hne _ (by decide)),
    fill_json_desc_super_pair]
  have h2 : [("num", json_val_type.JSON_VAL_STRING, json_val.str (snprintf 64 (fmt_dec i))),
       ("blocks", json_val_type.JSON_VAL_OBJECT,
         json_val.obj (json_create_range_obj d (fs.group_first_block2 i)
           (fs.group_last_block2 i)).pair)].filter (fun p => p.1 == K) = [] := by
    rcases List.mem_cons.mp hK with rfl | hK
    · rfl
    · rw [List.mem_singleton.mp hK]; rfl
  rw [h2]
  simp [json_obj_create]

/-- For a key of the descriptor-table part, the pairs of the group record
under it are those the descriptor-table part adds. -/
theorem group_record_gdt_key (d : Display) (fs : ext2_filsys) (i : Nat) (K : String)
    (hK : K ∈ ["group-descriptors-at", "reserved-gdt-blocks-at", "group-desc-at"]) :
    (group_record d fs i).pairs_with_key K =
      (fill_json_desc_gdt d (desc_setup fs) (fs.super_and_bgd_loc2 i).2.1
        (fs.super_and_bgd_loc2 i).2.2 json_obj_create).pair.filter (fun p => p.1 == K) := by
  have hne : ∀ L : List String,
      (∀ x ∈ L, x ∉ ["group-descriptors-at", "reserved-gdt-blocks-at", "group-desc-at"]) →
        K ∉ L :=
    fun L hL hKL => hL K hKL hK
  rw [group_record_pairs_with_key,
    fill_json_desc_csum_filter fs i K (hne _ (by decide)),
    fill_json_bg_opts_filter fs i K (hne _ (by decide)),
    fill_json_desc_super_filter d i _ _ K (hne _ (by decide)),
    fill_json_desc_block_bitmap_filter d fs i _ _ K (hne _ (by decide)),
    fill_json_desc_inode_bitmap_filter d fs i _ _ K (hne _ (by decide)),
    fill_json_desc_inode_table_filter d fs _ i _ _ K (hne _ (by decide)),
    fill_json_desc_counts_filter fs _ i K (hne _ (by decide)),
    fill_json_desc_free_blocks_filter d fs _ i _ K (hne _ (by decide)),
    fill_json_desc_free_inodes_filter d fs _ i _ K (hne _ (by decide))]
  have h2 : [("num", json_val_type.JSON_VAL_STRING, json_val.str (snprintf 64 (fmt_dec i))),
       ("blocks", json_val_type.JSON_VAL_OBJECT,
         json_val.obj (json_create_range_obj d (fs.group_first_block2 i)
           (fs.group_last_block2 i)).pair)].filter (fun p => p.1 == K) = [] := by
    rcases List.mem_cons.mp hK with rfl | hK
    · rfl
    · rcases List.mem_cons.mp hK with rfl | hK
      · rfl
      · rw [List.mem_singleton.mp hK]; rfl
  rw [h2]
  simp

/-- The write of `print_range`: the two numbers with a `-` between them. -/
theorem print_range_eq (d : Display) (a b : Nat) :
    print_range d a b = [number_text d a ++ "-" ++ number_text d b] := by
  unfold print_range number_text print_number Out.text
  split
  · split <;> simp [String.join]
  · simp [String.join]

/-- The length `json_create_range_obj` computes for the range from `a` to
`a + b - 1` is `b`. -/
theorem range_len_blk_last (a b : Nat) (ha : a < ULONG_MOD) :
    (blk_last a b + ULONG_MOD - a + 1) % ULONG_MOD = b % ULONG_MOD := by
  unfold blk_last
  simp only [ULONG_MOD] at *
  norm_num at *
  omega

theorem range_obj_blk_last (d : Display) (a b : Nat) (ha : a < ULONG_MOD) (hb : b < ULONG_MOD) :
    json_val.obj (json_create_range_obj d a (blk_last a b)).pair = extent_obj d a b := by
  rw [json_create_range_obj_eq d a _ ha, range_len_blk_last a b ha, Nat.mod_eq_of_lt hb]

/-! ## The descriptor-table part of the text, write by write -/

theorem list_desc_gdt_eq (d : Display) (l : desc_locals) (old_desc_blk new_desc_blk : Nat)
    (has_super : Bool) :
    list_desc_gdt d l old_desc_blk new_desc_blk has_super =
      (if old_desc_blk ≠ 0 then
        [", Group descriptors at ",
         number_text d old_desc_blk ++ "-" ++
           number_text d (blk_last old_desc_blk (blk64_of_int l.old_desc_blocks))] ++
        (if l.reserved_gdt ≠ 0 then
          ["\n  Reserved GDT blocks at ",
           number_text d ((old_desc_blk + blk64_of_int l.old_desc_blocks) % ULONG_MOD) ++ "-" ++
             number_text d (blk_last ((old_desc_blk + blk64_of_int l.old_desc_blocks) % ULONG_MOD)
               l.reserved_gdt)]
         else [])
       else if new_desc_blk ≠ 0 then
        [if has_super then "," else " ", " Group descriptor at ", number_text d new_desc_blk]
       else []) ++
      (if has_super ∨ (old_desc_blk = 0 ∧ new_desc_blk ≠ 0) then ["\n"] else []) := by
  unfold list_desc_gdt
  simp only [print_range_eq, print_number_eq, List.singleton_append, List.cons_append,
    List.nil_append]

/-- Where a write without a digit that is no separator occurs in the
descriptor-table part of the text. -/
theorem mem_list_desc_gdt_iff (d : Display) (l : desc_locals) (old_desc_blk new_desc_blk : Nat)
    (has_super : Bool) (s : String) (hd : ¬ has_digit s) (hn : s ≠ "\n") (hc : s ≠ ",")
    (hsp : s ≠ " ") :
    s ∈ list_desc_gdt d l old_desc_blk new_desc_blk has_super ↔
      ((old_desc_blk ≠ 0 ∧ (s = ", Group descriptors at " ∨
          (l.reserved_gdt ≠ 0 ∧ s = "\n  Reserved GDT blocks at "))) ∨
        (old_desc_blk = 0 ∧ new_desc_blk ≠ 0 ∧ s = " Group descriptor at ")) := by
  have hA : ∀ a b, ¬ (s = number_text d a ++ "-" ++ number_text d b) := by
    intro a b e
    exact hd (e ▸ has_digit_append_left _ _ (has_digit_append_left _ _
      (number_text_has_digit d a)))
  have hB : ∀ a, ¬ (s = number_text d a) := by
    intro a e
    exact hd (e ▸ number_text_has_digit d a)
  rw [list_desc_gdt_eq]
  by_cases h1 : old_desc_blk = 0 <;> by_cases h2 : l.reserved_gdt = 0 <;>
    by_cases h3 : new_desc_blk = 0 <;> cases has_super <;>
    simp [h1, h2, h3, hA, hB, hn, hc, hsp]

/-- A label of the descriptor-table part is written in a group's text
exactly when the descriptor-table part writes it. -/
theorem group_text_mem_gdt_label (d : Display) (fs : ext2_filsys) (ignore_80col : Bool)
    (i : Nat) (s : String)
    (hs : s ∈ [", Group descriptors at ", "\n  Reserved GDT blocks at ",
      " Group descriptor at "]) :
    s ∈ group_text d fs ignore_80col i ↔
      s ∈ list_desc_gdt d (desc_setup fs) (fs.super_and_bgd_loc2 i).2.1
        (fs.super_and_bgd_loc2 i).2.2 (decide (i = 0 ∨ (fs.super_and_bgd_loc2 i).1 ≠ 0)) := by
  have hall : ∀ P : String → Prop, P ", Group descriptors at " →
      P "\n  Reserved GDT blocks at " → P " Group descriptor at " → P s := by
    intro P p1 p2 p3
    rcases List.mem_cons.mp hs with rfl | hs
    · exact p1
    · rcases List.mem_cons.mp hs with rfl | hs
      · exact p2
      · rw [List.mem_singleton.mp hs]; exact p3
  constructor
  · intro h
    have hd : ¬ has_digit s := hall (fun s => ¬ has_digit s) (by decide) (by decide) (by decide)
    rcases group_text_mem_cases d fs ignore_80col i s h hd with h1 | h1 | h1
    · exfalso
      refine not_mem_of_lit_or_digit _ _ (list_desc_super_lit_or_digit d _ _ _) s ?_ hd h1
      exact hall (fun s => s ∉ ["  Primary superblock at ", "  Backup superblock at "])
        (by decide) (by decide) (by decide)
    · exact h1
    · exfalso
      revert h1
      exact hall (fun s => s ∉ [")", " [", ", ", "INODE_UNINIT", "BLOCK_UNINIT",
        "ITABLE_ZEROED", "]", "\n", "  Block bitmap at ", ",", "\n ", " Inode bitmap at ",
        "\n  Inode table at ", "  Free blocks: ", "-", "  Free inodes: "])
        (by decide) (by decide) (by decide)
  · intro h
    exact (list_desc_gdt_part d fs ignore_80col i).subset h

/-! ## The relative-offset annotation -/

theorem snprintf_fmt_dec (n : Nat) (h : n < ULONG_MOD) : snprintf 32 (fmt_dec n) = fmt_dec n := by
  have := fmt_dec_length n h
  exact snprintf_of_length_le 32 _ (by omega)

theorem uint_lt_ulong (n : Nat) (h : n < UINT_MOD) : n < ULONG_MOD :=
  lt_trans h (by norm_num [UINT_MOD, ULONG_MOD])

/-! ## Writes that contain the character X -/

theorem digitChar_ne_X : ∀ k, k < 16 → Nat.digitChar k ≠ 'X' := by decide

theorem toDigitsCore_no_X (b : Nat) (hb1 : 0 < b) (hb2 : b ≤ 16) (fuel n : Nat) (ds : List Char)
    (h : 'X' ∉ ds) : 'X' ∉ Nat.toDigitsCore b fuel n ds := by
  induction fuel generalizing n ds with
  | zero => simpa [Nat.toDigitsCore] using h
  | succ f ih =>
    unfold Nat.toDigitsCore
    have hd : 'X' ∉ Nat.digitChar (n % b) :: ds := by
      simp only [List.mem_cons, not_or]
      have hlt : n % b < 16 := Nat.lt_of_lt_of_le (Nat.mod_lt n hb1) hb2
      exact ⟨fun e => digitChar_ne_X _ hlt e.symm, h⟩
    simp only []
    split
    · exact hd
    · exact ih _ _ hd

theorem fmt_dec_no_X (n : Nat) : 'X' ∉ (fmt_dec n).data := by
  unfold fmt_dec Nat.repr Nat.toDigits
  exact toDigitsCore_no_X 10 (by decide) (by decide) _ _ [] (by simp)

theorem fmt_hex_no_X (w n : Nat) : 'X' ∉ (fmt_hex w n).data := by
  unfold fmt_hex hex_digits Nat.toDigits
  have h := toDigitsCore_no_X 16 (by decide) (by decide) (n + 1) n [] (by simp)
  simp only [String.data_append, List.mem_append, List.mem_replicate, not_or]
  refine ⟨by decide, ?_, h⟩
  rintro ⟨-, h2⟩
  exact absurd h2 (by decide)

theorem no_X_append (a b : Out) (ha : no_X a) (hb : no_X b) : no_X (a ++ b) := by
  intro s hs
  rcases List.mem_append.mp hs with h | h
  · exact ha s h
  · exact hb s h

theorem no_X_nil : no_X [] := by intro s hs; simp at hs

theorem no_X_single (s : String) (h : 'X' ∉ s.data) : no_X [s] := by
  intro t ht
  rw [List.mem_singleton.mp ht]
  exact h

theorem print_number_no_X (d : Display) (n : Nat) : no_X (print_number d n) := by
  unfold print_number
  split
  · split
    · exact no_X_single _ (fmt_hex_no_X 8 n)
    · exact no_X_single _ (fmt_hex_no_X 4 n)
  · exact no_X_single _ (fmt_dec_no_X n)

theorem print_range_no_X (d : Display) (a b : Nat) : no_X (print_range d a b) := by
  have hd : 'X' ∉ "-".data := by decide
  unfold print_range
  split
  · split
    · apply no_X_single
      simp only [String.data_append, List.mem_append, not_or]
      exact ⟨⟨fmt_hex_no_X 8 a, hd⟩, fmt_hex_no_X 8 b⟩
    · apply no_X_single
      simp only [String.data_append, List.mem_append, not_or]
      exact ⟨⟨fmt_hex_no_X 4 a, hd⟩, fmt_hex_no_X 4 b⟩
  · apply no_X_single
    simp only [String.data_append, List.mem_append, not_or]
    exact ⟨⟨fmt_dec_no_X a, hd⟩, fmt_dec_no_X b⟩

theorem number_text_no_X (d : Display) (n : Nat) : 'X' ∉ (number_text d n).data := by
  have h := print_number_no_X d n
  rw [print_number_eq] at h
  exact h _ (List.mem_singleton.mpr rfl)

theorem runs_out_no_X (d : Display) (value : Nat → Nat) (p : Bool) (rs : List (Nat × Nat)) :
    no_X (runs_out d value p rs) := by
  induction rs generalizing p with
  | nil => exact no_X_nil
  | cons r rs ih =>
    unfold runs_out
    refine no_X_append _ _ (no_X_append _ _ (no_X_append _ _ ?_ ?_) ?_) (ih true)
    · split
      · exact no_X_single _ (by decide)
      · exact no_X_nil
    · exact no_X_single _ (number_text_no_X d _)
    · split
      · exact no_X_append ["-"] [_] (no_X_single _ (by decide))
          (no_X_single _ (number_text_no_X d _))
      · exact no_X_nil

theorem print_free_no_X (d : Display) (group : Nat) (bitmap : Bitmap) (num offset ratio : Nat) :
    no_X (print_free d group bitmap num offset ratio) := by
  rw [print_free_eq_runs]
  exact runs_out_no_X d _ false _

theorem no_X_ite (c : Prop) [Decidable c] (a b : Out) (ha : no_X a) (hb : no_X b) :
    no_X (if c then a else b) := by
  split
  · exact ha
  · exact hb

theorem print_bg_opt_no_X (bg_flags mask : Nat) (str : String) (first : Bool)
    (h : 'X' ∉ str.data) : no_X (print_bg_opt bg_flags mask str first).1 := by
  unfold print_bg_opt
  split
  · refine no_X_append _ _ ?_ (no_X_single _ h)
    cases first
    · exact no_X_single _ (by decide)
    · exact no_X_single _ (by decide)
  · exact no_X_nil

theorem print_bg_opts_no_X (fs : ext2_filsys) (i : Nat) : no_X (print_bg_opts fs i) := by
  unfold print_bg_opts
  simp only []
  refine no_X_append _ _ (no_X_append _ _ (no_X_append _ _ (no_X_append _ _ ?_ ?_) ?_) ?_)
    (no_X_single "\n" (by decide))
  · exact print_bg_opt_no_X _ _ "INODE_UNINIT" _ (by decide)
  · exact print_bg_opt_no_X _ _ "BLOCK_UNINIT" _ (by decide)
  · exact print_bg_opt_no_X _ _ "ITABLE_ZEROED" _ (by decide)
  · exact no_X_ite _ _ _ (no_X_single "]" (by decide)) no_X_nil

theorem print_bg_rel_offset_no_X (fs : ext2_filsys) (block : Nat) (itable : Bool)
    (first_block last_block : Nat) :
    no_X (print_bg_rel_offset fs block itable first_block last_block) := by
  have h1 : 'X' ∉ " (+".data := by decide
  have h2 : 'X' ∉ ")".data := by decide
  have h3 : 'X' ∉ " (bg #".data := by decide
  have h4 : 'X' ∉ " + ".data := by decide
  unfold print_bg_rel_offset
  split
  · split
    · exact no_X_nil
    · apply no_X_single
      simp only [String.data_append, List.mem_append, not_or]
      exact ⟨⟨h1, fmt_dec_no_X _⟩, h2⟩
  · split
    · apply no_X_single
      simp only [String.data_append, List.mem_append, not_or]
      exact ⟨⟨⟨⟨h3, fmt_dec_no_X _⟩, h4⟩, fmt_dec_no_X _⟩, h2⟩
    · exact no_X_nil

theorem list_desc_super_no_X (d : Display) (i super_blk : Nat) (has_super : Bool) :
    no_X (list_desc_super d i super_blk has_super) := by
  unfold list_desc_super
  split
  · refine no_X_append _ _ ?_ (print_number_no_X d _)
    apply no_X_single
    split <;> decide
  · exact no_X_nil

theorem list_desc_gdt_no_X (d : Display) (l : desc_locals) (old_desc_blk new_desc_blk : Nat)
    (has_super : Bool) : no_X (list_desc_gdt d l old_desc_blk new_desc_blk has_super) := by
  unfold list_desc_gdt
  refine no_X_append _ _ ?_ ?_
  · split
    · refine no_X_append _ _ (no_X_append _ _ (no_X_single _ (by decide))
        (print_range_no_X d _ _)) ?_
      split
      · exact no_X_append _ _ (no_X_single _ (by decide)) (print_range_no_X d _ _)
      · exact no_X_nil
    · split
      · refine no_X_append _ _ (no_X_append _ _ (no_X_single _ ?_) (no_X_single _ (by decide)))
          (print_number_no_X d _)
        cases has_super <;> decide
      · exact no_X_nil
  · split
    · exact no_X_single _ (by decide)
    · exact no_X_nil

theorem list_desc_block_bitmap_no_X (d : Display) (fs : ext2_filsys) (ignore_80col : Bool)
    (i first_block last_block : Nat) :
    no_X (list_desc_block_bitmap d fs ignore_80col i first_block last_block) := by
  have h1 : 'X' ∉ ", csum ".data := by decide
  unfold list_desc_block_bitmap
  refine no_X_append _ _ (no_X_append _ _ (no_X_append _ _ (no_X_append _ _
    (no_X_single _ (by decide)) (print_number_no_X d _)) (print_bg_rel_offset_no_X _ _ _ _ _))
    ?_) ?_
  · split
    · apply no_X_single
      simp only [String.data_append, List.mem_append, not_or]
      exact ⟨h1, fmt_hex_no_X _ _⟩
    · exact no_X_nil
  · cases ignore_80col
    · exact no_X_single _ (by decide)
    · exact no_X_single _ (by decide)

theorem list_desc_inode_bitmap_no_X (d : Display) (fs : ext2_filsys)
    (i first_block last_block : Nat) :
    no_X (list_desc_inode_bitmap d fs i first_block last_block) := by
  have h1 : 'X' ∉ ", csum ".data := by decide
  unfold list_desc_inode_bitmap
  refine no_X_append _ _ (no_X_append _ _ (no_X_append _ _
    (no_X_single _ (by decide)) (print_number_no_X d _)) (print_bg_rel_offset_no_X _ _ _ _ _)) ?_
  split
  · apply no_X_single
    simp only [String.data_append, List.mem_append, not_or]
    exact ⟨h1, fmt_hex_no_X _ _⟩
  · exact no_X_nil

theorem list_desc_inode_table_no_X (d : Display) (fs : ext2_filsys) (l : desc_locals)
    (i first_block last_block : Nat) :
    no_X (list_desc_inode_table d fs l i first_block last_block) := by
  unfold list_desc_inode_table
  exact no_X_append _ _ (no_X_append _ _ (no_X_single _ (by decide)) (print_range_no_X d _ _))
    (print_bg_rel_offset_no_X _ _ _ _ _)

theorem desc_setup_units_no_X (fs : ext2_filsys) : 'X' ∉ (desc_setup fs).units.data := by
  unfold desc_setup
  simp only []
  split <;> decide

theorem list_desc_counts_no_X (fs : ext2_filsys) (i : Nat) :
    no_X (list_desc_counts fs (desc_setup fs) i) := by
  have h1 : 'X' ∉ "\n  ".data := by decide
  have h2 : 'X' ∉ " free ".data := by decide
  have h3 : 'X' ∉ ", ".data := by decide
  have h4 : 'X' ∉ " free inodes, ".data := by decide
  have h5 : 'X' ∉ " directories".data := by decide
  have h6 : 'X' ∉ " unused inodes\n".data := by decide
  have h7 : 'X' ∉ (if fs.bg_itable_unused i ≠ 0 then "" else "\n").data := by
    split <;> decide
  unfold list_desc_counts
  refine no_X_append _ _ (no_X_single _ ?_) ?_
  · simp only [String.data_append, List.mem_append, not_or]
    repeat' apply And.intro
    all_goals first
      | exact fmt_dec_no_X _
      | exact desc_setup_units_no_X fs
      | exact h7
      | decide
  · split
    · apply no_X_single
      simp only [String.data_append, List.mem_append, not_or]
      exact ⟨⟨h3, fmt_dec_no_X _⟩, h6⟩
    · exact no_X_nil

theorem list_desc_free_blocks_no_X (d : Display) (fs : ext2_filsys) (l : desc_locals)
    (i blk_itr : Nat) : no_X (list_desc_free_blocks d fs l i blk_itr) := by
  unfold list_desc_free_blocks
  refine no_X_ite _ _ _ ?_ no_X_nil
  refine no_X_append _ _ (no_X_append _ _ (no_X_single _ (by decide)) ?_)
    (no_X_single "\n" (by decide))
  split
  · exact print_free_no_X d _ _ _ _ _
  · exact no_X_nil

theorem list_desc_free_inodes_no_X (d : Display) (fs : ext2_filsys) (l : desc_locals)
    (i ino_itr : Nat) : no_X (list_desc_free_inodes d fs l i ino_itr) := by
  unfold list_desc_free_inodes
  refine no_X_ite _ _ _ ?_ no_X_nil
  refine no_X_append _ _ (no_X_append _ _ (no_X_single _ (by decide)) ?_)
    (no_X_single "\n" (by decide))
  split
  · exact print_free_no_X d _ _ _ _ _
  · exact no_X_nil

/-- A write of a group's text with an `X` in it is a write of the checksum
part. -/
theorem group_text_X_in_csum (d : Display) (fs : ext2_filsys) (ignore_80col : Bool) (i : Nat)
    (w : String) (h : w ∈ group_text d fs ignore_80col i) (hX : 'X' ∈ w.data) :
    w ∈ list_desc_csum fs i := by
  rw [group_text_eq] at h
  simp only [List.mem_append, or_assoc] at h
  rcases h with h | h | h | h | h | h | h | h | h | h | h | h | h
  · exfalso
    rw [List.mem_singleton.mp h] at hX
    simp only [String.data_append, List.mem_append] at hX
    rcases hX with (hX | hX) | hX
    · exact absurd hX (by decide)
    · exact fmt_dec_no_X _ hX
    · exact absurd hX (by decide)
  · exact absurd hX (print_range_no_X d _ _ w h)
  · exfalso
    rw [List.mem_singleton.mp h] at hX
    exact absurd hX (by decide)
  · exact h
  · exact absurd hX (print_bg_opts_no_X fs i w h)
  · exact absurd hX (list_desc_super_no_X d _ _ _ w h)
  · exact absurd hX (list_desc_gdt_no_X d _ _ _ _ w h)
  · exact absurd hX (list_desc_block_bitmap_no_X d fs ignore_80col i _ _ w h)
  · exact absurd hX (list_desc_inode_bitmap_no_X d fs i _ _ w h)
  · exact absurd hX (list_desc_inode_table_no_X d fs _ i _ _ w h)
  · exact absurd hX (list_desc_counts_no_X fs i w h)
  · exact absurd hX (list_desc_free_blocks_no_X d fs _ i _ w h)
  · exact absurd hX (list_desc_free_inodes_no_X d fs _ i _ w h)

/-- For a key of the checksum part, the pairs of the group record under it
are those the checksum part adds. -/
theorem group_record_csum_key (d : Display) (fs : ext2_filsys) (i : Nat) (K : String)
    (hK : K ∈ ["group-desc-csum", "group-desc-csum-exp"]) :
    (group_record d fs i).pairs_with_key K =
      (fill_json_desc_csum fs i json_obj_create).pair.filter (fun p => p.1 == K) := by
  have hne : ∀ L : List String,
      (∀ x ∈ L, x ∉ ["group-desc-csum", "group-desc-csum-exp"]) → K ∉ L :=
    fun L hL hKL => hL K hKL hK
  rw [group_record_pairs_with_key,
    fill_json_bg_opts_filter fs i K (hne _ (by decide)),
    fill_json_desc_super_filter d i _ _ K (hne _ (by decide)),
    fill_json_desc_gdt_filter d _ _ _ K (hne _ (by decide)),
    fill_json_desc_block_bitmap_filter d fs i _ _ K (hne _ (by decide)),
    fill_json_desc_inode_bitmap_filter d fs i _ _ K (hne _ (by decide)),
    fill_json_desc_inode_table_filter d fs _ i _ _ K (hne _ (by decide)),
    fill_json_desc_counts_filter fs _ i K (hne _ (by decide)),
    fill_json_desc_free_blocks_filter d fs _ i _ K (hne _ (by decide)),
    fill_json_desc_free_inodes_filter d fs _ i _ K (hne _ (by decide))]
  have h2 : [("num", json_val_type.JSON_VAL_STRING, json_val.str (snprintf 64 (fmt_dec i))),
       ("blocks", json_val_type.JSON_VAL_OBJECT,
         json_val.obj (json_create_range_obj d (fs.group_first_block2 i)
           (fs.group_last_block2 i)).pair)].filter (fun p => p.1 == K) = [] := by
    rcases List.mem_cons.mp hK with rfl | hK
    · rfl
    · rw [List.mem_singleton.mp hK]; rfl
  rw [h2]
  simp

/-- For a key of the counts part, the pairs of the group record under it are
those the counts part adds. -/
theorem group_record_counts_key (d : Display) (fs : ext2_filsys) (i : Nat) (K : String)
    (hK : K ∈ ["free-blocks-count", "free-inodes-count", "used-dirs-count", "unused-inodes"]) :
    (group_record d fs i).pairs_with_key K =
      (fill_json_desc_counts fs (desc_setup fs) i json_obj_create).pair.filter
        (fun p => p.1 == K) := by
  have hne : ∀ L : List String,
      (∀ x ∈ L, x ∉ ["free-blocks-count", "free-inodes-count", "used-dirs-count",
        "unused-inodes"]) → K ∉ L :=
    fun L hL hKL => hL K hKL hK
  rw [group_record_pairs_with_key,
    fill_json_desc_csum_filter fs i K (hne _ (by decide)),
    fill_json_bg_opts_filter fs i K (hne _ (by decide)),
    fill_json_desc_super_filter d i _ _ K (hne _ (by decide)),
    fill_json_desc_gdt_filter d _ _ _ K (hne _ (by decide)),
    fill_json_desc_block_bitmap_filter d fs i _ _ K (hne _ (by decide)),
    fill_json_desc_inode_bitmap_filter d fs i _ _ K (hne _ (by decide)),
    fill_json_desc_inode_table_filter d fs _ i _ _ K (hne _ (by decide)),
    fill_json_desc_free_blocks_filter d fs _ i _ K (hne _ (by decide)),
    fill_json_desc_free_inodes_filter d fs _ i _ K (hne _ (by decide))]
  have h2 : [("num", json_val_type.JSON_VAL_STRING, json_val.str (snprintf 64 (fmt_dec i))),
       ("blocks", json_val_type.JSON_VAL_OBJECT,
         json_val.obj (json_create_range_obj d (fs.group_first_block2 i)
           (fs.group_last_block2 i)).pair)].filter (fun p => p.1 == K) = [] := by
    rcases List.mem_cons.mp hK with rfl | hK
    · rfl
    · rcases List.mem_cons.mp hK with rfl | hK
      · rfl
      · rcases List.mem_cons.mp hK with rfl | hK
        · rfl
        · rw [List.mem_singleton.mp hK]; rfl
  rw [h2]
  simp

theorem snprintf_fmt_hex (w n : Nat) (hw : w ≤ 16) (h : n < ULONG_MOD) :
    snprintf 64 (fmt_hex w n) = fmt_hex w n := by
  have := fmt_hex_length w n hw h
  exact snprintf_of_length_le 64 _ (by omega)

theorem snprintf_64_fmt_dec (n : Nat) (h : n < ULONG_MOD) :
    snprintf 64 (fmt_dec n) = fmt_dec n := by
  have := fmt_dec_length n h
  exact snprintf_of_length_le 64 _ (by omega)

/-! ## The counts part of the text -/

/-- The counts part is a block of consecutive writes of the group's text. -/
theorem list_desc_counts_part (d : Display) (fs : ext2_filsys) (ignore_80col : Bool) (i : Nat) :
    list_desc_counts fs (desc_setup fs) i <:+: group_text d fs ignore_80col i := by
  rw [group_text_eq]
  simp only [List.append_assoc]
  iterate 10 apply infix_skip
  exact infix_here _ _

/-! ## Values of the scan without overflow -/

/-- Without overflow the value the scan computes for an index up to `num` is
the plain formula. -/
theorem scan_value_plain (group num offset ratio x : Nat) (hx : x ≤ num)
    (h : (num + offset / ratio + group * num) * ratio < ULONG_MOD) :
    scan_value (scan_offset group num offset ratio) ratio x =
      (x + offset / ratio + group * num) * ratio := by
  rw [scan_value_eq]
  exact scan_value_exact group num offset ratio x hx h

/-- The members of `free_runs` are runs of free entries below `num`. -/
theorem free_runs_mem (bitmap : Bitmap) (num : Nat) (r : Nat × Nat)
    (hr : r ∈ free_runs bitmap num) :
    r.1 ≤ r.2 ∧ r.2 < num ∧ (∀ k, r.1 ≤ k → k ≤ r.2 → in_use bitmap k = false) := by
  obtain ⟨-, a2, a3, a4, -, -⟩ := free_runs_loop_mem bitmap num num 0 (by omega) r hr
  exact ⟨a2, a3, a4⟩

/-! ## The iterators of the per-group loop -/

theorem json_pair_print_json_eq (key : String) (type : json_val_type) (val : json_val)
    (ind_lvl : Int) :
    json_pair_print_json (key, type, val) ind_lvl =
      print_indent ind_lvl ++ ["\"" ++ key ++ "\": "] ++ json_pair_print_val type val ind_lvl := by
  rw [json_pair_print_json, json_pair_print_switch]

theorem json_pair_print_val_obj (pair : List json_pair) (ind_lvl : Int) :
    json_pair_print_val json_val_type.JSON_VAL_OBJECT (json_val.obj pair) ind_lvl =
      json_obj_print_json { pair := pair } ind_lvl := by
  rw [json_pair_print_val, json_obj_print_json]

theorem json_pair_print_val_list (type : json_val_type) (node : List json_val) (ind_lvl : Int) :
    json_pair_print_val json_val_type.JSON_VAL_LIST (json_val.list type node) ind_lvl =
      json_list_print_json { type := type, node := node } ind_lvl := by
  rw [json_pair_print_val, json_list_print_json]

theorem json_list_node_print_val_obj (pair : List json_pair) (ind_lvl : Int) :
    json_list_node_print_val json_val_type.JSON_VAL_OBJECT (json_val.obj pair) ind_lvl =
      json_obj_print_json { pair := pair } ind_lvl := by
  rw [json_list_node_print_val, json_obj_print_json]

theorem json_list_node_print_val_list (type : json_val_type) (node : List json_val)
    (ind_lvl : Int) :
    json_list_node_print_val json_val_type.JSON_VAL_LIST (json_val.list type node) ind_lvl =
      json_list_print_json { type := type, node := node } ind_lvl := by
  rw [json_list_node_print_val, json_list_print_json]

theorem intercalate_cons_cons {α : Type} (sep a b : List α) (l : List (List α)) :
    List.intercalate sep (a :: b :: l) = a ++ sep ++ List.intercalate sep (b :: l) := by
  simp [List.intercalate, List.intersperse]

/-- The loop over the pairs writes the pairs with `", "` between them. -/
theorem json_obj_print_loop_eq (pair : List json_pair) (ind_lvl : Int) :
    json_obj_print_loop pair ind_lvl =
      List.intercalate [", "] (pair.map (fun p => json_pair_print_json p (ind_lvl + 1))) := by
  induction pair with
  | nil => simp [json_obj_print_loop, List.intercalate]
  | cons p next ih =>
    rw [json_obj_print_loop, ih]
    cases next with
    | nil => simp [List.intercalate]
    | cons q rest =>
      simp only [List.map_cons, intercalate_cons_cons, List.isEmpty_cons]
      simp

/-- The loop over the nodes writes the nodes with `", "` between them. -/
theorem json_list_print_loop_eq (type : json_val_type) (node : List json_val) (ind_lvl : Int) :
    json_list_print_loop type node ind_lvl =
      List.intercalate [", "]
        (node.map (fun n => json_list_node_print_json n type (ind_lvl + 1))) := by
  induction node with
  | nil => simp [json_list_print_loop, List.intercalate]
  | cons n next ih =>
    rw [json_list_print_loop, ih]
    cases next with
    | nil => simp [List.intercalate, json_list_node_print_json]
    | cons q rest =>
      simp only [List.map_cons, intercalate_cons_cons, List.isEmpty_cons,
        json_list_node_print_json]
      simp

theorem flatten_replicate_spaces (n : Nat) :
    (List.replicate n [' ', ' ']).flatten = List.replicate (2 * n) ' ' := by
  induction n with
  | zero => rfl
  | succ n ih =>
    rw [List.replicate_succ, List.flatten_cons, ih]
    have h : 2 * (n + 1) = (2 * n + 1) + 1 := by ring
    rw [h, List.replicate_succ, List.replicate_succ]
    rfl

/-- The text of `print_indent` at a level `L ≥ 0`: a newline and `2 * L`
spaces. -/
theorem print_indent_text (L : Nat) :
    (print_indent (L : Int)).text = "\n" ++ String.mk (List.replicate (2 * L) ' ') := by
  unfold print_indent Out.text
  rw [Int.toNat_ofNat, String.join_eq]
  apply String.ext
  simp only [List.map_append, List.map_cons, List.map_nil, List.map_replicate,
    List.flatten_append, String.data_append]
  rw [flatten_replicate_spaces]
  rfl

/-! ## Keys of the journal object -/

theorem fill_journal_features_keys (env : jbd_env) (jsb : journal_superblock_t)
    (obj : json_obj) :
    (fill_journal_features env jsb obj).keys = obj.keys ++ ["journal-features"] := by
  unfold fill_journal_features
  simp only []
  rw [json_obj_list_filled_create, json_obj_add_list_keys]

theorem fill_journal_size_keys (env : jbd_env) (jsb : journal_superblock_t) (obj : json_obj) :
    (fill_journal_size env jsb obj).keys = obj.keys ++ ["journal-size"] := by
  unfold fill_journal_size
  simp only []
  split <;> rw [json_obj_add_fmt_buf_str_keys]

theorem fill_journal_geometry_keys (env : jbd_env) (jsb : journal_superblock_t)
    (exp_block_size : Int) (obj : json_obj) :
    (fill_journal_geometry env jsb exp_block_size obj).keys = obj.keys ++
      ((if (exp_block_size % (UINT_MOD : Int)).toNat ≠ ntohl env jsb.s_blocksize then
          ["journal-block-size"] else []) ++
        ["journal-length"] ++
        (if ntohl env jsb.s_first ≠ 1 then ["journal-first-block"] else []) ++
        ["journal-sequence", "journal-start"] ++
        (if ntohl env jsb.s_nr_users ≠ 1 then ["journal-number-of-users"] else [])) := by
  unfold fill_journal_geometry
  by_cases h1 : (exp_block_size % (UINT_MOD : Int)).toNat = ntohl env jsb.s_blocksize <;>
    by_cases h2 : ntohl env jsb.s_first = 1 <;>
    by_cases h3 : ntohl env jsb.s_nr_users = 1 <;>
    simp [h1, h2, h3]

theorem fill_journal_checksum_keys (env : jbd_env) (jsb : journal_superblock_t)
    (obj : json_obj) :
    (fill_journal_checksum env jsb obj).keys = obj.keys ++
      ((if jsb.s_feature_compat &&& e2p_be32 env env.JFS_FEATURE_COMPAT_CHECKSUM ≠ 0 then
          ["journal-checksum-type"] else []) ++
        (if jsb.s_feature_incompat &&& e2p_be32 env env.JFS_FEATURE_INCOMPAT_CSUM_V3 ≠ 0 ∨
            jsb.s_feature_incompat &&& e2p_be32 env env.JFS_FEATURE_INCOMPAT_CSUM_V2 ≠ 0 then
          ["journal-checksum-type", "journal-checksum"] else [])) := by
  unfold fill_journal_checksum
  by_cases h1 : jsb.s_feature_compat &&& e2p_be32 env env.JFS_FEATURE_COMPAT_CHECKSUM = 0 <;>
    by_cases h2 : (jsb.s_feature_incompat &&& e2p_be32 env env.JFS_FEATURE_INCOMPAT_CSUM_V3 ≠ 0 ∨
      jsb.s_feature_incompat &&& e2p_be32 env env.JFS_FEATURE_INCOMPAT_CSUM_V2 ≠ 0) <;>
    simp only [h1, h2, ne_eq, not_true_eq_false, not_false_eq_true, if_true, if_false,
      json_obj_add_str_keys, json_obj_add_fmt_buf_str_keys, List.append_assoc,
      List.nil_append, List.append_nil, List.cons_append]

theorem fill_journal_users_keys (env : jbd_env) (jsb : journal_superblock_t) (obj : json_obj) :
    (fill_journal_users env jsb obj).keys = obj.keys ++
      (if ntohl env jsb.s_nr_users > 1 ∨ !env.e2p_is_null_uuid (jsb.s_users.take 16) then
        ["journal-users"] else []) := by
  unfold fill_journal_users
  simp only []
  split
  · rw [json_obj_list_filled_create, json_obj_add_list_keys]
  · simp

theorem fill_journal_errno_keys (env : jbd_env) (jsb : journal_superblock_t) (obj : json_obj) :
    (fill_journal_errno env jsb obj).keys = obj.keys ++
      (if jsb.s_errno ≠ 0 then ["journal-errno"] else []) := by
  unfold fill_journal_errno
  split
  · rw [json_obj_add_fmt_buf_str_keys]
  · simp

/-- The keys of the journal object, in order. -/
theorem e2p_journal_obj_keys (env : jbd_env) (jsb : journal_superblock_t)
    (exp_block_size : Int) :
    (e2p_journal_obj env jsb exp_block_size).keys =
      ["journal-features", "journal-size"] ++
      (if (exp_block_size % (UINT_MOD : Int)).toNat ≠ ntohl env jsb.s_blocksize then
        ["journal-block-size"] else []) ++
      ["journal-length"] ++
      (if ntohl env jsb.s_first ≠ 1 then ["journal-first-block"] else []) ++
      ["journal-sequence", "journal-start"] ++
      (if ntohl env jsb.s_nr_users ≠ 1 then ["journal-number-of-users"] else []) ++
      (if jsb.s_feature_compat &&& e2p_be32 env env.JFS_FEATURE_COMPAT_CHECKSUM ≠ 0 then
        ["journal-checksum-type"] else []) ++
      (if jsb.s_feature_incompat &&& e2p_be32 env env.JFS_FEATURE_INCOMPAT_CSUM_V3 ≠ 0 ∨
          jsb.s_feature_incompat &&& e2p_be32 env env.JFS_FEATURE_INCOMPAT_CSUM_V2 ≠ 0 then
        ["journal-checksum-type", "journal-checksum"] else []) ++
      (if ntohl env jsb.s_nr_users > 1 ∨ !env.e2p_is_null_uuid (jsb.s_users.take 16) then
        ["journal-users"] else []) ++
      (if jsb.s_errno ≠ 0 then ["journal-errno"] else []) := by
  unfold e2p_journal_obj
  rw [fill_journal_errno_keys, fill_journal_users_keys, fill_journal_checksum_keys,
    fill_journal_geometry_keys, fill_journal_size_keys, fill_journal_features_keys,
    json_obj_create_keys]
  simp only [List.nil_append, List.append_assoc, List.cons_append]

/-- Whether a list of keys built from seven optional parts around the fixed
keys of the journal object has no duplicate: it has none exactly when the two
parts that carry `journal-checksum-type` are not both there. -/
theorem journal_keys_nodup (c1 c2 c3 c4 c5 c6 c7 : Bool) :
    (["journal-features", "journal-size"] ++
      (if c1 then ["journal-block-size"] else []) ++
      ["journal-length"] ++
      (if c2 then ["journal-first-block"] else []) ++
      ["journal-sequence", "journal-start"] ++
      (if c3 then ["journal-number-of-users"] else []) ++
      (if c4 then ["journal-checksum-type"] else []) ++
      (if c5 then ["journal-checksum-type", "journal-checksum"] else []) ++
      (if c6 then ["journal-users"] else []) ++
      (if c7 then ["journal-errno"] else [])).Nodup ↔ ¬ (c4 = true ∧ c5 = true) := by
  revert c1 c2 c3 c4 c5 c6 c7
  decide

theorem journal_keys_count (c1 c2 c3 c4 c5 c6 c7 : Bool) :
    (["journal-features", "journal-size"] ++
      (if c1 then ["journal-block-size"] else []) ++
      ["journal-length"] ++
      (if c2 then ["journal-first-block"] else []) ++
      ["journal-sequence", "journal-start"] ++
      (if c3 then ["journal-number-of-users"] else []) ++
      (if c4 then ["journal-checksum-type"] else []) ++
      (if c5 then ["journal-checksum-type", "journal-checksum"] else []) ++
      (if c6 then ["journal-users"] else []) ++
      (if c7 then ["journal-errno"] else [])).count "journal-checksum-type" =
      (if c4 then 1 else 0) + (if c5 then 1 else 0) := by
  revert c1 c2 c3 c4 c5 c6 c7
  decide

/-! ## The driver: which calls a run makes -/

theorem main_out_json (opts : driver_opts) (dump_obj : json_obj) (h : opts.json = true) :
    main_out opts dump_obj =
      [(driver_call.json_obj_print_json, json_obj_print_json dump_obj 0),
       (driver_call.putchar, ["\n"]), (driver_call.json_obj_delete, []),
       (driver_call.ext2fs_close_free, []), (driver_call.exit 0, [])] := by
  simp [main_out, h]

theorem main_out_text (opts : driver_opts) (dump_obj : json_obj) (h : opts.json = false) :
    main_out opts dump_obj = [(driver_call.ext2fs_close_free, []), (driver_call.exit 0, [])] := by
  simp [main_out, h]

theorem main_out_no_text_writer (opts : driver_opts) (dump_obj : json_obj) :
    ∀ s ∈ main_out opts dump_obj, s.1.text_writer = false := by
  unfold main_out
  split <;> simp [driver_call.text_writer]

theorem main_just_descriptors_no_text_writer (env : driver_env) (opts : driver_opts)
    (d : Display) (fs : ext2_filsys) (retval : Nat) (dump_obj : json_obj)
    (h : opts.json = true) :
    ∀ s ∈ main_just_descriptors env opts d fs retval dump_obj, s.1.text_writer = false := by
  unfold main_just_descriptors
  simp only [h, if_true, List.forall_mem_append]
  refine ⟨⟨by simp [driver_call.text_writer], ?_⟩, main_out_no_text_writer _ _⟩
  split <;> simp [driver_call.text_writer]

theorem main_bitmaps_no_text_writer (env : driver_env) (opts : driver_opts)
    (d : Display) (fs : ext2_filsys) (dump_obj : json_obj) (h : opts.json = true) :
    ∀ s ∈ main_bitmaps env opts d fs dump_obj, s.1.text_writer = false := by
  unfold main_bitmaps
  simp only []
  split
  · simp only [List.forall_mem_append]
    refine ⟨⟨by simp [driver_call.text_writer], ?_⟩,
      main_just_descriptors_no_text_writer _ _ _ _ _ _ h⟩
    split <;> simp [driver_call.text_writer]
  · simp only [List.forall_mem_append]
    refine ⟨⟨by simp [driver_call.text_writer], ?_⟩,
      main_just_descriptors_no_text_writer _ _ _ _ _ _ h⟩
    split <;> simp [driver_call.text_writer]

theorem main_report_no_text_writer (env : driver_env) (opts : driver_opts)
    (fs : ext2_filsys) (h : opts.json = true) :
    ∀ s ∈ main_report env opts fs, s.1.text_writer = false := by
  unfold main_report main_after_journal_dev
  simp only [h, Bool.not_true, Bool.false_eq_true, false_and, if_false, List.nil_append]
  split
  · exact main_out_no_text_writer _ _
  · split
    · exact main_just_descriptors_no_text_writer _ _ _ _ _ _ h
    · split
      · exact main_out_no_text_writer _ _
      · exact main_bitmaps_no_text_writer _ _ _ _ _ h

/-- In structured mode no step of a run is a call of a writer of the text
report. -/
theorem main_no_text_writer (env : driver_env) (opts : driver_opts) (h : opts.json = true) :
    ∀ s ∈ main env opts, s.1.text_writer = false := by
  unfold main
  simp only [List.forall_mem_append]
  refine ⟨by split <;> simp [driver_call.text_writer], ?_⟩
  split
  · simp only [List.forall_mem_append]
    refine ⟨⟨by simp [driver_call.text_writer], ?_⟩, by simp [driver_call.text_writer]⟩
    split <;> simp [driver_call.text_writer]
  · exact main_report_no_text_writer _ _ _ h

theorem main_out_no_json_writer (opts : driver_opts) (dump_obj : json_obj)
    (h : opts.json = false) :
    ∀ s ∈ main_out opts dump_obj, s.1.json_writer = false := by
  rw [main_out_text opts dump_obj h]
  simp [driver_call.json_writer]

theorem main_just_descriptors_no_json_writer (env : driver_env) (opts : driver_opts)
    (d : Display) (fs : ext2_filsys) (retval : Nat) (dump_obj : json_obj)
    (h : opts.json = false) :
    ∀ s ∈ main_just_descriptors env opts d fs retval dump_obj, s.1.json_writer = false := by
  unfold main_just_descriptors
  simp only [h, Bool.false_eq_true, if_false, List.forall_mem_append]
  refine ⟨⟨by simp [driver_call.json_writer], ?_⟩, main_out_no_json_writer _ _ h⟩
  split <;> simp [driver_call.json_writer]

theorem main_bitmaps_no_json_writer (env : driver_env) (opts : driver_opts)
    (d : Display) (fs : ext2_filsys) (dump_obj : json_obj) (h : opts.json = false) :
    ∀ s ∈ main_bitmaps env opts d fs dump_obj, s.1.json_writer = false := by
  unfold main_bitmaps
  simp only []
  split
  · simp only [List.forall_mem_append]
    refine ⟨⟨by simp [driver_call.json_writer], ?_⟩,
      main_just_descriptors_no_json_writer _ _ _ _ _ _ h⟩
    split <;> simp [driver_call.json_writer]
  · simp only [List.forall_mem_append]
    refine ⟨⟨by simp [driver_call.json_writer], ?_⟩,
      main_just_descriptors_no_json_writer _ _ _ _ _ _ h⟩
    split <;> simp [driver_call.json_writer]

theorem main_after_journal_dev_no_json_writer (env : driver_env) (opts : driver_opts)
    (d : Display) (fs : ext2_filsys) (dump_obj : json_obj) (h : opts.json = false) :
    ∀ s ∈ main_after_journal_dev env opts d fs dump_obj, s.1.json_writer = false := by
  unfold main_after_journal_dev
  simp only []
  split
  · simp [driver_call.json_writer]
  · simp only [List.forall_mem_append]
    refine ⟨⟨by split <;> simp [driver_call.json_writer],
      by split <;> simp [driver_call.json_writer]⟩, ?_⟩
    split
    · exact main_out_no_json_writer _ _ h
    · exact main_bitmaps_no_json_writer _ _ _ _ _ h

theorem main_report_no_json_writer (env : driver_env) (opts : driver_opts)
    (fs : ext2_filsys) (h : opts.json = false) :
    ∀ s ∈ main_report env opts fs, s.1.json_writer = false := by
  unfold main_report
  simp only []
  split
  · simp only [List.forall_mem_append]
    exact ⟨by split <;> simp [driver_call.json_writer], main_out_no_json_writer _ _ h⟩
  · split
    · exact main_just_descriptors_no_json_writer _ _ _ _ _ _ h
    · simp only [List.forall_mem_append]
      refine ⟨by split <;> simp [driver_call.json_writer], ?_⟩
      split
      · simp only [List.forall_mem_append]
        refine ⟨by simp [driver_call.json_writer], ?_⟩
        split
        · simp [driver_call.json_writer]
        · exact main_out_no_json_writer _ _ h
      · exact main_after_journal_dev_no_json_writer _ _ _ _ _ h

/-- In text mode no step of a run builds, serializes or frees a document. -/
theorem main_no_json_writer (env : driver_env) (opts : driver_opts) (h : opts.json = false) :
    ∀ s ∈ main env opts, s.1.json_writer = false := by
  unfold main
  simp only [List.forall_mem_append]
  refine ⟨by split <;> simp [driver_call.json_writer], ?_⟩
  split
  · simp only [List.forall_mem_append]
    refine ⟨⟨by simp [driver_call.json_writer], ?_⟩, by simp [driver_call.json_writer]⟩
    split <;> simp [driver_call.json_writer]
  · exact main_report_no_json_writer _ _ _ h

/-! ## The driver: standard output in structured mode -/

theorem clear_bits_and (x m : Nat) : (x ^^^ (x &&& m)) &&& m = 0 := by
  apply Nat.eq_of_testBit_eq
  intro i
  simp only [Nat.testBit_and, Nat.testBit_xor, Nat.zero_testBit]
  cases x.testBit i <;> cases m.testBit i <;> rfl

theorem driver_stdout_append (a b : List driver_step) :
    driver_stdout (a ++ b) = driver_stdout a ++ driver_stdout b := by
  simp [driver_stdout]

theorem main_out_stdout_json (opts : driver_opts) (dump_obj : json_obj)
    (h : opts.json = true) :
    driver_stdout (main_out opts dump_obj) = json_obj_print_json dump_obj 0 ++ ["\n"] := by
  rw [main_out_json opts dump_obj h]
  simp [driver_stdout]

theorem main_just_descriptors_stdout_json (env : driver_env) (opts : driver_opts)
    (d : Display) (fs : ext2_filsys) (dump_obj : json_obj) (h : opts.json = true) :
    driver_stdout (main_just_descriptors env opts d fs 0 dump_obj) =
      json_obj_print_json (fill_json_desc d dump_obj fs) 0 ++ ["\n"] := by
  unfold main_just_descriptors
  simp only [h, if_true, ne_eq, not_true_eq_false, if_false, List.append_nil,
    driver_stdout_append, main_out_stdout_json _ _ h]
  simp [driver_stdout]

theorem main_bitmaps_stdout_json (env : driver_env) (opts : driver_opts)
    (d : Display) (fs : ext2_filsys) (dump_obj : json_obj) (h : opts.json = true)
    (hread : ∀ f, (env.ext2fs_read_bitmaps f).1 = 0) :
    ∃ fs2, driver_stdout (main_bitmaps env opts d fs dump_obj) =
      json_obj_print_json (fill_json_desc d dump_obj fs2) 0 ++ ["\n"] := by
  unfold main_bitmaps
  simp only [hread, ne_eq, not_true_eq_false, false_and, if_false, clear_bits_and, true_and,
    List.append_nil, driver_stdout_append, main_just_descriptors_stdout_json _ _ _ _ _ h]
  apply Exists.intro
  rfl

theorem main_report_stdout_json (env : driver_env) (opts : driver_opts) (fs : ext2_filsys)
    (h : opts.json = true) (hread : ∀ f, (env.ext2fs_read_bitmaps f).1 = 0) :
    ∃ dump_obj,
      (dump_obj = json_obj_create ∨
        ∃ fs2, dump_obj = fill_json_desc ⟨opts.hex_format, fs.super.has_feature_64bit⟩
          json_obj_create fs2) ∧
      driver_stdout (main_report env opts fs) = json_obj_print_json dump_obj 0 ++ ["\n"] := by
  unfold main_report main_after_journal_dev
  simp only [h, Bool.not_true, Bool.false_eq_true, false_and, if_false, List.nil_append]
  split
  · exact ⟨_, Or.inl rfl, main_out_stdout_json _ _ h⟩
  · split
    · exact ⟨_, Or.inr ⟨_, rfl⟩, main_just_descriptors_stdout_json _ _ _ _ _ h⟩
    · split
      · exact ⟨_, Or.inl rfl, main_out_stdout_json _ _ h⟩
      · obtain ⟨fs2, h2⟩ := main_bitmaps_stdout_json env opts
          ⟨opts.hex_format, fs.super.has_feature_64bit⟩ fs json_obj_create h hread
        exact ⟨_, Or.inr ⟨fs2, rfl⟩, h2⟩

/-- The steps of a run on a dedicated journal device in text mode without
the group-only and bad-blocks options. -/
theorem main_report_journal_dev (env : driver_env) (opts : driver_opts) (fs : ext2_filsys)
    (hjson : opts.json = false) (hgrp : opts.grp_only = false)
    (hbad : opts.print_badblocks = false) (hdev : fs.super.has_feature_journal_dev = true) :
    main_report env opts fs =
      [(driver_call.list_super, env.list_super fs.super),
       (driver_call.print_journal_information, (env.print_journal_information fs).1)] ++
      (if (env.print_journal_information fs).2 then [(driver_call.exit 1, [])]
       else [(driver_call.ext2fs_close_free, []), (driver_call.exit 0, [])]) := by
  unfold main_report
  simp [hjson, hgrp, hbad, hdev, main_out]

theorem main_report_journal_dev_bad_blocks (env : driver_env) (opts : driver_opts)
    (fs : ext2_filsys) (hjson : opts.json = false) (hbad : opts.print_badblocks = true) :
    main_report env opts fs =
      [(driver_call.list_bad_blocks true, env.list_bad_blocks fs true),
       (driver_call.ext2fs_close_free, []), (driver_call.exit 0, [])] := by
  unfold main_report
  simp [hjson, hbad, main_out]

theorem main_of_open (env : driver_env) (opts : driver_opts)
    (hopen : (open_volume env opts).1 = 0) :
    main env opts =
      (if (open_volume env opts).2.flags &&& env.EXT2_FLAG_IGNORE_CSUM_ERRORS ≠ 0 then
        [(driver_call.printf,
          ["\n*** Checksum errors detected in filesystem!  Run e2fsck now!\n\n"])]
       else []) ++ main_report env opts (open_volume env opts).2 := by
  unfold main
  simp [hopen]

/-! ## The driver: the loop over block sizes ends before its fuel does -/

theorem open_blocksize_loop_fuel (env : driver_env) (flags use_superblock : Nat)
    (fuel k bs : Nat) (last : Nat × ext2_filsys) (h : EXT2_MAX_BLOCK_SIZE < bs * 2 ^ fuel) :
    open_blocksize_loop env flags use_superblock (fuel + k) bs last =
      open_blocksize_loop env flags use_superblock fuel bs last := by
  induction fuel generalizing bs last with
  | zero =>
    have hbs : ¬ bs ≤ EXT2_MAX_BLOCK_SIZE := by simpa using h
    cases k with
    | zero => rfl
    | succ k =>
      rw [Nat.zero_add]
      simp only [open_blocksize_loop, hbs, if_false]
  | succ f ih =>
    have e : f + 1 + k = (f + k) + 1 := by omega
    rw [e]
    simp only [open_blocksize_loop]
    split
    · split
      · rfl
      · refine ih (bs * 2) _ ?_
        have e2 : bs * 2 * 2 ^ f = bs * 2 ^ (f + 1) := by rw [Nat.pow_succ]; ring
        rw [e2]
        exact h
    · rfl

/-- Eight turns of fuel are enough for the loop from `EXT2_MIN_BLOCK_SIZE`. -/
theorem open_blocksize_loop_enough (env : driver_env) (flags use_superblock k : Nat)
    (last : Nat × ext2_filsys) :
    open_blocksize_loop env flags use_superblock (8 + k) EXT2_MIN_BLOCK_SIZE last =
      open_blocksize_loop env flags use_superblock 8 EXT2_MIN_BLOCK_SIZE last :=
  open_blocksize_loop_fuel env flags use_superblock 8 k EXT2_MIN_BLOCK_SIZE last (by decide)

/-! ## Reading back what `print_number` formats -/

theorem digit_value_digitChar : ∀ k, k < 16 → digit_value (Nat.digitChar k) = some k := by
  decide

theorem parse_digits_from_toDigitsCore (b : Nat) (hb2 : 2 ≤ b) (hb16 : b ≤ 16) (fuel : Nat) :
    ∀ (n : Nat) (ds : List Char), n < fuel →
      parse_digits_from b 0 (Nat.toDigitsCore b fuel n ds) = parse_digits_from b n ds := by
  induction fuel with
  | zero => intro n ds h; omega
  | succ fuel ih =>
    intro n ds h
    have hmod : n % b < b := Nat.mod_lt n (by omega)
    have hdv : digit_value (Nat.digitChar (n % b)) = some (n % b) :=
      digit_value_digitChar _ (by omega)
    unfold Nat.toDigitsCore
    simp only []
    split
    · rename_i h0
      have hn : n < b := by
        by_contra hc
        have := Nat.div_pos (not_lt.mp hc) (by omega : 0 < b)
        omega
      rw [Nat.mod_eq_of_lt hn] at hdv ⊢
      simp [parse_digits_from, hdv, hn]
    · rename_i h0
      have hpos : 0 < n := by
        rcases Nat.eq_zero_or_pos n with h | h
        · subst h; simp at h0
        · exact h
      have hlt : n / b < n := Nat.div_lt_self hpos (by omega)
      rw [ih (n / b) _ (by omega)]
      simp [parse_digits_from, hdv, hmod, Nat.div_add_mod]

theorem toDigits_ne_nil (b n : Nat) : Nat.toDigits b n ≠ [] := by
  unfold Nat.toDigits Nat.toDigitsCore
  simp only []
  split
  · simp
  · exact toDigitsCore_ne_nil _ _ _ _ (by simp)

theorem parse_digits_toDigits (b : Nat) (hb2 : 2 ≤ b) (hb16 : b ≤ 16) (n : Nat) :
    parse_digits b (Nat.toDigits b n) = some n := by
  unfold parse_digits
  have hne := toDigits_ne_nil b n
  have he : (Nat.toDigits b n).isEmpty = false := by
    cases h : Nat.toDigits b n with
    | nil => exact absurd h hne
    | cons c cs => rfl
  rw [he]
  simp only [Bool.false_eq_true, if_false]
  unfold Nat.toDigits
  rw [parse_digits_from_toDigitsCore b hb2 hb16 (n + 1) n [] (by omega)]
  rfl

theorem parse_digits_from_zeros (base : Nat) (hb : 0 < base) (k : Nat) (cs : List Char) :
    parse_digits_from base 0 (List.replicate k '0' ++ cs) = parse_digits_from base 0 cs := by
  induction k with
  | zero => simp
  | succ k ih =>
    have hz : digit_value '0' = some 0 := by decide
    rw [List.replicate_succ, List.cons_append]
    simp only [parse_digits_from, hz, hb, if_true, Nat.mul_zero, Nat.add_zero]
    exact ih

theorem parse_number_fmt_dec (d : Display) (h : d.hex_format = false) (n : Nat) :
    parse_number d (fmt_dec n) = some n := by
  unfold parse_number
  rw [h]
  simp only [Bool.false_eq_true, if_false]
  exact parse_digits_toDigits 10 (by decide) (by decide) n

theorem parse_number_fmt_hex (d : Display) (h : d.hex_format = true) (w n : Nat) :
    parse_number d (fmt_hex w n) = some n := by
  unfold parse_number
  rw [h]
  have hdata : (fmt_hex w n).data =
      '0' :: 'x' :: (List.replicate (w - (hex_digits n).length) '0' ++ hex_digits n) := by
    unfold fmt_hex
    rw [String.data_append]
    rfl
  rw [hdata]
  simp only [if_true, List.take_succ_cons, List.take_zero, List.drop_succ_cons, List.drop_zero]
  have hne : hex_digits n ≠ [] := toDigits_ne_nil 16 n
  have he : (List.replicate (w - (hex_digits n).length) '0' ++ hex_digits n).isEmpty = false := by
    cases hh : hex_digits n with
    | nil => exact absurd hh hne
    | cons c cs => simp
  unfold parse_digits
  rw [he]
  simp only [Bool.false_eq_true, if_false]
  rw [parse_digits_from_zeros 16 (by decide)]
  have := parse_digits_toDigits 16 (by decide) (by decide) n
  unfold parse_digits at this
  have he2 : (Nat.toDigits 16 n).isEmpty = false := by
    cases hh : Nat.toDigits 16 n with
    | nil => exact absurd hh hne
    | cons c cs => rfl
  rw [he2] at this
  simpa [hex_digits] using this

/-- Reading a number text back in the base it was formatted in gives the number. -/
theorem parse_number_number_text (d : Display) (n : Nat) :
    parse_number d (number_text d n) = some n := by
  rw [← range_fmt_eq]
  cases h : d.hex_format with
  | false =>
    simp only [Bool.false_eq_true, if_false]
    exact parse_number_fmt_dec d h n
  | true =>
    simp only [if_true]
    split
    · exact parse_number_fmt_hex d h 8 n
    · exact parse_number_fmt_hex d h 4 n

theorem json_create_range_obj_pair (d : Display) (a b : Nat) (ha : a < ULONG_MOD) :
    (json_create_range_obj d a b).pair =
      [("start", json_val_type.JSON_VAL_STRING, json_val.str (number_text d a)),
        ("len", json_val_type.JSON_VAL_STRING,
          json_val.str (number_text d ((b + ULONG_MOD - a + 1) % ULONG_MOD)))] := by
  have h := json_create_range_obj_eq d a b ha
  unfold extent_obj at h
  exact json_val.obj.inj h

theorem json_create_range_obj_lookup (d : Display) (a b : Nat) (ha : a < ULONG_MOD) :
    (json_create_range_obj d a b).lookup "start" = some (json_val.str (number_text d a)) ∧
      (json_create_range_obj d a b).lookup "len" =
        some (json_val.str (number_text d ((b + ULONG_MOD - a + 1) % ULONG_MOD))) := by
  unfold json_obj.lookup
  rw [json_create_range_obj_pair d a b ha]
  constructor
  · rfl
  · rfl

theorem range_read_back_eq (d : Display) (a b : Nat) (ha : a < ULONG_MOD) :
    range_read_back d (json_create_range_obj d a b) =
      some ((a : Int),
        (a : Int) + (((b + ULONG_MOD - a + 1) % ULONG_MOD : Nat) : Int) - 1) := by
  obtain ⟨h1, h2⟩ := json_create_range_obj_lookup d a b ha
  unfold range_read_back
  rw [h1, h2]
  simp only [parse_number_number_text]

theorem range_len_no_wrap (a b : Nat) (hab : a ≤ b) (hlen : b - a + 1 < ULONG_MOD) :
    (b + ULONG_MOD - a + 1) % ULONG_MOD = b - a + 1 := by
  have e : b + ULONG_MOD - a + 1 = (b - a + 1) + ULONG_MOD := by omega
  rw [e, Nat.add_mod_right, Nat.mod_eq_of_lt hlen]

/-! ## The `int` locals of `list_desc` and `fill_json_desc` -/

theorem blk64_of_int_lt (x : Int) : blk64_of_int x < ULONG_MOD := by
  unfold blk64_of_int ULONG_MOD
  omega

theorem blk64_of_int_of_nonneg (x : Int) (h0 : 0 ≤ x) (h1 : x < 2 ^ 64) :
    ((blk64_of_int x : Nat) : Int) = x := by
  unfold blk64_of_int ULONG_MOD
  omega

theorem blk64_of_int_of_neg (x : Int) (h0 : x < 0) (h1 : -(2 ^ 64) ≤ x) :
    ((blk64_of_int x : Nat) : Int) = x + 2 ^ 64 := by
  unfold blk64_of_int ULONG_MOD
  omega

theorem to_int_range (n : Nat) : -(2 ^ 31) ≤ to_int n ∧ to_int n < 2 ^ 31 := by
  unfold to_int UINT_MOD
  split <;> omega

theorem to_int_of_lt (n : Nat) (h : n < 2 ^ 31) : to_int n = (n : Int) := by
  unfold to_int UINT_MOD
  split <;> omega

theorem to_int_of_ge (n : Nat) (h0 : 2 ^ 31 ≤ n) (h1 : n < 2 ^ 32) :
    to_int n = (n : Int) - 2 ^ 32 := by
  unfold to_int UINT_MOD
  split <;> omega
/-! ## Claims on the extent scan -/

/-- C1: the index runs emitted by the extent scan are the same list
`free_runs bitmap num` for `fill_json_free` (one range object per run,
appended in order) and for `print_free` (one rendered run each, in order);
they are pairwise non-overlapping (each run ends before every later one
starts), their start indices are strictly increasing, and an index lies in
one of them exactly when it is below `num` and free in the bitmap. -/
theorem C1_runs_partition_free_entries (d : Display) (list : json_list) (group : Nat)
    (bitmap : Bitmap) (num offset ratio : Nat) :
    fill_json_free d list group bitmap num offset ratio =
        { type := list.type,
          node := list.node ++ (free_runs bitmap num).map (fun r =>
            json_val.obj (json_create_range_obj d
              (scan_value (scan_offset group num offset ratio) ratio r.1)
              (scan_value (scan_offset group num offset ratio) ratio r.2)).pair) } ∧
      print_free d group bitmap num offset ratio =
        runs_out d (scan_value (scan_offset group num offset ratio) ratio) false
          (free_runs bitmap num) ∧
      (free_runs bitmap num).Pairwise (fun r s => r.1 ≤ r.2 ∧ r.2 < s.1 ∧ s.1 ≤ s.2) ∧
      (free_runs bitmap num).Pairwise (fun r s => r.1 < s.1) ∧
      ∀ k, (∃ r ∈ free_runs bitmap num, r.1 ≤ k ∧ k ≤ r.2) ↔
        (k < num ∧ in_use bitmap k = false) := by
  have hmem := free_runs_loop_mem bitmap num num 0 (by omega)
  have hpw := free_runs_loop_pairwise bitmap num num 0 (by omega)
  refine ⟨fill_json_free_eq_runs d list group bitmap num offset ratio,
    print_free_eq_runs d group bitmap num offset ratio, ?_, ?_, ?_⟩
  · unfold free_runs
    rw [List.pairwise_iff_forall_sublist] at hpw ⊢
    intro r s hsub
    have hr := hmem r (hsub.subset (by simp))
    have hs := hmem s (hsub.subset (by simp))
    have := hpw hsub
    exact ⟨hr.2.1, by omega, hs.2.1⟩
  · unfold free_runs
    rw [List.pairwise_iff_forall_sublist] at hpw ⊢
    intro r s hsub
    have hr := hmem r (hsub.subset (by simp))
    have := hpw hsub
    omega
  · intro k
    unfold free_runs in_use
    constructor
    · rintro ⟨r, hr, h1, h2⟩
      have h := hmem r hr
      exact ⟨by omega, h.2.2.2.1 k h1 h2⟩
    · rintro ⟨h1, h2⟩
      exact free_runs_loop_cover bitmap num num 0 (by omega) k (Nat.zero_le k) h1 h2

/-- C2: every run emitted by `fill_json_free` has at least one entry
(first index at most last index, below `num`, every entry in it free) and is
maximal: the entry just before its first index (when that index is above 0)
and the entry just after its last index (when below `num`) are in use; two
emitted runs are never adjacent, at least one entry lies between them; and
when `num * ratio` fits in 64 bits with `ratio` at least 1, the stored length
`b - a + 1` of each run is `(last - first) * ratio + 1`, so at least 1. -/
theorem C2_runs_maximal (d : Display) (list : json_list) (group : Nat)
    (bitmap : Bitmap) (num offset ratio : Nat) :
    fill_json_free d list group bitmap num offset ratio =
        { type := list.type,
          node := list.node ++ (free_runs bitmap num).map (fun r =>
            json_val.obj (json_create_range_obj d
              (scan_value (scan_offset group num offset ratio) ratio r.1)
              (scan_value (scan_offset group num offset ratio) ratio r.2)).pair) } ∧
      (∀ r ∈ free_runs bitmap num,
        r.1 ≤ r.2 ∧ r.2 < num ∧ (∀ k, r.1 ≤ k → k ≤ r.2 → in_use bitmap k = false) ∧
        (0 < r.1 → in_use bitmap (r.1 - 1) = true) ∧
        (r.2 + 1 < num → in_use bitmap (r.2 + 1) = true)) ∧
      (free_runs bitmap num).Pairwise (fun r s => r.2 + 1 < s.1) ∧
      (1 ≤ ratio → num * ratio < ULONG_MOD → ∀ r ∈ free_runs bitmap num,
        (scan_value (scan_offset group num offset ratio) ratio r.2 + ULONG_MOD -
          scan_value (scan_offset group num offset ratio) ratio r.1 + 1) % ULONG_MOD =
          (r.2 - r.1) * ratio + 1 ∧
        1 ≤ (scan_value (scan_offset group num offset ratio) ratio r.2 + ULONG_MOD -
          scan_value (scan_offset group num offset ratio) ratio r.1 + 1) % ULONG_MOD) := by
  have hmem := free_runs_loop_mem bitmap num num 0 (by omega)
  refine ⟨fill_json_free_eq_runs d list group bitmap num offset ratio, ?_, ?_, ?_⟩
  · intro r hr
    obtain ⟨-, a2, a3, a4, a5, a6⟩ := hmem r hr
    refine ⟨a2, a3, a4, ?_, a5⟩
    intro hpos
    rcases a6 with a6 | a6
    · omega
    · exact a6
  · exact free_runs_loop_pairwise bitmap num num 0 (by omega)
  · intro hr1 hn r hr
    obtain ⟨-, a2, a3, -⟩ := hmem r hr
    have := scan_len_eq group num offset ratio r.1 r.2 a2 a3 hr1 hn
    exact ⟨this, by omega⟩

/-- Witness for C2 on the bitmap `in use, free, free, in use` of length 4. -/
theorem C2_runs_maximal_witness :
    free_runs (fun i => decide (i = 0 ∨ i = 3)) 4 = [(1, 2)] ∧
      (1 ≤ 2 ∧ 2 < 4 ∧
        (∀ k, 1 ≤ k → k ≤ 2 → in_use (fun i => decide (i = 0 ∨ i = 3)) k = false) ∧
        (0 < 1 → in_use (fun i => decide (i = 0 ∨ i = 3)) (1 - 1) = true) ∧
        (2 + 1 < 4 → in_use (fun i => decide (i = 0 ∨ i = 3)) (2 + 1) = true)) := by
  refine ⟨by decide, ?_⟩
  exact (C2_runs_maximal ⟨false, false⟩ (json_list_create json_val_type.JSON_VAL_OBJECT) 0
    (fun i => decide (i = 0 ∨ i = 3)) 4 0 1).2.1 (1, 2) (by decide)

/-- C3: for every emitted run `(i, j)` the scan reports the first bound
`(i + offset/ratio + group*num) * ratio` and the last bound
`(j + offset/ratio + group*num) * ratio`, both in `unsigned long` (modulo
2^64): `print_free` writes the first bound and, when `j` differs from `i`,
`-` and the last bound; `fill_json_free` stores `start` = first bound and
`len` = last bound - first bound + 1 (in `unsigned long long`). When
`(num + offset/ratio + group*num) * ratio` fits in 64 bits and `ratio` is at
least 1, the reductions modulo 2^64 do nothing. -/
theorem C3_run_bounds_in_output_units (d : Display) (list : json_list) (group : Nat)
    (bitmap : Bitmap) (num offset ratio : Nat) :
    print_free d group bitmap num offset ratio =
        runs_out d (fun x => ((x + offset / ratio + group * num) * ratio) % ULONG_MOD) false
          (free_runs bitmap num) ∧
      fill_json_free d list group bitmap num offset ratio =
        { type := list.type,
          node := list.node ++ (free_runs bitmap num).map (fun r =>
            extent_obj d (((r.1 + offset / ratio + group * num) * ratio) % ULONG_MOD)
              ((((r.2 + offset / ratio + group * num) * ratio) % ULONG_MOD + ULONG_MOD -
                ((r.1 + offset / ratio + group * num) * ratio) % ULONG_MOD + 1)
                  % ULONG_MOD)) } ∧
      (1 ≤ ratio → (num + offset / ratio + group * num) * ratio < ULONG_MOD →
        ∀ r ∈ free_runs bitmap num,
          ((r.1 + offset / ratio + group * num) * ratio) % ULONG_MOD =
            (r.1 + offset / ratio + group * num) * ratio ∧
          ((r.2 + offset / ratio + group * num) * ratio) % ULONG_MOD =
            (r.2 + offset / ratio + group * num) * ratio ∧
          (((r.2 + offset / ratio + group * num) * ratio) % ULONG_MOD + ULONG_MOD -
              ((r.1 + offset / ratio + group * num) * ratio) % ULONG_MOD + 1) % ULONG_MOD =
            (r.2 + offset / ratio + group * num) * ratio -
              (r.1 + offset / ratio + group * num) * ratio + 1) := by
  have hmem := free_runs_loop_mem bitmap num num 0 (by omega)
  refine ⟨?_, ?_, ?_⟩
  · rw [print_free_eq_runs, scan_value_fun_eq]
  · rw [fill_json_free_eq_extents]
    unfold free_extents
    rw [List.map_map]
    congr 2
    apply List.map_congr_left
    intro r _
    simp only [Function.comp, scan_value_eq]
  · intro hr1 hno r hr
    obtain ⟨-, a2, a3, -⟩ := hmem r hr
    have e1 := scan_value_exact group num offset ratio r.1 (by omega) hno
    have e2 := scan_value_exact group num offset ratio r.2 (by omega) hno
    refine ⟨e1, e2, ?_⟩
    rw [e1, e2]
    have hle : (r.1 + offset / ratio + group * num) * ratio ≤
        (r.2 + offset / ratio + group * num) * ratio :=
      Nat.mul_le_mul_right ratio (by omega)
    have hlt : (r.2 + offset / ratio + group * num) * ratio + ratio ≤
        (num + offset / ratio + group * num) * ratio := by
      have : (r.2 + 1 + offset / ratio + group * num) * ratio ≤
          (num + offset / ratio + group * num) * ratio :=
        Nat.mul_le_mul_right ratio (by omega)
      have h2 : (r.2 + 1 + offset / ratio + group * num) * ratio =
          (r.2 + offset / ratio + group * num) * ratio + ratio := by ring
      omega
    generalize (r.1 + offset / ratio + group * num) * ratio = A at *
    generalize (r.2 + offset / ratio + group * num) * ratio = B at *
    generalize (num + offset / ratio + group * num) * ratio = N at *
    simp only [ULONG_MOD] at *
    omega

/-- Witness for C3: group 1 of 4-entry groups, offset 9, ratio 4, the bitmap
`in use, free, free, in use`: the run `(1, 2)` has bounds 28 and 32. -/
theorem C3_run_bounds_in_output_units_witness :
    free_runs (fun i => decide (i = 0 ∨ i = 3)) 4 = [(1, 2)] ∧
      ((1 + 9 / 4 + 1 * 4) * 4) % ULONG_MOD = 28 ∧
      ((2 + 9 / 4 + 1 * 4) * 4) % ULONG_MOD = 32 ∧
      (print_free ⟨false, false⟩ 1 (fun i => decide (i = 0 ∨ i = 3)) 4 9 4).text = "28-32" := by
  have h := (C3_run_bounds_in_output_units ⟨false, false⟩
    (json_list_create json_val_type.JSON_VAL_OBJECT) 1
    (fun i => decide (i = 0 ∨ i = 3)) 4 9 4).1
  refine ⟨by decide, by decide, by decide, ?_⟩
  rw [h]
  decide

/-- C4: for group 0, `num` = 8192, ratio 1, offset 0, decimal display and a
bitmap whose free entries below 8192 are exactly 100..149, `fill_json_free`
adds exactly one extent, with start "100" and len "50", and `print_free`
prints exactly `100-149`. -/
theorem C4_scenario_100_149 (blocks64 : Bool) (bitmap : Bitmap)
    (h : ∀ k, k < 8192 → (bitmap k = false ↔ 100 ≤ k ∧ k ≤ 149)) :
    fill_json_free ⟨false, blocks64⟩ (json_list_create json_val_type.JSON_VAL_OBJECT)
        0 bitmap 8192 0 1 =
        { type := json_val_type.JSON_VAL_OBJECT,
          node := [json_val.obj
            [("start", json_val_type.JSON_VAL_STRING, json_val.str "100"),
             ("len", json_val_type.JSON_VAL_STRING, json_val.str "50")]] } ∧
      print_free ⟨false, blocks64⟩ 0 bitmap 8192 0 1 = ["100", "-", "149"] ∧
      (print_free ⟨false, blocks64⟩ 0 bitmap 8192 0 1).text = "100-149" := by
  have hruns := free_runs_single bitmap 8192 100 149 (by decide) (by decide) h
  have hp : print_free ⟨false, blocks64⟩ 0 bitmap 8192 0 1 = ["100", "-", "149"] := by
    rw [print_free_eq_runs, hruns]
    cases blocks64 <;> decide
  refine ⟨?_, hp, ?_⟩
  · rw [fill_json_free_eq_extents]
    unfold free_extents
    rw [hruns]
    have e1 : scan_value (scan_offset 0 8192 0 1) 1 100 = 100 := by decide
    have e2 : scan_value (scan_offset 0 8192 0 1) 1 149 = 149 := by decide
    have e3 : (149 + ULONG_MOD - 100 + 1) % ULONG_MOD = 50 := by decide
    have t1 : number_text ⟨false, blocks64⟩ 100 = "100" := by cases blocks64 <;> decide
    have t2 : number_text ⟨false, blocks64⟩ 50 = "50" := by cases blocks64 <;> decide
    simp only [List.map_cons, List.map_nil, e1, e2, e3, extent_obj, t1, t2]
    rfl
  · rw [hp]
    decide

/-- Witness for C4: the bitmap in which exactly 100..149 are free. -/
theorem C4_scenario_100_149_witness :
    (print_free ⟨false, false⟩ 0 (fun i => !(decide (100 ≤ i) && decide (i ≤ 149)))
      8192 0 1).text = "100-149" :=
  (C4_scenario_100_149 false (fun i => !(decide (100 ≤ i) && decide (i ≤ 149)))
    (by intro k _; simp)).2.2

/-- C5: when the only free entry below `num` is index `k`, `fill_json_free`
adds exactly one extent, whose start is the formatted value `V` of index `k`
and whose len is the formatted number 1, and `print_free` writes exactly what
one `print_number(V)` writes: the single value, no `-`, no second number. -/
theorem C5_single_free_entry (d : Display) (list : json_list) (group : Nat) (bitmap : Bitmap)
    (num offset ratio k : Nat) (hk : k < num)
    (h : ∀ i, i < num → (bitmap i = false ↔ i = k)) :
    fill_json_free d list group bitmap num offset ratio =
        { type := list.type,
          node := list.node ++
            [json_val.obj
              [("start", json_val_type.JSON_VAL_STRING, json_val.str
                (number_text d (((k + offset / ratio + group * num) * ratio) % ULONG_MOD))),
               ("len", json_val_type.JSON_VAL_STRING, json_val.str (number_text d 1))]] } ∧
      print_free d group bitmap num offset ratio =
        print_number d (((k + offset / ratio + group * num) * ratio) % ULONG_MOD) ∧
      (print_free d group bitmap num offset ratio).text =
        number_text d (((k + offset / ratio + group * num) * ratio) % ULONG_MOD) := by
  have hruns := free_runs_single bitmap num k k (Nat.le_refl k) hk
    (by intro i hi; rw [h i hi]; omega)
  have hp : print_free d group bitmap num offset ratio =
      print_number d (((k + offset / ratio + group * num) * ratio) % ULONG_MOD) := by
    rw [print_free_eq_runs, hruns, print_number_eq, scan_value_fun_eq]
    simp [runs_out]
  refine ⟨?_, hp, ?_⟩
  · rw [fill_json_free_eq_extents]
    unfold free_extents
    rw [hruns]
    have hlt := scan_value_lt (scan_offset group num offset ratio) ratio k
    have h1 : (scan_value (scan_offset group num offset ratio) ratio k + ULONG_MOD -
        scan_value (scan_offset group num offset ratio) ratio k + 1) % ULONG_MOD = 1 := by
      generalize scan_value (scan_offset group num offset ratio) ratio k = v at hlt
      simp only [ULONG_MOD] at *
      omega
    simp only [List.map_cons, List.map_nil]
    rw [h1, scan_value_eq]
    rfl
  · rw [hp]
    rfl

/-- Witness for C5: entry 2 of 4 free, group 1, offset 9, ratio 4, hex display. -/
theorem C5_single_free_entry_witness :
    (print_free ⟨true, false⟩ 1 (fun i => decide (i ≠ 2)) 4 9 4).text = "0x0020" := by
  have h := (C5_single_free_entry ⟨true, false⟩ (json_list_create json_val_type.JSON_VAL_OBJECT)
    1 (fun i => decide (i ≠ 2)) 4 9 4 2 (by decide) (by intro i _; simp)).2.2
  rw [h]
  decide

/-- C6: when `ratio` is at least 1 and `num * ratio` fits in 64 bits, the text
of `print_free` is the extents `(start, len)` that `fill_json_free` stores for
the same arguments, each rendered as its formatted start alone when len is 1
and as formatted start, `-`, formatted `start + len - 1` otherwise, joined by
`", "` with nothing before the first or after the last. -/
theorem C6_text_matches_json_extents (d : Display) (list : json_list) (group : Nat)
    (bitmap : Bitmap) (num offset ratio : Nat)
    (hr : 1 ≤ ratio) (hn : num * ratio < ULONG_MOD) :
    fill_json_free d list group bitmap num offset ratio =
        { type := list.type,
          node := list.node ++ (free_extents group bitmap num offset ratio).map (fun e =>
            json_val.obj
              [("start", json_val_type.JSON_VAL_STRING, json_val.str (number_text d e.1)),
               ("len", json_val_type.JSON_VAL_STRING, json_val.str (number_text d e.2))]) } ∧
      (print_free d group bitmap num offset ratio).text =
        ", ".intercalate ((free_extents group bitmap num offset ratio).map (render_extent d)) := by
  have hmem := free_runs_loop_mem bitmap num num 0 (by omega)
  refine ⟨fill_json_free_eq_extents d list group bitmap num offset ratio, ?_⟩
  rw [print_free_eq_runs, runs_out_text]
  unfold free_extents
  rw [List.map_map]
  congr 1
  apply List.map_congr_left
  intro r hr'
  obtain ⟨-, a2, a3, -⟩ := hmem r hr'
  have hlen := scan_len_eq group num offset ratio r.1 r.2 a2 a3 hr hn
  have hlast := scan_last_eq group num offset ratio r.1 r.2 a2
  simp only [Function.comp, render_extent, run_text, hlen, hlast]
  by_cases heq : r.2 = r.1
  · simp [heq]
  · have hpos : 0 < (r.2 - r.1) * ratio := Nat.mul_pos (by omega) hr
    have hne : (r.2 - r.1) * ratio + 1 ≠ 1 := by omega
    simp [heq, hne]

/-- Witness for C6: group 1 of 8-entry groups, offset 9, ratio 4, a bitmap
with free entries 1, 2 and 5. -/
theorem C6_text_matches_json_extents_witness :
    (print_free ⟨false, false⟩ 1 (fun i => !(decide (i = 1 ∨ i = 2 ∨ i = 5))) 8 9 4).text =
        "44-48, 60" ∧
      free_extents 1 (fun i => !(decide (i = 1 ∨ i = 2 ∨ i = 5))) 8 9 4 = [(44, 5), (60, 1)] := by
  have h := (C6_text_matches_json_extents ⟨false, false⟩
    (json_list_create json_val_type.JSON_VAL_OBJECT) 1
    (fun i => !(decide (i = 1 ∨ i = 2 ∨ i = 5))) 8 9 4 (by decide) (by decide)).2
  refine ⟨?_, by decide⟩
  rw [h]
  decide

/-! ## Claims on the free-space sections of a group record -/

set_option maxRecDepth 8000 in
/-- C7, counterexample: on the one-group filesystem `sample_fs` with both
bitmaps loaded, read successfully and without a free entry, the group record
built by `fill_json_desc` does have the pairs `free-blocks` and `free-inodes`
(each an empty list), and `list_desc` does write the labels `Free blocks:` and
`Free inodes:`. -/
theorem C7_counterexample :
    (∀ k, k < 8 → in_use (fun _ => true) k = true) ∧
      full_map 1 8 = Except.ok (fun _ => true) ∧
      (desc_groups ⟨false, false⟩ (sample_fs (some full_map) (some full_map))).map
          (fun g => match g with
            | json_val.obj pair => pair.map json_pair.key
            | _ => []) =
        [["num", "blocks", "bg-opts", "superblock-type", "superblock-at",
          "group-descriptors-at", "block-bitmap-at", "block-bitmap-rel-offset",
          "inode-bitmap-at", "inode-bitmap-rel-offset", "inode-table-at",
          "inode-table-rel-offset", "free-blocks-count", "free-inodes-count",
          "used-dirs-count", "unused-inodes", "free-blocks", "free-inodes"]] ∧
      (list_desc ⟨false, false⟩ (sample_fs (some full_map) (some full_map)) false false).text =
        "\nGroup 0: (Blocks 1-8)\n  Primary superblock at 1, Group descriptors at 2-2\n" ++
        "  Block bitmap at 3 (+2)\n  Inode bitmap at 4 (+3)\n  Inode table at 5-5 (+4)\n" ++
        "  0 free blocks, 0 free inodes, 1 directories\n  Free blocks: \n  Free inodes: \n" ∧
      "  Free blocks: " ∈
        list_desc ⟨false, false⟩ (sample_fs (some full_map) (some full_map)) false false ∧
      "  Free inodes: " ∈
        list_desc ⟨false, false⟩ (sample_fs (some full_map) (some full_map)) false false := by
  refine ⟨by intro k _; rfl, rfl, by decide, by decide, by decide, by decide⟩

/-- C7, amended: when the bitmap of a group is loaded and read successfully
but has no free entry below the group size, the free-space section is present
and empty. The group record built by `fill_json_desc` is the fields, then the
pair `free-blocks` (respectively `free-inodes`) holding a list with no
element, and `list_desc` writes the label `  Free blocks: ` (respectively
`  Free inodes: `) directly followed by the newline. The first two parts say
where these stand: the group objects are the `desc` list of `fill_json_desc`,
the group writes follow the leading newline of `list_desc` in group order. -/
theorem C7_empty_section_is_present (d : Display) (obj : json_obj) (fs : ext2_filsys)
    (ignore_80col : Bool) (i : Nat) (hi : i < fs.group_desc_count) :
    (fill_json_desc d obj fs).pair = obj.pair ++
        [("desc", json_val_type.JSON_VAL_LIST,
          json_val.list json_val_type.JSON_VAL_OBJECT (desc_groups d fs))] ∧
    list_desc d fs false ignore_80col = ["\n"] ++
        ((List.range fs.group_desc_count).map (fun k =>
          list_desc_group d fs false ignore_80col (desc_setup fs) k
            (blk_itr_at fs (desc_setup fs) k) (ino_itr_at fs (desc_setup fs) k))).flatten ∧
    (∀ handle bitmap, fs.block_map = some handle →
      handle (blk_itr_at fs (desc_setup fs) i) ((desc_setup fs).block_nbytes <<< 3) =
        Except.ok bitmap →
      (∀ k, k < fs.super.s_clusters_per_group → in_use bitmap k = true) →
      (desc_groups d fs)[i]? = some (json_val.obj
        ((fill_json_desc_fields d fs (desc_setup fs) i).pair ++
          [("free-blocks", json_val_type.JSON_VAL_LIST,
            json_val.list json_val_type.JSON_VAL_OBJECT [])] ++
          (fill_json_desc_free_inodes d fs (desc_setup fs) json_obj_create i
            (ino_itr_at fs (desc_setup fs) i)).pair)) ∧
      list_desc_group d fs false ignore_80col (desc_setup fs) i
          (blk_itr_at fs (desc_setup fs) i) (ino_itr_at fs (desc_setup fs) i) =
        list_desc_fields d fs ignore_80col (desc_setup fs) i ++
          ["  Free blocks: ", "\n"] ++
          list_desc_free_inodes d fs (desc_setup fs) i (ino_itr_at fs (desc_setup fs) i)) ∧
    (∀ handle bitmap, fs.inode_map = some handle →
      handle (ino_itr_at fs (desc_setup fs) i) ((desc_setup fs).inode_nbytes <<< 3) =
        Except.ok bitmap →
      (∀ k, k < fs.super.s_inodes_per_group → in_use bitmap k = true) →
      (desc_groups d fs)[i]? = some (json_val.obj
        ((fill_json_desc_fields d fs (desc_setup fs) i).pair ++
          (fill_json_desc_free_blocks d fs (desc_setup fs) json_obj_create i
            (blk_itr_at fs (desc_setup fs) i)).pair ++
          [("free-inodes", json_val_type.JSON_VAL_LIST,
            json_val.list json_val_type.JSON_VAL_OBJECT [])])) ∧
      list_desc_group d fs false ignore_80col (desc_setup fs) i
          (blk_itr_at fs (desc_setup fs) i) (ino_itr_at fs (desc_setup fs) i) =
        list_desc_fields d fs ignore_80col (desc_setup fs) i ++
          list_desc_free_blocks d fs (desc_setup fs) i (blk_itr_at fs (desc_setup fs) i) ++
          ["  Free inodes: ", "\n"]) := by
  refine ⟨fill_json_desc_pair d obj fs, list_desc_eq_text d fs ignore_80col, ?_, ?_⟩
  · intro handle bitmap hmap hread hfull
    have hl : (desc_setup fs).block_bitmap = true := by simp [desc_setup, hmap]
    have hr := read_range_some fs.block_map handle (blk_itr_at fs (desc_setup fs) i)
      (desc_setup fs).block_nbytes hmap
    rw [hread] at hr
    constructor
    · rw [desc_groups_getElem d fs i hi, fill_json_desc_group_pair,
        fill_json_desc_free_blocks_pair, hl, hr]
      simp only [if_true, free_extents_nil i bitmap _ _ _ hfull, List.map_nil, json_obj_create,
        List.nil_append]
    · unfold list_desc_group list_desc_free_blocks
      simp only [hl, hr, if_true, print_free_nil d i bitmap _ _ _ hfull]
      simp
  · intro handle bitmap hmap hread hfull
    have hl : (desc_setup fs).inode_bitmap = true := by simp [desc_setup, hmap]
    have hr := read_range_some fs.inode_map handle (ino_itr_at fs (desc_setup fs) i)
      (desc_setup fs).inode_nbytes hmap
    rw [hread] at hr
    constructor
    · rw [desc_groups_getElem d fs i hi, fill_json_desc_group_pair,
        fill_json_desc_free_inodes_pair, hl, hr]
      simp only [if_true, free_extents_nil i bitmap _ _ _ hfull, List.map_nil, json_obj_create,
        List.nil_append]
    · unfold list_desc_group list_desc_free_inodes
      simp only [hl, hr, if_true, print_free_nil d i bitmap _ _ _ hfull]
      simp

/-- Witness for C7 (amended): group 0 of `sample_fs` with a block bitmap
without a free entry. -/
theorem C7_empty_section_is_present_witness :
    0 < (sample_fs (some full_map) none).group_desc_count ∧
      list_desc_group ⟨false, false⟩ (sample_fs (some full_map) none) false false
          (desc_setup (sample_fs (some full_map) none)) 0 1 1 =
        list_desc_fields ⟨false, false⟩ (sample_fs (some full_map) none) false
            (desc_setup (sample_fs (some full_map) none)) 0 ++
          ["  Free blocks: ", "\n"] ++
          list_desc_free_inodes ⟨false, false⟩ (sample_fs (some full_map) none)
            (desc_setup (sample_fs (some full_map) none)) 0 1 :=
  ⟨by decide,
    ((C7_empty_section_is_present ⟨false, false⟩ json_obj_create (sample_fs (some full_map) none) false 0
      (by decide)).2.2.1 full_map (fun _ => true) rfl rfl (by intro k _; rfl)).2⟩

set_option maxRecDepth 8000 in
/-- C8, counterexample: on the one-group filesystem `sample_fs` with both
bitmaps loaded and every ranged read failing, the group record built by
`fill_json_desc` does have the pairs `free-blocks` and `free-inodes`, and
`list_desc` does write the labels `Free blocks:` and `Free inodes:`. -/
theorem C8_counterexample :
    failing_map 1 8 = Except.error 5 ∧
      (desc_groups ⟨false, false⟩ (sample_fs (some failing_map) (some failing_map))).map
          (fun g => match g with
            | json_val.obj pair => pair.map json_pair.key
            | _ => []) =
        [["num", "blocks", "bg-opts", "superblock-type", "superblock-at",
          "group-descriptors-at", "block-bitmap-at", "block-bitmap-rel-offset",
          "inode-bitmap-at", "inode-bitmap-rel-offset", "inode-table-at",
          "inode-table-rel-offset", "free-blocks-count", "free-inodes-count",
          "used-dirs-count", "unused-inodes", "free-blocks", "free-inodes"]] ∧
      (list_desc ⟨false, false⟩ (sample_fs (some failing_map) (some failing_map))
          false false).text =
        "\nGroup 0: (Blocks 1-8)\n  Primary superblock at 1, Group descriptors at 2-2\n" ++
        "  Block bitmap at 3 (+2)\n  Inode bitmap at 4 (+3)\n  Inode table at 5-5 (+4)\n" ++
        "  0 free blocks, 0 free inodes, 1 directories\n  Free blocks: \n  Free inodes: \n" ∧
      "  Free blocks: " ∈
        list_desc ⟨false, false⟩ (sample_fs (some failing_map) (some failing_map)) false false ∧
      "  Free inodes: " ∈
        list_desc ⟨false, false⟩ (sample_fs (some failing_map) (some failing_map)) false false := by
  refine ⟨rfl, by decide, by decide, by decide, by decide⟩

/-- C8, amended: when the ranged read of a loaded bitmap fails for group `i`,
the free-space section is present and empty: the group record is the fields,
then the pair `free-blocks` (respectively `free-inodes`) holding a list with
no element, and `list_desc` writes the label directly followed by the
newline. Every other pair and every other write of the group is what it is
with any other loaded bitmap `handle2` in place of the failing one, so also
with one whose read succeeds. The first two parts say where these stand: the
group objects are the `desc` list of `fill_json_desc`, the group writes
follow the leading newline of `list_desc` in group order. -/
theorem C8_failed_read_section_is_empty (d : Display) (obj : json_obj) (fs : ext2_filsys)
    (ignore_80col : Bool) (i : Nat) (hi : i < fs.group_desc_count) :
    (fill_json_desc d obj fs).pair = obj.pair ++
        [("desc", json_val_type.JSON_VAL_LIST,
          json_val.list json_val_type.JSON_VAL_OBJECT (desc_groups d fs))] ∧
    list_desc d fs false ignore_80col = ["\n"] ++
        ((List.range fs.group_desc_count).map (fun k =>
          list_desc_group d fs false ignore_80col (desc_setup fs) k
            (blk_itr_at fs (desc_setup fs) k) (ino_itr_at fs (desc_setup fs) k))).flatten ∧
    (∀ handle e, fs.block_map = some handle →
      handle (blk_itr_at fs (desc_setup fs) i) ((desc_setup fs).block_nbytes <<< 3) =
        Except.error e →
      ((desc_groups d fs)[i]? = some (json_val.obj
        ((fill_json_desc_fields d fs (desc_setup fs) i).pair ++
          [("free-blocks", json_val_type.JSON_VAL_LIST,
            json_val.list json_val_type.JSON_VAL_OBJECT [])] ++
          (fill_json_desc_free_inodes d fs (desc_setup fs) json_obj_create i
            (ino_itr_at fs (desc_setup fs) i)).pair)) ∧
      list_desc_group d fs false ignore_80col (desc_setup fs) i
          (blk_itr_at fs (desc_setup fs) i) (ino_itr_at fs (desc_setup fs) i) =
        list_desc_fields d fs ignore_80col (desc_setup fs) i ++
          ["  Free blocks: ", "\n"] ++
          list_desc_free_inodes d fs (desc_setup fs) i (ino_itr_at fs (desc_setup fs) i)) ∧
      ∀ handle2 : bitmap_handle,
        (desc_groups d { fs with block_map := some handle2 })[i]? = some (json_val.obj
          ((fill_json_desc_fields d fs (desc_setup fs) i).pair ++
            (fill_json_desc_free_blocks d { fs with block_map := some handle2 } (desc_setup fs)
              json_obj_create i (blk_itr_at fs (desc_setup fs) i)).pair ++
            (fill_json_desc_free_inodes d fs (desc_setup fs) json_obj_create i
              (ino_itr_at fs (desc_setup fs) i)).pair)) ∧
        list_desc_group d { fs with block_map := some handle2 } false ignore_80col
            (desc_setup { fs with block_map := some handle2 }) i
            (blk_itr_at { fs with block_map := some handle2 }
              (desc_setup { fs with block_map := some handle2 }) i)
            (ino_itr_at { fs with block_map := some handle2 }
              (desc_setup { fs with block_map := some handle2 }) i) =
          list_desc_fields d fs ignore_80col (desc_setup fs) i ++
            list_desc_free_blocks d { fs with block_map := some handle2 } (desc_setup fs) i
              (blk_itr_at fs (desc_setup fs) i) ++
            list_desc_free_inodes d fs (desc_setup fs) i (ino_itr_at fs (desc_setup fs) i)) ∧
    (∀ handle e, fs.inode_map = some handle →
      handle (ino_itr_at fs (desc_setup fs) i) ((desc_setup fs).inode_nbytes <<< 3) =
        Except.error e →
      ((desc_groups d fs)[i]? = some (json_val.obj
        ((fill_json_desc_fields d fs (desc_setup fs) i).pair ++
          (fill_json_desc_free_blocks d fs (desc_setup fs) json_obj_create i
            (blk_itr_at fs (desc_setup fs) i)).pair ++
          [("free-inodes", json_val_type.JSON_VAL_LIST,
            json_val.list json_val_type.JSON_VAL_OBJECT [])])) ∧
      list_desc_group d fs false ignore_80col (desc_setup fs) i
          (blk_itr_at fs (desc_setup fs) i) (ino_itr_at fs (desc_setup fs) i) =
        list_desc_fields d fs ignore_80col (desc_setup fs) i ++
          list_desc_free_blocks d fs (desc_setup fs) i (blk_itr_at fs (desc_setup fs) i) ++
          ["  Free inodes: ", "\n"]) ∧
      ∀ handle2 : bitmap_handle,
        (desc_groups d { fs with inode_map := some handle2 })[i]? = some (json_val.obj
          ((fill_json_desc_fields d fs (desc_setup fs) i).pair ++
            (fill_json_desc_free_blocks d fs (desc_setup fs) json_obj_create i
              (blk_itr_at fs (desc_setup fs) i)).pair ++
            (fill_json_desc_free_inodes d { fs with inode_map := some handle2 } (desc_setup fs)
              json_obj_create i (ino_itr_at fs (desc_setup fs) i)).pair)) ∧
        list_desc_group d { fs with inode_map := some handle2 } false ignore_80col
            (desc_setup { fs with inode_map := some handle2 }) i
            (blk_itr_at { fs with inode_map := some handle2 }
              (desc_setup { fs with inode_map := some handle2 }) i)
            (ino_itr_at { fs with inode_map := some handle2 }
              (desc_setup { fs with inode_map := some handle2 }) i) =
          list_desc_fields d fs ignore_80col (desc_setup fs) i ++
            list_desc_free_blocks d fs (desc_setup fs) i (blk_itr_at fs (desc_setup fs) i) ++
            list_desc_free_inodes d { fs with inode_map := some handle2 } (desc_setup fs) i
              (ino_itr_at fs (desc_setup fs) i)) := by
  refine ⟨fill_json_desc_pair d obj fs, list_desc_eq_text d fs ignore_80col, ?_, ?_⟩
  · intro handle e hmap hread
    have hl : (desc_setup fs).block_bitmap = true := by simp [desc_setup, hmap]
    have hr := read_range_some fs.block_map handle (blk_itr_at fs (desc_setup fs) i)
      (desc_setup fs).block_nbytes hmap
    rw [hread] at hr
    refine ⟨⟨?_, ?_⟩, ?_⟩
    · rw [desc_groups_getElem d fs i hi, fill_json_desc_group_pair,
        fill_json_desc_free_blocks_pair, hl, hr]
      simp only [if_true, json_obj_create, List.nil_append]
    · rw [list_desc_group_eq]
      unfold list_desc_free_blocks
      simp only [hl, hr, if_true]
      simp
    · intro handle2
      have hs := desc_setup_block_map fs handle handle2 hmap
      have hb := blk_itr_at_congr fs { fs with block_map := some handle2 } (desc_setup fs) i
        rfl rfl
      have hn := ino_itr_at_congr fs { fs with block_map := some handle2 } (desc_setup fs) i rfl
      have hg := desc_groups_getElem d { fs with block_map := some handle2 } i hi
      rw [hs, hb, hn] at hg
      constructor
      · rw [hg, fill_json_desc_group_pair]
        rfl
      · rw [list_desc_group_eq, hs, hb, hn]
        rfl
  · intro handle e hmap hread
    have hl : (desc_setup fs).inode_bitmap = true := by simp [desc_setup, hmap]
    have hr := read_range_some fs.inode_map handle (ino_itr_at fs (desc_setup fs) i)
      (desc_setup fs).inode_nbytes hmap
    rw [hread] at hr
    refine ⟨⟨?_, ?_⟩, ?_⟩
    · rw [desc_groups_getElem d fs i hi, fill_json_desc_group_pair,
        fill_json_desc_free_inodes_pair, hl, hr]
      simp only [if_true, json_obj_create, List.nil_append]
    · rw [list_desc_group_eq]
      unfold list_desc_free_inodes
      simp only [hl, hr, if_true]
      simp
    · intro handle2
      have hs := desc_setup_inode_map fs handle handle2 hmap
      have hb := blk_itr_at_congr fs { fs with inode_map := some handle2 } (desc_setup fs) i
        rfl rfl
      have hn := ino_itr_at_congr fs { fs with inode_map := some handle2 } (desc_setup fs) i rfl
      have hg := desc_groups_getElem d { fs with inode_map := some handle2 } i hi
      rw [hs, hb, hn] at hg
      constructor
      · rw [hg, fill_json_desc_group_pair]
        rfl
      · rw [list_desc_group_eq, hs, hb, hn]
        rfl

/-- Witness for C8 (amended): group 0 of `sample_fs` with a failing block
bitmap. -/
theorem C8_failed_read_section_is_empty_witness :
    0 < (sample_fs (some failing_map) none).group_desc_count ∧
      list_desc_group ⟨false, false⟩ (sample_fs (some failing_map) none) false false
          (desc_setup (sample_fs (some failing_map) none)) 0 1 1 =
        list_desc_fields ⟨false, false⟩ (sample_fs (some failing_map) none) false
            (desc_setup (sample_fs (some failing_map) none)) 0 ++
          ["  Free blocks: ", "\n"] ++
          list_desc_free_inodes ⟨false, false⟩ (sample_fs (some failing_map) none)
            (desc_setup (sample_fs (some failing_map) none)) 0 1 :=
  ⟨by decide,
    ((C8_failed_read_section_is_empty ⟨false, false⟩ json_obj_create (sample_fs (some failing_map) none) false 0
      (by decide)).2.2.1 failing_map 5 rfl rfl).1.2⟩

/-- C9: when the block bitmap is not loaded (`fs->block_map` absent), no group
object in the `desc` list built by `fill_json_desc` has a pair with key
`free-blocks`, and no write of `list_desc` contains the text `Free blocks:`;
likewise for the inode bitmap with `free-inodes` and `Free inodes:`. -/
theorem C9_unloaded_bitmap_omits_section (d : Display) (obj : json_obj) (fs : ext2_filsys)
    (grp_only ignore_80col : Bool) :
    (fill_json_desc d obj fs).pair = obj.pair ++
        [("desc", json_val_type.JSON_VAL_LIST,
          json_val.list json_val_type.JSON_VAL_OBJECT (desc_groups d fs))] ∧
    (fs.block_map = none →
      (∀ g ∈ desc_groups d fs, ∃ pair, g = json_val.obj pair ∧
        "free-blocks" ∉ pair.map json_pair.key) ∧
      (∀ s ∈ list_desc d fs grp_only ignore_80col, ¬ "Free blocks:".data <:+: s.data)) ∧
    (fs.inode_map = none →
      (∀ g ∈ desc_groups d fs, ∃ pair, g = json_val.obj pair ∧
        "free-inodes" ∉ pair.map json_pair.key) ∧
      (∀ s ∈ list_desc d fs grp_only ignore_80col, ¬ "Free inodes:".data <:+: s.data)) := by
  refine ⟨fill_json_desc_pair d obj fs, ?_, ?_⟩
  · intro hmap
    have hl : (desc_setup fs).block_bitmap = false := by simp [desc_setup, hmap]
    constructor
    · intro g hg
      rw [desc_groups_eq] at hg
      obtain ⟨k, -, rfl⟩ := List.mem_map.mp hg
      refine ⟨_, rfl, ?_⟩
      rw [fill_json_desc_group_pair, fill_json_desc_free_blocks_pair,
        fill_json_desc_free_inodes_pair, hl]
      simp only [List.map_append, List.mem_append, not_or]
      refine ⟨⟨?_, by simp [json_obj_create]⟩, ?_⟩
      · intro hk
        exact absurd (fill_json_desc_fields_keys d fs _ k _ hk) (by decide)
      · split
        · simp [json_obj_create, json_pair.key]
        · simp [json_obj_create]
    · intro s hs
      rw [list_desc_eq] at hs
      rcases List.mem_append.mp hs with hs | hs
      · refine no_F_not_infix s _ (by decide) ?_
        rcases List.mem_append.mp hs with hs | hs
        · exact no_F_single "\n" (by decide) s hs
        · exact no_F_ite _ _ _ (no_F_single _ (by decide)) no_F_nil s hs
      · obtain ⟨o, ho, hso⟩ := List.mem_flatten.mp hs
        obtain ⟨k, -, rfl⟩ := List.mem_map.mp ho
        cases grp_only with
        | true =>
          exact no_F_not_infix s _ (by decide) (list_desc_grp_only_no_F d fs _ k s hso)
        | false =>
          rw [list_desc_group_eq] at hso
          rcases List.mem_append.mp hso with hso | hso
          · rcases List.mem_append.mp hso with hso | hso
            · exact no_F_not_infix s _ (by decide)
                (list_desc_fields_no_F d fs ignore_80col k s hso)
            · simp [list_desc_free_blocks, hl] at hso
          · exact list_desc_free_inodes_infix d fs _ k _ s hso
  · intro hmap
    have hl : (desc_setup fs).inode_bitmap = false := by simp [desc_setup, hmap]
    constructor
    · intro g hg
      rw [desc_groups_eq] at hg
      obtain ⟨k, -, rfl⟩ := List.mem_map.mp hg
      refine ⟨_, rfl, ?_⟩
      rw [fill_json_desc_group_pair, fill_json_desc_free_blocks_pair,
        fill_json_desc_free_inodes_pair, hl]
      simp only [List.map_append, List.mem_append, not_or]
      refine ⟨⟨?_, ?_⟩, by simp [json_obj_create]⟩
      · intro hk
        exact absurd (fill_json_desc_fields_keys d fs _ k _ hk) (by decide)
      · split
        · simp [json_obj_create, json_pair.key]
        · simp [json_obj_create]
    · intro s hs
      rw [list_desc_eq] at hs
      rcases List.mem_append.mp hs with hs | hs
      · refine no_F_not_infix s _ (by decide) ?_
        rcases List.mem_append.mp hs with hs | hs
        · exact no_F_single "\n" (by decide) s hs
        · exact no_F_ite _ _ _ (no_F_single _ (by decide)) no_F_nil s hs
      · obtain ⟨o, ho, hso⟩ := List.mem_flatten.mp hs
        obtain ⟨k, -, rfl⟩ := List.mem_map.mp ho
        cases grp_only with
        | true =>
          exact no_F_not_infix s _ (by decide) (list_desc_grp_only_no_F d fs _ k s hso)
        | false =>
          rw [list_desc_group_eq] at hso
          rcases List.mem_append.mp hso with hso | hso
          · rcases List.mem_append.mp hso with hso | hso
            · exact no_F_not_infix s _ (by decide)
                (list_desc_fields_no_F d fs ignore_80col k s hso)
            · exact list_desc_free_blocks_infix d fs _ k _ s hso
          · simp [list_desc_free_inodes, hl] at hso

set_option maxRecDepth 8000 in
/-- Witness for C9: `sample_fs` with the block bitmap not loaded and the inode
bitmap loaded. -/
theorem C9_unloaded_bitmap_omits_section_witness :
    (sample_fs none (some partly_free_map)).block_map = none ∧
      (list_desc ⟨false, false⟩ (sample_fs none (some partly_free_map)) false false).text =
        "\nGroup 0: (Blocks 1-8)\n  Primary superblock at 1, Group descriptors at 2-2\n" ++
        "  Block bitmap at 3 (+2)\n  Inode bitmap at 4 (+3)\n  Inode table at 5-5 (+4)\n" ++
        "  0 free blocks, 0 free inodes, 1 directories\n  Free inodes: 3-4\n" ∧
      ∀ s ∈ list_desc ⟨false, false⟩ (sample_fs none (some partly_free_map)) false false,
        ¬ "Free blocks:".data <:+: s.data :=
  ⟨rfl, by decide,
    ((C9_unloaded_bitmap_omits_section ⟨false, false⟩ json_obj_create
      (sample_fs none (some partly_free_map)) false false).2.1 rfl).2⟩

/-! ## Claim on number formatting -/

/-- C10: for every 64-bit value `n`, `print_number` writes, in hex mode with
64-bit addressing, `0x` followed by the lowercase hexadecimal digits of `n`
padded on the left with zeros to at least 8 digits; in hex mode without
64-bit addressing the same with at least 4 digits; in decimal mode the
decimal digits of `n` with no padding; and `snprint_number`, with a buffer of
21 bytes or more (the structured renderer passes 64), leaves exactly the text
that `print_number` writes. -/
theorem C10_number_formats (n : Nat) (hn : n < ULONG_MOD) :
    print_number ⟨true, true⟩ n =
        ["0x" ++ String.mk
          (List.replicate (8 - (Nat.toDigits 16 n).length) '0' ++ Nat.toDigits 16 n)] ∧
      8 ≤ (List.replicate (8 - (Nat.toDigits 16 n).length) '0' ++ Nat.toDigits 16 n).length ∧
      print_number ⟨true, false⟩ n =
        ["0x" ++ String.mk
          (List.replicate (4 - (Nat.toDigits 16 n).length) '0' ++ Nat.toDigits 16 n)] ∧
      4 ≤ (List.replicate (4 - (Nat.toDigits 16 n).length) '0' ++ Nat.toDigits 16 n).length ∧
      (∀ c ∈ Nat.toDigits 16 n, c ∈ "0123456789abcdef".data) ∧
      (∀ blocks64, print_number ⟨false, blocks64⟩ n = [String.mk (Nat.toDigits 10 n)]) ∧
      (∀ d size, 21 ≤ size → snprint_number d size n = (print_number d n).text) ∧
      (∀ d, snprint_number d 64 n = (print_number d n).text) := by
  refine ⟨rfl, ?_, rfl, ?_, ?_, ?_, ?_, ?_⟩
  · simp only [List.length_append, List.length_replicate]
    omega
  · simp only [List.length_append, List.length_replicate]
    omega
  · exact toDigitsCore_hex (n + 1) n [] (by simp)
  · intro blocks64
    rfl
  · intro d size hs
    exact snprint_number_eq d size n hs hn
  · intro d
    exact snprint_number_eq d 64 n (by decide) hn

/-- Witness for C10 at `n = 48879`. -/
theorem C10_number_formats_witness :
    48879 < ULONG_MOD ∧ print_number ⟨true, true⟩ 48879 = ["0x0000beef"] ∧
      print_number ⟨true, false⟩ 48879 = ["0xbeef"] ∧
      print_number ⟨false, false⟩ 48879 = ["48879"] ∧
      snprint_number ⟨true, true⟩ 64 48879 = "0x0000beef" := by
  have h := C10_number_formats 48879 (by decide)
  refine ⟨by decide, ?_, ?_, ?_, ?_⟩
  · rw [h.1]; decide
  · rw [h.2.2.1]; decide
  · rw [h.2.2.2.2.2.1 false]; decide
  · rw [h.2.2.2.2.2.2.2 ⟨true, true⟩]; decide

/-! ## Claim on the range printer -/

/-- C11, counterexample: for `a = b = 7` in decimal mode `print_range` writes
`7-7`, two numbers with a `-` between them, not `7` alone. -/
theorem C11_counterexample :
    print_range ⟨false, false⟩ 7 7 = ["7-7"] ∧
      (print_range ⟨false, false⟩ 7 7).text ≠ number_text ⟨false, false⟩ 7 ∧
      '-' ∈ (print_range ⟨false, false⟩ 7 7).text.data := by
  refine ⟨by decide, by decide, by decide⟩

/-- C11, amended: for every pair of values `a` and `b`, also when they are
equal, `print_range` prints `A-B`: the formatted `a`, a `-`, the formatted
`b`, in one write. -/
theorem C11_print_range_always_two_numbers (d : Display) (a b : Nat) :
    print_range d a b = [number_text d a ++ "-" ++ number_text d b] ∧
      (print_range d a b).text = number_text d a ++ "-" ++ number_text d b ∧
      '-' ∈ (print_range d a b).text.data := by
  have h1 : print_range d a b = [number_text d a ++ "-" ++ number_text d b] := by
    unfold print_range number_text print_number Out.text
    split
    · split <;> simp [String.join]
    · simp [String.join]
  have h2 : (print_range d a b).text = number_text d a ++ "-" ++ number_text d b := by
    rw [h1]
    simp [Out.text, String.join]
  refine ⟨h1, h2, ?_⟩
  rw [h2]
  simp [String.data_append]

/-! ## C12: the superblock entries of a group -/

/-- C12: for every filesystem, display mode and group index `i`, with
`super_blk` the superblock location the placement function reports for the
group: the group record has exactly one `"superblock-type"` pair and exactly
one `"superblock-at"` pair when `i = 0` or `super_blk ≠ 0` and none otherwise,
the type being `"Primary"` when `i = 0` and `"Backup"` otherwise; the text of
the group has the write `"  Primary superblock at "` exactly when `i = 0` and
the write `"  Backup superblock at "` exactly when `i ≠ 0` and
`super_blk ≠ 0`, and the label is followed at once by the location. -/
theorem C12_superblock_entries (d : Display) (fs : ext2_filsys) (ignore_80col : Bool)
    (i : Nat) :
    (group_record d fs i).pairs_with_key "superblock-type" =
      (if i = 0 ∨ (fs.super_and_bgd_loc2 i).1 ≠ 0 then
        [("superblock-type", json_val_type.JSON_VAL_STRING,
          json_val.str (if i = 0 then "Primary" else "Backup"))]
       else []) ∧
    (group_record d fs i).pairs_with_key "superblock-at" =
      (if i = 0 ∨ (fs.super_and_bgd_loc2 i).1 ≠ 0 then
        [("superblock-at", json_val_type.JSON_VAL_STRING,
          json_val.str (snprint_number d 64 (fs.super_and_bgd_loc2 i).1))]
       else []) ∧
    ("  Primary superblock at " ∈ group_text d fs ignore_80col i ↔ i = 0) ∧
    ("  Backup superblock at " ∈ group_text d fs ignore_80col i ↔
      (i ≠ 0 ∧ (fs.super_and_bgd_loc2 i).1 ≠ 0)) ∧
    (if i = 0 ∨ (fs.super_and_bgd_loc2 i).1 ≠ 0 then
        ["  " ++ (if i = 0 then "Primary" else "Backup") ++ " superblock at ",
         number_text d (fs.super_and_bgd_loc2 i).1]
      else []) <:+: group_text d fs ignore_80col i := by
  have hsuper : list_desc_super d i (fs.super_and_bgd_loc2 i).1
        (decide (i = 0 ∨ (fs.super_and_bgd_loc2 i).1 ≠ 0)) =
      (if i = 0 ∨ (fs.super_and_bgd_loc2 i).1 ≠ 0 then
        ["  " ++ (if i = 0 then "Primary" else "Backup") ++ " superblock at ",
         number_text d (fs.super_and_bgd_loc2 i).1]
      else []) := by
    unfold list_desc_super
    rw [print_number_eq]
    by_cases h : i = 0 ∨ (fs.super_and_bgd_loc2 i).1 ≠ 0 <;> simp [h]
  have hnum : ∀ n, "  Primary superblock at " ≠ number_text d n ∧
      "  Backup superblock at " ≠ number_text d n := by
    intro n
    constructor
    · intro e
      exact absurd (e ▸ number_text_has_digit d n) (by decide)
    · intro e
      exact absurd (e ▸ number_text_has_digit d n) (by decide)
  have hgdt : ∀ s, s ∈ ["  Primary superblock at ", "  Backup superblock at "] →
      s ∉ list_desc_gdt d (desc_setup fs) (fs.super_and_bgd_loc2 i).2.1
        (fs.super_and_bgd_loc2 i).2.2 (decide (i = 0 ∨ (fs.super_and_bgd_loc2 i).1 ≠ 0)) := by
    intro s hs
    refine not_mem_of_lit_or_digit _ _ (list_desc_gdt_lit_or_digit d _ _ _ _) s ?_ ?_
    · rcases List.mem_cons.mp hs with rfl | hs
      · decide
      · rw [List.mem_singleton.mp hs]; decide
    · rcases List.mem_cons.mp hs with rfl | hs
      · decide
      · rw [List.mem_singleton.mp hs]; decide
  have hmem : ∀ s, s ∈ ["  Primary superblock at ", "  Backup superblock at "] →
      (s ∈ group_text d fs ignore_80col i ↔
        s ∈ list_desc_super d i (fs.super_and_bgd_loc2 i).1
          (decide (i = 0 ∨ (fs.super_and_bgd_loc2 i).1 ≠ 0))) := by
    intro s hs
    constructor
    · intro h
      have hd : ¬ has_digit s := by
        rcases List.mem_cons.mp hs with rfl | hs
        · decide
        · rw [List.mem_singleton.mp hs]; decide
      rcases group_text_mem_cases d fs ignore_80col i s h hd with h1 | h1 | h1
      · exact h1
      · exact absurd h1 (hgdt s hs)
      · exfalso
        revert h1
        rcases List.mem_cons.mp hs with rfl | hs
        · decide
        · rw [List.mem_singleton.mp hs]; decide
    · intro h
      exact (list_desc_super_part d fs ignore_80col i).subset h
  refine ⟨?_, ?_, ?_, ?_, ?_⟩
  · rw [group_record_super_key d fs i _ (by decide)]
    by_cases h : i = 0 ∨ (fs.super_and_bgd_loc2 i).1 ≠ 0
    · rw [if_pos h, if_pos h]; rfl
    · rw [if_neg h, if_neg h]; rfl
  · rw [group_record_super_key d fs i _ (by decide)]
    by_cases h : i = 0 ∨ (fs.super_and_bgd_loc2 i).1 ≠ 0
    · rw [if_pos h, if_pos h]; rfl
    · rw [if_neg h, if_neg h]; rfl
  · rw [hmem _ (by decide), hsuper]
    by_cases h0 : i = 0
    · simp [h0]
    · by_cases h1 : (fs.super_and_bgd_loc2 i).1 = 0
      · simp [h0, h1]
      · simp [h0, h1, (hnum _).1]
  · rw [hmem _ (by decide), hsuper]
    by_cases h0 : i = 0
    · simp [h0, (hnum _).2]
    · by_cases h1 : (fs.super_and_bgd_loc2 i).1 = 0
      · simp [h0, h1]
      · simp [h0, h1]
  · rw [← hsuper]
    exact list_desc_super_part d fs ignore_80col i

/-! ## C13: the placement of the descriptor table -/

/-- C13: for every filesystem, display mode and group `i`, with `old_desc_blk`
and `new_desc_blk` the locations the placement function reports (values of
`blk64_t`), `old_desc_blocks` the `int` local and `reserved_gdt` a value of the
16-bit superblock field. The group record has `"group-descriptors-at"`
exactly when `old_desc_blk ≠ 0`, with start `old_desc_blk` and len
`old_desc_blocks` as `blk64_t`; it has `"reserved-gdt-blocks-at"` exactly when
`old_desc_blk ≠ 0` and `reserved_gdt ≠ 0`, with start
`old_desc_blk + old_desc_blocks` (in `blk64_t`) and len `reserved_gdt`; it has
`"group-desc-at"` exactly when `old_desc_blk = 0` and `new_desc_blk ≠ 0`, with
the single value `new_desc_blk`. The text has the three labels under the same
conditions, and the writes of the descriptor-table part are the label and the
range up to `old_desc_blk + old_desc_blocks - 1`, then the label and the range
of the reserved blocks, or else the label and the single value. The `int`
`old_desc_blocks` is `s_first_meta_bg` (with meta_bg) or `desc_blocks`
converted to `int`: the same number when that is below 2^31, and 2^32 less
when it is from 2^31 to 2^32 - 1. As `blk64_t` a non-negative
`old_desc_blocks` is itself, and a negative one is 2^64 more. -/
theorem C13_descriptor_table_placement (d : Display) (fs : ext2_filsys) (ignore_80col : Bool)
    (i : Nat)
    (hold : (fs.super_and_bgd_loc2 i).2.1 < ULONG_MOD)
    (hnew : (fs.super_and_bgd_loc2 i).2.2 < ULONG_MOD)
    (hres : (desc_setup fs).reserved_gdt < 2 ^ 16) :
    (group_record d fs i).pairs_with_key "group-descriptors-at" =
      (if (fs.super_and_bgd_loc2 i).2.1 ≠ 0 then
        [("group-descriptors-at", json_val_type.JSON_VAL_OBJECT,
          extent_obj d (fs.super_and_bgd_loc2 i).2.1
            (blk64_of_int (desc_setup fs).old_desc_blocks))]
       else []) ∧
    (group_record d fs i).pairs_with_key "reserved-gdt-blocks-at" =
      (if (fs.super_and_bgd_loc2 i).2.1 ≠ 0 ∧ (desc_setup fs).reserved_gdt ≠ 0 then
        [("reserved-gdt-blocks-at", json_val_type.JSON_VAL_OBJECT,
          extent_obj d
            (((fs.super_and_bgd_loc2 i).2.1 + blk64_of_int (desc_setup fs).old_desc_blocks) %
              ULONG_MOD)
            (desc_setup fs).reserved_gdt)]
       else []) ∧
    (group_record d fs i).pairs_with_key "group-desc-at" =
      (if (fs.super_and_bgd_loc2 i).2.1 = 0 ∧ (fs.super_and_bgd_loc2 i).2.2 ≠ 0 then
        [("group-desc-at", json_val_type.JSON_VAL_STRING,
          json_val.str (number_text d (fs.super_and_bgd_loc2 i).2.2))]
       else []) ∧
    (", Group descriptors at " ∈ group_text d fs ignore_80col i ↔
      (fs.super_and_bgd_loc2 i).2.1 ≠ 0) ∧
    ("\n  Reserved GDT blocks at " ∈ group_text d fs ignore_80col i ↔
      ((fs.super_and_bgd_loc2 i).2.1 ≠ 0 ∧ (desc_setup fs).reserved_gdt ≠ 0)) ∧
    (" Group descriptor at " ∈ group_text d fs ignore_80col i ↔
      ((fs.super_and_bgd_loc2 i).2.1 = 0 ∧ (fs.super_and_bgd_loc2 i).2.2 ≠ 0)) ∧
    (if (fs.super_and_bgd_loc2 i).2.1 ≠ 0 then
        [", Group descriptors at ",
         number_text d (fs.super_and_bgd_loc2 i).2.1 ++ "-" ++
           number_text d (blk_last (fs.super_and_bgd_loc2 i).2.1
             (blk64_of_int (desc_setup fs).old_desc_blocks))] ++
        (if (desc_setup fs).reserved_gdt ≠ 0 then
          ["\n  Reserved GDT blocks at ",
           number_text d
               (((fs.super_and_bgd_loc2 i).2.1 +
                 blk64_of_int (desc_setup fs).old_desc_blocks) % ULONG_MOD) ++
             "-" ++
             number_text d (blk_last
               (((fs.super_and_bgd_loc2 i).2.1 +
                 blk64_of_int (desc_setup fs).old_desc_blocks) % ULONG_MOD)
               (desc_setup fs).reserved_gdt)]
         else [])
      else if (fs.super_and_bgd_loc2 i).2.2 ≠ 0 then
        [if i = 0 ∨ (fs.super_and_bgd_loc2 i).1 ≠ 0 then "," else " ",
         " Group descriptor at ", number_text d (fs.super_and_bgd_loc2 i).2.2]
      else []) <:+: group_text d fs ignore_80col i ∧
    ((if fs.super.has_feature_meta_bg then fs.super.s_first_meta_bg else fs.desc_blocks) <
        2 ^ 31 →
      (desc_setup fs).old_desc_blocks =
          ((if fs.super.has_feature_meta_bg then fs.super.s_first_meta_bg
            else fs.desc_blocks : Nat) : Int) ∧
        blk64_of_int (desc_setup fs).old_desc_blocks =
          (if fs.super.has_feature_meta_bg then fs.super.s_first_meta_bg
            else fs.desc_blocks)) ∧
    (2 ^ 31 ≤ (if fs.super.has_feature_meta_bg then fs.super.s_first_meta_bg
          else fs.desc_blocks) →
      (if fs.super.has_feature_meta_bg then fs.super.s_first_meta_bg else fs.desc_blocks) <
        2 ^ 32 →
      (desc_setup fs).old_desc_blocks =
          ((if fs.super.has_feature_meta_bg then fs.super.s_first_meta_bg
            else fs.desc_blocks : Nat) : Int) - 2 ^ 32 ∧
        blk64_of_int (desc_setup fs).old_desc_blocks =
          (if fs.super.has_feature_meta_bg then fs.super.s_first_meta_bg
            else fs.desc_blocks) + (2 ^ 64 - 2 ^ 32)) ∧
    (0 ≤ (desc_setup fs).old_desc_blocks →
      ((blk64_of_int (desc_setup fs).old_desc_blocks : Nat) : Int) =
        (desc_setup fs).old_desc_blocks) ∧
    ((desc_setup fs).old_desc_blocks < 0 →
      ((blk64_of_int (desc_setup fs).old_desc_blocks : Nat) : Int) =
        (desc_setup fs).old_desc_blocks + 2 ^ 64) := by
  have hb64 : blk64_of_int (desc_setup fs).old_desc_blocks < ULONG_MOD := blk64_of_int_lt _
  have hr64 : (desc_setup fs).reserved_gdt < ULONG_MOD :=
    lt_trans hres (by norm_num [ULONG_MOD])
  have hsum : ((fs.super_and_bgd_loc2 i).2.1 + blk64_of_int (desc_setup fs).old_desc_blocks) %
      ULONG_MOD < ULONG_MOD := Nat.mod_lt _ (by norm_num [ULONG_MOD])
  have hodb : (desc_setup fs).old_desc_blocks =
      to_int (if fs.super.has_feature_meta_bg then fs.super.s_first_meta_bg
        else fs.desc_blocks) := rfl
  have hrange := to_int_range
    (if fs.super.has_feature_meta_bg then fs.super.s_first_meta_bg else fs.desc_blocks)
  rw [← hodb] at hrange
  refine ⟨?_, ?_, ?_, ?_, ?_, ?_, ?_, ?_, ?_, ?_, ?_⟩
  · rw [group_record_gdt_key d fs i _ (by decide), fill_json_desc_gdt_pair]
    by_cases h1 : (fs.super_and_bgd_loc2 i).2.1 = 0
    · by_cases h3 : (fs.super_and_bgd_loc2 i).2.2 = 0 <;> simp [h1, h3, json_obj_create]
    · by_cases h2 : (desc_setup fs).reserved_gdt = 0 <;>
        simp [h1, h2, json_obj_create, range_obj_blk_last d _ _ hold hb64]
  · rw [group_record_gdt_key d fs i _ (by decide), fill_json_desc_gdt_pair]
    by_cases h1 : (fs.super_and_bgd_loc2 i).2.1 = 0
    · by_cases h3 : (fs.super_and_bgd_loc2 i).2.2 = 0 <;> simp [h1, h3, json_obj_create]
    · by_cases h2 : (desc_setup fs).reserved_gdt = 0 <;>
        simp [h1, h2, json_obj_create, range_obj_blk_last d _ _ hsum hr64]
  · rw [group_record_gdt_key d fs i _ (by decide), fill_json_desc_gdt_pair]
    by_cases h1 : (fs.super_and_bgd_loc2 i).2.1 = 0
    · by_cases h3 : (fs.super_and_bgd_loc2 i).2.2 = 0 <;>
        simp [h1, h3, json_obj_create, snprint_number_eq d 64 _ (by norm_num) hnew]
    · by_cases h2 : (desc_setup fs).reserved_gdt = 0 <;> simp [h1, h2, json_obj_create]
  · rw [group_text_mem_gdt_label d fs ignore_80col i _ (by decide),
      mem_list_desc_gdt_iff d _ _ _ _ _ (by decide) (by decide) (by decide) (by decide)]
    simp
  · rw [group_text_mem_gdt_label d fs ignore_80col i _ (by decide),
      mem_list_desc_gdt_iff d _ _ _ _ _ (by decide) (by decide) (by decide) (by decide)]
    simp
  · rw [group_text_mem_gdt_label d fs ignore_80col i _ (by decide),
      mem_list_desc_gdt_iff d _ _ _ _ _ (by decide) (by decide) (by decide) (by decide)]
    simp
  · have h := list_desc_gdt_part d fs ignore_80col i
    rw [list_desc_gdt_eq] at h
    have h2 := (infix_here _ _).trans h
    simpa using h2
  · intro hv
    have e := to_int_of_lt _ hv
    rw [← hodb] at e
    refine ⟨e, ?_⟩
    have := blk64_of_int_of_nonneg (desc_setup fs).old_desc_blocks (by omega) (by omega)
    omega
  · intro hv0 hv1
    have e := to_int_of_ge _ hv0 hv1
    rw [← hodb] at e
    refine ⟨e, ?_⟩
    have := blk64_of_int_of_neg (desc_setup fs).old_desc_blocks (by omega) (by omega)
    omega
  · intro h0
    exact blk64_of_int_of_nonneg _ h0 (by omega)
  · intro h0
    exact blk64_of_int_of_neg _ h0 (by omega)

/-- Witness for C13: group 0 of the sample filesystem, whose descriptor table
is the one block 2 and which has no reserved blocks; and the same group with
the meta_bg feature and `s_first_meta_bg` 4294967295, where `old_desc_blocks`
is -1, the range is written `2-0` and the len is 18446744073709551615. -/
theorem C13_descriptor_table_placement_witness :
    ((group_record ⟨false, false⟩ (sample_fs none none) 0).pairs_with_key
        "group-descriptors-at" =
      [("group-descriptors-at", json_val_type.JSON_VAL_OBJECT,
        json_val.obj [("start", json_val_type.JSON_VAL_STRING, json_val.str "2"),
          ("len", json_val_type.JSON_VAL_STRING, json_val.str "1")])] ∧
    (group_record ⟨false, false⟩ (sample_fs none none) 0).pairs_with_key
        "reserved-gdt-blocks-at" = [] ∧
    (group_record ⟨false, false⟩ (sample_fs none none) 0).pairs_with_key "group-desc-at" = [] ∧
    ", Group descriptors at " ∈ group_text ⟨false, false⟩ (sample_fs none none) false 0 ∧
    " Group descriptor at " ∉ group_text ⟨false, false⟩ (sample_fs none none) false 0) ∧
    ((desc_setup { sample_fs none none with
        super := { (sample_fs none none).super with
          has_feature_meta_bg := true,
          s_first_meta_bg := 4294967295 } }).old_desc_blocks = -1 ∧
    (group_record ⟨false, false⟩
        { sample_fs none none with
          super := { (sample_fs none none).super with
            has_feature_meta_bg := true,
            s_first_meta_bg := 4294967295 } } 0).pairs_with_key
        "group-descriptors-at" =
      [("group-descriptors-at", json_val_type.JSON_VAL_OBJECT,
        json_val.obj [("start", json_val_type.JSON_VAL_STRING, json_val.str "2"),
          ("len", json_val_type.JSON_VAL_STRING,
            json_val.str "18446744073709551615")])] ∧
    [", Group descriptors at ", "2-0"] <:+:
      group_text ⟨false, false⟩
        { sample_fs none none with
          super := { (sample_fs none none).super with
            has_feature_meta_bg := true,
            s_first_meta_bg := 4294967295 } } false 0) := by
  have h := C13_descriptor_table_placement ⟨false, false⟩ (sample_fs none none) false 0
    (by decide) (by decide) (by decide)
  have hn := C13_descriptor_table_placement ⟨false, false⟩
    { sample_fs none none with
      super := { (sample_fs none none).super with
        has_feature_meta_bg := true,
        s_first_meta_bg := 4294967295 } } false 0
    (by decide) (by decide) (by decide)
  refine ⟨⟨h.1.trans ?_, h.2.1.trans ?_, h.2.2.1.trans ?_, h.2.2.2.1.mpr (by decide), ?_⟩,
    ⟨by decide, hn.1.trans ?_, ?_⟩⟩
  · rfl
  · rfl
  · rfl
  · intro hmem
    exact absurd (h.2.2.2.2.2.1.mp hmem) (by decide)
  · rfl
  · exact hn.2.2.2.2.2.2.1

/-! ## C14: the relative offset of a block inside its own group -/

/-- C14: for every block address with `first_block ≤ block ≤ last_block` (the
group spanning fewer than 2^32 blocks, so that the offset is a value of
`unsigned`), both renderers report the offset `block - first_block` and no
owning group: the object is the one pair `"offset"` and the text is
`" (+<offset>)"`; except that with the `itable` flag set and
`block = first_block` the object is empty and nothing is printed. With the flag
clear an offset of zero is reported, as `"0"`. -/
theorem C14_offset_inside_own_group (fs : ext2_filsys) (block first_block last_block : Nat)
    (itable : Bool) (h1 : first_block ≤ block) (h2 : block ≤ last_block)
    (h3 : block - first_block < UINT_MOD) :
    json_create_bg_rel_offset_obj fs block itable first_block last_block =
      (if itable = true ∧ block = first_block then json_obj_create
       else { pair := [("offset", json_val_type.JSON_VAL_STRING,
                json_val.str (fmt_dec (block - first_block)))] }) ∧
    print_bg_rel_offset fs block itable first_block last_block =
      (if itable = true ∧ block = first_block then []
       else [" (+" ++ fmt_dec (block - first_block) ++ ")"]) ∧
    (json_create_bg_rel_offset_obj fs block itable first_block last_block).pairs_with_key "bg"
      = [] ∧
    json_create_bg_rel_offset_obj fs first_block false first_block last_block =
      { pair := [("offset", json_val_type.JSON_VAL_STRING, json_val.str "0")] } ∧
    print_bg_rel_offset fs first_block false first_block last_block = [" (+0)"] := by
  have hin : block ≥ first_block ∧ block ≤ last_block := ⟨h1, h2⟩
  have hin0 : first_block ≥ first_block ∧ first_block ≤ last_block :=
    ⟨le_refl _, le_trans h1 h2⟩
  have hobj : json_create_bg_rel_offset_obj fs block itable first_block last_block =
      (if itable = true ∧ block = first_block then json_obj_create
       else { pair := [("offset", json_val_type.JSON_VAL_STRING,
                json_val.str (fmt_dec (block - first_block)))] }) := by
    unfold json_create_bg_rel_offset_obj
    simp only []
    rw [if_pos hin, Nat.mod_eq_of_lt h3, snprintf_fmt_dec _ (uint_lt_ulong _ h3)]
    split
    · rfl
    · simp [json_obj_add_str, json_obj_add_pair_eq, json_obj_create]
  refine ⟨hobj, ?_, ?_, ?_, ?_⟩
  · unfold print_bg_rel_offset
    rw [if_pos hin, Nat.mod_eq_of_lt h3]
  · rw [hobj]
    split <;> rfl
  · unfold json_create_bg_rel_offset_obj
    simp only []
    rw [if_pos hin0]
    simp [json_obj_add_str, json_obj_add_pair_eq, json_obj_create]
    decide
  · unfold print_bg_rel_offset
    rw [if_pos hin0]
    simp
    decide

/-- Witness for C14: block 3 in the group of blocks 1 to 8, which is at
offset 2. -/
theorem C14_offset_inside_own_group_witness :
    json_create_bg_rel_offset_obj (sample_fs none none) 3 false 1 8 =
      { pair := [("offset", json_val_type.JSON_VAL_STRING, json_val.str "2")] } ∧
    print_bg_rel_offset (sample_fs none none) 3 false 1 8 = [" (+2)"] ∧
    json_create_bg_rel_offset_obj (sample_fs none none) 1 true 1 8 = json_obj_create ∧
    print_bg_rel_offset (sample_fs none none) 1 true 1 8 = [] := by
  have h := C14_offset_inside_own_group (sample_fs none none) 3 1 8 false (by decide)
    (by decide) (by decide)
  have h0 := C14_offset_inside_own_group (sample_fs none none) 1 1 8 true (by decide)
    (by decide) (by decide)
  exact ⟨h.1.trans rfl, h.2.1.trans (by decide), h0.1.trans rfl, h0.2.1.trans (by decide)⟩

/-! ## C15: the relative offset of a block outside its own group -/

/-- C15: for every block address outside `[first_block, last_block]`, with
`flex_grp` the group `ext2fs_group_of_blk2` reports for the address (a value of
`dgrp_t`). With the flexible-group feature the object has exactly the pairs
`"bg"`, the group, and `"offset"`, the address minus the first block of that
group computed in `blk64_t` and cast to `unsigned`, and the text is
`" (bg #<group> + <offset>)"` with the same two numbers; without the feature
the object has no pair and nothing is printed. The offset is the difference of
the address and the first block of the group modulo 2^32; it is the difference
itself when the first block is at most the address and less than 2^32 below
it. -/
theorem C15_offset_in_owning_group (fs : ext2_filsys) (block first_block last_block : Nat)
    (itable : Bool) (hout : block < first_block ∨ last_block < block)
    (hgrp : fs.group_of_blk2 block < UINT_MOD) :
    json_create_bg_rel_offset_obj fs block itable first_block last_block =
      (if fs.super.has_feature_flex_bg then
        { pair := [("bg", json_val_type.JSON_VAL_STRING,
              json_val.str (fmt_dec (fs.group_of_blk2 block))),
            ("offset", json_val_type.JSON_VAL_STRING,
              json_val.str (fmt_dec
                ((block + ULONG_MOD - fs.group_first_block2 (fs.group_of_blk2 block)) %
                  ULONG_MOD % UINT_MOD)))] }
       else { pair := [] }) ∧
    print_bg_rel_offset fs block itable first_block last_block =
      (if fs.super.has_feature_flex_bg then
        [" (bg #" ++ fmt_dec (fs.group_of_blk2 block) ++ " + " ++
          fmt_dec ((block + ULONG_MOD - fs.group_first_block2 (fs.group_of_blk2 block)) %
            ULONG_MOD % UINT_MOD) ++ ")"]
       else []) ∧
    (fs.group_first_block2 (fs.group_of_blk2 block) < ULONG_MOD →
      (((block + ULONG_MOD - fs.group_first_block2 (fs.group_of_blk2 block)) %
          ULONG_MOD % UINT_MOD : Nat) : Int) =
        ((block : Int) - (fs.group_first_block2 (fs.group_of_blk2 block) : Int)) % 2 ^ 32) ∧
    (fs.group_first_block2 (fs.group_of_blk2 block) ≤ block →
      block - fs.group_first_block2 (fs.group_of_blk2 block) < UINT_MOD →
      (block + ULONG_MOD - fs.group_first_block2 (fs.group_of_blk2 block)) %
          ULONG_MOD % UINT_MOD =
        block - fs.group_first_block2 (fs.group_of_blk2 block)) := by
  have hnot : ¬ (block ≥ first_block ∧ block ≤ last_block) := by
    intro h
    rcases hout with h1 | h1
    · exact absurd h.1 (not_le.mpr h1)
    · exact absurd h.2 (not_le.mpr h1)
  have hd32 : (block + ULONG_MOD - fs.group_first_block2 (fs.group_of_blk2 block)) %
      ULONG_MOD % UINT_MOD < UINT_MOD := Nat.mod_lt _ (by norm_num [UINT_MOD])
  refine ⟨?_, ?_, ?_, ?_⟩
  · unfold json_create_bg_rel_offset_obj
    simp only []
    rw [if_neg hnot, snprintf_fmt_dec _ (uint_lt_ulong _ hgrp),
      snprintf_fmt_dec _ (uint_lt_ulong _ hd32)]
    split
    · simp [json_obj_add_str, json_obj_add_pair_eq, json_obj_create]
    · rfl
  · unfold print_bg_rel_offset
    simp only []
    rw [if_neg hnot]
  · intro hg
    unfold ULONG_MOD UINT_MOD at *
    omega
  · intro hfirst hdelta
    have e : block + ULONG_MOD - fs.group_first_block2 (fs.group_of_blk2 block) =
        (block - fs.group_first_block2 (fs.group_of_blk2 block)) + ULONG_MOD := by omega
    rw [e, Nat.add_mod_right, Nat.mod_eq_of_lt (uint_lt_ulong _ hdelta), Nat.mod_eq_of_lt hdelta]

/-- Witness for C15: on the sample filesystem with the flexible-group feature
set, block 19 seen from the group of blocks 1 to 8 belongs to group 2, whose
first block is 17; block 0 is reported in group 0, whose first block is 1, and
its offset is -1 modulo 2^32; without the feature nothing is reported. -/
theorem C15_offset_in_owning_group_witness :
    json_create_bg_rel_offset_obj
        { sample_fs none none with
          super := { (sample_fs none none).super with has_feature_flex_bg := true } }
        19 false 1 8 =
      { pair := [("bg", json_val_type.JSON_VAL_STRING, json_val.str "2"),
          ("offset", json_val_type.JSON_VAL_STRING, json_val.str "2")] } ∧
    print_bg_rel_offset
        { sample_fs none none with
          super := { (sample_fs none none).super with has_feature_flex_bg := true } }
        19 false 1 8 = [" (bg #2 + 2)"] ∧
    json_create_bg_rel_offset_obj
        { sample_fs none none with
          super := { (sample_fs none none).super with has_feature_flex_bg := true } }
        0 false 1 8 =
      { pair := [("bg", json_val_type.JSON_VAL_STRING, json_val.str "0"),
          ("offset", json_val_type.JSON_VAL_STRING, json_val.str "4294967295")] } ∧
    print_bg_rel_offset
        { sample_fs none none with
          super := { (sample_fs none none).super with has_feature_flex_bg := true } }
        0 false 1 8 = [" (bg #0 + 4294967295)"] ∧
    json_create_bg_rel_offset_obj (sample_fs none none) 19 false 1 8 = { pair := [] } ∧
    print_bg_rel_offset (sample_fs none none) 19 false 1 8 = [] := by
  have h := C15_offset_in_owning_group
    { sample_fs none none with
      super := { (sample_fs none none).super with has_feature_flex_bg := true } }
    19 1 8 false (by decide) (by decide)
  have hw := C15_offset_in_owning_group
    { sample_fs none none with
      super := { (sample_fs none none).super with has_feature_flex_bg := true } }
    0 1 8 false (by decide) (by decide)
  have h0 := C15_offset_in_owning_group (sample_fs none none) 19 1 8 false (by decide)
    (by decide)
  exact ⟨h.1.trans rfl, h.2.1.trans (by decide), hw.1.trans rfl, hw.2.1.trans rfl,
    h0.1.trans rfl, h0.2.1.trans (by decide)⟩

/-! ## C16: the checksum of the group descriptor -/

/-- C16: for every filesystem, display mode and group `i`, with `s` the
stored and `e` the expected checksum of the descriptor (16-bit values). With
the checksum capability on, the group record has the one pair
`"group-desc-csum"`, the text `0x%04x` of `s`, and has the pair
`"group-desc-csum-exp"`, the text `0x%04x` of `e`, exactly when `s ≠ e`; with
the capability off it has neither. In the text the writes right after the
`)` of the header are `" csum 0x%04x"` of `s`, followed by
`" (EXPECTED 0x%04x)"` of `e` when `s ≠ e`, or nothing with the capability
off, and some write of the group has `(EXPECTED` in it exactly when the
capability is on and `s ≠ e`. -/
theorem C16_descriptor_checksum (d : Display) (fs : ext2_filsys) (ignore_80col : Bool)
    (i : Nat) (hs : fs.bg_checksum i < 2 ^ 16) (he : fs.group_desc_csum i < 2 ^ 16) :
    (group_record d fs i).pairs_with_key "group-desc-csum" =
      (if fs.has_group_desc_csum then
        [("group-desc-csum", json_val_type.JSON_VAL_STRING,
          json_val.str (fmt_hex 4 (fs.bg_checksum i)))]
       else []) ∧
    (group_record d fs i).pairs_with_key "group-desc-csum-exp" =
      (if fs.has_group_desc_csum = true ∧ fs.bg_checksum i ≠ fs.group_desc_csum i then
        [("group-desc-csum-exp", json_val_type.JSON_VAL_STRING,
          json_val.str (fmt_hex 4 (fs.group_desc_csum i)))]
       else []) ∧
    (∃ rest, group_text d fs ignore_80col i =
      ["Group " ++ fmt_dec i ++ ": (Blocks "] ++
      print_range d (fs.group_first_block2 i) (fs.group_last_block2 i) ++ [")"] ++
      (if fs.has_group_desc_csum then
        [" csum " ++ fmt_hex 4 (fs.bg_checksum i)] ++
        (if fs.bg_checksum i ≠ fs.group_desc_csum i then
          [" (EXPECTED " ++ fmt_hex 4 (fs.group_desc_csum i) ++ ")"] else [])
       else []) ++
      print_bg_opts fs i ++ rest) ∧
    ((∃ w ∈ group_text d fs ignore_80col i, "(EXPECTED".data <:+: w.data) ↔
      (fs.has_group_desc_csum = true ∧ fs.bg_checksum i ≠ fs.group_desc_csum i)) := by
  have hs64 : fs.bg_checksum i < ULONG_MOD := lt_trans hs (by norm_num [ULONG_MOD])
  have he64 : fs.group_desc_csum i < ULONG_MOD := lt_trans he (by norm_num [ULONG_MOD])
  have hcsum : list_desc_csum fs i =
      (if fs.has_group_desc_csum then
        [" csum " ++ fmt_hex 4 (fs.bg_checksum i)] ++
        (if fs.bg_checksum i ≠ fs.group_desc_csum i then
          [" (EXPECTED " ++ fmt_hex 4 (fs.group_desc_csum i) ++ ")"] else [])
       else []) := by
    unfold list_desc_csum
    rfl
  refine ⟨?_, ?_, ?_, ?_⟩
  · rw [group_record_csum_key d fs i _ (by decide), fill_json_desc_csum_pair,
      snprintf_fmt_hex 4 _ (by decide) hs64]
    by_cases h1 : fs.has_group_desc_csum = true
    · by_cases h2 : fs.bg_checksum i = fs.group_desc_csum i <;>
        simp [h1, h2, json_obj_create]
    · simp [h1, json_obj_create]
  · rw [group_record_csum_key d fs i _ (by decide), fill_json_desc_csum_pair,
      snprintf_fmt_hex 4 (fs.group_desc_csum i) (by decide) he64]
    by_cases h1 : fs.has_group_desc_csum = true
    · by_cases h2 : fs.bg_checksum i = fs.group_desc_csum i <;>
        simp [h1, h2, json_obj_create]
    · simp [h1, json_obj_create]
  · rw [group_text_eq, hcsum]
    simp only [List.append_assoc]
    exact ⟨_, rfl⟩
  · constructor
    · rintro ⟨w, hw, hinf⟩
      have hX : 'X' ∈ w.data := hinf.subset (by decide)
      have hmem := group_text_X_in_csum d fs ignore_80col i w hw hX
      rw [hcsum] at hmem
      by_cases h1 : fs.has_group_desc_csum = true
      · refine ⟨h1, ?_⟩
        intro h2
        rw [if_pos h1, if_neg (not_not.mpr h2)] at hmem
        simp only [List.append_nil, List.mem_singleton] at hmem
        rw [hmem] at hX
        simp only [String.data_append, List.mem_append] at hX
        rcases hX with hX | hX
        · exact absurd hX (by decide)
        · exact fmt_hex_no_X _ _ hX
      · rw [if_neg h1] at hmem
        simp at hmem
    · rintro ⟨h1, h2⟩
      refine ⟨" (EXPECTED " ++ fmt_hex 4 (fs.group_desc_csum i) ++ ")", ?_, ?_⟩
      · rw [group_text_eq, hcsum, if_pos h1, if_pos h2]
        simp
      · refine ⟨[' '], ' ' :: ((fmt_hex 4 (fs.group_desc_csum i)).data ++ ")".data), ?_⟩
        simp only [String.data_append]
        rfl

/-- Witness for C16: the two scenarios, stored checksum `0x1234` with the
expected checksum `0x1234` and with the expected checksum `0x5678`, on the
sample filesystem with the checksum capability on. -/
theorem C16_descriptor_checksum_witness :
    ((group_record ⟨false, false⟩
        { sample_fs none none with
          has_group_desc_csum := true,
          bg_checksum := fun _ => 0x1234, group_desc_csum := fun _ => 0x1234 }
        0).pairs_with_key "group-desc-csum" =
      [("group-desc-csum", json_val_type.JSON_VAL_STRING, json_val.str "0x1234")] ∧
     (group_record ⟨false, false⟩
        { sample_fs none none with
          has_group_desc_csum := true,
          bg_checksum := fun _ => 0x1234, group_desc_csum := fun _ => 0x1234 }
        0).pairs_with_key "group-desc-csum-exp" = []) ∧
    ((group_record ⟨false, false⟩
        { sample_fs none none with
          has_group_desc_csum := true,
          bg_checksum := fun _ => 0x1234, group_desc_csum := fun _ => 0x5678 }
        0).pairs_with_key "group-desc-csum" =
      [("group-desc-csum", json_val_type.JSON_VAL_STRING, json_val.str "0x1234")] ∧
     (group_record ⟨false, false⟩
        { sample_fs none none with
          has_group_desc_csum := true,
          bg_checksum := fun _ => 0x1234, group_desc_csum := fun _ => 0x5678 }
        0).pairs_with_key "group-desc-csum-exp" =
      [("group-desc-csum-exp", json_val_type.JSON_VAL_STRING, json_val.str "0x5678")]) ∧
    (group_record ⟨false, false⟩ (sample_fs none none) 0).pairs_with_key "group-desc-csum"
      = [] := by
  have h1 := C16_descriptor_checksum ⟨false, false⟩
    { sample_fs none none with
      has_group_desc_csum := true,
      bg_checksum := fun _ => 0x1234, group_desc_csum := fun _ => 0x1234 }
    false 0 (by decide) (by decide)
  have h2 := C16_descriptor_checksum ⟨false, false⟩
    { sample_fs none none with
      has_group_desc_csum := true,
      bg_checksum := fun _ => 0x1234, group_desc_csum := fun _ => 0x5678 }
    false 0 (by decide) (by decide)
  have h3 := C16_descriptor_checksum ⟨false, false⟩ (sample_fs none none) false 0
    (by decide) (by decide)
  exact ⟨⟨h1.1.trans rfl, h1.2.1.trans rfl⟩, ⟨h2.1.trans rfl, h2.2.1.trans rfl⟩,
    h3.1.trans rfl⟩

/-! ## C17: the unused-inode count in the two renderers -/

set_option maxRecDepth 8000 in
/-- C17, counterexample: group 0 of the sample filesystem has an unused-inode
count of zero. Its record has the pair `"unused-inodes"`, with the value
`"0"`, while the counts part of its text is the one line ending in
`directories` and no write of its text has `unused inodes` in it. -/
theorem C17_counterexample :
    (sample_fs none none).bg_itable_unused 0 = 0 ∧
    (group_record ⟨false, false⟩ (sample_fs none none) 0).pairs_with_key "unused-inodes" =
      [("unused-inodes", json_val_type.JSON_VAL_STRING, json_val.str "0")] ∧
    "unused-inodes" ∈ (group_record ⟨false, false⟩ (sample_fs none none) 0).keys ∧
    list_desc_counts (sample_fs none none) (desc_setup (sample_fs none none)) 0 =
      ["\n  0 free blocks, 0 free inodes, 1 directories\n"] ∧
    (group_text ⟨false, false⟩ (sample_fs none none) false 0).text =
      "Group 0: (Blocks 1-8)\n  Primary superblock at 1, Group descriptors at 2-2\n" ++
      "  Block bitmap at 3 (+2)\n  Inode bitmap at 4 (+3)\n  Inode table at 5-5 (+4)\n" ++
      "  0 free blocks, 0 free inodes, 1 directories\n" ∧
    (∀ w ∈ group_text ⟨false, false⟩ (sample_fs none none) false 0,
      ¬ "unused inodes".data <:+: w.data) := by
  refine ⟨rfl, rfl, by decide, by decide, by decide, by decide⟩

/-- C17, amended: for every filesystem, display mode and group `i` with
unused-inode count `n` (a 32-bit value), the group record has exactly one pair
`"unused-inodes"`, whatever `n` is, with the decimal text of `n` (`"0"` when
`n = 0`); the counts part of the text, a block of consecutive writes of the
group's text, is the counts line followed by the write
`", <n> unused inodes\n"` when `n ≠ 0` and by nothing when `n = 0`. -/
theorem C17_unused_inodes_always_in_record (d : Display) (fs : ext2_filsys)
    (ignore_80col : Bool) (i : Nat) (hn : fs.bg_itable_unused i < UINT_MOD) :
    (group_record d fs i).pairs_with_key "unused-inodes" =
      [("unused-inodes", json_val_type.JSON_VAL_STRING,
        json_val.str (fmt_dec (fs.bg_itable_unused i)))] ∧
    "unused-inodes" ∈ (group_record d fs i).keys ∧
    list_desc_counts fs (desc_setup fs) i =
      ["\n  " ++ fmt_dec (fs.bg_free_blocks_count i) ++ " free " ++ (desc_setup fs).units ++
        ", " ++ fmt_dec (fs.bg_free_inodes_count i) ++ " free inodes, " ++
        fmt_dec (fs.bg_used_dirs_count i) ++ " directories" ++
        (if fs.bg_itable_unused i ≠ 0 then "" else "\n")] ++
      (if fs.bg_itable_unused i ≠ 0 then
        [", " ++ fmt_dec (fs.bg_itable_unused i) ++ " unused inodes\n"] else []) ∧
    list_desc_counts fs (desc_setup fs) i <:+: group_text d fs ignore_80col i ∧
    ((", " ++ fmt_dec (fs.bg_itable_unused i) ++ " unused inodes\n") ∈
        list_desc_counts fs (desc_setup fs) i ↔ fs.bg_itable_unused i ≠ 0) := by
  have hpairs : (group_record d fs i).pairs_with_key "unused-inodes" =
      [("unused-inodes", json_val_type.JSON_VAL_STRING,
        json_val.str (fmt_dec (fs.bg_itable_unused i)))] := by
    rw [group_record_counts_key d fs i _ (by decide), fill_json_desc_counts_pair,
      snprintf_64_fmt_dec _ (uint_lt_ulong _ hn)]
    rfl
  refine ⟨hpairs, ?_, rfl, list_desc_counts_part d fs ignore_80col i, ?_⟩
  · have hmem : ("unused-inodes", json_val_type.JSON_VAL_STRING,
        json_val.str (fmt_dec (fs.bg_itable_unused i))) ∈
        (group_record d fs i).pairs_with_key "unused-inodes" := by
      rw [hpairs]
      exact List.mem_singleton.mpr rfl
    unfold json_obj.pairs_with_key at hmem
    exact List.mem_map_of_mem json_pair.key (List.mem_filter.mp hmem).1
  · unfold list_desc_counts
    by_cases h0 : fs.bg_itable_unused i = 0
    · simp only [h0, ne_eq, not_true_eq_false, if_false, List.append_nil, List.mem_singleton,
        iff_false]
      intro e
      have e2 := congrArg (fun s => s.data.head?) e
      simp only [String.data_append, List.append_assoc] at e2
      simp at e2
    · simp [h0]

/-- Witness for C17 (amended): group 0 of the sample filesystem, with an
unused-inode count of zero. -/
theorem C17_unused_inodes_always_in_record_witness :
    (group_record ⟨false, false⟩ (sample_fs none none) 0).pairs_with_key "unused-inodes" =
      [("unused-inodes", json_val_type.JSON_VAL_STRING, json_val.str "0")] ∧
    ", 0 unused inodes\n" ∉
      list_desc_counts (sample_fs none none) (desc_setup (sample_fs none none)) 0 := by
  have h := C17_unused_inodes_always_in_record ⟨false, false⟩ (sample_fs none none) false 0
    (by decide)
  refine ⟨h.1.trans rfl, ?_⟩
  intro hmem
  exact absurd (h.2.2.2.2.mp hmem) (by decide)

/-! ## Claims on the document model -/

/-- C18: adding to a container keeps insertion order. For an object with pair
sequence `obj.pair`, each of `json_obj_add_str`, `json_obj_add_list` and
`json_obj_add_obj` (and `json_obj_add_fmt_buf_str`) leaves exactly `obj.pair`
followed by the new pair; for a list with element sequence `list.node`,
`json_list_add_str` and `json_list_add_obj` leave exactly `list.node` followed
by the new element and keep the element type. -/
theorem C18_add_keeps_insertion_order (obj new_obj : json_obj) (list l : json_list)
    (key str : String) (size : Nat) :
    (json_obj_add_str obj key str).pair =
        obj.pair ++ [(key, json_val_type.JSON_VAL_STRING, json_val.str str)] ∧
      (json_obj_add_fmt_buf_str obj key size str).pair =
        obj.pair ++ [(key, json_val_type.JSON_VAL_STRING, json_val.str (snprintf size str))] ∧
      (json_obj_add_list obj key l).pair =
        obj.pair ++ [(key, json_val_type.JSON_VAL_LIST, json_val.list l.type l.node)] ∧
      (json_obj_add_obj obj key new_obj).pair =
        obj.pair ++ [(key, json_val_type.JSON_VAL_OBJECT, json_val.obj new_obj.pair)] ∧
      (json_list_add_str list str).node = list.node ++ [json_val.str str] ∧
      (json_list_add_str list str).type = list.type ∧
      (json_list_add_obj list new_obj).node = list.node ++ [json_val.obj new_obj.pair] ∧
      (json_list_add_obj list new_obj).type = list.type := by
  simp [json_obj_add_str, json_obj_add_fmt_buf_str, json_obj_add_list, json_obj_add_obj,
    json_list_add_str, json_list_add_obj, json_obj_add_pair_eq, json_list_add_node_eq]

/-- C19, counterexample: the object with the single key `a` has pairwise
distinct keys, and after `json_obj_add_str` (likewise `json_obj_add_list`,
`json_obj_add_obj`) with key `a` its keys are `a, a`. -/
theorem C19_counterexample :
    (json_obj_add_str json_obj_create "a" "1").keys.Nodup ∧
      (json_obj_add_str (json_obj_add_str json_obj_create "a" "1") "a" "2").keys = ["a", "a"] ∧
      ¬ (json_obj_add_str (json_obj_add_str json_obj_create "a" "1") "a" "2").keys.Nodup ∧
      ¬ (json_obj_add_list (json_obj_add_str json_obj_create "a" "1") "a"
          (json_list_create json_val_type.JSON_VAL_STRING)).keys.Nodup ∧
      ¬ (json_obj_add_obj (json_obj_add_str json_obj_create "a" "1") "a"
          json_obj_create).keys.Nodup := by
  refine ⟨by decide, by decide, by decide, by decide, by decide⟩

/-- C19, amended: the add operations do not check for an existing key. For an
object whose keys are pairwise distinct, the object that `json_obj_add_str`,
`json_obj_add_list` or `json_obj_add_obj` leaves has pairwise distinct keys
exactly when the added key was not a key of the object; the object that
`json_obj_delete_pair` leaves always has pairwise distinct keys. -/
theorem C19_keys_distinct_iff_new_key (obj new_obj : json_obj) (l : json_list)
    (key str : String) (h : obj.keys.Nodup) :
    ((json_obj_add_str obj key str).keys.Nodup ↔ key ∉ obj.keys) ∧
      ((json_obj_add_list obj key l).keys.Nodup ↔ key ∉ obj.keys) ∧
      ((json_obj_add_obj obj key new_obj).keys.Nodup ↔ key ∉ obj.keys) ∧
      (json_obj_delete_pair obj key).keys.Nodup := by
  have hadd : (obj.keys ++ [key]).Nodup ↔ key ∉ obj.keys := by
    rw [List.nodup_append]
    simp [h]
  refine ⟨?_, ?_, ?_, ?_⟩
  · rw [json_obj_add_str_keys]; exact hadd
  · rw [json_obj_add_list_keys]; exact hadd
  · rw [json_obj_add_obj_keys]; exact hadd
  · unfold json_obj_delete_pair json_obj.keys at *
    exact List.Nodup.sublist ((json_obj_delete_pair_loop_sublist obj.pair key).map _) h

/-- Witness for C19 (amended): adding key `b` to the object with the single
key `a`. -/
theorem C19_keys_distinct_iff_new_key_witness :
    (json_obj_add_str json_obj_create "a" "1").keys.Nodup ∧
      (json_obj_add_str (json_obj_add_str json_obj_create "a" "1") "b" "2").keys.Nodup :=
  ⟨by decide,
    (C19_keys_distinct_iff_new_key (json_obj_add_str json_obj_create "a" "1") json_obj_create
      (json_list_create json_val_type.JSON_VAL_STRING) "b" "2" (by decide)).1.mpr (by decide)⟩

/-- C20: `json_obj_delete_pair(obj, key)` removes the first pair with that
key and nothing else. If no pair has the key the object is unchanged; if
`obj.pair` is `l1`, then a pair `p` with the key, then `l2`, with no pair of
`l1` having the key, the result is `l1` followed by `l2`; whenever some pair
has the key the pair count drops by exactly one. -/
theorem C20_delete_removes_first_match (obj : json_obj) (key : String) :
    ((∀ p ∈ obj.pair, p.1 ≠ key) → json_obj_delete_pair obj key = obj) ∧
      (∀ l1 p l2, obj.pair = l1 ++ p :: l2 → p.1 = key → (∀ q ∈ l1, q.1 ≠ key) →
        (json_obj_delete_pair obj key).pair = l1 ++ l2) ∧
      ((∃ p ∈ obj.pair, p.1 = key) →
        (json_obj_delete_pair obj key).pair.length + 1 = obj.pair.length) := by
  refine ⟨?_, ?_, ?_⟩
  · intro h
    unfold json_obj_delete_pair
    rw [json_obj_delete_pair_loop_absent obj.pair key h]
  · intro l1 p l2 hobj hp hl1
    unfold json_obj_delete_pair
    rw [hobj]
    exact json_obj_delete_pair_loop_first l1 l2 p key hp hl1
  · intro h
    exact json_obj_delete_pair_loop_length obj.pair key h

/-- Witness for C20: deleting key `b` from the object with keys `a, b, c, b`. -/
theorem C20_delete_removes_first_match_witness :
    (json_obj_delete_pair
      (json_obj_add_str (json_obj_add_str (json_obj_add_str (json_obj_add_str json_obj_create
        "a" "1") "b" "2") "c" "3") "b" "4") "b").keys = ["a", "c", "b"] ∧
      (json_obj_delete_pair
        (json_obj_add_str (json_obj_add_str (json_obj_add_str (json_obj_add_str json_obj_create
          "a" "1") "b" "2") "c" "3") "b" "4") "b").pair.length + 1 = 4 :=
  ⟨by decide,
    (C20_delete_removes_first_match
      (json_obj_add_str (json_obj_add_str (json_obj_add_str (json_obj_add_str json_obj_create
        "a" "1") "b" "2") "c" "3") "b" "4") "b").2.2
      ⟨("b", json_val_type.JSON_VAL_STRING, json_val.str "2"), by simp [json_obj_add_str,
        json_obj_add_pair_eq, json_obj_create], rfl⟩⟩

/-! ## Claims on serialization -/

/-- C21: the layout of the serialization. An object serialized at level `L`
is `{`, then its pairs in order with `", "` between them, each pair being
`print_indent` at level `L + 1` (a newline and `2 * (L + 1)` spaces), the
quoted key with `": "`, and the value serialized at level `L + 1`, then, when
the object has a pair, `print_indent` at level `L` (a newline and `2 * L`
spaces), then `}`; an empty object is `{}`. A list is the same with `[`, `]`
and bare values, `[]` when empty. A string value is shown quoted, a nested
object or list by the same functions at level `L + 1`. -/
theorem C21_serialization_layout (obj : json_obj) (list : json_list) (L : Nat) :
    json_obj_print_json obj L =
        ["\x7b"] ++ List.intercalate [", "] (obj.pair.map (fun p =>
          print_indent ((L + 1 : Nat) : Int) ++ ["\"" ++ p.1 ++ "\": "] ++
            json_pair_print_val p.2.1 p.2.2 ((L + 1 : Nat) : Int))) ++
        (if obj.pair.isEmpty then [] else print_indent L) ++ ["\x7d"] ∧
      json_list_print_json list L =
        ["["] ++ List.intercalate [", "] (list.node.map (fun n =>
          print_indent ((L + 1 : Nat) : Int) ++
            json_list_node_print_val list.type n ((L + 1 : Nat) : Int))) ++
        (if list.node.isEmpty then [] else print_indent L) ++ ["]"] ∧
      (json_obj_print_json json_obj_create L).text = "\x7b\x7d" ∧
      (json_list_print_json (json_list_create list.type) L).text = "[]" ∧
      (print_indent (L : Int)).text = "\n" ++ String.mk (List.replicate (2 * L) ' ') ∧
      (print_indent ((L + 1 : Nat) : Int)).text =
        "\n" ++ String.mk (List.replicate (2 * (L + 1)) ' ') ∧
      (∀ str, json_pair_print_val json_val_type.JSON_VAL_STRING (json_val.str str)
          ((L + 1 : Nat) : Int) = ["\"" ++ str ++ "\""]) ∧
      (∀ pair, json_pair_print_val json_val_type.JSON_VAL_OBJECT (json_val.obj pair)
          ((L + 1 : Nat) : Int) = json_obj_print_json { pair := pair } ((L + 1 : Nat) : Int)) ∧
      (∀ type node, json_pair_print_val json_val_type.JSON_VAL_LIST (json_val.list type node)
          ((L + 1 : Nat) : Int) =
        json_list_print_json { type := type, node := node } ((L + 1 : Nat) : Int)) ∧
      (∀ str, json_list_node_print_val json_val_type.JSON_VAL_STRING (json_val.str str)
          ((L + 1 : Nat) : Int) = ["\"" ++ str ++ "\""]) ∧
      (∀ pair, json_list_node_print_val json_val_type.JSON_VAL_OBJECT (json_val.obj pair)
          ((L + 1 : Nat) : Int) = json_obj_print_json { pair := pair } ((L + 1 : Nat) : Int)) ∧
      (∀ type node,
        json_list_node_print_val json_val_type.JSON_VAL_LIST (json_val.list type node)
          ((L + 1 : Nat) : Int) =
        json_list_print_json { type := type, node := node } ((L + 1 : Nat) : Int)) := by
  have hL : ((L : Nat) : Int) + 1 = ((L + 1 : Nat) : Int) := by push_cast; rfl
  refine ⟨?_, ?_, ?_, ?_, print_indent_text L, print_indent_text (L + 1),
    ?_, ?_, ?_, ?_, ?_, ?_⟩
  · unfold json_obj_print_json
    rw [json_obj_print_loop_eq, hL]
    congr 2
    · congr 2
      apply List.map_congr_left
      intro p _
      obtain ⟨key, type, val⟩ := p
      exact json_pair_print_json_eq key type val _
  · unfold json_list_print_json
    rw [json_list_print_loop_eq, hL]
    rfl
  · simp only [json_obj_print_json, json_obj_create, json_obj_print_loop, List.isEmpty_nil,
      if_true, List.append_nil]
    decide
  · simp only [json_list_print_json, json_list_create, json_list_print_loop, List.isEmpty_nil,
      if_true, List.append_nil]
    decide
  · intro str
    rw [json_pair_print_val]
  · intro pair
    exact json_pair_print_val_obj pair _
  · intro type node
    exact json_pair_print_val_list type node _
  · intro str
    rw [json_list_node_print_val]
  · intro pair
    exact json_list_node_print_val_obj pair _
  · intro type node
    exact json_list_node_print_val_list type node _

/-- Witness for C21: an object with a string and a list of one string, at
level 0 and at level 1. -/
theorem C21_serialization_layout_witness :
    (json_obj_print_json
        { pair := [("a", json_val_type.JSON_VAL_STRING, json_val.str "x"),
            ("b", json_val_type.JSON_VAL_LIST,
              json_val.list json_val_type.JSON_VAL_STRING [json_val.str "y"])] } 0).text =
      "\x7b\n  \"a\": \"x\", \n  \"b\": [\n    \"y\"\n  ]\n\x7d" ∧
    (json_obj_print_json
        { pair := [("c", json_val_type.JSON_VAL_OBJECT, json_val.obj [])] } 1).text =
      "\x7b\n    \"c\": \x7b\x7d\n  \x7d" ∧
    json_obj_print_json
        { pair := [("c", json_val_type.JSON_VAL_OBJECT, json_val.obj [])] } (1 : Nat) =
      ["\x7b"] ++ List.intercalate [", "]
        [print_indent ((1 + 1 : Nat) : Int) ++ ["\"" ++ "c" ++ "\": "] ++
          json_pair_print_val json_val_type.JSON_VAL_OBJECT (json_val.obj [])
            ((1 + 1 : Nat) : Int)] ++
        print_indent (1 : Nat) ++ ["\x7d"] :=
  ⟨by decide, by decide,
    (C21_serialization_layout
      { pair := [("c", json_val_type.JSON_VAL_OBJECT, json_val.obj [])] }
      (json_list_create json_val_type.JSON_VAL_STRING) 1).1⟩

set_option maxRecDepth 8000 in
/-- C23, counterexample: on a dedicated journal device, a run in text mode
with the group-only option calls `list_desc`, and a run in structured mode
loads the bitmaps and calls `fill_json_desc`; only a run in text mode without
the group-only option stops after the journal summary. -/
theorem C23_counterexample :
    sample_journal_dev.super.has_feature_journal_dev = true ∧
      driver_calls (main
          (sample_driver_env sample_journal_dev 0 (0, some full_map, some full_map))
          { sample_opts with grp_only := true }) =
        [driver_call.list_desc true, driver_call.ext2fs_close_free, driver_call.exit 0] ∧
      driver_calls (main
          (sample_driver_env sample_journal_dev 0 (0, some full_map, some full_map))
          { sample_opts with json := true }) =
        [driver_call.ext2fs_read_bitmaps, driver_call.fill_json_desc,
         driver_call.json_obj_print_json, driver_call.putchar, driver_call.json_obj_delete,
         driver_call.ext2fs_close_free, driver_call.exit 0] ∧
      driver_calls (main
          (sample_driver_env sample_journal_dev 0 (0, some full_map, some full_map))
          sample_opts) =
        [driver_call.list_super, driver_call.print_journal_information,
         driver_call.ext2fs_close_free, driver_call.exit 0] := by
  refine ⟨rfl, by decide, by decide, by decide⟩

/-- C23, amended: in text mode without the group-only option, when the
volume opens and is a dedicated journal device, no step of the run loads the
bitmaps or runs the per-group loop; without the bad-blocks option the run is
the checksum warning of the open, if any, then `list_super`, then
`print_journal_information`, and then it stops: through `exit(1)` inside
`print_journal_information`, or through the label `out`. -/
theorem C23_journal_device_stops_in_text_mode (env : driver_env) (opts : driver_opts)
    (hjson : opts.json = false) (hgrp : opts.grp_only = false)
    (hopen : (open_volume env opts).1 = 0)
    (hdev : (open_volume env opts).2.super.has_feature_journal_dev = true) :
    (∀ s ∈ main env opts, s.1.bitmaps_or_groups = false) ∧
      (opts.print_badblocks = false →
        driver_calls (main env opts) =
          (if (open_volume env opts).2.flags &&& env.EXT2_FLAG_IGNORE_CSUM_ERRORS ≠ 0 then
            [driver_call.printf] else []) ++
          [driver_call.list_super, driver_call.print_journal_information] ++
          (if (env.print_journal_information (open_volume env opts).2).2 then
            [driver_call.exit 1]
           else [driver_call.ext2fs_close_free, driver_call.exit 0])) := by
  rw [main_of_open env opts hopen]
  constructor
  · cases hbad : opts.print_badblocks
    · rw [main_report_journal_dev env opts _ hjson hgrp hbad hdev]
      simp only [List.forall_mem_append]
      refine ⟨by split <;> simp [driver_call.bitmaps_or_groups],
        by simp [driver_call.bitmaps_or_groups], ?_⟩
      split <;> simp [driver_call.bitmaps_or_groups]
    · rw [main_report_journal_dev_bad_blocks env opts _ hjson hbad]
      simp only [List.forall_mem_append]
      exact ⟨by split <;> simp [driver_call.bitmaps_or_groups],
        by simp [driver_call.bitmaps_or_groups]⟩
  · intro hbad
    rw [main_report_journal_dev env opts _ hjson hgrp hbad hdev]
    unfold driver_calls
    by_cases h1 : (open_volume env opts).2.flags &&& env.EXT2_FLAG_IGNORE_CSUM_ERRORS = 0 <;>
      cases h2 : (env.print_journal_information (open_volume env opts).2).2 <;>
      simp [h1, h2]

/-- Witness for C23 (amended): the sample journal device in text mode with
no option. -/
theorem C23_journal_device_stops_in_text_mode_witness :
    driver_calls (main
        (sample_driver_env sample_journal_dev 0 (0, some full_map, some full_map))
        sample_opts) =
      [driver_call.list_super, driver_call.print_journal_information,
       driver_call.ext2fs_close_free, driver_call.exit 0] :=
  ((C23_journal_device_stops_in_text_mode
    (sample_driver_env sample_journal_dev 0 (0, some full_map, some full_map))
    sample_opts rfl rfl rfl rfl).2 rfl).trans rfl

set_option maxRecDepth 8000 in
/-- C24, counterexample: in structured mode, when the library reports that
it opened the volume ignoring checksum errors, standard output starts with
the checksum warning of `main`, before the document; and when the volume
cannot be opened, standard output is the line about the superblock and no
document. -/
theorem C24_counterexample :
    (driver_stdout (main
        (sample_driver_env { sample_fs none none with flags := 0x200000 } 0
          (0, some full_map, some full_map))
        { sample_opts with
          json := true,
          header_only := true })).text =
      "\n*** Checksum errors detected in filesystem!  Run e2fsck now!\n\n\x7b\x7d\n" ∧
    (json_obj_print_json json_obj_create 0).text = "\x7b\x7d" ∧
    driver_stdout (main
        (sample_driver_env (sample_fs none none) 5 (0, some full_map, some full_map))
        { sample_opts with json := true }) =
      ["Couldn't find valid filesystem superblock.\n"] := by
  refine ⟨by decide, by decide, by decide⟩

/-- C24, amended: the two renderers are never mixed. In a run in structured
mode no writer of the text report is called (`list_super`, the journal
writers, `list_bad_blocks`, `list_desc`); in a run in text mode
`fill_json_desc`, `json_obj_print_json` and `json_obj_delete` are not called.
In a run in structured mode in which the volume opens, the library does not
report ignored checksum errors and the bitmaps load without error, standard
output is the serialized document, at level 0, followed by a newline, the
document being the empty object or the object `fill_json_desc` fills. -/
theorem C24_renderers_never_mixed (env : driver_env) (opts : driver_opts) :
    (opts.json = true → ∀ s ∈ main env opts, s.1.text_writer = false) ∧
      (opts.json = false → ∀ s ∈ main env opts, s.1.json_writer = false) ∧
      (opts.json = true → (open_volume env opts).1 = 0 →
        (open_volume env opts).2.flags &&& env.EXT2_FLAG_IGNORE_CSUM_ERRORS = 0 →
        (∀ f, (env.ext2fs_read_bitmaps f).1 = 0) →
        ∃ dump_obj,
          (dump_obj = json_obj_create ∨
            ∃ fs2, dump_obj = fill_json_desc
              ⟨opts.hex_format, (open_volume env opts).2.super.has_feature_64bit⟩
              json_obj_create fs2) ∧
          driver_stdout (main env opts) = json_obj_print_json dump_obj 0 ++ ["\n"]) := by
  refine ⟨main_no_text_writer env opts, main_no_json_writer env opts, ?_⟩
  intro hjson hopen hflags hread
  rw [main_of_open env opts hopen]
  simp only [hflags, ne_eq, not_true_eq_false, if_false, List.nil_append]
  exact main_report_stdout_json env opts _ hjson hread

set_option maxRecDepth 8000 in
/-- Witness for C24 (amended): the sample filesystem in structured mode with
the header-only option, and in text mode with the group-only option. -/
theorem C24_renderers_never_mixed_witness :
    (driver_stdout (main
        (sample_driver_env (sample_fs none none) 0 (0, some full_map, some full_map))
        { sample_opts with
          json := true,
          header_only := true })).text = "\x7b\x7d\n" ∧
      (∀ s ∈ main
          (sample_driver_env (sample_fs none none) 0 (0, some full_map, some full_map))
          { sample_opts with
            json := true,
            header_only := true }, s.1.text_writer = false) ∧
      (∀ s ∈ main
          (sample_driver_env (sample_fs none none) 0 (0, some full_map, some full_map))
          { sample_opts with grp_only := true }, s.1.json_writer = false) := by
  have h := C24_renderers_never_mixed
    (sample_driver_env (sample_fs none none) 0 (0, some full_map, some full_map))
    { sample_opts with
      json := true,
      header_only := true }
  have h2 := C24_renderers_never_mixed
    (sample_driver_env (sample_fs none none) 0 (0, some full_map, some full_map))
    { sample_opts with grp_only := true }
  exact ⟨by decide, h.1 rfl, h2.2.1 rfl⟩

/-! ## Claims on lengths, order and windows of the extents -/

/-- C25, counterexample: with ratio 4 and the bitmap `in use, free, free, in
use`, the one maximal run has `n = 2` free entries, and the `len` that
`fill_json_free` stores for it is `5`, not `2 * 4 = 8`. -/
theorem C25_counterexample :
    free_runs (fun i => decide (i = 0 ∨ i = 3)) 4 = [(1, 2)] ∧
      fill_json_free ⟨false, false⟩ (json_list_create json_val_type.JSON_VAL_OBJECT) 0
          (fun i => decide (i = 0 ∨ i = 3)) 4 0 4 =
        { type := json_val_type.JSON_VAL_OBJECT,
          node := [json_val.obj
            [("start", json_val_type.JSON_VAL_STRING, json_val.str "4"),
             ("len", json_val_type.JSON_VAL_STRING, json_val.str "5")]] } ∧
      free_extents 0 (fun i => decide (i = 0 ∨ i = 3)) 4 0 4 = [(4, 5)] ∧
      (5 : Nat) ≠ (2 - 1 + 1) * 4 := by
  refine ⟨by decide, rfl, by decide, by decide⟩

/-- C25, amended: for every ratio `r ≥ 1` (with `num * r` within 64 bits) and
every emitted run, a maximal run of `n = j - i + 1` free entries from index
`i` to index `j`, the `len` that `fill_json_free` stores is `(n - 1) * r + 1`,
the count of values from the first value of the run to its last value; it is
`n` when `r = 1`, and it is `n * r` only when `r = 1`. -/
theorem C25_len_spans_first_to_last_value (d : Display) (list : json_list) (group : Nat)
    (bitmap : Bitmap) (num offset ratio : Nat) (hr : 1 ≤ ratio)
    (hn : num * ratio < ULONG_MOD) :
    fill_json_free d list group bitmap num offset ratio =
        { type := list.type,
          node := list.node ++ (free_runs bitmap num).map (fun r =>
            extent_obj d (scan_value (scan_offset group num offset ratio) ratio r.1)
              ((r.2 - r.1 + 1 - 1) * ratio + 1)) } ∧
      (∀ r ∈ free_runs bitmap num,
        r.1 ≤ r.2 ∧ r.2 < num ∧ (∀ k, r.1 ≤ k → k ≤ r.2 → in_use bitmap k = false) ∧
        (ratio = 1 → (r.2 - r.1 + 1 - 1) * ratio + 1 = r.2 - r.1 + 1) ∧
        ((r.2 - r.1 + 1 - 1) * ratio + 1 = (r.2 - r.1 + 1) * ratio ↔ ratio = 1)) := by
  constructor
  · rw [fill_json_free_eq_runs]
    congr 2
    apply List.map_congr_left
    intro r hr'
    obtain ⟨a2, a3, -⟩ := free_runs_mem bitmap num r hr'
    rw [json_create_range_obj_eq d _ _ (scan_value_lt _ ratio r.1),
      scan_len_eq group num offset ratio r.1 r.2 a2 a3 hr hn]
    simp
  · intro r hr'
    obtain ⟨a2, a3, a4⟩ := free_runs_mem bitmap num r hr'
    refine ⟨a2, a3, a4, ?_, ?_⟩
    · intro h1
      rw [h1]
      omega
    · have e : (r.2 - r.1 + 1) * ratio = (r.2 - r.1 + 1 - 1) * ratio + ratio := by
        have : r.2 - r.1 + 1 - 1 = r.2 - r.1 := by omega
        rw [this]
        ring
      rw [e]
      omega

/-- Witness for C25 (amended): ratio 4, the bitmap `in use, free, free, in
use`. -/
theorem C25_len_spans_first_to_last_value_witness :
    fill_json_free ⟨false, false⟩ (json_list_create json_val_type.JSON_VAL_OBJECT) 0
        (fun i => decide (i = 0 ∨ i = 3)) 4 0 4 =
      { type := json_val_type.JSON_VAL_OBJECT,
        node := [extent_obj ⟨false, false⟩ 4 ((2 - 1 + 1 - 1) * 4 + 1)] } :=
  (C25_len_spans_first_to_last_value ⟨false, false⟩
    (json_list_create json_val_type.JSON_VAL_OBJECT) 0
    (fun i => decide (i = 0 ∨ i = 3)) 4 0 4 (by decide) (by decide)).1.trans rfl

/-- C26: when `ratio ≥ 1` and `(num + offset/ratio + group*num) * ratio` does
not overflow, the values of the runs that `fill_json_free` and `print_free`
emit increase strictly in emission order: for every run and every later run,
the start of the first is below the start of the second, and the last value
of the first is below the start of the second; within a run the start is at
most the last value. -/
theorem C26_extents_strictly_increasing (d : Display) (list : json_list) (group : Nat)
    (bitmap : Bitmap) (num offset ratio : Nat) (hr : 1 ≤ ratio)
    (hno : (num + offset / ratio + group * num) * ratio < ULONG_MOD) :
    fill_json_free d list group bitmap num offset ratio =
        { type := list.type,
          node := list.node ++ (free_runs bitmap num).map (fun r =>
            json_val.obj (json_create_range_obj d
              (scan_value (scan_offset group num offset ratio) ratio r.1)
              (scan_value (scan_offset group num offset ratio) ratio r.2)).pair) } ∧
      print_free d group bitmap num offset ratio =
        runs_out d (scan_value (scan_offset group num offset ratio) ratio) false
          (free_runs bitmap num) ∧
      (free_runs bitmap num).Pairwise (fun r s =>
        scan_value (scan_offset group num offset ratio) ratio r.1 <
            scan_value (scan_offset group num offset ratio) ratio s.1 ∧
          scan_value (scan_offset group num offset ratio) ratio r.2 <
            scan_value (scan_offset group num offset ratio) ratio s.1) ∧
      (∀ r ∈ free_runs bitmap num,
        scan_value (scan_offset group num offset ratio) ratio r.1 ≤
          scan_value (scan_offset group num offset ratio) ratio r.2) := by
  have hval : ∀ x, x ≤ num → scan_value (scan_offset group num offset ratio) ratio x =
      (x + offset / ratio + group * num) * ratio :=
    fun x hx => scan_value_plain group num offset ratio x hx hno
  have hmono : ∀ x y : Nat, x < y →
      (x + offset / ratio + group * num) * ratio < (y + offset / ratio + group * num) * ratio :=
    fun x y hxy => Nat.mul_lt_mul_of_lt_of_le (by omega) (le_refl _) (by omega)
  refine ⟨fill_json_free_eq_runs d list group bitmap num offset ratio,
    print_free_eq_runs d group bitmap num offset ratio, ?_, ?_⟩
  · have hpw := free_runs_loop_pairwise bitmap num num 0 (by omega)
    have hmem : ∀ r ∈ free_runs_loop bitmap num num 0, r.1 ≤ r.2 ∧ r.2 < num :=
      fun r h => ⟨(free_runs_mem bitmap num r h).1, (free_runs_mem bitmap num r h).2.1⟩
    unfold free_runs
    refine (List.Pairwise.and_mem.mp hpw).imp ?_
    rintro r s ⟨hr', hs', hlt⟩
    obtain ⟨r1, r2⟩ := hmem r hr'
    obtain ⟨s1, s2⟩ := hmem s hs'
    rw [hval r.1 (by omega), hval r.2 (by omega), hval s.1 (by omega)]
    exact ⟨hmono _ _ (by omega), hmono _ _ (by omega)⟩
  · intro r hr'
    obtain ⟨r1, r2, -⟩ := free_runs_mem bitmap num r hr'
    rw [hval r.1 (by omega), hval r.2 (by omega)]
    exact Nat.mul_le_mul_right ratio (by omega)

/-- Witness for C26: group 1 of 8-entry groups, offset 9, ratio 4, a bitmap
with free entries 1, 2 and 5: the runs have the values 44 to 48 and 60. -/
theorem C26_extents_strictly_increasing_witness :
    free_runs (fun i => !(decide (i = 1 ∨ i = 2 ∨ i = 5))) 8 = [(1, 2), (5, 5)] ∧
      (free_runs (fun i => !(decide (i = 1 ∨ i = 2 ∨ i = 5))) 8).map
          (fun r => (scan_value (scan_offset 1 8 9 4) 4 r.1,
            scan_value (scan_offset 1 8 9 4) 4 r.2)) = [(44, 48), (60, 60)] ∧
      (free_runs (fun i => !(decide (i = 1 ∨ i = 2 ∨ i = 5))) 8).Pairwise (fun r s =>
        scan_value (scan_offset 1 8 9 4) 4 r.1 < scan_value (scan_offset 1 8 9 4) 4 s.1 ∧
          scan_value (scan_offset 1 8 9 4) 4 r.2 < scan_value (scan_offset 1 8 9 4) 4 s.1) :=
  ⟨by decide, by decide,
    (C26_extents_strictly_increasing ⟨false, false⟩
      (json_list_create json_val_type.JSON_VAL_OBJECT) 1
      (fun i => !(decide (i = 1 ∨ i = 2 ∨ i = 5))) 8 9 4 (by decide) (by decide)).2.2.1⟩

/-- C28: when `ratio ≥ 1` and nothing overflows, every start and last value
the scan emits for group `g` lies in the window from
`(offset/ratio + g*num) * ratio` (included) to
`(offset/ratio + (g+1)*num) * ratio` (excluded); so for two groups `g < g2`
scanned with the same `num`, `offset` and `ratio`, whatever their bitmaps,
every value of `g` is below every value of `g2`. -/
theorem C28_values_in_group_window (bitmap bitmap2 : Bitmap) (g g2 num offset ratio : Nat)
    (hr : 1 ≤ ratio) (hg : g < g2)
    (hno : (num + offset / ratio + g2 * num) * ratio < ULONG_MOD) :
    (∀ r ∈ free_runs bitmap num,
      (offset / ratio + g * num) * ratio ≤
          scan_value (scan_offset g num offset ratio) ratio r.1 ∧
        scan_value (scan_offset g num offset ratio) ratio r.1 ≤
          scan_value (scan_offset g num offset ratio) ratio r.2 ∧
        scan_value (scan_offset g num offset ratio) ratio r.2 <
          (offset / ratio + (g + 1) * num) * ratio) ∧
    (∀ s ∈ free_runs bitmap2 num,
      (offset / ratio + g2 * num) * ratio ≤
          scan_value (scan_offset g2 num offset ratio) ratio s.1 ∧
        scan_value (scan_offset g2 num offset ratio) ratio s.1 ≤
          scan_value (scan_offset g2 num offset ratio) ratio s.2 ∧
        scan_value (scan_offset g2 num offset ratio) ratio s.2 <
          (offset / ratio + (g2 + 1) * num) * ratio) ∧
    (offset / ratio + (g + 1) * num) * ratio ≤ (offset / ratio + g2 * num) * ratio ∧
    (∀ r ∈ free_runs bitmap num, ∀ s ∈ free_runs bitmap2 num,
      scan_value (scan_offset g num offset ratio) ratio r.2 <
        scan_value (scan_offset g2 num offset ratio) ratio s.1) := by
  have hle : g * num ≤ g2 * num := Nat.mul_le_mul_right num (by omega)
  have hle2 : (g + 1) * num ≤ g2 * num := Nat.mul_le_mul_right num (by omega)
  have hno1 : (num + offset / ratio + g * num) * ratio < ULONG_MOD :=
    Nat.lt_of_le_of_lt (Nat.mul_le_mul_right ratio (by omega)) hno
  have hwin : ∀ (b : Bitmap) (k : Nat), (num + offset / ratio + k * num) * ratio < ULONG_MOD →
      ∀ r ∈ free_runs b num,
        (offset / ratio + k * num) * ratio ≤
            scan_value (scan_offset k num offset ratio) ratio r.1 ∧
          scan_value (scan_offset k num offset ratio) ratio r.1 ≤
            scan_value (scan_offset k num offset ratio) ratio r.2 ∧
          scan_value (scan_offset k num offset ratio) ratio r.2 <
            (offset / ratio + (k + 1) * num) * ratio := by
    intro b k hk r hr'
    obtain ⟨r1, r2, -⟩ := free_runs_mem b num r hr'
    rw [scan_value_plain k num offset ratio r.1 (by omega) hk,
      scan_value_plain k num offset ratio r.2 (by omega) hk]
    have e : (k + 1) * num = k * num + num := by ring
    refine ⟨Nat.mul_le_mul_right ratio (by omega), Nat.mul_le_mul_right ratio (by omega),
      Nat.mul_lt_mul_of_lt_of_le (by omega) (le_refl _) (by omega)⟩
  have hmid : (offset / ratio + (g + 1) * num) * ratio ≤ (offset / ratio + g2 * num) * ratio :=
    Nat.mul_le_mul_right ratio (by omega)
  refine ⟨hwin bitmap g hno1, hwin bitmap2 g2 hno, hmid, ?_⟩
  intro r hr' s hs'
  exact Nat.lt_of_lt_of_le (Nat.lt_of_lt_of_le (hwin bitmap g hno1 r hr').2.2 hmid)
    (hwin bitmap2 g2 hno s hs').1

/-- Witness for C28: groups 0 and 1 of 8-entry groups, offset 9, ratio 4;
the windows are 8 to 39 and 40 to 71. -/
theorem C28_values_in_group_window_witness :
    (free_runs (fun i => !(decide (i = 7))) 8).map
        (fun r => (scan_value (scan_offset 0 8 9 4) 4 r.1,
          scan_value (scan_offset 0 8 9 4) 4 r.2)) = [(36, 36)] ∧
      (free_runs (fun i => !(decide (i = 0 ∨ i = 1))) 8).map
        (fun r => (scan_value (scan_offset 1 8 9 4) 4 r.1,
          scan_value (scan_offset 1 8 9 4) 4 r.2)) = [(40, 44)] ∧
      (∀ r ∈ free_runs (fun i => !(decide (i = 7))) 8,
        ∀ s ∈ free_runs (fun i => !(decide (i = 0 ∨ i = 1))) 8,
        scan_value (scan_offset 0 8 9 4) 4 r.2 < scan_value (scan_offset 1 8 9 4) 4 s.1) :=
  ⟨by decide, by decide,
    (C28_values_in_group_window (fun i => !(decide (i = 7)))
      (fun i => !(decide (i = 0 ∨ i = 1))) 0 1 8 9 4 (by decide) (by decide)
      (by decide)).2.2.2⟩

/-! ## C27: the keys of the journal object -/

/-- C27, counterexample: for a journal superblock with the feature bit
`COMPAT_CHECKSUM` and the feature bit `INCOMPAT_CSUM_V2` both set,
`e2p_fill_json_journal_super` adds `journal-checksum-type` twice, once with
`crc32` and once with `crc32c`; the keys of the journal object are not
pairwise distinct. -/
theorem C27_counterexample :
    (e2p_journal_obj sample_jbd_env (sample_jsb 1 8) 4096).keys =
        ["journal-features", "journal-size", "journal-length", "journal-sequence",
         "journal-start", "journal-checksum-type", "journal-checksum-type",
         "journal-checksum"] ∧
      (e2p_journal_obj sample_jbd_env (sample_jsb 1 8) 4096).pairs_with_key
          "journal-checksum-type" =
        [("journal-checksum-type", json_val_type.JSON_VAL_STRING, json_val.str "crc32"),
         ("journal-checksum-type", json_val_type.JSON_VAL_STRING, json_val.str "crc32c")] ∧
      ¬ (e2p_journal_obj sample_jbd_env (sample_jsb 1 8) 4096).keys.Nodup ∧
      (e2p_fill_json_journal_super sample_jbd_env json_obj_create (sample_jsb 1 8) 4096
          0).pair =
        [("journal", json_val_type.JSON_VAL_OBJECT,
          json_val.obj (e2p_journal_obj sample_jbd_env (sample_jsb 1 8) 4096).pair)] := by
  refine ⟨by decide, rfl, by decide, rfl⟩

/-- C27, amended: for every journal superblock buffer, `e2p_fill_json_journal_super`
adds to `obj` the pair `"journal"` holding the journal object, whose keys are
pairwise distinct exactly when the bit `COMPAT_CHECKSUM` is not set together
with `INCOMPAT_CSUM_V3` or `INCOMPAT_CSUM_V2`; `journal-checksum-type` occurs
once for `COMPAT_CHECKSUM` and once more for `INCOMPAT_CSUM_V3` or
`INCOMPAT_CSUM_V2`. -/
theorem C27_journal_keys_distinct_iff (env : jbd_env) (obj : json_obj)
    (jsb : journal_superblock_t) (exp_block_size flags : Int) :
    (e2p_fill_json_journal_super env obj jsb exp_block_size flags).pair = obj.pair ++
        [("journal", json_val_type.JSON_VAL_OBJECT,
          json_val.obj (e2p_journal_obj env jsb exp_block_size).pair)] ∧
      ((e2p_journal_obj env jsb exp_block_size).keys.Nodup ↔
        ¬ (jsb.s_feature_compat &&& e2p_be32 env env.JFS_FEATURE_COMPAT_CHECKSUM ≠ 0 ∧
          (jsb.s_feature_incompat &&& e2p_be32 env env.JFS_FEATURE_INCOMPAT_CSUM_V3 ≠ 0 ∨
            jsb.s_feature_incompat &&& e2p_be32 env env.JFS_FEATURE_INCOMPAT_CSUM_V2 ≠ 0))) ∧
      (e2p_journal_obj env jsb exp_block_size).keys.count "journal-checksum-type" =
        (if jsb.s_feature_compat &&& e2p_be32 env env.JFS_FEATURE_COMPAT_CHECKSUM ≠ 0
          then 1 else 0) +
        (if jsb.s_feature_incompat &&& e2p_be32 env env.JFS_FEATURE_INCOMPAT_CSUM_V3 ≠ 0 ∨
            jsb.s_feature_incompat &&& e2p_be32 env env.JFS_FEATURE_INCOMPAT_CSUM_V2 ≠ 0
          then 1 else 0) := by
  refine ⟨?_, ?_, ?_⟩
  · unfold e2p_fill_json_journal_super
    rw [json_obj_add_obj_pair]
  · rw [e2p_journal_obj_keys]
    have h := journal_keys_nodup
      (decide ((exp_block_size % (UINT_MOD : Int)).toNat ≠ ntohl env jsb.s_blocksize))
      (decide (ntohl env jsb.s_first ≠ 1)) (decide (ntohl env jsb.s_nr_users ≠ 1))
      (decide (jsb.s_feature_compat &&& e2p_be32 env env.JFS_FEATURE_COMPAT_CHECKSUM ≠ 0))
      (decide (jsb.s_feature_incompat &&& e2p_be32 env env.JFS_FEATURE_INCOMPAT_CSUM_V3 ≠ 0 ∨
        jsb.s_feature_incompat &&& e2p_be32 env env.JFS_FEATURE_INCOMPAT_CSUM_V2 ≠ 0))
      (decide (ntohl env jsb.s_nr_users > 1 ∨ !env.e2p_is_null_uuid (jsb.s_users.take 16)))
      (decide (jsb.s_errno ≠ 0))
    simp only [decide_eq_true_eq] at h
    exact h
  · rw [e2p_journal_obj_keys]
    have h := journal_keys_count
      (decide ((exp_block_size % (UINT_MOD : Int)).toNat ≠ ntohl env jsb.s_blocksize))
      (decide (ntohl env jsb.s_first ≠ 1)) (decide (ntohl env jsb.s_nr_users ≠ 1))
      (decide (jsb.s_feature_compat &&& e2p_be32 env env.JFS_FEATURE_COMPAT_CHECKSUM ≠ 0))
      (decide (jsb.s_feature_incompat &&& e2p_be32 env env.JFS_FEATURE_INCOMPAT_CSUM_V3 ≠ 0 ∨
        jsb.s_feature_incompat &&& e2p_be32 env env.JFS_FEATURE_INCOMPAT_CSUM_V2 ≠ 0))
      (decide (ntohl env jsb.s_nr_users > 1 ∨ !env.e2p_is_null_uuid (jsb.s_users.take 16)))
      (decide (jsb.s_errno ≠ 0))
    simp only [decide_eq_true_eq] at h
    exact h

/-! ## C29: the bitmap windows of the per-group loop -/

/-- C30: the flag lists of the two renderers agree. `fill_json_bg_opts` adds
the pair `"bg-opts"` holding the string list of `bg_opts_names`: the names of
the flags set among `INODE_UNINIT`, `BLOCK_UNINIT`, `ITABLE_ZEROED`, in that
order, and no name when the group-descriptor checksum capability is off,
whatever the stored flag bits. `print_bg_opts` prints ` [`, the same names
joined by `, `, and `]` when that list is not empty and no bracket when it is
empty, then its newline. -/
theorem C30_flag_lists_agree (obj : json_obj) (fs : ext2_filsys) (i : Nat) :
    (fill_json_bg_opts obj fs i).pair = obj.pair ++
        [("bg-opts", json_val_type.JSON_VAL_LIST,
          json_val.list json_val_type.JSON_VAL_STRING
            ((bg_opts_names fs i).map json_val.str))] ∧
      (print_bg_opts fs i).text = bg_opts_text (bg_opts_names fs i) ++ "\n" ∧
      (bg_opts_names fs i = [] → print_bg_opts fs i = ["\n"]) ∧
      (fs.has_group_desc_csum = false → bg_opts_names fs i = []) ∧
      (bg_opts_names fs i).Sublist ["INODE_UNINIT", "BLOCK_UNINIT", "ITABLE_ZEROED"] ∧
      ("INODE_UNINIT" ∈ bg_opts_names fs i ↔
        (fs.has_group_desc_csum = true ∧ fs.bg_flags i &&& EXT2_BG_INODE_UNINIT ≠ 0)) ∧
      ("BLOCK_UNINIT" ∈ bg_opts_names fs i ↔
        (fs.has_group_desc_csum = true ∧ fs.bg_flags i &&& EXT2_BG_BLOCK_UNINIT ≠ 0)) ∧
      ("ITABLE_ZEROED" ∈ bg_opts_names fs i ↔
        (fs.has_group_desc_csum = true ∧ fs.bg_flags i &&& EXT2_BG_INODE_ZEROED ≠ 0)) := by
  have hnodes : bg_opts_nodes fs i = (bg_opts_names fs i).map json_val.str := by
    unfold bg_opts_nodes bg_opts_names bg_flag_names
    by_cases h : fs.has_group_desc_csum = true
    · by_cases h1 : fs.bg_flags i &&& EXT2_BG_INODE_UNINIT = 0 <;>
        by_cases h2 : fs.bg_flags i &&& EXT2_BG_BLOCK_UNINIT = 0 <;>
        by_cases h3 : fs.bg_flags i &&& EXT2_BG_INODE_ZEROED = 0 <;>
        simp [h, h1, h2, h3, List.filter]
    · simp [h]
  refine ⟨?_, ?_, ?_, ?_, ?_, ?_, ?_, ?_⟩
  · rw [fill_json_bg_opts_pair, hnodes]
  · unfold print_bg_opts print_bg_opt bg_opts_names bg_flag_names
    by_cases h : fs.has_group_desc_csum = true
    · by_cases h1 : fs.bg_flags i &&& EXT2_BG_INODE_UNINIT = 0 <;>
        by_cases h2 : fs.bg_flags i &&& EXT2_BG_BLOCK_UNINIT = 0 <;>
        by_cases h3 : fs.bg_flags i &&& EXT2_BG_INODE_ZEROED = 0 <;>
        simp [h, h1, h2, h3, List.filter] <;> decide
    · simp [h]
      decide
  · unfold print_bg_opts print_bg_opt bg_opts_names bg_flag_names
    by_cases h : fs.has_group_desc_csum = true
    · by_cases h1 : fs.bg_flags i &&& EXT2_BG_INODE_UNINIT = 0 <;>
        by_cases h2 : fs.bg_flags i &&& EXT2_BG_BLOCK_UNINIT = 0 <;>
        by_cases h3 : fs.bg_flags i &&& EXT2_BG_INODE_ZEROED = 0 <;>
        simp [h, h1, h2, h3, List.filter]
    · simp [h]
  · intro h
    simp [bg_opts_names, h]
  · unfold bg_opts_names bg_flag_names
    split
    · exact (List.filter_sublist _).map _
    · exact List.nil_sublist _
  · unfold bg_opts_names bg_flag_names
    by_cases h : fs.has_group_desc_csum = true <;> simp [h, List.mem_filter]
  · unfold bg_opts_names bg_flag_names
    by_cases h : fs.has_group_desc_csum = true <;> simp [h, List.mem_filter]
  · unfold bg_opts_names bg_flag_names
    by_cases h : fs.has_group_desc_csum = true <;> simp [h, List.mem_filter]

/-- Witness for C30: the sample filesystem with the checksum capability on and
the flags `INODE_UNINIT` and `ITABLE_ZEROED` set in group 0; and the sample
filesystem itself, where the capability is off. -/
theorem C30_flag_lists_agree_witness :
    (print_bg_opts
        { sample_fs none none with
          has_group_desc_csum := true,
          bg_flags := fun _ => 5 } 0).text = " [INODE_UNINIT, ITABLE_ZEROED]\n" ∧
      (fill_json_bg_opts json_obj_create
        { sample_fs none none with
          has_group_desc_csum := true,
          bg_flags := fun _ => 5 } 0).pair =
        [("bg-opts", json_val_type.JSON_VAL_LIST,
          json_val.list json_val_type.JSON_VAL_STRING
            [json_val.str "INODE_UNINIT", json_val.str "ITABLE_ZEROED"])] ∧
      print_bg_opts (sample_fs none none) 0 = ["\n"] := by
  have h := C30_flag_lists_agree json_obj_create
    { sample_fs none none with
      has_group_desc_csum := true,
      bg_flags := fun _ => 5 } 0
  have h0 := C30_flag_lists_agree json_obj_create (sample_fs none none) 0
  exact ⟨h.2.1.trans (by decide), h.1.trans rfl, h0.2.2.1 (by decide)⟩

/-! ## C31: the serializer writes strings and keys without escaping -/

/-- C31: the serializer performs no escaping. For every key `k`, string `s` and
indentation level, `json_pair_print_json` on a String pair writes, after the
indentation, the key as a double quote, the characters of `k` unchanged, a
double quote and `": "`, then the value as a double quote, the characters of
`s` unchanged and a double quote; the key is written the same way for a pair
of any type; `json_list_node_print_json` on a String node writes, after the
indentation, a double quote, the characters of `s` unchanged and a double
quote. So a string holding a double quote, a backslash and a newline is
written with these three characters as they are, and two different trees, an
object with the one pair `a` and an object with the two pairs `a`, `b`,
serialize to the same text. -/
theorem C31_no_escaping :
    (∀ (k s : String) (ind_lvl : Int),
      json_pair_print_json (k, json_val_type.JSON_VAL_STRING, json_val.str s) ind_lvl =
        print_indent ind_lvl ++ ["\"" ++ k ++ "\": ", "\"" ++ s ++ "\""]) ∧
      (∀ (k : String) (type : json_val_type) (val : json_val) (ind_lvl : Int),
        json_pair_print_json (k, type, val) ind_lvl =
          print_indent ind_lvl ++ ["\"" ++ k ++ "\": "] ++
            json_pair_print_val type val ind_lvl) ∧
      (∀ (s : String) (ind_lvl : Int),
        json_list_node_print_json (json_val.str s) json_val_type.JSON_VAL_STRING ind_lvl =
          print_indent ind_lvl ++ ["\"" ++ s ++ "\""]) ∧
      (∀ s : String, ("\"" ++ s ++ "\"").data = ['"'] ++ s.data ++ ['"']) ∧
      (∀ k : String, ("\"" ++ k ++ "\": ").data = ['"'] ++ k.data ++ ['"', ':', ' ']) ∧
      json_list_node_print_json (json_val.str "a\"b\\c\nd") json_val_type.JSON_VAL_STRING 0 =
        ["\n", "\"a\"b\\c\nd\""] ∧
      json_pair_print_json ("k\"\\\n", json_val_type.JSON_VAL_STRING, json_val.str "a\"b\\c\nd") 0 =
        ["\n", "\"k\"\\\n\": ", "\"a\"b\\c\nd\""] ∧
      (({ pair := [("a", json_val_type.JSON_VAL_STRING, json_val.str "x\", \n  \"b\": \"y")] }
            : json_obj) ≠
          { pair := [("a", json_val_type.JSON_VAL_STRING, json_val.str "x"),
              ("b", json_val_type.JSON_VAL_STRING, json_val.str "y")] } ∧
        Out.text (json_obj_print_json
            { pair := [("a", json_val_type.JSON_VAL_STRING,
              json_val.str "x\", \n  \"b\": \"y")] } 0) =
          Out.text (json_obj_print_json
            { pair := [("a", json_val_type.JSON_VAL_STRING, json_val.str "x"),
              ("b", json_val_type.JSON_VAL_STRING, json_val.str "y")] } 0) ∧
        Out.text (json_obj_print_json
            { pair := [("a", json_val_type.JSON_VAL_STRING, json_val.str "x"),
              ("b", json_val_type.JSON_VAL_STRING, json_val.str "y")] } 0) =
          "\x7b\n  \"a\": \"x\", \n  \"b\": \"y\"\n\x7d") := by
  have hpair : ∀ (k s : String) (ind_lvl : Int),
      json_pair_print_json (k, json_val_type.JSON_VAL_STRING, json_val.str s) ind_lvl =
        print_indent ind_lvl ++ ["\"" ++ k ++ "\": ", "\"" ++ s ++ "\""] := by
    intro k s ind_lvl
    rw [json_pair_print_json_eq]
    simp [json_pair_print_val]
  have hnode : ∀ (s : String) (ind_lvl : Int),
      json_list_node_print_json (json_val.str s) json_val_type.JSON_VAL_STRING ind_lvl =
        print_indent ind_lvl ++ ["\"" ++ s ++ "\""] := by
    intro s ind_lvl
    simp [json_list_node_print_json, json_list_node_print_val]
  refine ⟨hpair, json_pair_print_json_eq, hnode, ?_, ?_, ?_, ?_, ?_, ?_, ?_⟩
  · intro s
    simp [String.data_append]
  · intro k
    simp [String.data_append]
  · rw [hnode]
    rfl
  · rw [hpair]
    rfl
  · intro h
    have hlen := congrArg (fun o : json_obj => o.pair.length) h
    simp at hlen
  · decide
  · decide

/-! ## C32: the range object and the numbers read back from it -/

/-- C32, counterexample: for the 64-bit pair `a = 0`, `b = 2^64 - 1` the length
`b - a + 1` is `2^64`, which `unsigned long long` cannot hold; the subtraction
and addition of `json_create_range_obj` wrap to `0`, so the stored `len` is the
text `0` (in decimal mode; the formatting of `0` in every mode), and
`start + len - 1` read back from the object is `-1`, not `b`. -/
theorem C32_counterexample :
    (0 : Nat) ≤ 18446744073709551615 ∧ 18446744073709551615 < ULONG_MOD ∧
      18446744073709551615 - 0 + 1 = 18446744073709551616 ∧
      (json_create_range_obj { hex_format := false, blocks64 := false } 0
          18446744073709551615).pair =
        [("start", json_val_type.JSON_VAL_STRING, json_val.str "0"),
          ("len", json_val_type.JSON_VAL_STRING, json_val.str "0")] ∧
      parse_number { hex_format := false, blocks64 := false } "0" = some 0 ∧
      (∀ d : Display,
        (json_create_range_obj d 0 18446744073709551615).lookup "len" =
            some (json_val.str (number_text d 0)) ∧
          range_read_back d (json_create_range_obj d 0 18446744073709551615) =
            some (0, -1)) ∧
      range_read_back { hex_format := false, blocks64 := false }
          (json_create_range_obj { hex_format := false, blocks64 := false } 0
            18446744073709551615) ≠
        some (0, 18446744073709551615) := by
  have hM : (0 : Nat) < ULONG_MOD := by norm_num [ULONG_MOD]
  have e : (18446744073709551615 + ULONG_MOD - 0 + 1) % ULONG_MOD = 0 := by
    norm_num [ULONG_MOD]
  have hall : ∀ d : Display,
      (json_create_range_obj d 0 18446744073709551615).lookup "len" =
          some (json_val.str (number_text d 0)) ∧
        range_read_back d (json_create_range_obj d 0 18446744073709551615) =
          some (0, -1) := by
    intro d
    have h1 := (json_create_range_obj_lookup d 0 18446744073709551615 hM).2
    have h2 := range_read_back_eq d 0 18446744073709551615 hM
    rw [e] at h1 h2
    exact ⟨h1, by simpa using h2⟩
  refine ⟨by decide, by norm_num [ULONG_MOD], by norm_num, ?_, by decide, hall, ?_⟩
  · rw [json_create_range_obj_pair _ _ _ hM, e]
    rfl
  · rw [(hall _).2]
    decide

/-- C32, amended: for every pair of 64-bit values `a <= b` and every display
mode, the formatted text of `a` and of `b - a + 1` as `unsigned long long`
computes it is at most 20 characters, so the 32-byte buffer of
`json_create_range_obj` never truncates: the stored `start` and `len` strings
are the complete formatting of `a` and of that value, and reading them back in
the same base gives `a` and that value, from which `b` is `start + len - 1`
modulo `2^64`. When `b - a + 1 < 2^64`, which holds for every pair except
`a = 0`, `b = 2^64 - 1`, the value is `b - a + 1` itself and the object read
back gives `a` and `b = start + len - 1` exactly; for the excepted pair the
value is `0`. -/
theorem C32_range_round_trip (d : Display) (a b : Nat) (hab : a ≤ b) (hb : b < ULONG_MOD) :
    (number_text d a).length ≤ 20 ∧
      (number_text d ((b + ULONG_MOD - a + 1) % ULONG_MOD)).length ≤ 20 ∧
      snprintf 32 (number_text d a) = number_text d a ∧
      snprintf 32 (number_text d ((b + ULONG_MOD - a + 1) % ULONG_MOD)) =
        number_text d ((b + ULONG_MOD - a + 1) % ULONG_MOD) ∧
      (json_create_range_obj d a b).pair =
        [("start", json_val_type.JSON_VAL_STRING, json_val.str (number_text d a)),
          ("len", json_val_type.JSON_VAL_STRING,
            json_val.str (number_text d ((b + ULONG_MOD - a + 1) % ULONG_MOD)))] ∧
      parse_number d (number_text d a) = some a ∧
      parse_number d (number_text d ((b + ULONG_MOD - a + 1) % ULONG_MOD)) =
        some ((b + ULONG_MOD - a + 1) % ULONG_MOD) ∧
      (a + (b + ULONG_MOD - a + 1) % ULONG_MOD + ULONG_MOD - 1) % ULONG_MOD = b ∧
      (b - a + 1 < ULONG_MOD →
        (b + ULONG_MOD - a + 1) % ULONG_MOD = b - a + 1 ∧
          (json_create_range_obj d a b).lookup "start" =
            some (json_val.str (number_text d a)) ∧
          (json_create_range_obj d a b).lookup "len" =
            some (json_val.str (number_text d (b - a + 1))) ∧
          range_read_back d (json_create_range_obj d a b) = some ((a : Int), (b : Int))) ∧
      (¬ b - a + 1 < ULONG_MOD →
        a = 0 ∧ b = ULONG_MOD - 1 ∧ (b + ULONG_MOD - a + 1) % ULONG_MOD = 0) := by
  have hM : (0 : Nat) < ULONG_MOD := by norm_num [ULONG_MOD]
  have ha : a < ULONG_MOD := lt_of_le_of_lt hab hb
  have hlen : (b + ULONG_MOD - a + 1) % ULONG_MOD < ULONG_MOD := Nat.mod_lt _ hM
  have h1 := number_text_length d a ha
  have h2 := number_text_length d _ hlen
  have hwrap : ¬ b - a + 1 < ULONG_MOD →
      a = 0 ∧ b = ULONG_MOD - 1 ∧ (b + ULONG_MOD - a + 1) % ULONG_MOD = 0 := by
    intro hw
    have ha0 : a = 0 := by omega
    have hb1 : b = ULONG_MOD - 1 := by omega
    refine ⟨ha0, hb1, ?_⟩
    have e : b + ULONG_MOD - a + 1 = ULONG_MOD * 2 := by omega
    rw [e, Nat.mul_mod_right]
  refine ⟨h1, h2, snprintf_of_length_le 32 _ (by omega), snprintf_of_length_le 32 _ (by omega),
    json_create_range_obj_pair d a b ha, parse_number_number_text d a,
    parse_number_number_text d _, ?_, ?_, hwrap⟩
  · by_cases hw : b - a + 1 < ULONG_MOD
    · rw [range_len_no_wrap a b hab hw]
      have e : a + (b - a + 1) + ULONG_MOD - 1 = b + ULONG_MOD := by omega
      rw [e, Nat.add_mod_right, Nat.mod_eq_of_lt hb]
    · obtain ⟨ha0, hb1, hz⟩ := hwrap hw
      rw [hz, ha0, hb1]
      have e : 0 + 0 + ULONG_MOD - 1 = ULONG_MOD - 1 := by omega
      rw [e]
      exact Nat.mod_eq_of_lt (by omega)
  · intro hw
    have hl := range_len_no_wrap a b hab hw
    obtain ⟨l1, l2⟩ := json_create_range_obj_lookup d a b ha
    have hr := range_read_back_eq d a b ha
    rw [hl] at l2 hr
    refine ⟨hl, l1, l2, ?_⟩
    rw [hr]
    have e : (a : Int) + ((b - a + 1 : Nat) : Int) - 1 = (b : Int) := by omega
    rw [e]

/-- Witness for C32: the range 255 to 4095 in 64-bit hexadecimal mode is stored
as start `0x000000ff` and len `0x00000f01`, and is read back as 255 and 4095. -/
theorem C32_range_round_trip_witness :
    (255 : Nat) ≤ 4095 ∧ 4095 < ULONG_MOD ∧ 4095 - 255 + 1 < ULONG_MOD ∧
      number_text { hex_format := true, blocks64 := true } 255 = "0x000000ff" ∧
      number_text { hex_format := true, blocks64 := true } (4095 - 255 + 1) = "0x00000f01" ∧
      (json_create_range_obj { hex_format := true, blocks64 := true } 255 4095).lookup "start" =
        some (json_val.str (number_text { hex_format := true, blocks64 := true } 255)) ∧
      (json_create_range_obj { hex_format := true, blocks64 := true } 255 4095).lookup "len" =
        some (json_val.str
          (number_text { hex_format := true, blocks64 := true } (4095 - 255 + 1))) ∧
      range_read_back { hex_format := true, blocks64 := true }
          (json_create_range_obj { hex_format := true, blocks64 := true } 255 4095) =
        some (255, 4095) :=
  ⟨by decide, by norm_num [ULONG_MOD], by norm_num [ULONG_MOD], by decide, by decide,
    ((C32_range_round_trip { hex_format := true, blocks64 := true } 255 4095 (by decide)
      (by norm_num [ULONG_MOD])).2.2.2.2.2.2.2.2.1 (by norm_num [ULONG_MOD])).2.1,
    ((C32_range_round_trip { hex_format := true, blocks64 := true } 255 4095 (by decide)
      (by norm_num [ULONG_MOD])).2.2.2.2.2.2.2.2.1 (by norm_num [ULONG_MOD])).2.2.1,
    ((C32_range_round_trip { hex_format := true, blocks64 := true } 255 4095 (by decide)
      (by norm_num [ULONG_MOD])).2.2.2.2.2.2.2.2.1 (by norm_num [ULONG_MOD])).2.2.2⟩

end Dumpe2fs
